import Mathlib

/-!
# cFE message module and Software Bus task

Shallow embedding of `fsw/cfe-core/src/msg/src/cfe_msg_ccsdspri.c` (CCSDS primary header
accessors) and of `fsw/cfe-core/src/sb/cfe_sb_task.c` (Software Bus command task).
Definitions come first, theorems after them.

## Message module

* A pointer is an `Option`: `none` is `NULL`, `some x` points at an object
  whose current contents are `x`.
* A setter returns its status together with the contents of the message
  after the call; a getter returns its status together with the contents of
  the output object after the call.
* `uint8` is `Fin 256`.  Wider unsigned values are natural numbers, reduced
  modulo `2 ^ 16` or `2 ^ 32` at the places where the C code stores them in a
  `uint16` or `uint32` object.  Intermediate expressions are evaluated as C
  `int` (32 bit), so `~x` is the 32-bit complement.
-/

/-! ## Types -/

/-- Status codes of `cfe_error.h` used by the message module and the SB task; only
their distinctness matters.  `CFE_SUCCESS` is the code 0. -/
inductive CFE_Status where
  | CFE_SUCCESS
  | CFE_MSG_BAD_ARGUMENT
  | CFE_SB_FILE_IO_ERR
  deriving DecidableEq

export CFE_Status (CFE_SUCCESS CFE_MSG_BAD_ARGUMENT CFE_SB_FILE_IO_ERR)

/-- C enumeration `CFE_MSG_Type_t`. -/
inductive CFE_MSG_Type_t where
  | CFE_MSG_Type_Invalid
  | CFE_MSG_Type_Cmd
  | CFE_MSG_Type_Tlm
  deriving DecidableEq

export CFE_MSG_Type_t (CFE_MSG_Type_Invalid CFE_MSG_Type_Cmd CFE_MSG_Type_Tlm)

/-- C enumeration `CFE_MSG_SegmentationFlag_t`. -/
inductive CFE_MSG_SegmentationFlag_t where
  | CFE_MSG_SegFlag_Invalid
  | CFE_MSG_SegFlag_Continue
  | CFE_MSG_SegFlag_First
  | CFE_MSG_SegFlag_Last
  | CFE_MSG_SegFlag_Unsegmented
  deriving DecidableEq

export CFE_MSG_SegmentationFlag_t (CFE_MSG_SegFlag_Invalid CFE_MSG_SegFlag_Continue
  CFE_MSG_SegFlag_First CFE_MSG_SegFlag_Last CFE_MSG_SegFlag_Unsegmented)

/-- One octet. -/
abbrev uint8 := Fin 256

/-- Store of a C `int` expression into a `uint8` object: keeps the low eight bits. -/
def toUint8 (x : Nat) : uint8 := ⟨x % 256, Nat.mod_lt x (by decide)⟩

/-- C operator `~` on an `int` operand, as a 32-bit pattern. -/
def bitNot32 (x : Nat) : Nat := 0xFFFFFFFF ^^^ (x % 4294967296)

/-- The six octets of the CCSDS primary header: `uint8 StreamId[2]`,
`uint8 Sequence[2]`, `uint8 Length[2]`. -/
structure CCSDS_PrimaryHeader_t where
  StreamId : uint8 × uint8
  Sequence : uint8 × uint8
  Length : uint8 × uint8
  deriving DecidableEq

/-- Space packet: the part the primary header accessors reach, `CCSDS.Pri`. -/
structure CCSDS_SpacePacket_t where
  Pri : CCSDS_PrimaryHeader_t
  deriving DecidableEq

/-- Message object as seen through `MsgPtr->CCSDS`. -/
structure CFE_MSG_Message_t where
  CCSDS : CCSDS_SpacePacket_t
  deriving DecidableEq

/-! ## CCSDS Primary Standard definitions -/

def CFE_MSG_SIZE_OFFSET : Nat := 7
def CFE_MSG_CCSDSVER_MASK : Nat := 0xE000
def CFE_MSG_CCSDSVER_SHIFT : Nat := 13
def CFE_MSG_TYPE_MASK : Nat := 0x1000
def CFE_MSG_SHDR_MASK : Nat := 0x0800
def CFE_MSG_APID_MASK : Nat := 0x07FF
def CFE_MSG_SEGFLG_MASK : Nat := 0xC000
def CFE_MSG_SEGFLG_CNT : Nat := 0x0000
def CFE_MSG_SEGFLG_FIRST : Nat := 0x4000
def CFE_MSG_SEGFLG_LAST : Nat := 0x8000
def CFE_MSG_SEGFLG_UNSEG : Nat := 0xC000
def CFE_MSG_SEQCNT_MASK : Nat := 0x3FFF

/-! ## Header field helpers -/

/-- Modelled from the spec: `CFE_MSG_SetHeaderField` of `cfe_msg_priv.h`, which is
not among the sources.  The two octets form one big-endian 16-bit word; the bits
of the word selected by `Mask` are replaced by the same bits of `Val`, the other
bits keep their value. -/
def CFE_MSG_SetHeaderField (Word : uint8 × uint8) (Val Mask : Nat) : uint8 × uint8 :=
  (toUint8 ((Word.1.val &&& bitNot32 (Mask >>> 8)) ||| ((Val &&& Mask) >>> 8)),
   toUint8 (((Word.2.val &&& bitNot32 Mask) ||| (Val &&& Mask)) &&& 0xFF))

/-- Modelled from the spec: `CFE_MSG_GetHeaderField` of `cfe_msg_priv.h`, which is
not among the sources.  The two octets form one big-endian 16-bit word; the
result is that word restricted to the bits of `Mask`, stored in a `uint16`. -/
def CFE_MSG_GetHeaderField (Word : uint8 × uint8) (Mask : Nat) : Nat :=
  (((Word.1.val <<< 8) ||| Word.2.val) &&& Mask) % 65536

/-- Message with its `CCSDS.Pri.StreamId` replaced. -/
def setStreamId (m : CFE_MSG_Message_t) (w : uint8 × uint8) : CFE_MSG_Message_t :=
  { m with CCSDS := { m.CCSDS with Pri := { m.CCSDS.Pri with StreamId := w } } }

/-- Message with its `CCSDS.Pri.Sequence` replaced. -/
def setSequence (m : CFE_MSG_Message_t) (w : uint8 × uint8) : CFE_MSG_Message_t :=
  { m with CCSDS := { m.CCSDS with Pri := { m.CCSDS.Pri with Sequence := w } } }

/-- Message with its `CCSDS.Pri.Length` replaced. -/
def setLength (m : CFE_MSG_Message_t) (w : uint8 × uint8) : CFE_MSG_Message_t :=
  { m with CCSDS := { m.CCSDS with Pri := { m.CCSDS.Pri with Length := w } } }

/-! ## Accessors of `cfe_msg_ccsdspri.c` -/

/-- Get message header version. -/
def CFE_MSG_GetHeaderVersion (MsgPtr : Option CFE_MSG_Message_t) (Version : Option Nat) :
    CFE_Status × Option Nat :=
  match MsgPtr, Version with
  | some m, some _ =>
    let v := CFE_MSG_GetHeaderField m.CCSDS.Pri.StreamId CFE_MSG_CCSDSVER_MASK
    (CFE_SUCCESS, some ((v >>> CFE_MSG_CCSDSVER_SHIFT) % 65536))
  | _, _ => (CFE_MSG_BAD_ARGUMENT, Version)

/-- Set message header version.  The argument is shifted (in a `uint16`) before
the test. -/
def CFE_MSG_SetHeaderVersion (MsgPtr : Option CFE_MSG_Message_t) (Version : Nat) :
    CFE_Status × Option CFE_MSG_Message_t :=
  let Version := (Version <<< CFE_MSG_CCSDSVER_SHIFT) % 65536
  match MsgPtr with
  | none => (CFE_MSG_BAD_ARGUMENT, none)
  | some m =>
    if (Version &&& CFE_MSG_CCSDSVER_MASK) ≠ 0 then (CFE_MSG_BAD_ARGUMENT, some m)
    else
      (CFE_SUCCESS,
        some (setStreamId m
          (CFE_MSG_SetHeaderField m.CCSDS.Pri.StreamId Version CFE_MSG_CCSDSVER_MASK)))

/-- Get message type (the C parameter `Type` is named `MsgType`). -/
def CFE_MSG_GetType (MsgPtr : Option CFE_MSG_Message_t) (MsgType : Option CFE_MSG_Type_t) :
    CFE_Status × Option CFE_MSG_Type_t :=
  match MsgPtr, MsgType with
  | some m, some _ =>
    if (m.CCSDS.Pri.StreamId.1.val &&& (CFE_MSG_TYPE_MASK >>> 8)) ≠ 0 then
      (CFE_SUCCESS, some CFE_MSG_Type_Cmd)
    else (CFE_SUCCESS, some CFE_MSG_Type_Tlm)
  | _, _ => (CFE_MSG_BAD_ARGUMENT, MsgType)

/-- Set message type (the C parameter `Type` is named `MsgType`). -/
def CFE_MSG_SetType (MsgPtr : Option CFE_MSG_Message_t) (MsgType : CFE_MSG_Type_t) :
    CFE_Status × Option CFE_MSG_Message_t :=
  match MsgPtr with
  | none => (CFE_MSG_BAD_ARGUMENT, none)
  | some m =>
    let w := m.CCSDS.Pri.StreamId
    if MsgType = CFE_MSG_Type_Cmd then
      (CFE_SUCCESS, some (setStreamId m (toUint8 (w.1.val ||| (CFE_MSG_TYPE_MASK >>> 8)), w.2)))
    else
      (CFE_SUCCESS,
        some (setStreamId m (toUint8 (w.1.val &&& bitNot32 (CFE_MSG_TYPE_MASK >>> 8)), w.2)))

/-- Get message has secondary header flag. -/
def CFE_MSG_GetHasSecondaryHeader (MsgPtr : Option CFE_MSG_Message_t)
    (HasSecondary : Option Bool) : CFE_Status × Option Bool :=
  match MsgPtr, HasSecondary with
  | some m, some _ =>
    (CFE_SUCCESS,
      some (decide ((m.CCSDS.Pri.StreamId.1.val &&& (CFE_MSG_SHDR_MASK >>> 8)) ≠ 0)))
  | _, _ => (CFE_MSG_BAD_ARGUMENT, HasSecondary)

/-- Set message has secondary header flag. -/
def CFE_MSG_SetHasSecondaryHeader (MsgPtr : Option CFE_MSG_Message_t) (HasSecondary : Bool) :
    CFE_Status × Option CFE_MSG_Message_t :=
  match MsgPtr with
  | none => (CFE_MSG_BAD_ARGUMENT, none)
  | some m =>
    let w := m.CCSDS.Pri.StreamId
    if HasSecondary then
      (CFE_SUCCESS, some (setStreamId m (toUint8 (w.1.val ||| (CFE_MSG_SHDR_MASK >>> 8)), w.2)))
    else
      (CFE_SUCCESS,
        some (setStreamId m (toUint8 (w.1.val &&& bitNot32 (CFE_MSG_SHDR_MASK >>> 8)), w.2)))

/-- Get message application ID. -/
def CFE_MSG_GetApId (MsgPtr : Option CFE_MSG_Message_t) (ApId : Option Nat) :
    CFE_Status × Option Nat :=
  match MsgPtr, ApId with
  | some m, some _ =>
    (CFE_SUCCESS, some (CFE_MSG_GetHeaderField m.CCSDS.Pri.StreamId CFE_MSG_APID_MASK))
  | _, _ => (CFE_MSG_BAD_ARGUMENT, ApId)

/-- Set message application ID. -/
def CFE_MSG_SetApId (MsgPtr : Option CFE_MSG_Message_t) (ApId : Nat) :
    CFE_Status × Option CFE_MSG_Message_t :=
  match MsgPtr with
  | none => (CFE_MSG_BAD_ARGUMENT, none)
  | some m =>
    if (ApId &&& CFE_MSG_APID_MASK) ≠ 0 then (CFE_MSG_BAD_ARGUMENT, some m)
    else
      (CFE_SUCCESS,
        some (setStreamId m
          (CFE_MSG_SetHeaderField m.CCSDS.Pri.StreamId ApId CFE_MSG_APID_MASK)))

/-- Get message segmentation flag. -/
def CFE_MSG_GetSegmentationFlag (MsgPtr : Option CFE_MSG_Message_t)
    (SegFlag : Option CFE_MSG_SegmentationFlag_t) :
    CFE_Status × Option CFE_MSG_SegmentationFlag_t :=
  match MsgPtr, SegFlag with
  | some m, some _ =>
    let rawval := CFE_MSG_GetHeaderField m.CCSDS.Pri.Sequence CFE_MSG_SEGFLG_MASK
    if rawval = CFE_MSG_SEGFLG_CNT then (CFE_SUCCESS, some CFE_MSG_SegFlag_Continue)
    else if rawval = CFE_MSG_SEGFLG_FIRST then (CFE_SUCCESS, some CFE_MSG_SegFlag_First)
    else if rawval = CFE_MSG_SEGFLG_LAST then (CFE_SUCCESS, some CFE_MSG_SegFlag_Last)
    else (CFE_SUCCESS, some CFE_MSG_SegFlag_Unsegmented)
  | _, _ => (CFE_MSG_BAD_ARGUMENT, SegFlag)

/-- Set message segmentation flag.  The header field is written on every
path past the null test, also when the status is `CFE_MSG_BAD_ARGUMENT`. -/
def CFE_MSG_SetSegmentationFlag (MsgPtr : Option CFE_MSG_Message_t)
    (SegFlag : CFE_MSG_SegmentationFlag_t) : CFE_Status × Option CFE_MSG_Message_t :=
  match MsgPtr with
  | none => (CFE_MSG_BAD_ARGUMENT, none)
  | some m =>
    let rs : Nat × CFE_Status :=
      match SegFlag with
      | CFE_MSG_SegFlag_Continue => (CFE_MSG_SEGFLG_CNT, CFE_SUCCESS)
      | CFE_MSG_SegFlag_First => (CFE_MSG_SEGFLG_FIRST, CFE_SUCCESS)
      | CFE_MSG_SegFlag_Last => (CFE_MSG_SEGFLG_LAST, CFE_SUCCESS)
      | CFE_MSG_SegFlag_Unsegmented => (CFE_MSG_SEGFLG_UNSEG, CFE_SUCCESS)
      | CFE_MSG_SegFlag_Invalid => (0, CFE_MSG_BAD_ARGUMENT)
    (rs.2,
      some (setSequence m
        (CFE_MSG_SetHeaderField m.CCSDS.Pri.Sequence rs.1 CFE_MSG_SEGFLG_MASK)))

/-- Get message sequence count. -/
def CFE_MSG_GetSequenceCount (MsgPtr : Option CFE_MSG_Message_t) (SeqCnt : Option Nat) :
    CFE_Status × Option Nat :=
  match MsgPtr, SeqCnt with
  | some m, some _ =>
    (CFE_SUCCESS, some (CFE_MSG_GetHeaderField m.CCSDS.Pri.Sequence CFE_MSG_SEQCNT_MASK))
  | _, _ => (CFE_MSG_BAD_ARGUMENT, SeqCnt)

/-- Set message sequence count. -/
def CFE_MSG_SetSequenceCount (MsgPtr : Option CFE_MSG_Message_t) (SeqCnt : Nat) :
    CFE_Status × Option CFE_MSG_Message_t :=
  match MsgPtr with
  | none => (CFE_MSG_BAD_ARGUMENT, none)
  | some m =>
    if (SeqCnt &&& CFE_MSG_SEQCNT_MASK) ≠ 0 then (CFE_MSG_BAD_ARGUMENT, some m)
    else
      (CFE_SUCCESS,
        some (setSequence m
          (CFE_MSG_SetHeaderField m.CCSDS.Pri.Sequence SeqCnt CFE_MSG_SEQCNT_MASK)))

/-- Get message size. -/
def CFE_MSG_GetSize (MsgPtr : Option CFE_MSG_Message_t) (Size : Option Nat) :
    CFE_Status × Option Nat :=
  match MsgPtr, Size with
  | some m, some _ =>
    (CFE_SUCCESS,
      some (((m.CCSDS.Pri.Length.1.val <<< 8) + m.CCSDS.Pri.Length.2.val
        + CFE_MSG_SIZE_OFFSET) % 4294967296))
  | _, _ => (CFE_MSG_BAD_ARGUMENT, Size)

/-- Set message size. -/
def CFE_MSG_SetSize (MsgPtr : Option CFE_MSG_Message_t) (Size : Nat) :
    CFE_Status × Option CFE_MSG_Message_t :=
  match MsgPtr with
  | none => (CFE_MSG_BAD_ARGUMENT, none)
  | some m =>
    if Size < CFE_MSG_SIZE_OFFSET ∨ Size > 0xFFFF + CFE_MSG_SIZE_OFFSET then
      (CFE_MSG_BAD_ARGUMENT, some m)
    else
      let Size := Size - CFE_MSG_SIZE_OFFSET
      (CFE_SUCCESS, some (setLength m (toUint8 ((Size >>> 8) &&& 0xFF), toUint8 (Size &&& 0xFF))))

/-- CCSDS primary header initialization; the mission version and the platform
default APID are configuration constants, taken as parameters.  The statuses of
the four setters are discarded. -/
def CFE_MSG_SetDefaultCCSDSPri (CFE_MISSION_CCSDSVER CFE_PLATFORM_DEFAULT_APID : Nat)
    (MsgPtr : Option CFE_MSG_Message_t) : Option CFE_MSG_Message_t :=
  let m1 := (CFE_MSG_SetHasSecondaryHeader MsgPtr true).2
  let m2 := (CFE_MSG_SetHeaderVersion m1 CFE_MISSION_CCSDSVER).2
  let m3 := (CFE_MSG_SetApId m2 CFE_PLATFORM_DEFAULT_APID).2
  (CFE_MSG_SetSegmentationFlag m3 CFE_MSG_SegFlag_Unsegmented).2

/-- Message whose six header octets are the given numbers (reduced modulo 256). -/
def mkMsg (s0 s1 q0 q1 l0 l1 : Nat) : CFE_MSG_Message_t :=
  { CCSDS := { Pri := { StreamId := (toUint8 s0, toUint8 s1),
                        Sequence := (toUint8 q0, toUint8 q1),
                        Length := (toUint8 l0, toUint8 l1) } } }

/-! # Software Bus task: `fsw/cfe-core/src/sb/cfe_sb_task.c`

* The task state is `CFE_SB_Global` together with the routing table of the routing module
  and the trace of calls made to collaborators (lock, events, transmit, file system).
* What a collaborator answers is given by `CFE_SB_Env`; each answer may depend on the trace
  of calls made before it.
* Constants, sizes and helper predicates declared in headers that are not among the
  sources are the fields of `CFE_SB_Config`.
* A function that can read through a null pointer or write past an array returns an
  `Option`: `none` stands for that undefined behaviour.
-/

/-- Event identifiers of `cfe_sb_events.h` used by the task; only their distinctness
matters. -/
inductive CFE_SB_EventID where
  | CFE_SB_CMD0_RCVD_EID
  | CFE_SB_CMD1_RCVD_EID
  | CFE_SB_SND_STATS_EID
  | CFE_SB_ENBL_RTE1_EID
  | CFE_SB_ENBL_RTE2_EID
  | CFE_SB_ENBL_RTE3_EID
  | CFE_SB_DSBL_RTE1_EID
  | CFE_SB_DSBL_RTE2_EID
  | CFE_SB_DSBL_RTE3_EID
  | CFE_SB_SND_RTG_EID
  | CFE_SB_SND_RTG_ERR1_EID
  | CFE_SB_BAD_CMD_CODE_EID
  | CFE_SB_BAD_MSGID_EID
  | CFE_SB_FULL_SUB_PKT_EID
  | CFE_SB_PART_SUB_PKT_EID
  | CFE_SB_LEN_ERR_EID
  | CFE_SB_FILEWRITE_ERR_EID
  | CFE_SB_SUBSCRIPTION_RPT_EID
  deriving DecidableEq

export CFE_SB_EventID (CFE_SB_CMD0_RCVD_EID CFE_SB_CMD1_RCVD_EID CFE_SB_SND_STATS_EID
  CFE_SB_ENBL_RTE1_EID CFE_SB_ENBL_RTE2_EID CFE_SB_ENBL_RTE3_EID CFE_SB_DSBL_RTE1_EID
  CFE_SB_DSBL_RTE2_EID CFE_SB_DSBL_RTE3_EID CFE_SB_SND_RTG_EID CFE_SB_SND_RTG_ERR1_EID
  CFE_SB_BAD_CMD_CODE_EID CFE_SB_BAD_MSGID_EID CFE_SB_FULL_SUB_PKT_EID CFE_SB_PART_SUB_PKT_EID
  CFE_SB_LEN_ERR_EID CFE_SB_FILEWRITE_ERR_EID CFE_SB_SUBSCRIPTION_RPT_EID)

/-- Event types of the event service. -/
inductive CFE_EVS_EventType where
  | CFE_EVS_EventType_DEBUG
  | CFE_EVS_EventType_INFORMATION
  | CFE_EVS_EventType_ERROR
  deriving DecidableEq

export CFE_EVS_EventType (CFE_EVS_EventType_DEBUG CFE_EVS_EventType_INFORMATION
  CFE_EVS_EventType_ERROR)

/-- Values of a destination `Active` field. -/
inductive CFE_SB_ActiveState where
  | CFE_SB_INACTIVE
  | CFE_SB_ACTIVE
  deriving DecidableEq

export CFE_SB_ActiveState (CFE_SB_INACTIVE CFE_SB_ACTIVE)

/-- Values of the subscription reporting state. -/
inductive CFE_SB_ReportingState where
  | CFE_SB_DISABLE
  | CFE_SB_ENABLE
  deriving DecidableEq

export CFE_SB_ReportingState (CFE_SB_DISABLE CFE_SB_ENABLE)

/-- Values of a destination `Scope` field. -/
inductive CFE_SB_Scope where
  | CFE_SB_MSG_LOCAL
  | CFE_SB_MSG_GLOBAL
  deriving DecidableEq

export CFE_SB_Scope (CFE_SB_MSG_LOCAL CFE_SB_MSG_GLOBAL)

/-- Values of the `SubType` field of a subscription report. -/
inductive CFE_SB_SubType where
  | CFE_SB_SUBSCRIPTION
  | CFE_SB_UNSUBSCRIPTION
  deriving DecidableEq

export CFE_SB_SubType (CFE_SB_SUBSCRIPTION CFE_SB_UNSUBSCRIPTION)

/-- Quality of service. -/
structure CFE_SB_Qos_t where
  Priority : Nat
  Reliability : Nat
  deriving DecidableEq

/-- Housekeeping telemetry payload: the eleven counters and the memory fields. -/
structure CFE_SB_HousekeepingTlm_Payload_t where
  CommandCounter : Nat
  CommandErrorCounter : Nat
  NoSubscribersCounter : Nat
  DuplicateSubscriptionsCounter : Nat
  MsgSendErrorCounter : Nat
  MsgReceiveErrorCounter : Nat
  InternalErrorCounter : Nat
  CreatePipeErrorCounter : Nat
  SubscribeErrorCounter : Nat
  PipeOverflowErrorCounter : Nat
  MsgLimitErrorCounter : Nat
  MemPoolHandle : Nat
  MemInUse : Nat
  UnmarkedMem : Nat
  deriving DecidableEq

/-- Housekeeping telemetry message (header left out). -/
structure CFE_SB_HousekeepingTlm_t where
  Payload : CFE_SB_HousekeepingTlm_Payload_t
  deriving DecidableEq

/-- One pipe record of the statistics packet. -/
structure CFE_SB_PipeDepthStats_t where
  PipeId : Nat
  InUse : Nat
  PeakInUse : Nat
  Depth : Nat
  deriving DecidableEq

/-- Statistics telemetry payload: the fields the task reads or writes.  The array
`PipeDepthStats[CFE_MISSION_SB_MAX_PIPES]` is a list. -/
structure CFE_SB_StatsTlm_Payload_t where
  MemInUse : Nat
  PeakMemInUse : Nat
  PipeDepthStats : List CFE_SB_PipeDepthStats_t
  deriving DecidableEq

/-- Statistics telemetry message (header left out). -/
structure CFE_SB_StatsTlm_t where
  Payload : CFE_SB_StatsTlm_Payload_t
  deriving DecidableEq

/-- One entry of the previous subscriptions packet. -/
structure CFE_SB_SubEntries_t where
  MsgId : Nat
  Qos : CFE_SB_Qos_t
  Pipe : Nat
  deriving DecidableEq

/-- Previous subscriptions payload.  The array `Entry[CFE_SB_SUB_ENTRIES_PER_PKT]` is a
list. -/
structure CFE_SB_AllSubscriptionsTlm_Payload_t where
  PktSegment : Nat
  Entries : Nat
  Entry : List CFE_SB_SubEntries_t
  deriving DecidableEq

/-- Previous subscriptions message (header left out). -/
structure CFE_SB_AllSubscriptionsTlm_t where
  Payload : CFE_SB_AllSubscriptionsTlm_Payload_t
  deriving DecidableEq

/-- Payload of the single subscription report. -/
structure CFE_SB_SingleSubscriptionTlm_Payload_t where
  SubType : CFE_SB_SubType
  MsgId : Nat
  Qos : CFE_SB_Qos_t
  Pipe : Nat
  deriving DecidableEq

/-- Pipe descriptor: the fields the task reads. -/
structure CFE_SB_PipeD_t where
  PipeId : Nat
  Opts : Nat
  AppId : Nat
  SysQueueId : Nat
  QueueDepth : Nat
  CurrentDepth : Nat
  PeakDepth : Nat
  SendErrors : Nat
  deriving DecidableEq

/-- Destination descriptor: the fields the task reads or writes.  The `Next` link is the
order of the list that holds the descriptor. -/
structure CFE_SB_DestinationD_t where
  PipeId : Nat
  Active : CFE_SB_ActiveState
  DestCnt : Nat
  Scope : CFE_SB_Scope
  deriving DecidableEq

/-- Modelled from the spec: one route of the routing module, which is not among the
sources.  A route maps a MsgId to the head of its destination list; the list is in
insertion order. -/
structure CFE_SBR_RouteEntry_t where
  MsgId : Nat
  DestList : List CFE_SB_DestinationD_t
  deriving DecidableEq

/-- Task globals: the members the command task reads or writes.  The array
`PipeTbl[CFE_PLATFORM_SB_MAX_PIPES]` is a list. -/
structure CFE_SB_Global_t where
  HKTlmMsg : CFE_SB_HousekeepingTlm_t
  StatTlmMsg : CFE_SB_StatsTlm_t
  PrevSubMsg : CFE_SB_AllSubscriptionsTlm_t
  SubscriptionReporting : CFE_SB_ReportingState
  PipeTbl : List CFE_SB_PipeD_t
  AppId : Nat
  deriving DecidableEq

/-- Entry of the routing dump file. -/
structure CFE_SB_RoutingFileEntry_t where
  MsgId : Nat
  PipeId : Nat
  State : CFE_SB_ActiveState
  MsgCnt : Nat
  AppName : String
  PipeName : String
  deriving DecidableEq

/-- Entry of the pipe dump file. -/
structure CFE_SB_PipeInfoEntry_t where
  PipeId : Nat
  AppId : Nat
  MaxQueueDepth : Nat
  CurrentQueueDepth : Nat
  PeakQueueDepth : Nat
  SendErrors : Nat
  Opts : Nat
  AppName : String
  PipeName : String
  deriving DecidableEq

/-- Entry of the message map dump file. -/
structure CFE_SB_MsgMapFileEntry_t where
  MsgId : Nat
  Index : Nat
  deriving DecidableEq

/-- What one `OS_write` call of the task is given to write. -/
inductive CFE_SB_FileEntry where
  | Routing (entry : CFE_SB_RoutingFileEntry_t)
  | PipeInfo (entry : CFE_SB_PipeInfoEntry_t)
  | MsgMap (entry : CFE_SB_MsgMapFileEntry_t)
  deriving DecidableEq

/-- Telemetry message handed to `CFE_SB_TimeStampMsg` or `CFE_SB_TransmitMsg`, with its
payload at the time of the call. -/
inductive CFE_SB_TlmMsg where
  | HKTlmMsg (Payload : CFE_SB_HousekeepingTlm_Payload_t)
  | StatTlmMsg (Payload : CFE_SB_StatsTlm_Payload_t)
  | PrevSubMsg (Payload : CFE_SB_AllSubscriptionsTlm_Payload_t)
  | SubRptMsg (Payload : CFE_SB_SingleSubscriptionTlm_Payload_t)
  deriving DecidableEq

/-- File subtypes written into the file header. -/
inductive CFE_FS_SubType where
  | CFE_FS_SubType_SB_PIPEDATA
  | CFE_FS_SubType_SB_MAPDATA
  | CFE_FS_SubType_SB_ROUTEDATA
  deriving DecidableEq

export CFE_FS_SubType (CFE_FS_SubType_SB_PIPEDATA CFE_FS_SubType_SB_MAPDATA
  CFE_FS_SubType_SB_ROUTEDATA)

/-- One call to a collaborator of the task.  Event arguments are the numeric format
arguments in order; strings and cFE status codes are left out. -/
inductive CFE_SB_Effect where
  | LockSharedData
  | UnlockSharedData
  | SendEvent (EventID : CFE_SB_EventID) (EventType : CFE_EVS_EventType) (Args : List Int)
  | SendEventWithAppID (EventID : CFE_SB_EventID) (EventType : CFE_EVS_EventType) (AppID : Nat)
      (Args : List Int)
  | TimeStampMsg (Msg : CFE_SB_TlmMsg)
  | TransmitMsg (Msg : CFE_SB_TlmMsg)
  | OS_OpenCreate (Filename : String)
  | CFE_FS_WriteHeader (Description : String) (SubType : CFE_FS_SubType)
  | OS_write (Entry : CFE_SB_FileEntry)
  | OS_close
  deriving DecidableEq

/-- State seen by the command task. -/
structure CFE_SB_State where
  CFE_SB_Global : CFE_SB_Global_t
  RoutingTbl : List CFE_SBR_RouteEntry_t
  Trace : List CFE_SB_Effect
  deriving DecidableEq

/-- Payload of the enable route and disable route commands. -/
structure CFE_SB_RouteCmd_Payload_t where
  MsgId : Nat
  Pipe : Nat
  deriving DecidableEq

/-- Software bus buffer holding a command.  `MsgId` and `FcnCode` are the values that
`CFE_MSG_GetMsgId` and `CFE_MSG_GetFcnCode` (message module, not among the sources) decode
from the message; `RouteCmd` and `Filename` are the payload as seen through the route
command structures and through the write-info command structures. -/
structure CFE_SB_Buffer_t where
  Msg : CFE_MSG_Message_t
  MsgId : Nat
  FcnCode : Nat
  RouteCmd : CFE_SB_RouteCmd_Payload_t
  Filename : String
  deriving DecidableEq

/-- Constants, structure sizes and helper functions that the task takes from headers and
modules that are not among the sources. -/
structure CFE_SB_Config where
  CFE_SB_CMD_MID : Nat
  CFE_SB_SEND_HK_MID : Nat
  CFE_SB_SUB_RPT_CTRL_MID : Nat
  CFE_SB_INVALID_MSG_ID : Nat
  CFE_SB_NOOP_CC : Nat
  CFE_SB_RESET_COUNTERS_CC : Nat
  CFE_SB_SEND_SB_STATS_CC : Nat
  CFE_SB_WRITE_ROUTING_INFO_CC : Nat
  CFE_SB_ENABLE_ROUTE_CC : Nat
  CFE_SB_DISABLE_ROUTE_CC : Nat
  CFE_SB_WRITE_PIPE_INFO_CC : Nat
  CFE_SB_WRITE_MAP_INFO_CC : Nat
  CFE_SB_ENABLE_SUB_REPORTING_CC : Nat
  CFE_SB_DISABLE_SUB_REPORTING_CC : Nat
  CFE_SB_SEND_PREV_SUBS_CC : Nat
  sizeof_CFE_SB_NoopCmd_t : Nat
  sizeof_CFE_SB_ResetCountersCmd_t : Nat
  sizeof_CFE_SB_SendSbStatsCmd_t : Nat
  sizeof_CFE_SB_WriteRoutingInfoCmd_t : Nat
  sizeof_CFE_SB_EnableRouteCmd_t : Nat
  sizeof_CFE_SB_DisableRouteCmd_t : Nat
  sizeof_CFE_SB_WritePipeInfoCmd_t : Nat
  sizeof_CFE_SB_WriteMapInfoCmd_t : Nat
  sizeof_CFE_SB_EnableSubReportingCmd_t : Nat
  sizeof_CFE_SB_DisableSubReportingCmd_t : Nat
  sizeof_CFE_SB_SendPrevSubsCmd_t : Nat
  sizeof_CFE_FS_Header_t : Nat
  sizeof_CFE_SB_RoutingFileEntry_t : Nat
  sizeof_CFE_SB_PipeInfoEntry_t : Nat
  sizeof_CFE_SB_MsgMapFileEntry_t : Nat
  CFE_MISSION_SB_MAX_PIPES : Nat
  CFE_PLATFORM_SB_MAX_DEST_PER_PKT : Nat
  CFE_SB_SUB_ENTRIES_PER_PKT : Nat
  CFE_PLATFORM_SB_BUF_MEMORY_BYTES : Nat
  CFE_PLATFORM_SB_DEFAULT_ROUTING_FILENAME : String
  CFE_PLATFORM_SB_DEFAULT_PIPE_FILENAME : String
  CFE_PLATFORM_SB_DEFAULT_MAP_FILENAME : String
  /-- Number of values of the integer type of `CommandCounter` and
  `CommandErrorCounter`; `++` wraps modulo this number. -/
  CommandCounterModulus : Nat
  /-- Validity test of a MsgId. -/
  CFE_SB_IsValidMsgId : Nat → Bool
  /-- Table slot encoded in a pipe id, if the id converts to one. -/
  CFE_SB_PipeId_ToIndex : Nat → Option Nat
  /-- Test that a pipe descriptor is in use. -/
  CFE_SB_PipeDescIsUsed : CFE_SB_PipeD_t → Bool
  /-- Copy of a file name out of a command, with the default for an empty name. -/
  CFE_SB_MessageStringGet : String → String → String

/-- Answers of the collaborators of the task.  Each answer may depend on the trace of the
calls made so far. -/
structure CFE_SB_Env where
  /-- Status returned by `CFE_SB_TransmitMsg`. -/
  CFE_SB_TransmitMsg : List CFE_SB_Effect → CFE_SB_TlmMsg → CFE_Status
  /-- Status returned by `OS_OpenCreate`; negative on failure. -/
  OS_OpenCreate : List CFE_SB_Effect → String → Int
  /-- Byte count returned by `CFE_FS_WriteHeader`. -/
  CFE_FS_WriteHeader : List CFE_SB_Effect → Int
  /-- Byte count returned by `OS_write`. -/
  OS_write : List CFE_SB_Effect → CFE_SB_FileEntry → Int
  /-- Name left in the buffer by `CFE_ES_GetAppName` (empty when it fails). -/
  CFE_ES_GetAppName : Nat → String
  /-- Name left in the buffer by `CFE_SB_GetPipeName`. -/
  CFE_SB_GetPipeName : Nat → String
  /-- Name left in the buffer by `OS_GetResourceName`. -/
  OS_GetResourceName : Nat → String

/-! ## Collaborator calls and state updates -/

/-- `OS_SUCCESS` of the OS abstraction layer. -/
def OS_SUCCESS : Int := 0

/-- Record one call to a collaborator. -/
def CFE_SB_State.emit (s : CFE_SB_State) (e : CFE_SB_Effect) : CFE_SB_State :=
  { s with Trace := s.Trace ++ [e] }

/-- Call of `CFE_SB_LockSharedData`. -/
def CFE_SB_LockSharedData (s : CFE_SB_State) : CFE_SB_State :=
  s.emit CFE_SB_Effect.LockSharedData

/-- Call of `CFE_SB_UnlockSharedData`. -/
def CFE_SB_UnlockSharedData (s : CFE_SB_State) : CFE_SB_State :=
  s.emit CFE_SB_Effect.UnlockSharedData

/-- Call of `CFE_EVS_SendEvent`. -/
def CFE_EVS_SendEvent (s : CFE_SB_State) (EventID : CFE_SB_EventID)
    (EventType : CFE_EVS_EventType) (Args : List Int) : CFE_SB_State :=
  s.emit (CFE_SB_Effect.SendEvent EventID EventType Args)

/-- Call of `CFE_SB_TimeStampMsg`. -/
def CFE_SB_TimeStampMsg (s : CFE_SB_State) (Msg : CFE_SB_TlmMsg) : CFE_SB_State :=
  s.emit (CFE_SB_Effect.TimeStampMsg Msg)

/-- Call of `CFE_SB_TransmitMsg`: the status answered and the state with the call
recorded.  The call is taken not to change the members of the task state. -/
def CFE_SB_TransmitMsg (env : CFE_SB_Env) (s : CFE_SB_State) (Msg : CFE_SB_TlmMsg) :
    CFE_Status × CFE_SB_State :=
  (env.CFE_SB_TransmitMsg s.Trace Msg, s.emit (CFE_SB_Effect.TransmitMsg Msg))

/-- State with the housekeeping payload replaced. -/
def CFE_SB_State.setHK (s : CFE_SB_State) (p : CFE_SB_HousekeepingTlm_Payload_t) :
    CFE_SB_State :=
  { s with CFE_SB_Global := { s.CFE_SB_Global with HKTlmMsg := { Payload := p } } }

/-- State with the statistics payload replaced. -/
def CFE_SB_State.setStat (s : CFE_SB_State) (p : CFE_SB_StatsTlm_Payload_t) : CFE_SB_State :=
  { s with CFE_SB_Global := { s.CFE_SB_Global with StatTlmMsg := { Payload := p } } }

/-- State with the previous subscriptions payload replaced. -/
def CFE_SB_State.setPrevSub (s : CFE_SB_State) (p : CFE_SB_AllSubscriptionsTlm_Payload_t) :
    CFE_SB_State :=
  { s with CFE_SB_Global := { s.CFE_SB_Global with PrevSubMsg := { Payload := p } } }

/-- Statement `CFE_SB_Global.HKTlmMsg.Payload.CommandCounter++`. -/
def incrCommandCounter (cfg : CFE_SB_Config) (s : CFE_SB_State) : CFE_SB_State :=
  s.setHK { s.CFE_SB_Global.HKTlmMsg.Payload with
    CommandCounter :=
      (s.CFE_SB_Global.HKTlmMsg.Payload.CommandCounter + 1) % cfg.CommandCounterModulus }

/-- Statement `CFE_SB_Global.HKTlmMsg.Payload.CommandErrorCounter++`. -/
def incrCommandErrorCounter (cfg : CFE_SB_Config) (s : CFE_SB_State) : CFE_SB_State :=
  s.setHK { s.CFE_SB_Global.HKTlmMsg.Payload with
    CommandErrorCounter :=
      (s.CFE_SB_Global.HKTlmMsg.Payload.CommandErrorCounter + 1) % cfg.CommandCounterModulus }

/-! ## Pipe table and routing table lookups -/

/-- Modelled from the spec: `CFE_SB_LocatePipeDescByID` of the SB private module, which is
not among the sources.  A pipe id holds a slot index; the result is the table slot for that
index (`none` is the null pointer). -/
def CFE_SB_LocatePipeDescByID (cfg : CFE_SB_Config) (s : CFE_SB_State) (PipeId : Nat) :
    Option Nat :=
  match cfg.CFE_SB_PipeId_ToIndex PipeId with
  | none => none
  | some Idx => if Idx < s.CFE_SB_Global.PipeTbl.length then some Idx else none

/-- Modelled from the spec: `CFE_SB_PipeDescIsMatch` of the SB private module, which is not
among the sources: the slot is in use and its id, generation included, is the given id. -/
def CFE_SB_PipeDescIsMatch (cfg : CFE_SB_Config) (s : CFE_SB_State) (PipeDscPtr : Option Nat)
    (PipeId : Nat) : Bool :=
  match PipeDscPtr with
  | none => false
  | some Idx =>
    match s.CFE_SB_Global.PipeTbl[Idx]? with
    | none => false
    | some d => cfg.CFE_SB_PipeDescIsUsed d && d.PipeId == PipeId

/-- Modelled from the spec: `CFE_SBR_GetRouteId` of the routing module, which is not among
the sources.  The routing table maps a MsgId to a dense route id, here the position of the
route in the table; `none` is the invalid route id. -/
def CFE_SBR_GetRouteId (s : CFE_SB_State) (MsgId : Nat) : Option Nat :=
  let i := s.RoutingTbl.findIdx (fun r => r.MsgId == MsgId)
  if i < s.RoutingTbl.length then some i else none

/-- Modelled from the spec: `CFE_SBR_GetDestListHeadPtr` of the routing module: the
destination list of the route, empty for an id that is not a route. -/
def CFE_SBR_GetDestListHeadPtr (s : CFE_SB_State) (RouteId : Nat) :
    List CFE_SB_DestinationD_t :=
  match s.RoutingTbl[RouteId]? with
  | none => []
  | some r => r.DestList

/-- Modelled from the spec: `CFE_SBR_GetMsgId` of the routing module: the MsgId of the
route, the invalid MsgId for an id that is not a route. -/
def CFE_SBR_GetMsgId (cfg : CFE_SB_Config) (s : CFE_SB_State) (RouteId : Nat) : Nat :=
  match s.RoutingTbl[RouteId]? with
  | none => cfg.CFE_SB_INVALID_MSG_ID
  | some r => r.MsgId

/-- Modelled from the spec: `CFE_SB_GetDestPtr` of the SB private module, which is not
among the sources: the destination of the route whose pipe is `PipeId`, as the pair of the
route id and the position in the destination list; `none` is the null pointer. -/
def CFE_SB_GetDestPtr (s : CFE_SB_State) (RouteId : Option Nat) (PipeId : Nat) :
    Option (Nat × Nat) :=
  match RouteId with
  | none => none
  | some r =>
    let l := CFE_SBR_GetDestListHeadPtr s r
    let k := l.findIdx (fun d => d.PipeId == PipeId)
    if k < l.length then some (r, k) else none

/-- Statement `DestPtr->Active = Active`. -/
def setDestActive (s : CFE_SB_State) (DestPtr : Nat × Nat) (Active : CFE_SB_ActiveState) :
    CFE_SB_State :=
  let setActive : CFE_SB_DestinationD_t → CFE_SB_DestinationD_t :=
    fun d => { d with Active := Active }
  let setRoute : CFE_SBR_RouteEntry_t → CFE_SBR_RouteEntry_t :=
    fun r => { r with DestList := List.modify setActive DestPtr.2 r.DestList }
  { s with RoutingTbl := List.modify setRoute DestPtr.1 s.RoutingTbl }

/-- Modelled from the spec: `CFE_SBR_ForEachRouteId` of the routing module, which is not
among the sources, called without throttle: the callback is run once for every route, in
route id order. -/
def CFE_SBR_ForEachRouteId {α : Type} (Callback : Nat → α → Option α) (s : CFE_SB_State)
    (arg : α) : Option α :=
  (List.range s.RoutingTbl.length).foldlM (fun a RouteId => Callback RouteId a) arg

/-! ## Command length check and the simple handlers -/

/-- Function to verify the length of incoming SB command packets: the result and the state
after the call. -/
def CFE_SB_VerifyCmdLength (cfg : CFE_SB_Config) (s : CFE_SB_State) (MsgPtr : CFE_SB_Buffer_t)
    (ExpectedLength : Nat) : Bool × CFE_SB_State :=
  let ActualLength := ((CFE_MSG_GetSize (some MsgPtr.Msg) (some 0)).2).getD 0
  if ExpectedLength ≠ ActualLength then
    let MsgId := MsgPtr.MsgId
    let FcnCode := MsgPtr.FcnCode
    let s := CFE_EVS_SendEvent s CFE_SB_LEN_ERR_EID CFE_EVS_EventType_ERROR
      [MsgId, FcnCode, ActualLength, ExpectedLength]
    (false, incrCommandErrorCounter cfg s)
  else (true, s)

/-- Handler of the no-op command. -/
def CFE_SB_NoopCmd (cfg : CFE_SB_Config) (s : CFE_SB_State) : CFE_Status × CFE_SB_State :=
  let s := CFE_EVS_SendEvent s CFE_SB_CMD0_RCVD_EID CFE_EVS_EventType_INFORMATION []
  (CFE_SUCCESS, incrCommandCounter cfg s)

/-- Function to reset the SB housekeeping counters. -/
def CFE_SB_ResetCounters (s : CFE_SB_State) : CFE_SB_State :=
  s.setHK { s.CFE_SB_Global.HKTlmMsg.Payload with
    CommandCounter := 0
    CommandErrorCounter := 0
    NoSubscribersCounter := 0
    DuplicateSubscriptionsCounter := 0
    MsgSendErrorCounter := 0
    MsgReceiveErrorCounter := 0
    InternalErrorCounter := 0
    CreatePipeErrorCounter := 0
    SubscribeErrorCounter := 0
    PipeOverflowErrorCounter := 0
    MsgLimitErrorCounter := 0 }

/-- Handler of the reset counters command. -/
def CFE_SB_ResetCountersCmd (s : CFE_SB_State) : CFE_Status × CFE_SB_State :=
  let s := CFE_EVS_SendEvent s CFE_SB_CMD1_RCVD_EID CFE_EVS_EventType_DEBUG []
  (CFE_SUCCESS, CFE_SB_ResetCounters s)

/-- Function to enable and disable subscription reporting. -/
def CFE_SB_SetSubscriptionReporting (s : CFE_SB_State) (state : CFE_SB_ReportingState) :
    CFE_SB_State :=
  { s with CFE_SB_Global := { s.CFE_SB_Global with SubscriptionReporting := state } }

/-- Handler of the enable subscription reporting command. -/
def CFE_SB_EnableSubReportingCmd (s : CFE_SB_State) : CFE_Status × CFE_SB_State :=
  (CFE_SUCCESS, CFE_SB_SetSubscriptionReporting s CFE_SB_ENABLE)

/-- Handler of the disable subscription reporting command. -/
def CFE_SB_DisableSubReportingCmd (s : CFE_SB_State) : CFE_Status × CFE_SB_State :=
  (CFE_SUCCESS, CFE_SB_SetSubscriptionReporting s CFE_SB_DISABLE)

/-- Function to send the SB housekeeping packet.  `UnmarkedMem` is computed in `uint32`. -/
def CFE_SB_SendHKTlmCmd (cfg : CFE_SB_Config) (env : CFE_SB_Env) (s : CFE_SB_State) :
    CFE_Status × CFE_SB_State :=
  let s := CFE_SB_LockSharedData s
  let s := s.setHK { s.CFE_SB_Global.HKTlmMsg.Payload with
    MemInUse := s.CFE_SB_Global.StatTlmMsg.Payload.MemInUse }
  let s := s.setHK { s.CFE_SB_Global.HKTlmMsg.Payload with
    UnmarkedMem := (cfg.CFE_PLATFORM_SB_BUF_MEMORY_BYTES % 4294967296 + 4294967296
      - s.CFE_SB_Global.StatTlmMsg.Payload.PeakMemInUse % 4294967296) % 4294967296 }
  let s := CFE_SB_UnlockSharedData s
  let s := CFE_SB_TimeStampMsg s (CFE_SB_TlmMsg.HKTlmMsg s.CFE_SB_Global.HKTlmMsg.Payload)
  let r := CFE_SB_TransmitMsg env s (CFE_SB_TlmMsg.HKTlmMsg s.CFE_SB_Global.HKTlmMsg.Payload)
  (CFE_SUCCESS, r.2)

/-- Function to increment the proper command counter based on the status input. -/
def CFE_SB_IncrCmdCtr (cfg : CFE_SB_Config) (s : CFE_SB_State) (status : CFE_Status) :
    CFE_SB_State :=
  if status = CFE_SUCCESS then incrCommandCounter cfg s else incrCommandErrorCounter cfg s

/-- Function to report a file write error. -/
def CFE_SB_FileWriteByteCntErr (s : CFE_SB_State) (Requested : Nat) (Actual : Int) :
    CFE_SB_State :=
  CFE_EVS_SendEvent s CFE_SB_FILEWRITE_ERR_EID CFE_EVS_EventType_ERROR [Requested, Actual]

/-! ## Enable route and disable route -/

/-- Handler of the enable route command.  `PendingEventID` starts as 0, here `none`. -/
def CFE_SB_EnableRouteCmd (cfg : CFE_SB_Config) (s : CFE_SB_State) (data : CFE_SB_Buffer_t) :
    CFE_Status × CFE_SB_State :=
  let CmdPtr := data.RouteCmd
  let MsgId := CmdPtr.MsgId
  let s := CFE_SB_LockSharedData s
  let PipeDscPtr := CFE_SB_LocatePipeDescByID cfg s CmdPtr.Pipe
  let r : Option CFE_SB_EventID × CFE_SB_State :=
    if (!cfg.CFE_SB_IsValidMsgId MsgId || !CFE_SB_PipeDescIsMatch cfg s PipeDscPtr CmdPtr.Pipe)
    then (some CFE_SB_ENBL_RTE3_EID, incrCommandErrorCounter cfg s)
    else
      match CFE_SB_GetDestPtr s (CFE_SBR_GetRouteId s MsgId) CmdPtr.Pipe with
      | none => (some CFE_SB_ENBL_RTE1_EID, incrCommandErrorCounter cfg s)
      | some DestPtr =>
        (some CFE_SB_ENBL_RTE2_EID, incrCommandCounter cfg (setDestActive s DestPtr CFE_SB_ACTIVE))
  let PendingEventID := r.1
  let s := CFE_SB_UnlockSharedData r.2
  let s :=
    match PendingEventID with
    | some CFE_SB_ENBL_RTE1_EID =>
      CFE_EVS_SendEvent s CFE_SB_ENBL_RTE1_EID CFE_EVS_EventType_ERROR [MsgId, CmdPtr.Pipe]
    | some CFE_SB_ENBL_RTE3_EID =>
      CFE_EVS_SendEvent s CFE_SB_ENBL_RTE3_EID CFE_EVS_EventType_ERROR [MsgId, CmdPtr.Pipe]
    | some CFE_SB_ENBL_RTE2_EID =>
      CFE_EVS_SendEvent s CFE_SB_ENBL_RTE2_EID CFE_EVS_EventType_DEBUG [MsgId, CmdPtr.Pipe]
    | _ => s
  (CFE_SUCCESS, s)

/-- Handler of the disable route command.  `PendingEventID` starts as 0, here `none`. -/
def CFE_SB_DisableRouteCmd (cfg : CFE_SB_Config) (s : CFE_SB_State) (data : CFE_SB_Buffer_t) :
    CFE_Status × CFE_SB_State :=
  let CmdPtr := data.RouteCmd
  let MsgId := CmdPtr.MsgId
  let s := CFE_SB_LockSharedData s
  let PipeDscPtr := CFE_SB_LocatePipeDescByID cfg s CmdPtr.Pipe
  let r : Option CFE_SB_EventID × CFE_SB_State :=
    if (!cfg.CFE_SB_IsValidMsgId MsgId || !CFE_SB_PipeDescIsMatch cfg s PipeDscPtr CmdPtr.Pipe)
    then (some CFE_SB_DSBL_RTE3_EID, incrCommandErrorCounter cfg s)
    else
      match CFE_SB_GetDestPtr s (CFE_SBR_GetRouteId s MsgId) CmdPtr.Pipe with
      | none => (some CFE_SB_DSBL_RTE1_EID, incrCommandErrorCounter cfg s)
      | some DestPtr =>
        (some CFE_SB_DSBL_RTE2_EID,
          incrCommandCounter cfg (setDestActive s DestPtr CFE_SB_INACTIVE))
  let PendingEventID := r.1
  let s := CFE_SB_UnlockSharedData r.2
  let s :=
    match PendingEventID with
    | some CFE_SB_DSBL_RTE1_EID =>
      CFE_EVS_SendEvent s CFE_SB_DSBL_RTE1_EID CFE_EVS_EventType_ERROR [MsgId, CmdPtr.Pipe]
    | some CFE_SB_DSBL_RTE3_EID =>
      CFE_EVS_SendEvent s CFE_SB_DSBL_RTE3_EID CFE_EVS_EventType_ERROR [MsgId, CmdPtr.Pipe]
    | some CFE_SB_DSBL_RTE2_EID =>
      CFE_EVS_SendEvent s CFE_SB_DSBL_RTE2_EID CFE_EVS_EventType_DEBUG [MsgId, CmdPtr.Pipe]
    | _ => s
  (CFE_SUCCESS, s)

/-! ## Statistics packet -/

/-- First loop of `CFE_SB_SendStatsCmd`: walk the pipe table while descriptors and free
records remain; every descriptor in use fills the record at `PipeStatPtr`.  The result is
the remaining `PipeStatCount`, the final `PipeStatPtr` and the records. -/
def CFE_SB_SendStatsCmd_collect (cfg : CFE_SB_Config) :
    List CFE_SB_PipeD_t → Nat → Nat → List CFE_SB_PipeDepthStats_t →
      Nat × Nat × List CFE_SB_PipeDepthStats_t
  | [], PipeStatCount, PipeStatPtr, Stats => (PipeStatCount, PipeStatPtr, Stats)
  | PipeDsc :: rest, PipeStatCount, PipeStatPtr, Stats =>
    if PipeStatCount > 0 then
      if cfg.CFE_SB_PipeDescIsUsed PipeDsc then
        CFE_SB_SendStatsCmd_collect cfg rest (PipeStatCount - 1) (PipeStatPtr + 1)
          (Stats.set PipeStatPtr
            { PipeId := PipeDsc.PipeId, InUse := PipeDsc.CurrentDepth,
              PeakInUse := PipeDsc.PeakDepth, Depth := PipeDsc.QueueDepth })
      else CFE_SB_SendStatsCmd_collect cfg rest PipeStatCount PipeStatPtr Stats
    else (PipeStatCount, PipeStatPtr, Stats)

/-- Second loop of `CFE_SB_SendStatsCmd`: the remaining records are set to zero. -/
def CFE_SB_SendStatsCmd_clear :
    Nat → Nat → List CFE_SB_PipeDepthStats_t → List CFE_SB_PipeDepthStats_t
  | 0, _, Stats => Stats
  | PipeStatCount + 1, PipeStatPtr, Stats =>
    CFE_SB_SendStatsCmd_clear PipeStatCount (PipeStatPtr + 1)
      (Stats.set PipeStatPtr { PipeId := 0, InUse := 0, PeakInUse := 0, Depth := 0 })

/-- Function to send a Software Bus statistics packet. -/
def CFE_SB_SendStatsCmd (cfg : CFE_SB_Config) (env : CFE_SB_Env) (s : CFE_SB_State) :
    CFE_Status × CFE_SB_State :=
  let s := CFE_SB_LockSharedData s
  let c := CFE_SB_SendStatsCmd_collect cfg s.CFE_SB_Global.PipeTbl cfg.CFE_MISSION_SB_MAX_PIPES 0
    s.CFE_SB_Global.StatTlmMsg.Payload.PipeDepthStats
  let s := s.setStat { s.CFE_SB_Global.StatTlmMsg.Payload with PipeDepthStats := c.2.2 }
  let s := CFE_SB_UnlockSharedData s
  let s := s.setStat { s.CFE_SB_Global.StatTlmMsg.Payload with
    PipeDepthStats :=
      CFE_SB_SendStatsCmd_clear c.1 c.2.1 s.CFE_SB_Global.StatTlmMsg.Payload.PipeDepthStats }
  let s := CFE_SB_TimeStampMsg s (CFE_SB_TlmMsg.StatTlmMsg s.CFE_SB_Global.StatTlmMsg.Payload)
  let r := CFE_SB_TransmitMsg env s (CFE_SB_TlmMsg.StatTlmMsg s.CFE_SB_Global.StatTlmMsg.Payload)
  let s := CFE_EVS_SendEvent r.2 CFE_SB_SND_STATS_EID CFE_EVS_EventType_DEBUG []
  (CFE_SUCCESS, incrCommandCounter cfg s)

/-! ## File dumps -/

/-- Local structure for file writing callbacks (the file id is left out: the task has one
file open at a time).  `Status` starts as 0, which is `CFE_SUCCESS`. -/
structure CFE_SB_FileWriteCallback_t where
  Filename : String
  FileSize : Nat
  EntryCount : Nat
  Status : CFE_Status
  deriving DecidableEq

/-- Statement `x += status` for `uint32 x` and `int32 status`. -/
def addUint32 (x : Nat) (status : Int) : Nat := (((x : Int) + status) % 4294967296).toNat

/-- Local structure of `CFE_SB_WriteRouteToFile`: `uint8 Active`, `uint16 DestCnt`. -/
structure RouteInfo where
  PipeId : Nat
  Active : CFE_SB_ActiveState
  DestCnt : Nat
  deriving DecidableEq

/-- First loop of `CFE_SB_WriteRouteToFile`: snapshot of the destinations whose pipe
matches, at most `CFE_PLATFORM_SB_MAX_DEST_PER_PKT` of them.  The result is the snapshot and
the last value of `pipedptr`. -/
def CFE_SB_WriteRouteToFile_scan (cfg : CFE_SB_Config) (s : CFE_SB_State) :
    List CFE_SB_DestinationD_t → List RouteInfo → Option Nat → List RouteInfo × Option Nat
  | [], RouteInfoArr, pipedptr => (RouteInfoArr, pipedptr)
  | destptr :: Next, RouteInfoArr, pipedptr =>
    if RouteInfoArr.length < cfg.CFE_PLATFORM_SB_MAX_DEST_PER_PKT then
      let pipedptr := CFE_SB_LocatePipeDescByID cfg s destptr.PipeId
      if CFE_SB_PipeDescIsMatch cfg s pipedptr destptr.PipeId then
        CFE_SB_WriteRouteToFile_scan cfg s Next
          (RouteInfoArr ++ [{ PipeId := destptr.PipeId, Active := destptr.Active,
                              DestCnt := destptr.DestCnt % 65536 }]) pipedptr
      else CFE_SB_WriteRouteToFile_scan cfg s Next RouteInfoArr pipedptr
    else (RouteInfoArr, pipedptr)

/-- Second loop of `CFE_SB_WriteRouteToFile`: one entry written per snapshot record.  The
application name is read through `pipedptr`; a null `pipedptr` gives `none`. -/
def CFE_SB_WriteRouteToFile_write (cfg : CFE_SB_Config) (env : CFE_SB_Env) (MsgId : Nat)
    (pipedptr : Option Nat) :
    List RouteInfo → CFE_SB_State × CFE_SB_FileWriteCallback_t →
      Option (CFE_SB_State × CFE_SB_FileWriteCallback_t)
  | [], sa => some sa
  | RouteInfoPtr :: rest, (s, args) =>
    match pipedptr.bind (fun Idx => s.CFE_SB_Global.PipeTbl[Idx]?) with
    | none => none
    | some PipeDsc =>
      let entry : CFE_SB_RoutingFileEntry_t :=
        { MsgId := MsgId, PipeId := RouteInfoPtr.PipeId, State := RouteInfoPtr.Active,
          MsgCnt := RouteInfoPtr.DestCnt, AppName := env.CFE_ES_GetAppName PipeDsc.AppId,
          PipeName := env.CFE_SB_GetPipeName RouteInfoPtr.PipeId }
      let status := env.OS_write s.Trace (CFE_SB_FileEntry.Routing entry)
      let s := s.emit (CFE_SB_Effect.OS_write (CFE_SB_FileEntry.Routing entry))
      let sa : CFE_SB_State × CFE_SB_FileWriteCallback_t :=
        if status ≠ (cfg.sizeof_CFE_SB_RoutingFileEntry_t : Int) then
          ((CFE_SB_FileWriteByteCntErr s cfg.sizeof_CFE_SB_RoutingFileEntry_t status).emit
              CFE_SB_Effect.OS_close,
            { args with Status := CFE_SB_FILE_IO_ERR })
        else (s, args)
      CFE_SB_WriteRouteToFile_write cfg env MsgId pipedptr rest
        (sa.1, { sa.2 with FileSize := addUint32 sa.2.FileSize status,
                           EntryCount := (sa.2.EntryCount + 1) % 4294967296 })

/-- Local callback helper for writing routing info to a file. -/
def CFE_SB_WriteRouteToFile (cfg : CFE_SB_Config) (env : CFE_SB_Env) (RouteId : Nat)
    (sa : CFE_SB_State × CFE_SB_FileWriteCallback_t) :
    Option (CFE_SB_State × CFE_SB_FileWriteCallback_t) :=
  let s := CFE_SB_LockSharedData sa.1
  let destptr := CFE_SBR_GetDestListHeadPtr s RouteId
  let MsgId := CFE_SBR_GetMsgId cfg s RouteId
  let snap := CFE_SB_WriteRouteToFile_scan cfg s destptr [] none
  let s := CFE_SB_UnlockSharedData s
  CFE_SB_WriteRouteToFile_write cfg env MsgId snap.2 snap.1 (s, sa.2)

/-- Function to write the routing information to a file. -/
def CFE_SB_WriteRtgInfo (cfg : CFE_SB_Config) (env : CFE_SB_Env) (s : CFE_SB_State)
    (Filename : String) : Option (CFE_Status × CFE_SB_State) :=
  let Status := env.OS_OpenCreate s.Trace Filename
  let s := s.emit (CFE_SB_Effect.OS_OpenCreate Filename)
  if Status < OS_SUCCESS then
    some (CFE_SB_FILE_IO_ERR,
      CFE_EVS_SendEvent s CFE_SB_SND_RTG_ERR1_EID CFE_EVS_EventType_ERROR [Status])
  else
    let Status := env.CFE_FS_WriteHeader s.Trace
    let s := s.emit
      (CFE_SB_Effect.CFE_FS_WriteHeader "SB Routing Information" CFE_FS_SubType_SB_ROUTEDATA)
    if Status ≠ (cfg.sizeof_CFE_FS_Header_t : Int) then
      some (CFE_SB_FILE_IO_ERR,
        (CFE_SB_FileWriteByteCntErr s cfg.sizeof_CFE_FS_Header_t Status).emit
          CFE_SB_Effect.OS_close)
    else
      let args : CFE_SB_FileWriteCallback_t :=
        { Filename := Filename, FileSize := addUint32 0 Status, EntryCount := 0,
          Status := CFE_SUCCESS }
      match CFE_SBR_ForEachRouteId (CFE_SB_WriteRouteToFile cfg env) s (s, args) with
      | none => none
      | some (s, args) =>
        if args.Status ≠ CFE_SUCCESS then some (args.Status, s)
        else
          let s := s.emit CFE_SB_Effect.OS_close
          some (CFE_SUCCESS,
            CFE_EVS_SendEvent s CFE_SB_SND_RTG_EID CFE_EVS_EventType_DEBUG
              [args.FileSize, args.EntryCount])

/-- Loop of `CFE_SB_WritePipeInfo` over the pipe table, entered with the lock held.  The
first component is `some` status when the function returns from inside the loop. -/
def CFE_SB_WritePipeInfo_loop (cfg : CFE_SB_Config) (env : CFE_SB_Env) :
    List CFE_SB_PipeD_t → CFE_SB_State → Nat → Nat → Option CFE_Status × CFE_SB_State × Nat × Nat
  | [], s, FileSize, EntryCount => (none, s, FileSize, EntryCount)
  | PipeDsc :: rest, s, FileSize, EntryCount =>
    if cfg.CFE_SB_PipeDescIsUsed PipeDsc then
      let SysQueueId := PipeDsc.SysQueueId
      let s := CFE_SB_UnlockSharedData s
      let FileEntry : CFE_SB_PipeInfoEntry_t :=
        { PipeId := PipeDsc.PipeId, AppId := PipeDsc.AppId, MaxQueueDepth := PipeDsc.QueueDepth,
          CurrentQueueDepth := PipeDsc.CurrentDepth, PeakQueueDepth := PipeDsc.PeakDepth,
          SendErrors := PipeDsc.SendErrors, Opts := PipeDsc.Opts,
          AppName := env.CFE_ES_GetAppName PipeDsc.AppId,
          PipeName := env.OS_GetResourceName SysQueueId }
      let Status := env.OS_write s.Trace (CFE_SB_FileEntry.PipeInfo FileEntry)
      let s := s.emit (CFE_SB_Effect.OS_write (CFE_SB_FileEntry.PipeInfo FileEntry))
      if Status ≠ (cfg.sizeof_CFE_SB_PipeInfoEntry_t : Int) then
        (some CFE_SB_FILE_IO_ERR,
          (CFE_SB_FileWriteByteCntErr s cfg.sizeof_CFE_SB_PipeInfoEntry_t Status).emit
            CFE_SB_Effect.OS_close,
          FileSize, EntryCount)
      else
        CFE_SB_WritePipeInfo_loop cfg env rest (CFE_SB_LockSharedData s)
          (addUint32 FileSize Status) ((EntryCount + 1) % 4294967296)
    else CFE_SB_WritePipeInfo_loop cfg env rest s FileSize EntryCount

/-- Function to write the pipe table to a file. -/
def CFE_SB_WritePipeInfo (cfg : CFE_SB_Config) (env : CFE_SB_Env) (s : CFE_SB_State)
    (Filename : String) : CFE_Status × CFE_SB_State :=
  let Status := env.OS_OpenCreate s.Trace Filename
  let s := s.emit (CFE_SB_Effect.OS_OpenCreate Filename)
  if Status < OS_SUCCESS then
    (CFE_SB_FILE_IO_ERR,
      CFE_EVS_SendEvent s CFE_SB_SND_RTG_ERR1_EID CFE_EVS_EventType_ERROR [Status])
  else
    let Status := env.CFE_FS_WriteHeader s.Trace
    let s := s.emit
      (CFE_SB_Effect.CFE_FS_WriteHeader "SB Pipe Information" CFE_FS_SubType_SB_PIPEDATA)
    if Status ≠ (cfg.sizeof_CFE_FS_Header_t : Int) then
      (CFE_SB_FILE_IO_ERR,
        (CFE_SB_FileWriteByteCntErr s cfg.sizeof_CFE_FS_Header_t Status).emit
          CFE_SB_Effect.OS_close)
    else
      let s := CFE_SB_LockSharedData s
      let r := CFE_SB_WritePipeInfo_loop cfg env s.CFE_SB_Global.PipeTbl s (addUint32 0 Status) 0
      match r.1 with
      | some st => (st, r.2.1)
      | none =>
        let s := CFE_SB_UnlockSharedData r.2.1
        let s := s.emit CFE_SB_Effect.OS_close
        (CFE_SUCCESS,
          CFE_EVS_SendEvent s CFE_SB_SND_RTG_EID CFE_EVS_EventType_DEBUG [r.2.2.1, r.2.2.2])

/-- Local callback helper for writing map info to a file. -/
def CFE_SB_WriteMapToFile (cfg : CFE_SB_Config) (env : CFE_SB_Env) (RouteId : Nat)
    (sa : CFE_SB_State × CFE_SB_FileWriteCallback_t) :
    Option (CFE_SB_State × CFE_SB_FileWriteCallback_t) :=
  let args := sa.2
  if args.Status ≠ CFE_SB_FILE_IO_ERR then
    let s := CFE_SB_LockSharedData sa.1
    let entry : CFE_SB_MsgMapFileEntry_t :=
      { MsgId := CFE_SBR_GetMsgId cfg s RouteId, Index := RouteId }
    let s := CFE_SB_UnlockSharedData s
    let status := env.OS_write s.Trace (CFE_SB_FileEntry.MsgMap entry)
    let s := s.emit (CFE_SB_Effect.OS_write (CFE_SB_FileEntry.MsgMap entry))
    let sa1 : CFE_SB_State × CFE_SB_FileWriteCallback_t :=
      if status ≠ (cfg.sizeof_CFE_SB_MsgMapFileEntry_t : Int) then
        ((CFE_SB_FileWriteByteCntErr s cfg.sizeof_CFE_SB_MsgMapFileEntry_t status).emit
            CFE_SB_Effect.OS_close,
          { args with Status := CFE_SB_FILE_IO_ERR })
      else (s, args)
    some (sa1.1, { sa1.2 with FileSize := addUint32 sa1.2.FileSize status,
                              EntryCount := (sa1.2.EntryCount + 1) % 4294967296 })
  else some sa

/-- Function to write the message map to a file. -/
def CFE_SB_WriteMapInfo (cfg : CFE_SB_Config) (env : CFE_SB_Env) (s : CFE_SB_State)
    (Filename : String) : Option (CFE_Status × CFE_SB_State) :=
  let Status := env.OS_OpenCreate s.Trace Filename
  let s := s.emit (CFE_SB_Effect.OS_OpenCreate Filename)
  if Status < OS_SUCCESS then
    some (CFE_SB_FILE_IO_ERR,
      CFE_EVS_SendEvent s CFE_SB_SND_RTG_ERR1_EID CFE_EVS_EventType_ERROR [Status])
  else
    let Status := env.CFE_FS_WriteHeader s.Trace
    let s := s.emit
      (CFE_SB_Effect.CFE_FS_WriteHeader "SB Message Map Information" CFE_FS_SubType_SB_MAPDATA)
    if Status ≠ (cfg.sizeof_CFE_FS_Header_t : Int) then
      some (CFE_SB_FILE_IO_ERR,
        (CFE_SB_FileWriteByteCntErr s cfg.sizeof_CFE_FS_Header_t Status).emit
          CFE_SB_Effect.OS_close)
    else
      let args : CFE_SB_FileWriteCallback_t :=
        { Filename := Filename, FileSize := addUint32 0 Status, EntryCount := 0,
          Status := CFE_SUCCESS }
      match CFE_SBR_ForEachRouteId (CFE_SB_WriteMapToFile cfg env) s (s, args) with
      | none => none
      | some (s, args) =>
        if args.Status ≠ CFE_SUCCESS then some (args.Status, s)
        else
          let s := s.emit CFE_SB_Effect.OS_close
          some (CFE_SUCCESS,
            CFE_EVS_SendEvent s CFE_SB_SND_RTG_EID CFE_EVS_EventType_DEBUG
              [args.FileSize, args.EntryCount])

/-- Handler of the write routing info command. -/
def CFE_SB_WriteRoutingInfoCmd (cfg : CFE_SB_Config) (env : CFE_SB_Env) (s : CFE_SB_State)
    (data : CFE_SB_Buffer_t) : Option (CFE_Status × CFE_SB_State) :=
  let LocalFilename :=
    cfg.CFE_SB_MessageStringGet data.Filename cfg.CFE_PLATFORM_SB_DEFAULT_ROUTING_FILENAME
  match CFE_SB_WriteRtgInfo cfg env s LocalFilename with
  | none => none
  | some (Stat, s) => some (CFE_SUCCESS, CFE_SB_IncrCmdCtr cfg s Stat)

/-- Handler of the write pipe info command. -/
def CFE_SB_WritePipeInfoCmd (cfg : CFE_SB_Config) (env : CFE_SB_Env) (s : CFE_SB_State)
    (data : CFE_SB_Buffer_t) : CFE_Status × CFE_SB_State :=
  let LocalFilename :=
    cfg.CFE_SB_MessageStringGet data.Filename cfg.CFE_PLATFORM_SB_DEFAULT_PIPE_FILENAME
  let r := CFE_SB_WritePipeInfo cfg env s LocalFilename
  (CFE_SUCCESS, CFE_SB_IncrCmdCtr cfg r.2 r.1)

/-- Handler of the write map info command. -/
def CFE_SB_WriteMapInfoCmd (cfg : CFE_SB_Config) (env : CFE_SB_Env) (s : CFE_SB_State)
    (data : CFE_SB_Buffer_t) : Option (CFE_Status × CFE_SB_State) :=
  let LocalFilename :=
    cfg.CFE_SB_MessageStringGet data.Filename cfg.CFE_PLATFORM_SB_DEFAULT_MAP_FILENAME
  match CFE_SB_WriteMapInfo cfg env s LocalFilename with
  | none => none
  | some (Stat, s) => some (CFE_SUCCESS, CFE_SB_IncrCmdCtr cfg s Stat)

/-! ## Previous subscriptions and subscription reports -/

/-- Loop of `CFE_SB_SendRouteSub` over the destinations of one route: the first
destination with global scope adds one entry and ends the loop.  A write past the `Entry`
array gives `none`. -/
def CFE_SB_SendRouteSub_loop (cfg : CFE_SB_Config) (env : CFE_SB_Env) (RouteId : Nat) :
    List CFE_SB_DestinationD_t → CFE_SB_State → Option CFE_SB_State
  | [], s => some s
  | destptr :: Next, s =>
    if destptr.Scope = CFE_SB_MSG_GLOBAL then
      let p := s.CFE_SB_Global.PrevSubMsg.Payload
      match p.Entry[p.Entries]? with
      | none => none
      | some old =>
        let s := s.setPrevSub { p with
          Entry := p.Entry.set p.Entries
            { old with MsgId := CFE_SBR_GetMsgId cfg s RouteId,
                       Qos := { Priority := 0, Reliability := 0 } }
          Entries := p.Entries + 1 }
        if s.CFE_SB_Global.PrevSubMsg.Payload.Entries ≥ cfg.CFE_SB_SUB_ENTRIES_PER_PKT then
          let s := CFE_SB_UnlockSharedData s
          let r := CFE_SB_TransmitMsg env s
            (CFE_SB_TlmMsg.PrevSubMsg s.CFE_SB_Global.PrevSubMsg.Payload)
          let s := CFE_EVS_SendEvent r.2 CFE_SB_FULL_SUB_PKT_EID CFE_EVS_EventType_DEBUG
            [r.2.CFE_SB_Global.PrevSubMsg.Payload.PktSegment,
              r.2.CFE_SB_Global.PrevSubMsg.Payload.Entries]
          let s := CFE_SB_LockSharedData s
          some (s.setPrevSub { s.CFE_SB_Global.PrevSubMsg.Payload with
            Entries := 0
            PktSegment := s.CFE_SB_Global.PrevSubMsg.Payload.PktSegment + 1 })
        else some s
    else CFE_SB_SendRouteSub_loop cfg env RouteId Next s

/-- Local callback helper for sending route subscriptions. -/
def CFE_SB_SendRouteSub (cfg : CFE_SB_Config) (env : CFE_SB_Env) (RouteId : Nat)
    (s : CFE_SB_State) : Option CFE_SB_State :=
  CFE_SB_SendRouteSub_loop cfg env RouteId (CFE_SBR_GetDestListHeadPtr s RouteId) s

/-- Function to build and send SB packets containing a complete list of current
subscriptions. -/
def CFE_SB_SendPrevSubsCmd (cfg : CFE_SB_Config) (env : CFE_SB_Env) (s : CFE_SB_State) :
    Option (CFE_Status × CFE_SB_State) :=
  let s := CFE_SB_LockSharedData s
  let s := s.setPrevSub { s.CFE_SB_Global.PrevSubMsg.Payload with PktSegment := 1, Entries := 0 }
  match CFE_SBR_ForEachRouteId (CFE_SB_SendRouteSub cfg env) s s with
  | none => none
  | some s =>
    let s := CFE_SB_UnlockSharedData s
    if s.CFE_SB_Global.PrevSubMsg.Payload.Entries > 0 then
      let r := CFE_SB_TransmitMsg env s
        (CFE_SB_TlmMsg.PrevSubMsg s.CFE_SB_Global.PrevSubMsg.Payload)
      some (CFE_SUCCESS,
        CFE_EVS_SendEvent r.2 CFE_SB_PART_SUB_PKT_EID CFE_EVS_EventType_DEBUG
          [r.2.CFE_SB_Global.PrevSubMsg.Payload.PktSegment,
            r.2.CFE_SB_Global.PrevSubMsg.Payload.Entries])
    else some (CFE_SUCCESS, s)

/-- Function to generate the single subscription report after a subscription; no-op when
subscription reporting is disabled. -/
def CFE_SB_SendSubscriptionReport (env : CFE_SB_Env) (s : CFE_SB_State) (MsgId PipeId : Nat)
    (Quality : CFE_SB_Qos_t) : CFE_Status × CFE_SB_State :=
  if s.CFE_SB_Global.SubscriptionReporting = CFE_SB_ENABLE then
    let SubRptMsg : CFE_SB_SingleSubscriptionTlm_Payload_t :=
      { MsgId := MsgId, Pipe := PipeId, Qos := Quality, SubType := CFE_SB_SUBSCRIPTION }
    let r := CFE_SB_TransmitMsg env s (CFE_SB_TlmMsg.SubRptMsg SubRptMsg)
    (r.1,
      r.2.emit (CFE_SB_Effect.SendEventWithAppID CFE_SB_SUBSCRIPTION_RPT_EID
        CFE_EVS_EventType_DEBUG r.2.CFE_SB_Global.AppId [MsgId, PipeId]))
  else (CFE_SUCCESS, s)

/-! ## Command dispatch -/

/-- Function to control actions when an SB command is received.  The cases of each
`switch` are tried in the order of the source. -/
def CFE_SB_ProcessCmdPipePkt (cfg : CFE_SB_Config) (env : CFE_SB_Env) (s : CFE_SB_State)
    (SBBufPtr : CFE_SB_Buffer_t) : Option CFE_SB_State :=
  let MessageID := SBBufPtr.MsgId
  if MessageID = cfg.CFE_SB_SEND_HK_MID then
    some (CFE_SB_SendHKTlmCmd cfg env s).2
  else if MessageID = cfg.CFE_SB_SUB_RPT_CTRL_MID then
    let FcnCode := SBBufPtr.FcnCode
    if FcnCode = cfg.CFE_SB_SEND_PREV_SUBS_CC then
      let v := CFE_SB_VerifyCmdLength cfg s SBBufPtr cfg.sizeof_CFE_SB_SendPrevSubsCmd_t
      if v.1 then (CFE_SB_SendPrevSubsCmd cfg env v.2).map Prod.snd else some v.2
    else if FcnCode = cfg.CFE_SB_ENABLE_SUB_REPORTING_CC then
      let v := CFE_SB_VerifyCmdLength cfg s SBBufPtr cfg.sizeof_CFE_SB_EnableSubReportingCmd_t
      if v.1 then some (CFE_SB_EnableSubReportingCmd v.2).2 else some v.2
    else if FcnCode = cfg.CFE_SB_DISABLE_SUB_REPORTING_CC then
      let v := CFE_SB_VerifyCmdLength cfg s SBBufPtr cfg.sizeof_CFE_SB_DisableSubReportingCmd_t
      if v.1 then some (CFE_SB_DisableSubReportingCmd v.2).2 else some v.2
    else
      some (incrCommandErrorCounter cfg
        (CFE_EVS_SendEvent s CFE_SB_BAD_CMD_CODE_EID CFE_EVS_EventType_ERROR [FcnCode]))
  else if MessageID = cfg.CFE_SB_CMD_MID then
    let FcnCode := SBBufPtr.FcnCode
    if FcnCode = cfg.CFE_SB_NOOP_CC then
      let v := CFE_SB_VerifyCmdLength cfg s SBBufPtr cfg.sizeof_CFE_SB_NoopCmd_t
      if v.1 then some (CFE_SB_NoopCmd cfg v.2).2 else some v.2
    else if FcnCode = cfg.CFE_SB_RESET_COUNTERS_CC then
      let v := CFE_SB_VerifyCmdLength cfg s SBBufPtr cfg.sizeof_CFE_SB_ResetCountersCmd_t
      if v.1 then some (CFE_SB_ResetCountersCmd v.2).2 else some v.2
    else if FcnCode = cfg.CFE_SB_SEND_SB_STATS_CC then
      let v := CFE_SB_VerifyCmdLength cfg s SBBufPtr cfg.sizeof_CFE_SB_SendSbStatsCmd_t
      if v.1 then some (CFE_SB_SendStatsCmd cfg env v.2).2 else some v.2
    else if FcnCode = cfg.CFE_SB_WRITE_ROUTING_INFO_CC then
      let v := CFE_SB_VerifyCmdLength cfg s SBBufPtr cfg.sizeof_CFE_SB_WriteRoutingInfoCmd_t
      if v.1 then (CFE_SB_WriteRoutingInfoCmd cfg env v.2 SBBufPtr).map Prod.snd else some v.2
    else if FcnCode = cfg.CFE_SB_ENABLE_ROUTE_CC then
      let v := CFE_SB_VerifyCmdLength cfg s SBBufPtr cfg.sizeof_CFE_SB_EnableRouteCmd_t
      if v.1 then some (CFE_SB_EnableRouteCmd cfg v.2 SBBufPtr).2 else some v.2
    else if FcnCode = cfg.CFE_SB_DISABLE_ROUTE_CC then
      let v := CFE_SB_VerifyCmdLength cfg s SBBufPtr cfg.sizeof_CFE_SB_DisableRouteCmd_t
      if v.1 then some (CFE_SB_DisableRouteCmd cfg v.2 SBBufPtr).2 else some v.2
    else if FcnCode = cfg.CFE_SB_WRITE_PIPE_INFO_CC then
      let v := CFE_SB_VerifyCmdLength cfg s SBBufPtr cfg.sizeof_CFE_SB_WritePipeInfoCmd_t
      if v.1 then some (CFE_SB_WritePipeInfoCmd cfg env v.2 SBBufPtr).2 else some v.2
    else if FcnCode = cfg.CFE_SB_WRITE_MAP_INFO_CC then
      let v := CFE_SB_VerifyCmdLength cfg s SBBufPtr cfg.sizeof_CFE_SB_WriteMapInfoCmd_t
      if v.1 then (CFE_SB_WriteMapInfoCmd cfg env v.2 SBBufPtr).map Prod.snd else some v.2
    else
      some (incrCommandErrorCounter cfg
        (CFE_EVS_SendEvent s CFE_SB_BAD_CMD_CODE_EID CFE_EVS_EventType_ERROR [FcnCode]))
  else
    some (incrCommandErrorCounter cfg
      (CFE_EVS_SendEvent s CFE_SB_BAD_MSGID_EID CFE_EVS_EventType_ERROR [MessageID]))

/-- Case labels of one `switch` are pairwise different (a C compiler rejects the source
otherwise): the three MsgIds, the three function codes of the subscription report control
MsgId, and the eight function codes of the command MsgId. -/
def CFE_SB_Config.CaseLabelsDistinct (cfg : CFE_SB_Config) : Prop :=
  [cfg.CFE_SB_SEND_HK_MID, cfg.CFE_SB_SUB_RPT_CTRL_MID, cfg.CFE_SB_CMD_MID].Nodup ∧
  [cfg.CFE_SB_SEND_PREV_SUBS_CC, cfg.CFE_SB_ENABLE_SUB_REPORTING_CC,
    cfg.CFE_SB_DISABLE_SUB_REPORTING_CC].Nodup ∧
  [cfg.CFE_SB_NOOP_CC, cfg.CFE_SB_RESET_COUNTERS_CC, cfg.CFE_SB_SEND_SB_STATS_CC,
    cfg.CFE_SB_WRITE_ROUTING_INFO_CC, cfg.CFE_SB_ENABLE_ROUTE_CC, cfg.CFE_SB_DISABLE_ROUTE_CC,
    cfg.CFE_SB_WRITE_PIPE_INFO_CC, cfg.CFE_SB_WRITE_MAP_INFO_CC].Nodup

instance (cfg : CFE_SB_Config) : Decidable cfg.CaseLabelsDistinct := by
  unfold CFE_SB_Config.CaseLabelsDistinct
  infer_instance

/-- Dispatch table of the command task as the specification lists it: the rows
(MsgId, function code, size of the command structure) of the commands that are length
checked. -/
def CFE_SB_CmdLengthTable (cfg : CFE_SB_Config) : List (Nat × Nat × Nat) :=
  [(cfg.CFE_SB_CMD_MID, cfg.CFE_SB_NOOP_CC, cfg.sizeof_CFE_SB_NoopCmd_t),
   (cfg.CFE_SB_CMD_MID, cfg.CFE_SB_RESET_COUNTERS_CC, cfg.sizeof_CFE_SB_ResetCountersCmd_t),
   (cfg.CFE_SB_CMD_MID, cfg.CFE_SB_SEND_SB_STATS_CC, cfg.sizeof_CFE_SB_SendSbStatsCmd_t),
   (cfg.CFE_SB_CMD_MID, cfg.CFE_SB_WRITE_ROUTING_INFO_CC,
     cfg.sizeof_CFE_SB_WriteRoutingInfoCmd_t),
   (cfg.CFE_SB_CMD_MID, cfg.CFE_SB_WRITE_PIPE_INFO_CC, cfg.sizeof_CFE_SB_WritePipeInfoCmd_t),
   (cfg.CFE_SB_CMD_MID, cfg.CFE_SB_WRITE_MAP_INFO_CC, cfg.sizeof_CFE_SB_WriteMapInfoCmd_t),
   (cfg.CFE_SB_CMD_MID, cfg.CFE_SB_ENABLE_ROUTE_CC, cfg.sizeof_CFE_SB_EnableRouteCmd_t),
   (cfg.CFE_SB_CMD_MID, cfg.CFE_SB_DISABLE_ROUTE_CC, cfg.sizeof_CFE_SB_DisableRouteCmd_t),
   (cfg.CFE_SB_SUB_RPT_CTRL_MID, cfg.CFE_SB_ENABLE_SUB_REPORTING_CC,
     cfg.sizeof_CFE_SB_EnableSubReportingCmd_t),
   (cfg.CFE_SB_SUB_RPT_CTRL_MID, cfg.CFE_SB_DISABLE_SUB_REPORTING_CC,
     cfg.sizeof_CFE_SB_DisableSubReportingCmd_t),
   (cfg.CFE_SB_SUB_RPT_CTRL_MID, cfg.CFE_SB_SEND_PREV_SUBS_CC,
     cfg.sizeof_CFE_SB_SendPrevSubsCmd_t)]

/-- State `s` after one error event with the given arguments and one increment of
`CommandErrorCounter`, everything else as in `s`. -/
def CFE_SB_State.afterCommandError (cfg : CFE_SB_Config) (s : CFE_SB_State)
    (EventID : CFE_SB_EventID) (Args : List Int) : CFE_SB_State :=
  { CFE_SB_Global :=
      { HKTlmMsg :=
          { Payload :=
              { s.CFE_SB_Global.HKTlmMsg.Payload with
                CommandErrorCounter :=
                  (s.CFE_SB_Global.HKTlmMsg.Payload.CommandErrorCounter + 1)
                    % cfg.CommandCounterModulus } }
        StatTlmMsg := s.CFE_SB_Global.StatTlmMsg
        PrevSubMsg := s.CFE_SB_Global.PrevSubMsg
        SubscriptionReporting := s.CFE_SB_Global.SubscriptionReporting
        PipeTbl := s.CFE_SB_Global.PipeTbl
        AppId := s.CFE_SB_Global.AppId }
    RoutingTbl := s.RoutingTbl
    Trace := s.Trace ++ [CFE_SB_Effect.SendEvent EventID CFE_EVS_EventType_ERROR Args] }

/-! ## Sample configuration and state -/

/-- Sample configuration: one choice of values for the constants, with four pipe slots and
pipe ids that hold the slot in their low bits above the base 0x100. -/
def sampleConfig : CFE_SB_Config :=
  { CFE_SB_CMD_MID := 0x1803
    CFE_SB_SEND_HK_MID := 0x180B
    CFE_SB_SUB_RPT_CTRL_MID := 0x180E
    CFE_SB_INVALID_MSG_ID := 0
    CFE_SB_NOOP_CC := 0
    CFE_SB_RESET_COUNTERS_CC := 1
    CFE_SB_SEND_SB_STATS_CC := 2
    CFE_SB_WRITE_ROUTING_INFO_CC := 3
    CFE_SB_ENABLE_ROUTE_CC := 4
    CFE_SB_DISABLE_ROUTE_CC := 5
    CFE_SB_WRITE_PIPE_INFO_CC := 7
    CFE_SB_WRITE_MAP_INFO_CC := 8
    CFE_SB_ENABLE_SUB_REPORTING_CC := 9
    CFE_SB_DISABLE_SUB_REPORTING_CC := 10
    CFE_SB_SEND_PREV_SUBS_CC := 11
    sizeof_CFE_SB_NoopCmd_t := 8
    sizeof_CFE_SB_ResetCountersCmd_t := 8
    sizeof_CFE_SB_SendSbStatsCmd_t := 8
    sizeof_CFE_SB_WriteRoutingInfoCmd_t := 72
    sizeof_CFE_SB_EnableRouteCmd_t := 16
    sizeof_CFE_SB_DisableRouteCmd_t := 16
    sizeof_CFE_SB_WritePipeInfoCmd_t := 72
    sizeof_CFE_SB_WriteMapInfoCmd_t := 72
    sizeof_CFE_SB_EnableSubReportingCmd_t := 8
    sizeof_CFE_SB_DisableSubReportingCmd_t := 8
    sizeof_CFE_SB_SendPrevSubsCmd_t := 8
    sizeof_CFE_FS_Header_t := 64
    sizeof_CFE_SB_RoutingFileEntry_t := 52
    sizeof_CFE_SB_PipeInfoEntry_t := 64
    sizeof_CFE_SB_MsgMapFileEntry_t := 8
    CFE_MISSION_SB_MAX_PIPES := 4
    CFE_PLATFORM_SB_MAX_DEST_PER_PKT := 3
    CFE_SB_SUB_ENTRIES_PER_PKT := 2
    CFE_PLATFORM_SB_BUF_MEMORY_BYTES := 524288
    CFE_PLATFORM_SB_DEFAULT_ROUTING_FILENAME := "/ram/cfe_sb_route.dat"
    CFE_PLATFORM_SB_DEFAULT_PIPE_FILENAME := "/ram/cfe_sb_pipe.dat"
    CFE_PLATFORM_SB_DEFAULT_MAP_FILENAME := "/ram/cfe_sb_msgmap.dat"
    CommandCounterModulus := 256
    CFE_SB_IsValidMsgId := fun MsgId => MsgId != 0 && decide (MsgId ≤ 0x1FFF)
    CFE_SB_PipeId_ToIndex := fun PipeId => if 0x100 ≤ PipeId then some ((PipeId - 0x100) % 4)
      else none
    CFE_SB_PipeDescIsUsed := fun d => d.PipeId != 0
    CFE_SB_MessageStringGet := fun name dflt => if name = "" then dflt else name }

/-- Sample collaborators: every transmit succeeds, every file call returns the requested
byte count of the sample configuration. -/
def sampleEnv : CFE_SB_Env :=
  { CFE_SB_TransmitMsg := fun _ _ => CFE_SUCCESS
    OS_OpenCreate := fun _ _ => 0
    CFE_FS_WriteHeader := fun _ => 64
    OS_write := fun _ e =>
      match e with
      | CFE_SB_FileEntry.Routing _ => 52
      | CFE_SB_FileEntry.PipeInfo _ => 64
      | CFE_SB_FileEntry.MsgMap _ => 8
    CFE_ES_GetAppName := fun _ => "APP"
    CFE_SB_GetPipeName := fun _ => "PIPE"
    OS_GetResourceName := fun _ => "QUEUE" }

/-- Sample state: two pipes in use (ids 0x100 and 0x101), one route for MsgId 0x1000 with
destinations on both pipes, counters 3 and 255. -/
def sampleState : CFE_SB_State :=
  { CFE_SB_Global :=
      { HKTlmMsg :=
          { Payload :=
              { CommandCounter := 3, CommandErrorCounter := 255, NoSubscribersCounter := 1,
                DuplicateSubscriptionsCounter := 0, MsgSendErrorCounter := 0,
                MsgReceiveErrorCounter := 0, InternalErrorCounter := 0,
                CreatePipeErrorCounter := 0, SubscribeErrorCounter := 0,
                PipeOverflowErrorCounter := 0, MsgLimitErrorCounter := 0, MemPoolHandle := 1,
                MemInUse := 0, UnmarkedMem := 0 } }
        StatTlmMsg :=
          { Payload :=
              { MemInUse := 100, PeakMemInUse := 200,
                PipeDepthStats := List.replicate 4
                  { PipeId := 9, InUse := 9, PeakInUse := 9, Depth := 9 } } }
        PrevSubMsg :=
          { Payload :=
              { PktSegment := 0, Entries := 0,
                Entry := List.replicate 2
                  { MsgId := 0, Qos := { Priority := 0, Reliability := 0 }, Pipe := 0 } } }
        SubscriptionReporting := CFE_SB_DISABLE
        PipeTbl :=
          [{ PipeId := 0x100, Opts := 0, AppId := 5, SysQueueId := 11, QueueDepth := 8,
             CurrentDepth := 1, PeakDepth := 2, SendErrors := 0 },
           { PipeId := 0x101, Opts := 0, AppId := 6, SysQueueId := 12, QueueDepth := 16,
             CurrentDepth := 0, PeakDepth := 4, SendErrors := 1 },
           { PipeId := 0, Opts := 0, AppId := 0, SysQueueId := 0, QueueDepth := 0,
             CurrentDepth := 0, PeakDepth := 0, SendErrors := 0 },
           { PipeId := 0, Opts := 0, AppId := 0, SysQueueId := 0, QueueDepth := 0,
             CurrentDepth := 0, PeakDepth := 0, SendErrors := 0 }]
        AppId := 2 }
    RoutingTbl :=
      [{ MsgId := 0x1000,
         DestList :=
           [{ PipeId := 0x100, Active := CFE_SB_ACTIVE, DestCnt := 0,
              Scope := CFE_SB_MSG_GLOBAL },
            { PipeId := 0x101, Active := CFE_SB_INACTIVE, DestCnt := 0,
              Scope := CFE_SB_MSG_LOCAL }] }]
    Trace := [] }

/-- Sample command buffer with the given MsgId, function code, header size field and route
payload. -/
def sampleBuffer (MsgId FcnCode Size PayloadMsgId PayloadPipe : Nat) : CFE_SB_Buffer_t :=
  { Msg := mkMsg 0x18 0x03 0xC0 0x00 ((Size - 7) / 256) ((Size - 7) % 256)
    MsgId := MsgId
    FcnCode := FcnCode
    RouteCmd := { MsgId := PayloadMsgId, Pipe := PayloadPipe }
    Filename := "" }

/-! ## States used to express the outcome of a route command -/

/-- State `s` after the lock was taken and released, `CommandCounter` was incremented once
and one debug event was sent, with the routing table replaced by `RoutingTbl`. -/
def CFE_SB_State.afterRouteCommandDone (cfg : CFE_SB_Config) (s : CFE_SB_State)
    (RoutingTbl : List CFE_SBR_RouteEntry_t) (EventID : CFE_SB_EventID) (Args : List Int) :
    CFE_SB_State :=
  { CFE_SB_Global :=
      { HKTlmMsg :=
          { Payload :=
              { s.CFE_SB_Global.HKTlmMsg.Payload with
                CommandCounter :=
                  (s.CFE_SB_Global.HKTlmMsg.Payload.CommandCounter + 1)
                    % cfg.CommandCounterModulus } }
        StatTlmMsg := s.CFE_SB_Global.StatTlmMsg
        PrevSubMsg := s.CFE_SB_Global.PrevSubMsg
        SubscriptionReporting := s.CFE_SB_Global.SubscriptionReporting
        PipeTbl := s.CFE_SB_Global.PipeTbl
        AppId := s.CFE_SB_Global.AppId }
    RoutingTbl := RoutingTbl
    Trace := s.Trace ++ [CFE_SB_Effect.LockSharedData, CFE_SB_Effect.UnlockSharedData,
      CFE_SB_Effect.SendEvent EventID CFE_EVS_EventType_DEBUG Args] }

/-- State `s` after the lock was taken and released, `CommandErrorCounter` was incremented
once and one error event was sent, everything else as in `s`. -/
def CFE_SB_State.afterRouteCommandError (cfg : CFE_SB_Config) (s : CFE_SB_State)
    (EventID : CFE_SB_EventID) (Args : List Int) : CFE_SB_State :=
  { CFE_SB_Global :=
      { HKTlmMsg :=
          { Payload :=
              { s.CFE_SB_Global.HKTlmMsg.Payload with
                CommandErrorCounter :=
                  (s.CFE_SB_Global.HKTlmMsg.Payload.CommandErrorCounter + 1)
                    % cfg.CommandCounterModulus } }
        StatTlmMsg := s.CFE_SB_Global.StatTlmMsg
        PrevSubMsg := s.CFE_SB_Global.PrevSubMsg
        SubscriptionReporting := s.CFE_SB_Global.SubscriptionReporting
        PipeTbl := s.CFE_SB_Global.PipeTbl
        AppId := s.CFE_SB_Global.AppId }
    RoutingTbl := s.RoutingTbl
    Trace := s.Trace ++ [CFE_SB_Effect.LockSharedData, CFE_SB_Effect.UnlockSharedData,
      CFE_SB_Effect.SendEvent EventID CFE_EVS_EventType_ERROR Args] }

/-- The parameter check of the route commands: the MsgId is valid and the pipe descriptor
located for the pipe id matches it. -/
def CFE_SB_RouteCmdParamsValid (cfg : CFE_SB_Config) (s : CFE_SB_State)
    (p : CFE_SB_RouteCmd_Payload_t) : Bool :=
  cfg.CFE_SB_IsValidMsgId p.MsgId &&
    CFE_SB_PipeDescIsMatch cfg s (CFE_SB_LocatePipeDescByID cfg s p.Pipe) p.Pipe

/-! ## States used to express the outcome of the reset, housekeeping and report functions -/

/-- State `s` after a reset counters command: one debug event added to the trace and the
eleven counters at zero; the memory fields of the housekeeping payload and every other
member are those of `s`. -/
def CFE_SB_State.afterResetCounters (s : CFE_SB_State) : CFE_SB_State :=
  { CFE_SB_Global :=
      { HKTlmMsg :=
          { Payload :=
              { CommandCounter := 0, CommandErrorCounter := 0, NoSubscribersCounter := 0,
                DuplicateSubscriptionsCounter := 0, MsgSendErrorCounter := 0,
                MsgReceiveErrorCounter := 0, InternalErrorCounter := 0,
                CreatePipeErrorCounter := 0, SubscribeErrorCounter := 0,
                PipeOverflowErrorCounter := 0, MsgLimitErrorCounter := 0,
                MemPoolHandle := s.CFE_SB_Global.HKTlmMsg.Payload.MemPoolHandle,
                MemInUse := s.CFE_SB_Global.HKTlmMsg.Payload.MemInUse,
                UnmarkedMem := s.CFE_SB_Global.HKTlmMsg.Payload.UnmarkedMem } }
        StatTlmMsg := s.CFE_SB_Global.StatTlmMsg
        PrevSubMsg := s.CFE_SB_Global.PrevSubMsg
        SubscriptionReporting := s.CFE_SB_Global.SubscriptionReporting
        PipeTbl := s.CFE_SB_Global.PipeTbl
        AppId := s.CFE_SB_Global.AppId }
    RoutingTbl := s.RoutingTbl
    Trace := s.Trace ++
      [CFE_SB_Effect.SendEvent CFE_SB_CMD1_RCVD_EID CFE_EVS_EventType_DEBUG []] }

/-- Housekeeping payload of `s` with the two memory fields as the housekeeping request
leaves them: `MemInUse` copied from the statistics packet, `UnmarkedMem` the `uint32`
difference of the buffer memory size and the peak memory in use. -/
def CFE_SB_State.housekeepingPayload (cfg : CFE_SB_Config) (s : CFE_SB_State) :
    CFE_SB_HousekeepingTlm_Payload_t :=
  { s.CFE_SB_Global.HKTlmMsg.Payload with
    MemInUse := s.CFE_SB_Global.StatTlmMsg.Payload.MemInUse
    UnmarkedMem := (cfg.CFE_PLATFORM_SB_BUF_MEMORY_BYTES % 4294967296 + 4294967296
      - s.CFE_SB_Global.StatTlmMsg.Payload.PeakMemInUse % 4294967296) % 4294967296 }

/-- State `s` after a housekeeping request: the two memory fields updated, and lock,
unlock, time stamp and one transmit of the housekeeping packet added to the trace. -/
def CFE_SB_State.afterSendHK (cfg : CFE_SB_Config) (s : CFE_SB_State) : CFE_SB_State :=
  { CFE_SB_Global :=
      { HKTlmMsg := { Payload := s.housekeepingPayload cfg }
        StatTlmMsg := s.CFE_SB_Global.StatTlmMsg
        PrevSubMsg := s.CFE_SB_Global.PrevSubMsg
        SubscriptionReporting := s.CFE_SB_Global.SubscriptionReporting
        PipeTbl := s.CFE_SB_Global.PipeTbl
        AppId := s.CFE_SB_Global.AppId }
    RoutingTbl := s.RoutingTbl
    Trace := s.Trace ++
      [CFE_SB_Effect.LockSharedData, CFE_SB_Effect.UnlockSharedData,
       CFE_SB_Effect.TimeStampMsg (CFE_SB_TlmMsg.HKTlmMsg (s.housekeepingPayload cfg)),
       CFE_SB_Effect.TransmitMsg (CFE_SB_TlmMsg.HKTlmMsg (s.housekeepingPayload cfg))] }

/-! ## Routing table with one destination flag set -/

/-- Routing table `T` in which the destination at position `DestPtr.2` of route `DestPtr.1`
has its `Active` field set to `Active`: every route keeps its MsgId and the length and order
of its destination list, every destination keeps its `PipeId`, `DestCnt` and `Scope`, and
every other destination keeps its `Active` field as well. -/
def CFE_SB_tableWithActive (T : List CFE_SBR_RouteEntry_t) (DestPtr : Nat × Nat)
    (Active : CFE_SB_ActiveState) : List CFE_SBR_RouteEntry_t :=
  T.mapIdx (fun i r =>
    { MsgId := r.MsgId
      DestList := r.DestList.mapIdx (fun j d =>
        { PipeId := d.PipeId
          Active := if i = DestPtr.1 ∧ j = DestPtr.2 then Active else d.Active
          DestCnt := d.DestCnt
          Scope := d.Scope }) })

/-! ## Statistics packet: descriptors in use and records written -/

/-- Sample collaborators as `sampleEnv`, with an application name that depends on the
application id. -/
def sampleEnvNames : CFE_SB_Env :=
  { CFE_SB_TransmitMsg := sampleEnv.CFE_SB_TransmitMsg
    OS_OpenCreate := sampleEnv.OS_OpenCreate
    CFE_FS_WriteHeader := sampleEnv.CFE_FS_WriteHeader
    OS_write := sampleEnv.OS_write
    CFE_ES_GetAppName := fun AppId => if AppId = 5 then "APP5" else if AppId = 6 then "APP6"
      else ""
    CFE_SB_GetPipeName := sampleEnv.CFE_SB_GetPipeName
    OS_GetResourceName := sampleEnv.OS_GetResourceName }

/-! ## Lock discipline of a trace -/

/-- Lock depth after the calls `t`, started at depth `depth`: a lock raises the depth, an
unlock lowers it, and every other call (event, time stamp, transmit, file call) is allowed
only at depth 0.  `none` when a call other than lock and unlock is made at a depth above 0
or an unlock is made at depth 0. -/
def CFE_SB_lockCheck : Nat → List CFE_SB_Effect → Option Nat
  | depth, [] => some depth
  | depth, e :: rest =>
    match e with
    | CFE_SB_Effect.LockSharedData => CFE_SB_lockCheck (depth + 1) rest
    | CFE_SB_Effect.UnlockSharedData =>
      if depth = 0 then none else CFE_SB_lockCheck (depth - 1) rest
    | _ => if depth = 0 then CFE_SB_lockCheck 0 rest else none

/-- The trace `new` is the trace `old` followed by calls that, entered at lock depth
`depth`, keep every call other than lock and unlock outside the lock and end at lock depth
`after`. -/
def CFE_SB_lockDisciplined (depth after : Nat) (old new : List CFE_SB_Effect) : Prop :=
  new.take old.length = old ∧ CFE_SB_lockCheck depth (new.drop old.length) = some after

instance (depth after : Nat) (old new : List CFE_SB_Effect) :
    Decidable (CFE_SB_lockDisciplined depth after old new) := by
  unfold CFE_SB_lockDisciplined
  infer_instance

/-! ## Previous subscriptions: routes with a global destination and packets sent -/

/-- Test that a route has at least one destination of global scope. -/
def CFE_SB_routeHasGlobal (r : CFE_SBR_RouteEntry_t) : Bool :=
  r.DestList.any (fun d => decide (d.Scope = CFE_SB_MSG_GLOBAL))

/-- MsgIds of the routes of a routing table that have at least one destination of global
scope, in route id order, each route counted once. -/
def CFE_SB_globalMsgIds (T : List CFE_SBR_RouteEntry_t) : List Nat :=
  (T.filter CFE_SB_routeHasGlobal).map (fun r => r.MsgId)

/-- The previous subscriptions packets transmitted in a trace, in transmit order. -/
def CFE_SB_prevSubPackets : List CFE_SB_Effect → List CFE_SB_AllSubscriptionsTlm_Payload_t
  | [] => []
  | CFE_SB_Effect.TransmitMsg (CFE_SB_TlmMsg.PrevSubMsg p) :: rest =>
    p :: CFE_SB_prevSubPackets rest
  | _ :: rest => CFE_SB_prevSubPackets rest

/-- The entries that a previous subscriptions packet carries: MsgId and Qos of the first
`Entries` elements of its `Entry` array. -/
def CFE_SB_packetEntries (p : CFE_SB_AllSubscriptionsTlm_Payload_t) :
    List (Nat × CFE_SB_Qos_t) :=
  (p.Entry.take p.Entries).map (fun e => (e.MsgId, e.Qos))

/-! ## Sample states with many routes -/

/-- Sample configuration with `CFE_SB_SUB_ENTRIES_PER_PKT` set to `E`. -/
def sampleConfigEntries (E : Nat) : CFE_SB_Config :=
  { sampleConfig with CFE_SB_SUB_ENTRIES_PER_PKT := E }

/-- Sample state with `n` routes, MsgIds 0x1000 .. 0x1000 + n - 1, each with one
destination of global scope on pipe 0x100, and an `Entry` array of `E` elements. -/
def sampleStateRoutes (E n : Nat) : CFE_SB_State :=
  { CFE_SB_Global :=
      { HKTlmMsg := sampleState.CFE_SB_Global.HKTlmMsg
        StatTlmMsg := sampleState.CFE_SB_Global.StatTlmMsg
        PrevSubMsg :=
          { Payload :=
              { PktSegment := 0, Entries := 0,
                Entry := List.replicate E
                  { MsgId := 0, Qos := { Priority := 0, Reliability := 0 }, Pipe := 0 } } }
        SubscriptionReporting := sampleState.CFE_SB_Global.SubscriptionReporting
        PipeTbl := sampleState.CFE_SB_Global.PipeTbl
        AppId := sampleState.CFE_SB_Global.AppId }
    RoutingTbl := (List.range n).map (fun i =>
      { MsgId := 0x1000 + i,
        DestList := [{ PipeId := 0x100, Active := CFE_SB_ACTIVE, DestCnt := 0,
                       Scope := CFE_SB_MSG_GLOBAL }] })
    Trace := [] }

/-! ## File dumps: counting the writes and the events of a trace -/

/-- Number of `CFE_EVS_SendEvent` calls with event id `EventID` in a trace. -/
def CFE_SB_eventCount (EventID : CFE_SB_EventID) : List CFE_SB_Effect → Nat
  | [] => 0
  | CFE_SB_Effect.SendEvent e _ _ :: rest =>
    (if e = EventID then 1 else 0) + CFE_SB_eventCount EventID rest
  | _ :: rest => CFE_SB_eventCount EventID rest

/-- Number of `OS_write` calls in a trace. -/
def CFE_SB_writeCount : List CFE_SB_Effect → Nat
  | [] => 0
  | CFE_SB_Effect.OS_write _ :: rest => 1 + CFE_SB_writeCount rest
  | _ :: rest => CFE_SB_writeCount rest

/-- Number of `OS_write` calls among the calls `new`, made after the calls `pre`, to which
the collaborators answer a byte count other than `size`. -/
def CFE_SB_shortWriteCount (env : CFE_SB_Env) (size : Nat) :
    List CFE_SB_Effect → List CFE_SB_Effect → Nat
  | _, [] => 0
  | pre, CFE_SB_Effect.OS_write e :: rest =>
    (if env.OS_write pre e ≠ (size : Int) then 1 else 0) +
      CFE_SB_shortWriteCount env size (pre ++ [CFE_SB_Effect.OS_write e]) rest
  | pre, x :: rest => CFE_SB_shortWriteCount env size (pre ++ [x]) rest

/-- Relation between the callback arguments before (`sa`) and after (`sb`) a part of a file
dump that writes entries of `size` bytes: the trace grows by calls `new`; the task state
is otherwise kept; one `CFE_SB_FILEWRITE_ERR_EID` event is sent per short write and no
`CFE_SB_SND_RTG_EID` event; `Status` becomes `CFE_SB_FILE_IO_ERR` when a write is short and
is kept otherwise; and without a short write `FileSize` and `EntryCount` grow, in `uint32`,
by the bytes and the number of the entries written. -/
def CFE_SB_fileStep (env : CFE_SB_Env) (size : Nat)
    (sa sb : CFE_SB_State × CFE_SB_FileWriteCallback_t) : Prop :=
  ∃ new : List CFE_SB_Effect,
    sb.1.Trace = sa.1.Trace ++ new ∧
    sb.1.CFE_SB_Global = sa.1.CFE_SB_Global ∧
    sb.1.RoutingTbl = sa.1.RoutingTbl ∧
    CFE_SB_eventCount CFE_SB_FILEWRITE_ERR_EID new =
      CFE_SB_shortWriteCount env size sa.1.Trace new ∧
    CFE_SB_eventCount CFE_SB_SND_RTG_EID new = 0 ∧
    sb.2.Status =
      (if 0 < CFE_SB_shortWriteCount env size sa.1.Trace new then CFE_SB_FILE_IO_ERR
        else sa.2.Status) ∧
    (sa.2.FileSize < 4294967296 → sa.2.EntryCount < 4294967296 →
      sb.2.FileSize < 4294967296 ∧ sb.2.EntryCount < 4294967296 ∧
      (CFE_SB_shortWriteCount env size sa.1.Trace new = 0 →
        sb.2.FileSize = (sa.2.FileSize + CFE_SB_writeCount new * size) % 4294967296 ∧
        sb.2.EntryCount = (sa.2.EntryCount + CFE_SB_writeCount new) % 4294967296))

/-- Outcome `r` (status and state) of a file dump started in state `s` that writes entries
of `size` bytes to `Filename`: the status is `CFE_SB_FILE_IO_ERR` or `CFE_SUCCESS`; it is
`CFE_SB_FILE_IO_ERR` exactly when the file is not created, or the header write answers a
byte count other than the header size, or an entry write answers a byte count other than
`size`; one `CFE_SB_FILEWRITE_ERR_EID` event is sent per short write (header or entry);
the `CFE_SB_SND_RTG_EID` event is sent once on success and not at all otherwise, and it
reports, in `uint32`, the header size plus `size` times the number of entries written, and
the number of entries written. -/
def CFE_SB_fileDumpOutcome (cfg : CFE_SB_Config) (env : CFE_SB_Env) (size : Nat)
    (s : CFE_SB_State) (Filename : String) (r : CFE_Status × CFE_SB_State) : Prop :=
  ∃ new : List CFE_SB_Effect,
    r.2.Trace = s.Trace ++ new ∧
    (r.1 = CFE_SB_FILE_IO_ERR ∨ r.1 = CFE_SUCCESS) ∧
    (r.1 = CFE_SB_FILE_IO_ERR ↔
      (env.OS_OpenCreate s.Trace Filename < OS_SUCCESS ∨
        env.CFE_FS_WriteHeader (s.Trace ++ [CFE_SB_Effect.OS_OpenCreate Filename]) ≠
          (cfg.sizeof_CFE_FS_Header_t : Int) ∨
        0 < CFE_SB_shortWriteCount env size s.Trace new)) ∧
    CFE_SB_eventCount CFE_SB_FILEWRITE_ERR_EID new =
      (if ¬ env.OS_OpenCreate s.Trace Filename < OS_SUCCESS ∧
          env.CFE_FS_WriteHeader (s.Trace ++ [CFE_SB_Effect.OS_OpenCreate Filename]) ≠
            (cfg.sizeof_CFE_FS_Header_t : Int) then 1 else 0) +
        CFE_SB_shortWriteCount env size s.Trace new ∧
    CFE_SB_eventCount CFE_SB_SND_RTG_EID new = (if r.1 = CFE_SUCCESS then 1 else 0) ∧
    (r.1 = CFE_SUCCESS →
      CFE_SB_Effect.SendEvent CFE_SB_SND_RTG_EID CFE_EVS_EventType_DEBUG
        [(((cfg.sizeof_CFE_FS_Header_t + CFE_SB_writeCount new * size) % 4294967296 : Nat) : Int),
          ((CFE_SB_writeCount new % 4294967296 : Nat) : Int)] ∈ new)

/-! ## Primary header: agreement of two messages on one getter -/

/-- The messages `a` and `b` give the same result to `CFE_MSG_GetHeaderVersion`, whatever
the output argument. -/
def CFE_MSG_sameHeaderVersion (a b : CFE_MSG_Message_t) : Prop :=
  ∀ o, CFE_MSG_GetHeaderVersion (some a) o = CFE_MSG_GetHeaderVersion (some b) o

/-- The messages `a` and `b` give the same result to `CFE_MSG_GetType`. -/
def CFE_MSG_sameType (a b : CFE_MSG_Message_t) : Prop :=
  ∀ o, CFE_MSG_GetType (some a) o = CFE_MSG_GetType (some b) o

/-- The messages `a` and `b` give the same result to `CFE_MSG_GetHasSecondaryHeader`. -/
def CFE_MSG_sameHasSecondaryHeader (a b : CFE_MSG_Message_t) : Prop :=
  ∀ o, CFE_MSG_GetHasSecondaryHeader (some a) o = CFE_MSG_GetHasSecondaryHeader (some b) o

/-- The messages `a` and `b` give the same result to `CFE_MSG_GetApId`. -/
def CFE_MSG_sameApId (a b : CFE_MSG_Message_t) : Prop :=
  ∀ o, CFE_MSG_GetApId (some a) o = CFE_MSG_GetApId (some b) o

/-- The messages `a` and `b` give the same result to `CFE_MSG_GetSegmentationFlag`. -/
def CFE_MSG_sameSegmentationFlag (a b : CFE_MSG_Message_t) : Prop :=
  ∀ o, CFE_MSG_GetSegmentationFlag (some a) o = CFE_MSG_GetSegmentationFlag (some b) o

/-- The messages `a` and `b` give the same result to `CFE_MSG_GetSequenceCount`. -/
def CFE_MSG_sameSequenceCount (a b : CFE_MSG_Message_t) : Prop :=
  ∀ o, CFE_MSG_GetSequenceCount (some a) o = CFE_MSG_GetSequenceCount (some b) o

/-- The messages `a` and `b` give the same result to `CFE_MSG_GetSize`. -/
def CFE_MSG_sameSize (a b : CFE_MSG_Message_t) : Prop :=
  ∀ o, CFE_MSG_GetSize (some a) o = CFE_MSG_GetSize (some b) o

/-! ## Command counters of two states -/

/-- Between the states `s` and `r` the pair of `CommandCounter` and `CommandErrorCounter`
is unchanged, or exactly one of the two is incremented once (modulo the counter type) and
the other is unchanged. -/
def CFE_SB_counterStep (cfg : CFE_SB_Config) (s r : CFE_SB_State) : Prop :=
  (r.CFE_SB_Global.HKTlmMsg.Payload.CommandCounter =
      s.CFE_SB_Global.HKTlmMsg.Payload.CommandCounter ∧
    r.CFE_SB_Global.HKTlmMsg.Payload.CommandErrorCounter =
      s.CFE_SB_Global.HKTlmMsg.Payload.CommandErrorCounter) ∨
  (r.CFE_SB_Global.HKTlmMsg.Payload.CommandCounter =
      (s.CFE_SB_Global.HKTlmMsg.Payload.CommandCounter + 1) % cfg.CommandCounterModulus ∧
    r.CFE_SB_Global.HKTlmMsg.Payload.CommandErrorCounter =
      s.CFE_SB_Global.HKTlmMsg.Payload.CommandErrorCounter) ∨
  (r.CFE_SB_Global.HKTlmMsg.Payload.CommandCounter =
      s.CFE_SB_Global.HKTlmMsg.Payload.CommandCounter ∧
    r.CFE_SB_Global.HKTlmMsg.Payload.CommandErrorCounter =
      (s.CFE_SB_Global.HKTlmMsg.Payload.CommandErrorCounter + 1) % cfg.CommandCounterModulus)

instance (cfg : CFE_SB_Config) (s r : CFE_SB_State) : Decidable (CFE_SB_counterStep cfg s r) := by
  unfold CFE_SB_counterStep
  infer_instance

/-! ## Routing dump with a failing file -/

/-- Number of `OS_close` calls in a trace. -/
def CFE_SB_closeCount : List CFE_SB_Effect → Nat
  | [] => 0
  | CFE_SB_Effect.OS_close :: rest => 1 + CFE_SB_closeCount rest
  | _ :: rest => CFE_SB_closeCount rest

/-- Sample collaborators with a file that fills up: the first `OS_write` of an entry
answers 10 bytes, and every later `OS_write` answers the error code -1. -/
def sampleEnvShortWrite : CFE_SB_Env :=
  { CFE_SB_TransmitMsg := sampleEnv.CFE_SB_TransmitMsg
    OS_OpenCreate := sampleEnv.OS_OpenCreate
    CFE_FS_WriteHeader := sampleEnv.CFE_FS_WriteHeader
    OS_write := fun t _ => if CFE_SB_writeCount t = 0 then 10 else -1
    CFE_ES_GetAppName := sampleEnv.CFE_ES_GetAppName
    CFE_SB_GetPipeName := sampleEnv.CFE_SB_GetPipeName
    OS_GetResourceName := sampleEnv.OS_GetResourceName }

/-! ## Routing dump: the entries written -/

/-- Routing entries handed to `OS_write` in a trace, in call order. -/
def CFE_SB_routingEntriesWritten : List CFE_SB_Effect → List CFE_SB_RoutingFileEntry_t
  | [] => []
  | CFE_SB_Effect.OS_write (CFE_SB_FileEntry.Routing e) :: rest =>
    e :: CFE_SB_routingEntriesWritten rest
  | _ :: rest => CFE_SB_routingEntriesWritten rest

theorem and_255 (x : Nat) : x &&& 255 = x % 256 := Nat.and_pow_two_sub_one_eq_mod x 8

theorem shr_8 (x : Nat) : x >>> 8 = x / 256 := Nat.shiftRight_eq_div_pow x 8

theorem shl_8 (x : Nat) : x <<< 8 = x * 256 := Nat.shiftLeft_eq x 8

theorem toUint8_val (x : Nat) : (toUint8 x).val = x % 256 := rfl

theorem testBit_bitNot32 (x i : Nat) :
    (bitNot32 x).testBit i = (decide (i < 32) && !x.testBit i) := by
  unfold bitNot32
  rw [show (0xFFFFFFFF : Nat) = 2 ^ 32 - 1 from rfl, show (4294967296 : Nat) = 2 ^ 32 from rfl,
    Nat.testBit_xor, Nat.testBit_two_pow_sub_one, Nat.testBit_mod_two_pow]
  by_cases h : i < 32 <;> simp [h]

theorem testBit_toUint8 (x i : Nat) :
    (toUint8 x).val.testBit i = (decide (i < 8) && x.testBit i) := by
  unfold toUint8
  show (x % 2 ^ 8).testBit i = _
  rw [Nat.testBit_mod_two_pow]

/-! ## Header field helpers: reading back what was written -/

/-- Reading a field with the mask it was written with gives the written value
restricted to the mask. -/
theorem CFE_MSG_GetHeaderField_SetHeaderField (Word : uint8 × uint8) (Val Mask : Nat)
    (hM : Mask < 65536) :
    CFE_MSG_GetHeaderField (CFE_MSG_SetHeaderField Word Val Mask) Mask = Val &&& Mask := by
  unfold CFE_MSG_GetHeaderField CFE_MSG_SetHeaderField
  have hlt : ∀ x : Nat, (x &&& Mask) % 65536 = x &&& Mask := fun x =>
    Nat.mod_eq_of_lt (Nat.lt_of_le_of_lt Nat.and_le_right hM)
  rw [hlt]
  apply Nat.eq_of_testBit_eq
  intro i
  have hbit : 16 ≤ i → Mask.testBit i = false := fun h =>
    Nat.testBit_lt_two_pow (Nat.lt_of_lt_of_le hM (by
      calc 65536 = 2 ^ 16 := rfl
        _ ≤ 2 ^ i := Nat.pow_le_pow_right (by decide) h))
  simp only [Nat.testBit_and, Nat.testBit_or, Nat.testBit_shiftLeft, Nat.testBit_shiftRight,
    testBit_toUint8, testBit_bitNot32, show (0xFF : Nat) = 2 ^ 8 - 1 from rfl,
    Nat.testBit_two_pow_sub_one]
  by_cases h8 : i < 8
  · have : ¬ (i ≥ 8) := by omega
    simp [h8, this]
    cases Mask.testBit i <;> simp
  · have h8' : i ≥ 8 := by omega
    by_cases h16 : i < 16
    · have e : 8 + (i - 8) = i := by omega
      have l8 : i - 8 < 8 := by omega
      have l32 : i - 8 < 32 := by omega
      simp [h8, h8', e, l8, l32]
      cases Mask.testBit i <;> simp
    · simp [hbit (by omega)]

/-! ## Message size -/

theorem CFE_MSG_SetSize_of_valid (m : CFE_MSG_Message_t) (n : Nat) (hlo : 7 ≤ n)
    (hhi : n ≤ 65542) :
    CFE_MSG_SetSize (some m) n =
      (CFE_SUCCESS, some (setLength m (toUint8 (((n - 7) >>> 8) &&& 0xFF),
        toUint8 ((n - 7) &&& 0xFF)))) := by
  have hc : ¬ (n < CFE_MSG_SIZE_OFFSET ∨ n > 0xFFFF + CFE_MSG_SIZE_OFFSET) := by
    simp only [CFE_MSG_SIZE_OFFSET]; omega
  simp only [CFE_MSG_SetSize, if_neg hc]
  rfl

theorem CFE_MSG_SetSize_of_invalid (m : CFE_MSG_Message_t) (n : Nat)
    (h : n < 7 ∨ 65542 < n) :
    CFE_MSG_SetSize (some m) n = (CFE_MSG_BAD_ARGUMENT, some m) := by
  have hc : n < CFE_MSG_SIZE_OFFSET ∨ n > 0xFFFF + CFE_MSG_SIZE_OFFSET := by
    simp only [CFE_MSG_SIZE_OFFSET]; omega
  simp only [CFE_MSG_SetSize, if_pos hc]

/-- C2: for every message and every size `n` with `7 ≤ n ≤ 65542`, `CFE_MSG_SetSize`
returns `CFE_SUCCESS`, and `CFE_MSG_GetSize` on the resulting message returns
`CFE_SUCCESS` and stores exactly `n`. -/
theorem CFE_MSG_SetSize_GetSize (m : CFE_MSG_Message_t) (n old : Nat)
    (hlo : 7 ≤ n) (hhi : n ≤ 65542) :
    (CFE_MSG_SetSize (some m) n).1 = CFE_SUCCESS ∧
      CFE_MSG_GetSize (CFE_MSG_SetSize (some m) n).2 (some old) = (CFE_SUCCESS, some n) := by
  rw [CFE_MSG_SetSize_of_valid m n hlo hhi]
  refine ⟨rfl, ?_⟩
  simp only [CFE_MSG_GetSize, setLength, toUint8_val, shr_8, shl_8, and_255, CFE_MSG_SIZE_OFFSET]
  have : ((n - 7) / 256 % 256 % 256 * 256 + (n - 7) % 256 % 256 + 7) % 4294967296 = n := by
    omega
  rw [this]

/-- Instance of the size round trip: size 1000 written over a header whose length
octets are all ones. -/
theorem CFE_MSG_SetSize_GetSize_witness :
    7 ≤ 1000 ∧ 1000 ≤ 65542 ∧
      (CFE_MSG_SetSize (some (mkMsg 0x18 0x01 0xC0 0x05 0xFF 0xFF)) 1000).1 = CFE_SUCCESS ∧
      CFE_MSG_GetSize (CFE_MSG_SetSize (some (mkMsg 0x18 0x01 0xC0 0x05 0xFF 0xFF)) 1000).2
        (some 0) = (CFE_SUCCESS, some 1000) :=
  ⟨by decide, by decide,
    CFE_MSG_SetSize_GetSize (mkMsg 0x18 0x01 0xC0 0x05 0xFF 0xFF) 1000 0 (by decide)
      (by decide)⟩

/-- C3: for a non-null message, `CFE_MSG_SetSize` returns `CFE_MSG_BAD_ARGUMENT`
exactly when `n < 7` or `n > 65542`, and `CFE_SUCCESS` exactly for the other `n`. -/
theorem CFE_MSG_SetSize_status (m : CFE_MSG_Message_t) (n : Nat) :
    ((CFE_MSG_SetSize (some m) n).1 = CFE_MSG_BAD_ARGUMENT ↔ (n < 7 ∨ 65542 < n)) ∧
      ((CFE_MSG_SetSize (some m) n).1 = CFE_SUCCESS ↔ (7 ≤ n ∧ n ≤ 65542)) := by
  by_cases h : n < 7 ∨ 65542 < n
  · rw [CFE_MSG_SetSize_of_invalid m n h]
    refine ⟨⟨fun _ => h, fun _ => rfl⟩, ⟨fun hh => ?_, fun hh => ?_⟩⟩
    · cases hh
    · omega
  · rw [CFE_MSG_SetSize_of_valid m n (by omega) (by omega)]
    refine ⟨⟨fun hh => ?_, fun hh => absurd hh h⟩, ⟨fun _ => by omega, fun _ => rfl⟩⟩
    cases hh

/-! ## Segmentation flag -/

/-- After a write of `raw` under the segmentation mask, the getter decodes the two
top bits of `raw`. -/
theorem CFE_MSG_GetSegmentationFlag_of_set (m : CFE_MSG_Message_t)
    (old : CFE_MSG_SegmentationFlag_t) (w : uint8 × uint8) (raw : Nat) :
    CFE_MSG_GetSegmentationFlag
        (some (setSequence m (CFE_MSG_SetHeaderField w raw CFE_MSG_SEGFLG_MASK))) (some old) =
      (CFE_SUCCESS,
        some (if raw &&& CFE_MSG_SEGFLG_MASK = CFE_MSG_SEGFLG_CNT then CFE_MSG_SegFlag_Continue
          else if raw &&& CFE_MSG_SEGFLG_MASK = CFE_MSG_SEGFLG_FIRST then CFE_MSG_SegFlag_First
          else if raw &&& CFE_MSG_SEGFLG_MASK = CFE_MSG_SEGFLG_LAST then CFE_MSG_SegFlag_Last
          else CFE_MSG_SegFlag_Unsegmented)) := by
  have hg := CFE_MSG_GetHeaderField_SetHeaderField w raw CFE_MSG_SEGFLG_MASK (by decide)
  simp only [CFE_MSG_GetSegmentationFlag, setSequence, hg]
  split_ifs <;> rfl

/-- C10: for every message and every flag among Continue, First, Last and
Unsegmented, `CFE_MSG_SetSegmentationFlag` returns `CFE_SUCCESS`, and
`CFE_MSG_GetSegmentationFlag` on the resulting message returns `CFE_SUCCESS` and
stores that same flag. -/
theorem CFE_MSG_SetSegmentationFlag_GetSegmentationFlag (m : CFE_MSG_Message_t)
    (f old : CFE_MSG_SegmentationFlag_t) (hf : f ≠ CFE_MSG_SegFlag_Invalid) :
    (CFE_MSG_SetSegmentationFlag (some m) f).1 = CFE_SUCCESS ∧
      CFE_MSG_GetSegmentationFlag (CFE_MSG_SetSegmentationFlag (some m) f).2 (some old) =
        (CFE_SUCCESS, some f) := by
  cases f
  · exact absurd rfl hf
  all_goals
    refine ⟨rfl, ?_⟩
    simp only [CFE_MSG_SetSegmentationFlag]
    rw [CFE_MSG_GetSegmentationFlag_of_set]
    decide

/-- Instance of the segmentation flag round trip: flag First written over a header
whose segmentation bits were both set. -/
theorem CFE_MSG_SetSegmentationFlag_GetSegmentationFlag_witness :
    CFE_MSG_SegFlag_First ≠ CFE_MSG_SegFlag_Invalid ∧
      ((CFE_MSG_SetSegmentationFlag (some (mkMsg 0x18 0x01 0xC0 0x05 0 1))
          CFE_MSG_SegFlag_First).1 = CFE_SUCCESS ∧
        CFE_MSG_GetSegmentationFlag
          (CFE_MSG_SetSegmentationFlag (some (mkMsg 0x18 0x01 0xC0 0x05 0 1))
            CFE_MSG_SegFlag_First).2 (some CFE_MSG_SegFlag_Invalid) =
          (CFE_SUCCESS, some CFE_MSG_SegFlag_First)) :=
  ⟨by decide,
    CFE_MSG_SetSegmentationFlag_GetSegmentationFlag (mkMsg 0x18 0x01 0xC0 0x05 0 1)
      CFE_MSG_SegFlag_First CFE_MSG_SegFlag_Invalid (by decide)⟩

/-! ## Range tests of the version, APID and sequence count setters

Each of the three setters tests the argument against the field mask itself, so it
reports an error exactly when the argument has a bit inside the field. -/

theorem shifted_version_and_mask (v : Nat) :
    ((v <<< CFE_MSG_CCSDSVER_SHIFT) % 65536) &&& CFE_MSG_CCSDSVER_MASK
      = (v % 8) * 8192 := by
  have h1 : (v <<< CFE_MSG_CCSDSVER_SHIFT) % 65536 = (v % 8) * 8192 := by
    rw [Nat.shiftLeft_eq]
    simp only [CFE_MSG_CCSDSVER_SHIFT]
    omega
  rw [h1]
  have hk : v % 8 < 8 := Nat.mod_lt _ (by decide)
  generalize v % 8 = k at hk
  simp only [CFE_MSG_CCSDSVER_MASK]
  interval_cases k <;> rfl

/-- For a non-null message, `CFE_MSG_SetHeaderVersion` reports `CFE_MSG_BAD_ARGUMENT`
exactly when the low three bits of the argument are not all zero. -/
theorem CFE_MSG_SetHeaderVersion_status (m : CFE_MSG_Message_t) (v : Nat) :
    (CFE_MSG_SetHeaderVersion (some m) v).1 = CFE_MSG_BAD_ARGUMENT ↔ v % 8 ≠ 0 := by
  simp only [CFE_MSG_SetHeaderVersion, shifted_version_and_mask]
  by_cases h : v % 8 = 0
  · simp [h]
  · have : v % 8 * 8192 ≠ 0 := by omega
    simp [h, this]

/-- For a non-null message, `CFE_MSG_SetApId` reports `CFE_MSG_BAD_ARGUMENT` exactly
when the argument has a bit inside the APID mask. -/
theorem CFE_MSG_SetApId_status (m : CFE_MSG_Message_t) (a : Nat) :
    (CFE_MSG_SetApId (some m) a).1 = CFE_MSG_BAD_ARGUMENT ↔ a &&& 0x07FF ≠ 0 := by
  simp only [CFE_MSG_SetApId, CFE_MSG_APID_MASK]
  by_cases h : a &&& 0x07FF = 0
  · simp [h]
  · simp [h]

/-- For a non-null message, `CFE_MSG_SetSequenceCount` reports `CFE_MSG_BAD_ARGUMENT`
exactly when the argument has a bit inside the sequence count mask. -/
theorem CFE_MSG_SetSequenceCount_status (m : CFE_MSG_Message_t) (s : Nat) :
    (CFE_MSG_SetSequenceCount (some m) s).1 = CFE_MSG_BAD_ARGUMENT ↔ s &&& 0x3FFF ≠ 0 := by
  simp only [CFE_MSG_SetSequenceCount, CFE_MSG_SEQCNT_MASK]
  by_cases h : s &&& 0x3FFF = 0
  · simp [h]
  · simp [h]

/-! ## Evaluations of the setters at in-range and out-of-range arguments -/

/-- C4: evaluation of `CFE_MSG_SetHeaderVersion` on the all-zero header.  Version 1, and
likewise each version from 1 to 7, is answered with `CFE_MSG_BAD_ARGUMENT`; the message
is left as it was and `CFE_MSG_GetHeaderVersion` then reports 0, not 1. -/
theorem CFE_MSG_SetHeaderVersion_one_rejected :
    CFE_MSG_SetHeaderVersion (some (mkMsg 0 0 0 0 0 0)) 1 =
        (CFE_MSG_BAD_ARGUMENT, some (mkMsg 0 0 0 0 0 0)) ∧
      CFE_MSG_GetHeaderVersion (CFE_MSG_SetHeaderVersion (some (mkMsg 0 0 0 0 0 0)) 1).2
        (some 0) = (CFE_SUCCESS, some 0) ∧
      (∀ v ∈ [1, 2, 3, 4, 5, 6, 7],
        (CFE_MSG_SetHeaderVersion (some (mkMsg 0 0 0 0 0 0)) v).1 = CFE_MSG_BAD_ARGUMENT) := by
  decide

/-- C5: evaluation of `CFE_MSG_SetApId` on the all-zero header.  APID 1, and likewise
APID 0x7FF, is answered with `CFE_MSG_BAD_ARGUMENT`; the message is left as it was and
`CFE_MSG_GetApId` then reports 0, not 1. -/
theorem CFE_MSG_SetApId_one_rejected :
    CFE_MSG_SetApId (some (mkMsg 0 0 0 0 0 0)) 1 =
        (CFE_MSG_BAD_ARGUMENT, some (mkMsg 0 0 0 0 0 0)) ∧
      CFE_MSG_GetApId (CFE_MSG_SetApId (some (mkMsg 0 0 0 0 0 0)) 1).2 (some 0) =
        (CFE_SUCCESS, some 0) ∧
      (CFE_MSG_SetApId (some (mkMsg 0 0 0 0 0 0)) 0x7FF).1 = CFE_MSG_BAD_ARGUMENT := by
  decide

/-- C6: evaluation of `CFE_MSG_SetSequenceCount` on the all-zero header.  Sequence count 1,
and likewise 0x3FFF, is answered with `CFE_MSG_BAD_ARGUMENT`; the message is left as it
was and `CFE_MSG_GetSequenceCount` then reports 0, not 1. -/
theorem CFE_MSG_SetSequenceCount_one_rejected :
    CFE_MSG_SetSequenceCount (some (mkMsg 0 0 0 0 0 0)) 1 =
        (CFE_MSG_BAD_ARGUMENT, some (mkMsg 0 0 0 0 0 0)) ∧
      CFE_MSG_GetSequenceCount (CFE_MSG_SetSequenceCount (some (mkMsg 0 0 0 0 0 0)) 1).2
        (some 0) = (CFE_SUCCESS, some 0) ∧
      (CFE_MSG_SetSequenceCount (some (mkMsg 0 0 0 0 0 0)) 0x3FFF).1 =
        CFE_MSG_BAD_ARGUMENT := by
  decide

/-- C7: evaluation of the range test of `CFE_MSG_SetHeaderVersion`.  Version 1, which fits
the 3-bit field, is answered with `CFE_MSG_BAD_ARGUMENT`; version 8, which does not fit,
is answered with `CFE_SUCCESS` and clears the version bits of the header. -/
theorem CFE_MSG_SetHeaderVersion_range_test_eval :
    (CFE_MSG_SetHeaderVersion (some (mkMsg 0xFF 0xFF 0 0 0 0)) 1).1 = CFE_MSG_BAD_ARGUMENT ∧
      CFE_MSG_SetHeaderVersion (some (mkMsg 0xFF 0xFF 0 0 0 0)) 8 =
        (CFE_SUCCESS, some (mkMsg 0x1F 0xFF 0 0 0 0)) := by
  decide

/-- C8: evaluation of the range test of `CFE_MSG_SetApId`.  APID 1, which has no bit
outside the mask 0x07FF, is answered with `CFE_MSG_BAD_ARGUMENT`; APID 0x0800, whose only
bit is outside the mask, is answered with `CFE_SUCCESS` and clears the APID bits of the
header. -/
theorem CFE_MSG_SetApId_range_test_eval :
    1 &&& (0xFFFF ^^^ CFE_MSG_APID_MASK) = 0 ∧
      (CFE_MSG_SetApId (some (mkMsg 0xFF 0xFF 0 0 0 0)) 1).1 = CFE_MSG_BAD_ARGUMENT ∧
      0x0800 &&& (0xFFFF ^^^ CFE_MSG_APID_MASK) ≠ 0 ∧
      CFE_MSG_SetApId (some (mkMsg 0xFF 0xFF 0 0 0 0)) 0x0800 =
        (CFE_SUCCESS, some (mkMsg 0xF8 0x00 0 0 0 0)) := by
  decide

/-- C9: evaluation of the range test of `CFE_MSG_SetSequenceCount`.  Count 1, which has no
bit outside the mask 0x3FFF, is answered with `CFE_MSG_BAD_ARGUMENT`; count 0x4000, whose
only bit is outside the mask, is answered with `CFE_SUCCESS` and clears the count bits of
the header. -/
theorem CFE_MSG_SetSequenceCount_range_test_eval :
    1 &&& (0xFFFF ^^^ CFE_MSG_SEQCNT_MASK) = 0 ∧
      (CFE_MSG_SetSequenceCount (some (mkMsg 0 0 0xFF 0xFF 0 0)) 1).1 =
        CFE_MSG_BAD_ARGUMENT ∧
      0x4000 &&& (0xFFFF ^^^ CFE_MSG_SEQCNT_MASK) ≠ 0 ∧
      CFE_MSG_SetSequenceCount (some (mkMsg 0 0 0xFF 0xFF 0 0)) 0x4000 =
        (CFE_SUCCESS, some (mkMsg 0 0 0xC0 0x00 0 0)) := by
  decide

/-- C1: evaluation, step by step, of the seven setters in the order SetHeaderVersion,
SetType, SetHasSecondaryHeader, SetApId, SetSegmentationFlag, SetSequenceCount, SetSize, on
the all-zero header with the tuple (1, Cmd, true, 1, First, 1, 8).  The version, APID and
sequence count setters answer `CFE_MSG_BAD_ARGUMENT` and leave the message as it was, and
the seven getters read back (0, Cmd, true, 0, First, 0, 8) from the final header. -/
theorem primary_header_setters_then_getters_eval :
    CFE_MSG_SetHeaderVersion (some (mkMsg 0 0 0 0 0 0)) 1 =
        (CFE_MSG_BAD_ARGUMENT, some (mkMsg 0 0 0 0 0 0)) ∧
      CFE_MSG_SetType (some (mkMsg 0 0 0 0 0 0)) CFE_MSG_Type_Cmd =
        (CFE_SUCCESS, some (mkMsg 0x10 0 0 0 0 0)) ∧
      CFE_MSG_SetHasSecondaryHeader (some (mkMsg 0x10 0 0 0 0 0)) true =
        (CFE_SUCCESS, some (mkMsg 0x18 0 0 0 0 0)) ∧
      CFE_MSG_SetApId (some (mkMsg 0x18 0 0 0 0 0)) 1 =
        (CFE_MSG_BAD_ARGUMENT, some (mkMsg 0x18 0 0 0 0 0)) ∧
      CFE_MSG_SetSegmentationFlag (some (mkMsg 0x18 0 0 0 0 0)) CFE_MSG_SegFlag_First =
        (CFE_SUCCESS, some (mkMsg 0x18 0 0x40 0 0 0)) ∧
      CFE_MSG_SetSequenceCount (some (mkMsg 0x18 0 0x40 0 0 0)) 1 =
        (CFE_MSG_BAD_ARGUMENT, some (mkMsg 0x18 0 0x40 0 0 0)) ∧
      CFE_MSG_SetSize (some (mkMsg 0x18 0 0x40 0 0 0)) 8 =
        (CFE_SUCCESS, some (mkMsg 0x18 0 0x40 0 0 1)) ∧
      CFE_MSG_GetHeaderVersion (some (mkMsg 0x18 0 0x40 0 0 1)) (some 0) =
        (CFE_SUCCESS, some 0) ∧
      CFE_MSG_GetType (some (mkMsg 0x18 0 0x40 0 0 1)) (some CFE_MSG_Type_Invalid) =
        (CFE_SUCCESS, some CFE_MSG_Type_Cmd) ∧
      CFE_MSG_GetHasSecondaryHeader (some (mkMsg 0x18 0 0x40 0 0 1)) (some false) =
        (CFE_SUCCESS, some true) ∧
      CFE_MSG_GetApId (some (mkMsg 0x18 0 0x40 0 0 1)) (some 0) = (CFE_SUCCESS, some 0) ∧
      CFE_MSG_GetSegmentationFlag (some (mkMsg 0x18 0 0x40 0 0 1))
          (some CFE_MSG_SegFlag_Invalid) = (CFE_SUCCESS, some CFE_MSG_SegFlag_First) ∧
      CFE_MSG_GetSequenceCount (some (mkMsg 0x18 0 0x40 0 0 1)) (some 0) =
        (CFE_SUCCESS, some 0) ∧
      CFE_MSG_GetSize (some (mkMsg 0x18 0 0x40 0 0 1)) (some 0) = (CFE_SUCCESS, some 8) := by
  decide

/-! ## Arithmetic reading of the masked header word -/

theorem and_shiftLeft_eq (x m s : Nat) : x &&& (m <<< s) = ((x >>> s) &&& m) <<< s := by
  apply Nat.eq_of_testBit_eq
  intro i
  simp only [Nat.testBit_and, Nat.testBit_shiftLeft, Nat.testBit_shiftRight]
  by_cases h : i ≥ s
  · have e : s + (i - s) = i := by omega
    simp [h, e]
  · simp [h]

theorem word_or_eq_add (a b : Nat) (hb : b < 256) : (a <<< 8) ||| b = a * 256 + b := by
  have h := Nat.mul_add_lt_is_or (show b < 2 ^ 8 from hb) a
  rw [Nat.shiftLeft_eq, Nat.mul_comm a (2 ^ 8), ← h]

/-- Header word read under the segmentation mask: the two top bits, in place. -/
theorem CFE_MSG_GetHeaderField_SEGFLG (w : uint8 × uint8) :
    CFE_MSG_GetHeaderField w CFE_MSG_SEGFLG_MASK = (w.1.val / 64) * 16384 := by
  unfold CFE_MSG_GetHeaderField
  rw [word_or_eq_add _ _ w.2.isLt, show CFE_MSG_SEGFLG_MASK = 3 <<< 14 from rfl, and_shiftLeft_eq,
    show (3 : Nat) = 2 ^ 2 - 1 from rfl, Nat.and_pow_two_sub_one_eq_mod, Nat.shiftRight_eq_div_pow,
    Nat.shiftLeft_eq]
  have h1 := w.1.isLt
  have h2 := w.2.isLt
  omega

/-- Header word read under the version mask: the three top bits, in place. -/
theorem CFE_MSG_GetHeaderField_CCSDSVER (w : uint8 × uint8) :
    CFE_MSG_GetHeaderField w CFE_MSG_CCSDSVER_MASK = (w.1.val / 32) * 8192 := by
  unfold CFE_MSG_GetHeaderField
  rw [word_or_eq_add _ _ w.2.isLt, show CFE_MSG_CCSDSVER_MASK = 7 <<< 13 from rfl,
    and_shiftLeft_eq, show (7 : Nat) = 2 ^ 3 - 1 from rfl, Nat.and_pow_two_sub_one_eq_mod,
    Nat.shiftRight_eq_div_pow, Nat.shiftLeft_eq]
  have h1 := w.1.isLt
  have h2 := w.2.isLt
  omega

/-- Header word read under the APID mask: the low eleven bits. -/
theorem CFE_MSG_GetHeaderField_APID (w : uint8 × uint8) :
    CFE_MSG_GetHeaderField w CFE_MSG_APID_MASK = (w.1.val % 8) * 256 + w.2.val := by
  unfold CFE_MSG_GetHeaderField
  rw [word_or_eq_add _ _ w.2.isLt, show CFE_MSG_APID_MASK = 2 ^ 11 - 1 from rfl,
    Nat.and_pow_two_sub_one_eq_mod]
  have h1 := w.1.isLt
  have h2 := w.2.isLt
  omega

/-- Header word read under the sequence count mask: the low fourteen bits. -/
theorem CFE_MSG_GetHeaderField_SEQCNT (w : uint8 × uint8) :
    CFE_MSG_GetHeaderField w CFE_MSG_SEQCNT_MASK = (w.1.val % 64) * 256 + w.2.val := by
  unfold CFE_MSG_GetHeaderField
  rw [word_or_eq_add _ _ w.2.isLt, show CFE_MSG_SEQCNT_MASK = 2 ^ 14 - 1 from rfl,
    Nat.and_pow_two_sub_one_eq_mod]
  have h1 := w.1.isLt
  have h2 := w.2.isLt
  omega

/-! ## Segmentation flag: invalid argument and decoding -/

/-- C11: evaluation of `CFE_MSG_SetSegmentationFlag` with `CFE_MSG_SegFlag_Invalid`.  The
status is `CFE_MSG_BAD_ARGUMENT` for every message, but the header field is written all the
same: on the header 18 01 C0 05 00 01 octet 2 becomes 00, so the header is not left
unchanged and a following `CFE_MSG_GetSegmentationFlag` reads Continue instead of
Unsegmented. -/
theorem CFE_MSG_SetSegmentationFlag_invalid_writes_header :
    (∀ m : CFE_MSG_Message_t,
        (CFE_MSG_SetSegmentationFlag (some m) CFE_MSG_SegFlag_Invalid).1 =
          CFE_MSG_BAD_ARGUMENT) ∧
      CFE_MSG_SetSegmentationFlag (some (mkMsg 0x18 0x01 0xC0 0x05 0 1))
          CFE_MSG_SegFlag_Invalid =
        (CFE_MSG_BAD_ARGUMENT, some (mkMsg 0x18 0x01 0x00 0x05 0 1)) ∧
      mkMsg 0x18 0x01 0x00 0x05 0 1 ≠ mkMsg 0x18 0x01 0xC0 0x05 0 1 ∧
      CFE_MSG_GetSegmentationFlag (some (mkMsg 0x18 0x01 0xC0 0x05 0 1))
          (some CFE_MSG_SegFlag_Invalid) = (CFE_SUCCESS, some CFE_MSG_SegFlag_Unsegmented) ∧
      CFE_MSG_GetSegmentationFlag (some (mkMsg 0x18 0x01 0x00 0x05 0 1))
          (some CFE_MSG_SegFlag_Invalid) = (CFE_SUCCESS, some CFE_MSG_SegFlag_Continue) := by
  refine ⟨fun m => rfl, ?_⟩
  decide

/-- C12: for every message, the raw value switched on by `CFE_MSG_GetSegmentationFlag` is
one of the four case constants (so the default branch is not taken for any other value),
the getter answers Continue, First, Last or Unsegmented exactly when the two most
significant bits of octet 2 are 0, 1, 2 or 3, and it never answers
`CFE_MSG_SegFlag_Invalid`. -/
theorem CFE_MSG_GetSegmentationFlag_decodes (m : CFE_MSG_Message_t)
    (old : CFE_MSG_SegmentationFlag_t) :
    (CFE_MSG_GetHeaderField m.CCSDS.Pri.Sequence CFE_MSG_SEGFLG_MASK = CFE_MSG_SEGFLG_CNT ∨
        CFE_MSG_GetHeaderField m.CCSDS.Pri.Sequence CFE_MSG_SEGFLG_MASK = CFE_MSG_SEGFLG_FIRST ∨
        CFE_MSG_GetHeaderField m.CCSDS.Pri.Sequence CFE_MSG_SEGFLG_MASK = CFE_MSG_SEGFLG_LAST ∨
        CFE_MSG_GetHeaderField m.CCSDS.Pri.Sequence CFE_MSG_SEGFLG_MASK = CFE_MSG_SEGFLG_UNSEG) ∧
      (CFE_MSG_GetSegmentationFlag (some m) (some old) =
          (CFE_SUCCESS, some CFE_MSG_SegFlag_Continue) ↔ m.CCSDS.Pri.Sequence.1.val / 64 = 0) ∧
      (CFE_MSG_GetSegmentationFlag (some m) (some old) =
          (CFE_SUCCESS, some CFE_MSG_SegFlag_First) ↔ m.CCSDS.Pri.Sequence.1.val / 64 = 1) ∧
      (CFE_MSG_GetSegmentationFlag (some m) (some old) =
          (CFE_SUCCESS, some CFE_MSG_SegFlag_Last) ↔ m.CCSDS.Pri.Sequence.1.val / 64 = 2) ∧
      (CFE_MSG_GetSegmentationFlag (some m) (some old) =
          (CFE_SUCCESS, some CFE_MSG_SegFlag_Unsegmented) ↔
        m.CCSDS.Pri.Sequence.1.val / 64 = 3) ∧
      (CFE_MSG_GetSegmentationFlag (some m) (some old)).2 ≠ some CFE_MSG_SegFlag_Invalid := by
  have hraw := CFE_MSG_GetHeaderField_SEGFLG m.CCSDS.Pri.Sequence
  have hk : m.CCSDS.Pri.Sequence.1.val / 64 < 4 := by
    have := m.CCSDS.Pri.Sequence.1.isLt
    omega
  simp only [CFE_MSG_GetSegmentationFlag, hraw]
  generalize m.CCSDS.Pri.Sequence.1.val / 64 = k at hk
  interval_cases k <;> decide

/-! ## Type bit and secondary header bit -/

set_option maxRecDepth 20000 in
theorem type_bit_after_or (w : uint8) : (toUint8 (w.val ||| 16)).val &&& 16 ≠ 0 := by
  revert w; decide

set_option maxRecDepth 20000 in
theorem type_bit_after_clear (w : uint8) : (toUint8 (w.val &&& bitNot32 16)).val &&& 16 = 0 := by
  revert w; decide

set_option maxRecDepth 20000 in
theorem type_bit_iff_testBit (w : uint8) : w.val &&& 16 ≠ 0 ↔ w.val.testBit 4 = true := by
  revert w; decide

set_option maxRecDepth 20000 in
theorem shdr_bit_after_or (w : uint8) : (toUint8 (w.val ||| 8)).val &&& 8 ≠ 0 := by
  revert w; decide

set_option maxRecDepth 20000 in
theorem shdr_bit_after_clear (w : uint8) : (toUint8 (w.val &&& bitNot32 8)).val &&& 8 = 0 := by
  revert w; decide

/-- C13: for every message and every type among Cmd and Tlm, `CFE_MSG_SetType` returns
`CFE_SUCCESS` and `CFE_MSG_GetType` on the resulting message returns that type; and for
every message `CFE_MSG_GetType` answers Cmd exactly when bit 0x10 (bit number 4) of octet 0
is set, Tlm otherwise. -/
theorem CFE_MSG_SetType_GetType (m : CFE_MSG_Message_t) (t old : CFE_MSG_Type_t)
    (ht : t ≠ CFE_MSG_Type_Invalid) :
    (CFE_MSG_SetType (some m) t).1 = CFE_SUCCESS ∧
      CFE_MSG_GetType (CFE_MSG_SetType (some m) t).2 (some old) = (CFE_SUCCESS, some t) ∧
      CFE_MSG_GetType (some m) (some old) =
        (CFE_SUCCESS,
          some (if m.CCSDS.Pri.StreamId.1.val.testBit 4 = true then CFE_MSG_Type_Cmd
            else CFE_MSG_Type_Tlm)) := by
  have hmask : CFE_MSG_TYPE_MASK >>> 8 = 16 := rfl
  refine ⟨?_, ?_, ?_⟩
  · cases t <;> rfl
  · cases t
    · exact absurd rfl ht
    · simp only [CFE_MSG_SetType, CFE_MSG_GetType, setStreamId, hmask, if_true,
        if_pos (type_bit_after_or m.CCSDS.Pri.StreamId.1)]
    · have hne : ¬ (CFE_MSG_Type_Tlm = CFE_MSG_Type_Cmd) := by decide
      simp only [CFE_MSG_SetType, CFE_MSG_GetType, setStreamId, hmask, if_neg hne,
        type_bit_after_clear m.CCSDS.Pri.StreamId.1, ne_eq, not_true_eq_false, if_false]
  · simp only [CFE_MSG_GetType, hmask]
    by_cases hb : m.CCSDS.Pri.StreamId.1.val &&& 16 ≠ 0
    · rw [if_pos hb, if_pos ((type_bit_iff_testBit _).1 hb)]
    · rw [if_neg hb, if_neg (fun h => hb ((type_bit_iff_testBit _).2 h))]

/-- Instance of the type round trip: type Tlm written over a header whose type bit was
set. -/
theorem CFE_MSG_SetType_GetType_witness :
    CFE_MSG_Type_Tlm ≠ CFE_MSG_Type_Invalid ∧
      ((CFE_MSG_SetType (some (mkMsg 0x18 0x01 0xC0 0x05 0 1)) CFE_MSG_Type_Tlm).1 =
          CFE_SUCCESS ∧
        CFE_MSG_GetType (CFE_MSG_SetType (some (mkMsg 0x18 0x01 0xC0 0x05 0 1))
            CFE_MSG_Type_Tlm).2 (some CFE_MSG_Type_Invalid) =
          (CFE_SUCCESS, some CFE_MSG_Type_Tlm) ∧
        CFE_MSG_GetType (some (mkMsg 0x18 0x01 0xC0 0x05 0 1)) (some CFE_MSG_Type_Invalid) =
          (CFE_SUCCESS,
            some (if (mkMsg 0x18 0x01 0xC0 0x05 0 1).CCSDS.Pri.StreamId.1.val.testBit 4 = true
              then CFE_MSG_Type_Cmd else CFE_MSG_Type_Tlm))) :=
  ⟨by decide,
    CFE_MSG_SetType_GetType (mkMsg 0x18 0x01 0xC0 0x05 0 1) CFE_MSG_Type_Tlm
      CFE_MSG_Type_Invalid (by decide)⟩

/-- C14: for every message and every boolean `b`, `CFE_MSG_SetHasSecondaryHeader` returns
`CFE_SUCCESS` and `CFE_MSG_GetHasSecondaryHeader` on the resulting message returns
`CFE_SUCCESS` and stores `b`. -/
theorem CFE_MSG_SetHasSecondaryHeader_GetHasSecondaryHeader (m : CFE_MSG_Message_t)
    (b old : Bool) :
    (CFE_MSG_SetHasSecondaryHeader (some m) b).1 = CFE_SUCCESS ∧
      CFE_MSG_GetHasSecondaryHeader (CFE_MSG_SetHasSecondaryHeader (some m) b).2 (some old) =
        (CFE_SUCCESS, some b) := by
  have hmask : CFE_MSG_SHDR_MASK >>> 8 = 8 := rfl
  cases b
  · refine ⟨rfl, ?_⟩
    simp [CFE_MSG_SetHasSecondaryHeader, CFE_MSG_GetHasSecondaryHeader, setStreamId, hmask,
      shdr_bit_after_clear m.CCSDS.Pri.StreamId.1]
  · refine ⟨rfl, ?_⟩
    simp [CFE_MSG_SetHasSecondaryHeader, CFE_MSG_GetHasSecondaryHeader, setStreamId, hmask,
      shdr_bit_after_or m.CCSDS.Pri.StreamId.1]

/-! ## Length octets -/

/-- C16: for every message and every `n` with `7 ≤ n ≤ 65542`, `CFE_MSG_SetSize` succeeds
and leaves `(n - 7) / 256` in octet 4 and `(n - 7) % 256` in octet 5; and for every message
`CFE_MSG_GetSize` returns `256 * octet4 + octet5 + 7`, which lies between 7 and 65542. -/
theorem CFE_MSG_Length_big_endian (m : CFE_MSG_Message_t) (n old : Nat)
    (hlo : 7 ≤ n) (hhi : n ≤ 65542) :
    (∃ m1 : CFE_MSG_Message_t, CFE_MSG_SetSize (some m) n = (CFE_SUCCESS, some m1) ∧
        m1.CCSDS.Pri.Length.1.val = (n - 7) / 256 ∧
        m1.CCSDS.Pri.Length.2.val = (n - 7) % 256) ∧
      CFE_MSG_GetSize (some m) (some old) =
        (CFE_SUCCESS,
          some (256 * m.CCSDS.Pri.Length.1.val + m.CCSDS.Pri.Length.2.val + 7)) ∧
      7 ≤ 256 * m.CCSDS.Pri.Length.1.val + m.CCSDS.Pri.Length.2.val + 7 ∧
      256 * m.CCSDS.Pri.Length.1.val + m.CCSDS.Pri.Length.2.val + 7 ≤ 65542 := by
  have h1 := m.CCSDS.Pri.Length.1.isLt
  have h2 := m.CCSDS.Pri.Length.2.isLt
  refine ⟨⟨_, CFE_MSG_SetSize_of_valid m n hlo hhi, ?_, ?_⟩, ?_, by omega, by omega⟩
  · simp only [setLength, toUint8_val, shr_8, and_255]
    omega
  · simp only [setLength, toUint8_val, and_255]
    omega
  · simp only [CFE_MSG_GetSize, shl_8, CFE_MSG_SIZE_OFFSET]
    have e : (m.CCSDS.Pri.Length.1.val * 256 + m.CCSDS.Pri.Length.2.val + 7) % 4294967296 =
        256 * m.CCSDS.Pri.Length.1.val + m.CCSDS.Pri.Length.2.val + 7 := by omega
    rw [e]

/-- Instance of the length encoding: size 1000 gives octets 03 E1. -/
theorem CFE_MSG_Length_big_endian_witness :
    7 ≤ 1000 ∧ 1000 ≤ 65542 ∧
      (∃ m1 : CFE_MSG_Message_t,
        CFE_MSG_SetSize (some (mkMsg 0x18 0x01 0xC0 0x05 0xFF 0xFF)) 1000 =
          (CFE_SUCCESS, some m1) ∧
        m1.CCSDS.Pri.Length.1.val = (1000 - 7) / 256 ∧
        m1.CCSDS.Pri.Length.2.val = (1000 - 7) % 256) :=
  ⟨by decide, by decide,
    (CFE_MSG_Length_big_endian (mkMsg 0x18 0x01 0xC0 0x05 0xFF 0xFF) 1000 0 (by decide)
      (by decide)).1⟩

/-! ## Getters: null arguments and value ranges -/

/-- C17: each of the seven getters returns `CFE_MSG_BAD_ARGUMENT` exactly when the message
pointer or the output pointer is null and `CFE_SUCCESS` exactly when both are non-null; and
for every message the version read is at most 7, the APID at most 0x7FF and the sequence
count at most 0x3FFF.  The getters take the message read-only: their result holds the
status and the output object only, the message is not part of it. -/
theorem CFE_MSG_getters_status_and_range :
    (∀ (p : Option CFE_MSG_Message_t) (o : Option Nat),
        ((CFE_MSG_GetHeaderVersion p o).1 = CFE_MSG_BAD_ARGUMENT ↔ (p = none ∨ o = none)) ∧
        ((CFE_MSG_GetHeaderVersion p o).1 = CFE_SUCCESS ↔ (p ≠ none ∧ o ≠ none))) ∧
      (∀ (p : Option CFE_MSG_Message_t) (o : Option CFE_MSG_Type_t),
        ((CFE_MSG_GetType p o).1 = CFE_MSG_BAD_ARGUMENT ↔ (p = none ∨ o = none)) ∧
        ((CFE_MSG_GetType p o).1 = CFE_SUCCESS ↔ (p ≠ none ∧ o ≠ none))) ∧
      (∀ (p : Option CFE_MSG_Message_t) (o : Option Bool),
        ((CFE_MSG_GetHasSecondaryHeader p o).1 = CFE_MSG_BAD_ARGUMENT ↔
          (p = none ∨ o = none)) ∧
        ((CFE_MSG_GetHasSecondaryHeader p o).1 = CFE_SUCCESS ↔ (p ≠ none ∧ o ≠ none))) ∧
      (∀ (p : Option CFE_MSG_Message_t) (o : Option Nat),
        ((CFE_MSG_GetApId p o).1 = CFE_MSG_BAD_ARGUMENT ↔ (p = none ∨ o = none)) ∧
        ((CFE_MSG_GetApId p o).1 = CFE_SUCCESS ↔ (p ≠ none ∧ o ≠ none))) ∧
      (∀ (p : Option CFE_MSG_Message_t) (o : Option CFE_MSG_SegmentationFlag_t),
        ((CFE_MSG_GetSegmentationFlag p o).1 = CFE_MSG_BAD_ARGUMENT ↔
          (p = none ∨ o = none)) ∧
        ((CFE_MSG_GetSegmentationFlag p o).1 = CFE_SUCCESS ↔ (p ≠ none ∧ o ≠ none))) ∧
      (∀ (p : Option CFE_MSG_Message_t) (o : Option Nat),
        ((CFE_MSG_GetSequenceCount p o).1 = CFE_MSG_BAD_ARGUMENT ↔ (p = none ∨ o = none)) ∧
        ((CFE_MSG_GetSequenceCount p o).1 = CFE_SUCCESS ↔ (p ≠ none ∧ o ≠ none))) ∧
      (∀ (p : Option CFE_MSG_Message_t) (o : Option Nat),
        ((CFE_MSG_GetSize p o).1 = CFE_MSG_BAD_ARGUMENT ↔ (p = none ∨ o = none)) ∧
        ((CFE_MSG_GetSize p o).1 = CFE_SUCCESS ↔ (p ≠ none ∧ o ≠ none))) ∧
      (∀ (m : CFE_MSG_Message_t) (old : Nat),
        ∃ v, CFE_MSG_GetHeaderVersion (some m) (some old) = (CFE_SUCCESS, some v) ∧ v ≤ 7) ∧
      (∀ (m : CFE_MSG_Message_t) (old : Nat),
        ∃ a, CFE_MSG_GetApId (some m) (some old) = (CFE_SUCCESS, some a) ∧ a ≤ 0x7FF) ∧
      (∀ (m : CFE_MSG_Message_t) (old : Nat),
        ∃ c, CFE_MSG_GetSequenceCount (some m) (some old) = (CFE_SUCCESS, some c) ∧
          c ≤ 0x3FFF) := by
  refine ⟨?_, ?_, ?_, ?_, ?_, ?_, ?_, ?_, ?_, ?_⟩
  · intro p o
    cases p <;> cases o <;> simp [CFE_MSG_GetHeaderVersion]
  · intro p o
    cases p <;> cases o <;> simp [CFE_MSG_GetType]
    split_ifs <;> simp
  · intro p o
    cases p <;> cases o <;> simp [CFE_MSG_GetHasSecondaryHeader]
  · intro p o
    cases p <;> cases o <;> simp [CFE_MSG_GetApId]
  · intro p o
    cases p <;> cases o <;> simp [CFE_MSG_GetSegmentationFlag]
    split_ifs <;> simp
  · intro p o
    cases p <;> cases o <;> simp [CFE_MSG_GetSequenceCount]
  · intro p o
    cases p <;> cases o <;> simp [CFE_MSG_GetSize]
  · intro m old
    refine ⟨_, rfl, ?_⟩
    rw [CFE_MSG_GetHeaderField_CCSDSVER, Nat.shiftRight_eq_div_pow]
    have h1 := m.CCSDS.Pri.StreamId.1.isLt
    simp only [CFE_MSG_CCSDSVER_SHIFT]
    omega
  · intro m old
    refine ⟨_, rfl, ?_⟩
    rw [CFE_MSG_GetHeaderField_APID]
    have h1 := m.CCSDS.Pri.StreamId.1.isLt
    have h2 := m.CCSDS.Pri.StreamId.2.isLt
    omega
  · intro m old
    refine ⟨_, rfl, ?_⟩
    rw [CFE_MSG_GetHeaderField_SEQCNT]
    have h1 := m.CCSDS.Pri.Sequence.1.isLt
    have h2 := m.CCSDS.Pri.Sequence.2.isLt
    omega

/-! ## Default primary header -/

/-- C15: evaluation of `CFE_MSG_SetDefaultCCSDSPri` with mission version 1 and platform
default APID 1.  On the all-zero header the result is 08 00 C0 00 00 00: secondary header
present and Unsegmented, but version 0 and APID 0.  On the header FF FF 00 00 00 00 the
version and APID fields keep their old values 7 and 0x7FF. -/
theorem CFE_MSG_SetDefaultCCSDSPri_eval :
    CFE_MSG_SetDefaultCCSDSPri 1 1 (some (mkMsg 0 0 0 0 0 0)) =
        some (mkMsg 0x08 0 0xC0 0 0 0) ∧
      CFE_MSG_GetHasSecondaryHeader (some (mkMsg 0x08 0 0xC0 0 0 0)) (some false) =
        (CFE_SUCCESS, some true) ∧
      CFE_MSG_GetHeaderVersion (some (mkMsg 0x08 0 0xC0 0 0 0)) (some 0) =
        (CFE_SUCCESS, some 0) ∧
      CFE_MSG_GetApId (some (mkMsg 0x08 0 0xC0 0 0 0)) (some 0) = (CFE_SUCCESS, some 0) ∧
      CFE_MSG_GetSegmentationFlag (some (mkMsg 0x08 0 0xC0 0 0 0))
          (some CFE_MSG_SegFlag_Invalid) = (CFE_SUCCESS, some CFE_MSG_SegFlag_Unsegmented) ∧
      CFE_MSG_SetDefaultCCSDSPri 1 1 (some (mkMsg 0xFF 0xFF 0 0 0 0)) =
        some (mkMsg 0xFF 0xFF 0xC0 0 0 0) ∧
      CFE_MSG_GetHeaderVersion (some (mkMsg 0xFF 0xFF 0xC0 0 0 0)) (some 0) =
        (CFE_SUCCESS, some 7) ∧
      CFE_MSG_GetApId (some (mkMsg 0xFF 0xFF 0xC0 0 0 0)) (some 0) =
        (CFE_SUCCESS, some 0x7FF) := by
  decide

/-! # Software Bus task: command dispatch -/

theorem CFE_SB_Config.mids_ne (cfg : CFE_SB_Config) (h : cfg.CaseLabelsDistinct) :
    cfg.CFE_SB_SEND_HK_MID ≠ cfg.CFE_SB_SUB_RPT_CTRL_MID ∧
      cfg.CFE_SB_SEND_HK_MID ≠ cfg.CFE_SB_CMD_MID ∧
      cfg.CFE_SB_SUB_RPT_CTRL_MID ≠ cfg.CFE_SB_CMD_MID := by
  have h1 := h.1
  simp only [List.nodup_cons, List.mem_cons, List.mem_singleton, not_or, List.not_mem_nil,
    not_false_eq_true, List.nodup_nil, and_true] at h1
  exact ⟨h1.1.1, h1.1.2, h1.2⟩

theorem incrCommandErrorCounter_SendEvent (cfg : CFE_SB_Config) (s : CFE_SB_State)
    (EventID : CFE_SB_EventID) (Args : List Int) :
    incrCommandErrorCounter cfg (CFE_EVS_SendEvent s EventID CFE_EVS_EventType_ERROR Args) =
      s.afterCommandError cfg EventID Args := rfl

/-- C18: for every packet whose MsgId is none of the three command MsgIds, or whose MsgId
is the command MsgId or the subscription report control MsgId with a function code that is
no case of that MsgId, `CFE_SB_ProcessCmdPipePkt` ends in the state that differs from the
initial one only by `CommandErrorCounter` incremented once (modulo the counter type) and by
one error event added to the trace: `CFE_SB_BAD_MSGID_EID` with the MsgId for an unknown
MsgId, `CFE_SB_BAD_CMD_CODE_EID` with the function code otherwise.  `CommandCounter`,
routing table, pipe table and reporting flag are those of the initial state, and the trace
holds no call of any handler. -/
theorem CFE_SB_ProcessCmdPipePkt_unknown_command (cfg : CFE_SB_Config) (env : CFE_SB_Env)
    (s : CFE_SB_State) (buf : CFE_SB_Buffer_t) (hcfg : cfg.CaseLabelsDistinct)
    (h : (buf.MsgId ≠ cfg.CFE_SB_CMD_MID ∧ buf.MsgId ≠ cfg.CFE_SB_SEND_HK_MID ∧
          buf.MsgId ≠ cfg.CFE_SB_SUB_RPT_CTRL_MID) ∨
        (buf.MsgId = cfg.CFE_SB_CMD_MID ∧
          buf.FcnCode ∉ [cfg.CFE_SB_NOOP_CC, cfg.CFE_SB_RESET_COUNTERS_CC,
            cfg.CFE_SB_SEND_SB_STATS_CC, cfg.CFE_SB_WRITE_ROUTING_INFO_CC,
            cfg.CFE_SB_ENABLE_ROUTE_CC, cfg.CFE_SB_DISABLE_ROUTE_CC,
            cfg.CFE_SB_WRITE_PIPE_INFO_CC, cfg.CFE_SB_WRITE_MAP_INFO_CC]) ∨
        (buf.MsgId = cfg.CFE_SB_SUB_RPT_CTRL_MID ∧
          buf.FcnCode ∉ [cfg.CFE_SB_SEND_PREV_SUBS_CC, cfg.CFE_SB_ENABLE_SUB_REPORTING_CC,
            cfg.CFE_SB_DISABLE_SUB_REPORTING_CC])) :
    CFE_SB_ProcessCmdPipePkt cfg env s buf =
      some (if buf.MsgId ≠ cfg.CFE_SB_CMD_MID ∧ buf.MsgId ≠ cfg.CFE_SB_SEND_HK_MID ∧
              buf.MsgId ≠ cfg.CFE_SB_SUB_RPT_CTRL_MID
            then s.afterCommandError cfg CFE_SB_BAD_MSGID_EID [buf.MsgId]
            else s.afterCommandError cfg CFE_SB_BAD_CMD_CODE_EID [buf.FcnCode]) := by
  obtain ⟨m1, m2, m3⟩ := cfg.mids_ne hcfg
  rcases h with ⟨h1, h2, h3⟩ | ⟨h1, h2⟩ | ⟨h1, h2⟩
  · rw [if_pos ⟨h1, h2, h3⟩]
    simp only [CFE_SB_ProcessCmdPipePkt, if_neg h1, if_neg h2, if_neg h3,
      incrCommandErrorCounter_SendEvent]
  · have hne : ¬ (buf.MsgId ≠ cfg.CFE_SB_CMD_MID ∧ buf.MsgId ≠ cfg.CFE_SB_SEND_HK_MID ∧
        buf.MsgId ≠ cfg.CFE_SB_SUB_RPT_CTRL_MID) := fun hh => hh.1 h1
    rw [if_neg hne]
    simp only [List.mem_cons, List.mem_singleton, not_or, List.not_mem_nil, or_false] at h2
    obtain ⟨c1, c2, c3, c4, c5, c6, c7, c8⟩ := h2
    have a1 : ¬ buf.MsgId = cfg.CFE_SB_SEND_HK_MID := fun e => m2 (e.symm.trans h1)
    have a2 : ¬ buf.MsgId = cfg.CFE_SB_SUB_RPT_CTRL_MID := fun e => m3 (e.symm.trans h1)
    simp only [CFE_SB_ProcessCmdPipePkt, if_neg a1, if_neg a2, if_pos h1, if_neg c1, if_neg c2,
      if_neg c3, if_neg c4, if_neg c5, if_neg c6, if_neg c7, if_neg c8,
      incrCommandErrorCounter_SendEvent]
  · have hne : ¬ (buf.MsgId ≠ cfg.CFE_SB_CMD_MID ∧ buf.MsgId ≠ cfg.CFE_SB_SEND_HK_MID ∧
        buf.MsgId ≠ cfg.CFE_SB_SUB_RPT_CTRL_MID) := fun hh => hh.2.2 h1
    rw [if_neg hne]
    simp only [List.mem_cons, List.mem_singleton, not_or, List.not_mem_nil, or_false] at h2
    obtain ⟨c1, c2, c3⟩ := h2
    have a1 : ¬ buf.MsgId = cfg.CFE_SB_SEND_HK_MID := fun e => m1 (e.symm.trans h1)
    simp only [CFE_SB_ProcessCmdPipePkt, if_neg a1, if_pos h1, if_neg c1, if_neg c2, if_neg c3,
      incrCommandErrorCounter_SendEvent]

/-- Instance of the unknown command case: function code 6 on the command MsgId, with
`CommandErrorCounter` at 255 wrapping to 0. -/
theorem CFE_SB_ProcessCmdPipePkt_unknown_command_witness :
    CFE_SB_ProcessCmdPipePkt sampleConfig sampleEnv sampleState
        (sampleBuffer 0x1803 6 8 0 0) =
      some (if (sampleBuffer 0x1803 6 8 0 0).MsgId ≠ sampleConfig.CFE_SB_CMD_MID ∧
              (sampleBuffer 0x1803 6 8 0 0).MsgId ≠ sampleConfig.CFE_SB_SEND_HK_MID ∧
              (sampleBuffer 0x1803 6 8 0 0).MsgId ≠ sampleConfig.CFE_SB_SUB_RPT_CTRL_MID
            then sampleState.afterCommandError sampleConfig CFE_SB_BAD_MSGID_EID
              [(sampleBuffer 0x1803 6 8 0 0).MsgId]
            else sampleState.afterCommandError sampleConfig CFE_SB_BAD_CMD_CODE_EID
              [(sampleBuffer 0x1803 6 8 0 0).FcnCode]) :=
  CFE_SB_ProcessCmdPipePkt_unknown_command sampleConfig sampleEnv sampleState
    (sampleBuffer 0x1803 6 8 0 0) (by decide) (by decide)

/-! # Software Bus task: command length check -/

theorem CFE_MSG_GetSize_eq (m : CFE_MSG_Message_t) (old : Nat) :
    CFE_MSG_GetSize (some m) (some old) =
      (CFE_SUCCESS,
        some (256 * m.CCSDS.Pri.Length.1.val + m.CCSDS.Pri.Length.2.val + 7)) := by
  have h1 := m.CCSDS.Pri.Length.1.isLt
  have h2 := m.CCSDS.Pri.Length.2.isLt
  simp only [CFE_MSG_GetSize, shl_8, CFE_MSG_SIZE_OFFSET]
  have e : (m.CCSDS.Pri.Length.1.val * 256 + m.CCSDS.Pri.Length.2.val + 7) % 4294967296 =
      256 * m.CCSDS.Pri.Length.1.val + m.CCSDS.Pri.Length.2.val + 7 := by omega
  rw [e]

/-- Result of the length check in terms of the size decoded from the header. -/
theorem CFE_SB_VerifyCmdLength_eq (cfg : CFE_SB_Config) (s : CFE_SB_State)
    (buf : CFE_SB_Buffer_t) (ExpectedLength : Nat) :
    CFE_SB_VerifyCmdLength cfg s buf ExpectedLength =
      if ExpectedLength ≠
          256 * buf.Msg.CCSDS.Pri.Length.1.val + buf.Msg.CCSDS.Pri.Length.2.val + 7 then
        (false, s.afterCommandError cfg CFE_SB_LEN_ERR_EID
          [(buf.MsgId : Int), (buf.FcnCode : Int),
            ((256 * buf.Msg.CCSDS.Pri.Length.1.val + buf.Msg.CCSDS.Pri.Length.2.val + 7 : Nat)
              : Int),
            (ExpectedLength : Int)])
      else (true, s) := by
  simp only [CFE_SB_VerifyCmdLength, CFE_MSG_GetSize_eq, Option.getD_some,
    incrCommandErrorCounter_SendEvent]

theorem CFE_SB_Config.labels_ne (cfg : CFE_SB_Config) (h : cfg.CaseLabelsDistinct) :
    (¬ cfg.CFE_SB_SUB_RPT_CTRL_MID = cfg.CFE_SB_SEND_HK_MID ∧
      ¬ cfg.CFE_SB_CMD_MID = cfg.CFE_SB_SEND_HK_MID ∧
      ¬ cfg.CFE_SB_CMD_MID = cfg.CFE_SB_SUB_RPT_CTRL_MID) ∧
    [cfg.CFE_SB_DISABLE_SUB_REPORTING_CC, cfg.CFE_SB_ENABLE_SUB_REPORTING_CC,
      cfg.CFE_SB_SEND_PREV_SUBS_CC].Nodup ∧
    [cfg.CFE_SB_WRITE_MAP_INFO_CC, cfg.CFE_SB_WRITE_PIPE_INFO_CC, cfg.CFE_SB_DISABLE_ROUTE_CC,
      cfg.CFE_SB_ENABLE_ROUTE_CC, cfg.CFE_SB_WRITE_ROUTING_INFO_CC,
      cfg.CFE_SB_SEND_SB_STATS_CC, cfg.CFE_SB_RESET_COUNTERS_CC, cfg.CFE_SB_NOOP_CC].Nodup := by
  obtain ⟨m1, m2, m3⟩ := cfg.mids_ne h
  refine ⟨⟨fun e => m1 e.symm, fun e => m2 e.symm, fun e => m3 e.symm⟩, ?_, ?_⟩
  · have := List.nodup_reverse.2 h.2.1
    simpa using this
  · have := List.nodup_reverse.2 h.2.2
    simpa using this

/-- C19: for every packet whose MsgId and function code are a row of the dispatch table
and whose size decoded from the header differs from the size of the command structure of
that row, `CFE_SB_ProcessCmdPipePkt` ends in the state that differs from the initial one
only by `CommandErrorCounter` incremented once (modulo the counter type) and by one
`CFE_SB_LEN_ERR_EID` error event carrying MsgId, function code, actual and expected size:
no handler has run, `CommandCounter`, reporting flag, routing table and pipe table are
unchanged.  And `CFE_SB_VerifyCmdLength` answers true exactly when the expected length is
the size decoded from the header, and then returns the state unchanged. -/
theorem CFE_SB_ProcessCmdPipePkt_bad_length (cfg : CFE_SB_Config) (env : CFE_SB_Env)
    (s : CFE_SB_State) (buf : CFE_SB_Buffer_t) (L : Nat) (hcfg : cfg.CaseLabelsDistinct)
    (hrow : (buf.MsgId, buf.FcnCode, L) ∈ CFE_SB_CmdLengthTable cfg)
    (hlen : L ≠ 256 * buf.Msg.CCSDS.Pri.Length.1.val + buf.Msg.CCSDS.Pri.Length.2.val + 7) :
    CFE_SB_ProcessCmdPipePkt cfg env s buf =
        some (s.afterCommandError cfg CFE_SB_LEN_ERR_EID
          [(buf.MsgId : Int), (buf.FcnCode : Int),
            ((256 * buf.Msg.CCSDS.Pri.Length.1.val + buf.Msg.CCSDS.Pri.Length.2.val + 7 : Nat)
              : Int),
            (L : Int)]) ∧
      ∀ (s1 : CFE_SB_State) (ExpectedLength : Nat),
        ((CFE_SB_VerifyCmdLength cfg s1 buf ExpectedLength).1 = true ↔
          ExpectedLength =
            256 * buf.Msg.CCSDS.Pri.Length.1.val + buf.Msg.CCSDS.Pri.Length.2.val + 7) ∧
        ((CFE_SB_VerifyCmdLength cfg s1 buf ExpectedLength).1 = true →
          (CFE_SB_VerifyCmdLength cfg s1 buf ExpectedLength).2 = s1) := by
  obtain ⟨⟨m1, m2, m3⟩, hsub, hcmd⟩ := cfg.labels_ne hcfg
  simp only [List.nodup_cons, List.mem_cons, List.mem_singleton, not_or, List.not_mem_nil,
    not_false_eq_true, List.nodup_nil, and_true, or_false] at hsub hcmd
  constructor
  · simp only [CFE_SB_CmdLengthTable, List.mem_cons, List.mem_singleton, Prod.mk.injEq,
      List.not_mem_nil, or_false] at hrow
    rcases hrow with ⟨e1, e2, e3⟩ | ⟨e1, e2, e3⟩ | ⟨e1, e2, e3⟩ | ⟨e1, e2, e3⟩ | ⟨e1, e2, e3⟩ |
      ⟨e1, e2, e3⟩ | ⟨e1, e2, e3⟩ | ⟨e1, e2, e3⟩ | ⟨e1, e2, e3⟩ | ⟨e1, e2, e3⟩ | ⟨e1, e2, e3⟩
    all_goals
      rw [e3] at hlen
      simp [CFE_SB_ProcessCmdPipePkt, CFE_SB_VerifyCmdLength_eq, e1, e2, e3, m1, m2, m3, hsub,
        hcmd, hlen]
  · intro s1 E
    rw [CFE_SB_VerifyCmdLength_eq]
    by_cases hE : E = 256 * buf.Msg.CCSDS.Pri.Length.1.val + buf.Msg.CCSDS.Pri.Length.2.val + 7
    · simp [hE]
    · simp [hE]

/-- Instance of the length check: an enable route command (structure size 16) whose header
says 17 bytes. -/
theorem CFE_SB_ProcessCmdPipePkt_bad_length_witness :
    CFE_SB_ProcessCmdPipePkt sampleConfig sampleEnv sampleState
        (sampleBuffer 0x1803 4 17 0x1000 0x101) =
      some (sampleState.afterCommandError sampleConfig CFE_SB_LEN_ERR_EID
        [0x1803, 4, 17, 16]) :=
  (CFE_SB_ProcessCmdPipePkt_bad_length sampleConfig sampleEnv sampleState
    (sampleBuffer 0x1803 4 17 0x1000 0x101) 16 (by decide) (by decide) (by decide)).1

/-! # Software Bus task: enable route and disable route -/

theorem lookups_after_lock (cfg : CFE_SB_Config) (s : CFE_SB_State) (p : Nat) (m : Nat) :
    CFE_SB_LocatePipeDescByID cfg (CFE_SB_LockSharedData s) p =
        CFE_SB_LocatePipeDescByID cfg s p ∧
      (∀ q, CFE_SB_PipeDescIsMatch cfg (CFE_SB_LockSharedData s) q p =
        CFE_SB_PipeDescIsMatch cfg s q p) ∧
      CFE_SBR_GetRouteId (CFE_SB_LockSharedData s) m = CFE_SBR_GetRouteId s m ∧
      (∀ r, CFE_SB_GetDestPtr (CFE_SB_LockSharedData s) r p = CFE_SB_GetDestPtr s r p) :=
  ⟨rfl, fun _ => rfl, rfl, fun _ => rfl⟩

/-- C20: outcome of the enable route and of the disable route handler, for every state and
every payload (MsgId, Pipe).  Both return `CFE_SUCCESS`.  (a) When the MsgId is invalid or
the pipe descriptor does not match, whatever the routing table holds: one RTE3 error event
and `CommandErrorCounter` incremented once.  (b) When the parameters are valid and no
destination is found: one RTE1 error event and `CommandErrorCounter` incremented once.
(c) When the destination is found: one RTE2 debug event and `CommandCounter` incremented
once, the routing table being the one with the destination flag set.  In each case the
trace grows by lock, unlock and that single event, and the other counter and the rest of
the state are unchanged. -/
theorem CFE_SB_RouteCmd_outcomes (cfg : CFE_SB_Config) (s : CFE_SB_State)
    (data : CFE_SB_Buffer_t) :
    (CFE_SB_EnableRouteCmd cfg s data).1 = CFE_SUCCESS ∧
    (CFE_SB_DisableRouteCmd cfg s data).1 = CFE_SUCCESS ∧
    (CFE_SB_RouteCmdParamsValid cfg s data.RouteCmd = false →
      (CFE_SB_EnableRouteCmd cfg s data).2 =
          s.afterRouteCommandError cfg CFE_SB_ENBL_RTE3_EID
            [(data.RouteCmd.MsgId : Int), (data.RouteCmd.Pipe : Int)] ∧
        (CFE_SB_DisableRouteCmd cfg s data).2 =
          s.afterRouteCommandError cfg CFE_SB_DSBL_RTE3_EID
            [(data.RouteCmd.MsgId : Int), (data.RouteCmd.Pipe : Int)]) ∧
    (CFE_SB_RouteCmdParamsValid cfg s data.RouteCmd = true →
      CFE_SB_GetDestPtr s (CFE_SBR_GetRouteId s data.RouteCmd.MsgId) data.RouteCmd.Pipe
          = none →
      (CFE_SB_EnableRouteCmd cfg s data).2 =
          s.afterRouteCommandError cfg CFE_SB_ENBL_RTE1_EID
            [(data.RouteCmd.MsgId : Int), (data.RouteCmd.Pipe : Int)] ∧
        (CFE_SB_DisableRouteCmd cfg s data).2 =
          s.afterRouteCommandError cfg CFE_SB_DSBL_RTE1_EID
            [(data.RouteCmd.MsgId : Int), (data.RouteCmd.Pipe : Int)]) ∧
    (∀ DestPtr : Nat × Nat,
      CFE_SB_RouteCmdParamsValid cfg s data.RouteCmd = true →
      CFE_SB_GetDestPtr s (CFE_SBR_GetRouteId s data.RouteCmd.MsgId) data.RouteCmd.Pipe
          = some DestPtr →
      (CFE_SB_EnableRouteCmd cfg s data).2 =
          s.afterRouteCommandDone cfg (setDestActive s DestPtr CFE_SB_ACTIVE).RoutingTbl
            CFE_SB_ENBL_RTE2_EID [(data.RouteCmd.MsgId : Int), (data.RouteCmd.Pipe : Int)] ∧
        (CFE_SB_DisableRouteCmd cfg s data).2 =
          s.afterRouteCommandDone cfg (setDestActive s DestPtr CFE_SB_INACTIVE).RoutingTbl
            CFE_SB_DSBL_RTE2_EID [(data.RouteCmd.MsgId : Int), (data.RouteCmd.Pipe : Int)]) := by
  obtain ⟨l1, l2, l3, l4⟩ :=
    lookups_after_lock cfg s data.RouteCmd.Pipe data.RouteCmd.MsgId
  refine ⟨rfl, rfl, ?_, ?_, ?_⟩
  · intro hv
    have hc : (!cfg.CFE_SB_IsValidMsgId data.RouteCmd.MsgId ||
        !CFE_SB_PipeDescIsMatch cfg s (CFE_SB_LocatePipeDescByID cfg s data.RouteCmd.Pipe)
          data.RouteCmd.Pipe) = true := by
      simp only [CFE_SB_RouteCmdParamsValid] at hv
      revert hv
      cases cfg.CFE_SB_IsValidMsgId data.RouteCmd.MsgId <;>
        cases CFE_SB_PipeDescIsMatch cfg s (CFE_SB_LocatePipeDescByID cfg s data.RouteCmd.Pipe)
          data.RouteCmd.Pipe <;> simp
    constructor
    · simp only [CFE_SB_EnableRouteCmd, l1, l2, hc, if_true]
      simp [CFE_EVS_SendEvent, CFE_SB_UnlockSharedData, CFE_SB_LockSharedData,
        incrCommandErrorCounter, incrCommandCounter, CFE_SB_State.emit, CFE_SB_State.setHK,
        CFE_SB_State.afterRouteCommandError, CFE_SB_State.afterRouteCommandDone, setDestActive]
    · simp only [CFE_SB_DisableRouteCmd, l1, l2, hc, if_true]
      simp [CFE_EVS_SendEvent, CFE_SB_UnlockSharedData, CFE_SB_LockSharedData,
        incrCommandErrorCounter, incrCommandCounter, CFE_SB_State.emit, CFE_SB_State.setHK,
        CFE_SB_State.afterRouteCommandError, CFE_SB_State.afterRouteCommandDone, setDestActive]
  · intro hv hd
    have hc : (!cfg.CFE_SB_IsValidMsgId data.RouteCmd.MsgId ||
        !CFE_SB_PipeDescIsMatch cfg s (CFE_SB_LocatePipeDescByID cfg s data.RouteCmd.Pipe)
          data.RouteCmd.Pipe) = false := by
      simp only [CFE_SB_RouteCmdParamsValid] at hv
      revert hv
      cases cfg.CFE_SB_IsValidMsgId data.RouteCmd.MsgId <;>
        cases CFE_SB_PipeDescIsMatch cfg s (CFE_SB_LocatePipeDescByID cfg s data.RouteCmd.Pipe)
          data.RouteCmd.Pipe <;> simp
    constructor
    · simp only [CFE_SB_EnableRouteCmd, l1, l2, l3, l4, hc, hd]
      simp [CFE_EVS_SendEvent, CFE_SB_UnlockSharedData, CFE_SB_LockSharedData,
        incrCommandErrorCounter, incrCommandCounter, CFE_SB_State.emit, CFE_SB_State.setHK,
        CFE_SB_State.afterRouteCommandError, CFE_SB_State.afterRouteCommandDone, setDestActive]
    · simp only [CFE_SB_DisableRouteCmd, l1, l2, l3, l4, hc, hd]
      simp [CFE_EVS_SendEvent, CFE_SB_UnlockSharedData, CFE_SB_LockSharedData,
        incrCommandErrorCounter, incrCommandCounter, CFE_SB_State.emit, CFE_SB_State.setHK,
        CFE_SB_State.afterRouteCommandError, CFE_SB_State.afterRouteCommandDone, setDestActive]
  · intro DestPtr hv hd
    have hc : (!cfg.CFE_SB_IsValidMsgId data.RouteCmd.MsgId ||
        !CFE_SB_PipeDescIsMatch cfg s (CFE_SB_LocatePipeDescByID cfg s data.RouteCmd.Pipe)
          data.RouteCmd.Pipe) = false := by
      simp only [CFE_SB_RouteCmdParamsValid] at hv
      revert hv
      cases cfg.CFE_SB_IsValidMsgId data.RouteCmd.MsgId <;>
        cases CFE_SB_PipeDescIsMatch cfg s (CFE_SB_LocatePipeDescByID cfg s data.RouteCmd.Pipe)
          data.RouteCmd.Pipe <;> simp
    constructor
    · simp only [CFE_SB_EnableRouteCmd, l1, l2, l3, l4, hc, hd]
      simp [CFE_EVS_SendEvent, CFE_SB_UnlockSharedData, CFE_SB_LockSharedData,
        incrCommandErrorCounter, incrCommandCounter, CFE_SB_State.emit, CFE_SB_State.setHK,
        CFE_SB_State.afterRouteCommandError, CFE_SB_State.afterRouteCommandDone, setDestActive]
    · simp only [CFE_SB_DisableRouteCmd, l1, l2, l3, l4, hc, hd]
      simp [CFE_EVS_SendEvent, CFE_SB_UnlockSharedData, CFE_SB_LockSharedData,
        incrCommandErrorCounter, incrCommandCounter, CFE_SB_State.emit, CFE_SB_State.setHK,
        CFE_SB_State.afterRouteCommandError, CFE_SB_State.afterRouteCommandDone, setDestActive]

/-- Instance of the route command outcomes on the sample state: the destination of MsgId
0x1000 on pipe 0x101 exists (route 0, position 1), so both handlers send their RTE2 debug
event and increment `CommandCounter`. -/
theorem CFE_SB_RouteCmd_outcomes_witness :
    (CFE_SB_EnableRouteCmd sampleConfig sampleState (sampleBuffer 0x1803 4 16 0x1000 0x101)).2 =
        sampleState.afterRouteCommandDone sampleConfig
          (setDestActive sampleState (0, 1) CFE_SB_ACTIVE).RoutingTbl
          CFE_SB_ENBL_RTE2_EID [0x1000, 0x101] ∧
      (CFE_SB_DisableRouteCmd sampleConfig sampleState
          (sampleBuffer 0x1803 4 16 0x1000 0x101)).2 =
        sampleState.afterRouteCommandDone sampleConfig
          (setDestActive sampleState (0, 1) CFE_SB_INACTIVE).RoutingTbl
          CFE_SB_DSBL_RTE2_EID [0x1000, 0x101] :=
  (CFE_SB_RouteCmd_outcomes sampleConfig sampleState
    (sampleBuffer 0x1803 4 16 0x1000 0x101)).2.2.2.2 (0, 1) (by decide) (by decide)

/-! # Software Bus task: reset counters, housekeeping request, subscription report -/

/-- C22: for every state and every reset counters command of the correct length,
`CFE_SB_ProcessCmdPipePkt` ends in the state whose eleven housekeeping counters are all 0
(`CommandCounter` is 0, it is not incremented afterwards) whatever they were before, with
one debug event added to the trace; `MemInUse`, `UnmarkedMem`, `MemPoolHandle`, the
reporting flag, the pipe table and the routing table are unchanged. -/
theorem CFE_SB_ProcessCmdPipePkt_reset_counters (cfg : CFE_SB_Config) (env : CFE_SB_Env)
    (s : CFE_SB_State) (buf : CFE_SB_Buffer_t) (hcfg : cfg.CaseLabelsDistinct)
    (hmid : buf.MsgId = cfg.CFE_SB_CMD_MID)
    (hcc : buf.FcnCode = cfg.CFE_SB_RESET_COUNTERS_CC)
    (hlen : cfg.sizeof_CFE_SB_ResetCountersCmd_t =
      256 * buf.Msg.CCSDS.Pri.Length.1.val + buf.Msg.CCSDS.Pri.Length.2.val + 7) :
    CFE_SB_ProcessCmdPipePkt cfg env s buf = some s.afterResetCounters := by
  obtain ⟨⟨m1, m2, m3⟩, hsub, hcmd⟩ := cfg.labels_ne hcfg
  simp only [List.nodup_cons, List.mem_cons, List.mem_singleton, not_or, List.not_mem_nil,
    not_false_eq_true, List.nodup_nil, and_true, or_false] at hsub hcmd
  simp [CFE_SB_ProcessCmdPipePkt, CFE_SB_VerifyCmdLength_eq, hmid, hcc, m2, m3, hcmd, hlen,
    CFE_SB_ResetCountersCmd, CFE_SB_ResetCounters, CFE_EVS_SendEvent, CFE_SB_State.emit,
    CFE_SB_State.setHK, CFE_SB_State.afterResetCounters]

/-- Instance of the reset: sample state with counters 3, 255 and 1. -/
theorem CFE_SB_ProcessCmdPipePkt_reset_counters_witness :
    CFE_SB_ProcessCmdPipePkt sampleConfig sampleEnv sampleState (sampleBuffer 0x1803 1 8 0 0) =
      some sampleState.afterResetCounters :=
  CFE_SB_ProcessCmdPipePkt_reset_counters sampleConfig sampleEnv sampleState
    (sampleBuffer 0x1803 1 8 0 0) (by decide) (by decide) (by decide) (by decide)

/-- C23: for every state and every packet whose MsgId is the housekeeping request MsgId,
whatever its function code and its length, `CFE_SB_ProcessCmdPipePkt` ends in the state
where `MemInUse` is the statistics packet value, `UnmarkedMem` is the buffer memory size
minus the statistics packet peak (computed in `uint32`), the trace has grown by lock,
unlock, time stamp and exactly one transmit of the housekeeping packet, and neither command
counter has changed.  For `uint32` operands the difference is exact when the peak does not
exceed the buffer memory size, and is `2 ^ 32` more than the (negative) difference
otherwise. -/
theorem CFE_SB_ProcessCmdPipePkt_send_hk (cfg : CFE_SB_Config) (env : CFE_SB_Env)
    (s : CFE_SB_State) (buf : CFE_SB_Buffer_t) (hmid : buf.MsgId = cfg.CFE_SB_SEND_HK_MID) :
    CFE_SB_ProcessCmdPipePkt cfg env s buf = some (s.afterSendHK cfg) ∧
      (s.afterSendHK cfg).CFE_SB_Global.HKTlmMsg.Payload.MemInUse =
        s.CFE_SB_Global.StatTlmMsg.Payload.MemInUse ∧
      (s.afterSendHK cfg).CFE_SB_Global.HKTlmMsg.Payload.CommandCounter =
        s.CFE_SB_Global.HKTlmMsg.Payload.CommandCounter ∧
      (s.afterSendHK cfg).CFE_SB_Global.HKTlmMsg.Payload.CommandErrorCounter =
        s.CFE_SB_Global.HKTlmMsg.Payload.CommandErrorCounter ∧
      (cfg.CFE_PLATFORM_SB_BUF_MEMORY_BYTES < 4294967296 →
        s.CFE_SB_Global.StatTlmMsg.Payload.PeakMemInUse < 4294967296 →
        (s.afterSendHK cfg).CFE_SB_Global.HKTlmMsg.Payload.UnmarkedMem =
          if s.CFE_SB_Global.StatTlmMsg.Payload.PeakMemInUse ≤
              cfg.CFE_PLATFORM_SB_BUF_MEMORY_BYTES
          then cfg.CFE_PLATFORM_SB_BUF_MEMORY_BYTES -
            s.CFE_SB_Global.StatTlmMsg.Payload.PeakMemInUse
          else cfg.CFE_PLATFORM_SB_BUF_MEMORY_BYTES + 4294967296 -
            s.CFE_SB_Global.StatTlmMsg.Payload.PeakMemInUse) := by
  refine ⟨?_, rfl, rfl, rfl, ?_⟩
  · simp [CFE_SB_ProcessCmdPipePkt, hmid, CFE_SB_SendHKTlmCmd, CFE_SB_TransmitMsg,
      CFE_SB_TimeStampMsg, CFE_SB_UnlockSharedData, CFE_SB_LockSharedData, CFE_SB_State.emit,
      CFE_SB_State.setHK, CFE_SB_State.afterSendHK, CFE_SB_State.housekeepingPayload]
  · intro hB hP
    simp only [CFE_SB_State.afterSendHK, CFE_SB_State.housekeepingPayload]
    split_ifs <;> omega

/-- Instance of the housekeeping request on the sample state: function code 77 and a
header size of 9 bytes are accepted, `UnmarkedMem` becomes 524288 - 200. -/
theorem CFE_SB_ProcessCmdPipePkt_send_hk_witness :
    CFE_SB_ProcessCmdPipePkt sampleConfig sampleEnv sampleState (sampleBuffer 0x180B 77 9 0 0) =
        some (sampleState.afterSendHK sampleConfig) ∧
      (sampleState.afterSendHK sampleConfig).CFE_SB_Global.HKTlmMsg.Payload.UnmarkedMem =
        524088 :=
  ⟨(CFE_SB_ProcessCmdPipePkt_send_hk sampleConfig sampleEnv sampleState
      (sampleBuffer 0x180B 77 9 0 0) (by decide)).1, by decide⟩

/-- C27: `CFE_SB_SendSubscriptionReport`.  When the reporting flag is not
`CFE_SB_ENABLE` the state (trace included) is unchanged and the result is `CFE_SUCCESS`.
When it is `CFE_SB_ENABLE` the trace grows by exactly one transmit, of the single
subscription packet with payload MsgId, Pipe, Qos and SubType `CFE_SB_SUBSCRIPTION`,
followed by the debug event, and the result is the status answered by that transmit.  The
flag tested is the member written by `CFE_SB_SetSubscriptionReporting`, hence by the enable
and disable subscription reporting handlers. -/
theorem CFE_SB_SendSubscriptionReport_spec (env : CFE_SB_Env) (s : CFE_SB_State)
    (MsgId PipeId : Nat) (Quality : CFE_SB_Qos_t) :
    (s.CFE_SB_Global.SubscriptionReporting ≠ CFE_SB_ENABLE →
      CFE_SB_SendSubscriptionReport env s MsgId PipeId Quality = (CFE_SUCCESS, s)) ∧
    (s.CFE_SB_Global.SubscriptionReporting = CFE_SB_ENABLE →
      CFE_SB_SendSubscriptionReport env s MsgId PipeId Quality =
        (env.CFE_SB_TransmitMsg s.Trace
            (CFE_SB_TlmMsg.SubRptMsg
              { SubType := CFE_SB_SUBSCRIPTION, MsgId := MsgId, Qos := Quality,
                Pipe := PipeId }),
          { s with Trace := s.Trace ++
              [CFE_SB_Effect.TransmitMsg
                (CFE_SB_TlmMsg.SubRptMsg
                  { SubType := CFE_SB_SUBSCRIPTION, MsgId := MsgId, Qos := Quality,
                    Pipe := PipeId }),
               CFE_SB_Effect.SendEventWithAppID CFE_SB_SUBSCRIPTION_RPT_EID
                 CFE_EVS_EventType_DEBUG s.CFE_SB_Global.AppId
                 [(MsgId : Int), (PipeId : Int)]] })) ∧
    (CFE_SB_EnableSubReportingCmd s).2.CFE_SB_Global.SubscriptionReporting = CFE_SB_ENABLE ∧
    (CFE_SB_DisableSubReportingCmd s).2.CFE_SB_Global.SubscriptionReporting = CFE_SB_DISABLE ∧
    CFE_SB_SendSubscriptionReport env (CFE_SB_DisableSubReportingCmd s).2 MsgId PipeId Quality =
      (CFE_SUCCESS, (CFE_SB_DisableSubReportingCmd s).2) ∧
    (CFE_SB_SendSubscriptionReport env (CFE_SB_EnableSubReportingCmd s).2 MsgId PipeId
        Quality).2.Trace =
      s.Trace ++
        [CFE_SB_Effect.TransmitMsg
          (CFE_SB_TlmMsg.SubRptMsg
            { SubType := CFE_SB_SUBSCRIPTION, MsgId := MsgId, Qos := Quality, Pipe := PipeId }),
         CFE_SB_Effect.SendEventWithAppID CFE_SB_SUBSCRIPTION_RPT_EID
           CFE_EVS_EventType_DEBUG s.CFE_SB_Global.AppId [(MsgId : Int), (PipeId : Int)]] := by
  refine ⟨?_, ?_, rfl, rfl, ?_, ?_⟩
  · intro h
    simp [CFE_SB_SendSubscriptionReport, h]
  · intro h
    simp [CFE_SB_SendSubscriptionReport, h, CFE_SB_TransmitMsg, CFE_SB_State.emit]
  · simp [CFE_SB_SendSubscriptionReport, CFE_SB_DisableSubReportingCmd,
      CFE_SB_SetSubscriptionReporting]
  · simp [CFE_SB_SendSubscriptionReport, CFE_SB_EnableSubReportingCmd,
      CFE_SB_SetSubscriptionReporting, CFE_SB_TransmitMsg, CFE_SB_State.emit]

/-- Instance of the subscription report on the sample state, where reporting is disabled:
nothing happens; after the enable handler one packet is transmitted. -/
theorem CFE_SB_SendSubscriptionReport_spec_witness :
    CFE_SB_SendSubscriptionReport sampleEnv sampleState 0x1000 0x100
        { Priority := 0, Reliability := 0 } = (CFE_SUCCESS, sampleState) :=
  (CFE_SB_SendSubscriptionReport_spec sampleEnv sampleState 0x1000 0x100
    { Priority := 0, Reliability := 0 }).1 (by decide)

/-! # Software Bus task: effect of the route commands on the routing table -/

theorem setDestActive_RoutingTbl (s : CFE_SB_State) (DestPtr : Nat × Nat)
    (Active : CFE_SB_ActiveState) :
    (setDestActive s DestPtr Active).RoutingTbl =
      CFE_SB_tableWithActive s.RoutingTbl DestPtr Active := by
  apply List.ext_getElem?
  intro i
  simp only [setDestActive, CFE_SB_tableWithActive, List.getElem?_modify, List.getElem?_mapIdx]
  cases hi : s.RoutingTbl[i]? with
  | none => rfl
  | some r =>
    simp only [Option.map_eq_map, Option.map_some', Option.some.injEq]
    by_cases h1 : DestPtr.1 = i
    · simp only [h1, if_true, true_and]
      congr 1
      apply List.ext_getElem?
      intro j
      simp only [List.getElem?_modify, List.getElem?_mapIdx]
      cases hj : r.DestList[j]? with
      | none => rfl
      | some d =>
        simp only [Option.map_eq_map, Option.map_some', Option.some.injEq]
        by_cases h2 : DestPtr.2 = j
        · simp [h2]
        · have h2' : ¬ j = DestPtr.2 := fun e => h2 e.symm
          simp [h2, h2']
    · have h1' : ¬ i = DestPtr.1 := fun e => h1 e.symm
      simp only [h1, if_false, h1', false_and]
      cases r with
      | mk m l =>
        simp only [CFE_SBR_RouteEntry_t.mk.injEq, true_and]
        apply List.ext_getElem?
        intro j
        simp only [List.getElem?_mapIdx]
        cases hj : l[j]? with
        | none => rfl
        | some d => rfl

theorem CFE_SB_tableWithActive_twice (T : List CFE_SBR_RouteEntry_t) (DestPtr : Nat × Nat)
    (a b : CFE_SB_ActiveState) :
    CFE_SB_tableWithActive (CFE_SB_tableWithActive T DestPtr b) DestPtr a =
      CFE_SB_tableWithActive T DestPtr a := by
  apply List.ext_getElem?
  intro i
  simp only [CFE_SB_tableWithActive, List.getElem?_mapIdx]
  cases hi : T[i]? with
  | none => rfl
  | some r =>
    simp only [Option.map_some', Option.some.injEq, CFE_SBR_RouteEntry_t.mk.injEq, true_and]
    apply List.ext_getElem?
    intro j
    simp only [List.getElem?_mapIdx]
    cases hj : r.DestList[j]? with
    | none => rfl
    | some d =>
      simp only [Option.map_some', Option.some.injEq]
      by_cases h : i = DestPtr.1 ∧ j = DestPtr.2
      · simp [h]
      · simp [h]

theorem findIdx_modify {α : Type} (p : α → Bool) (f : α → α) (h : ∀ a, p (f a) = p a) :
    ∀ (n : Nat) (l : List α), (List.modify f n l).findIdx p = l.findIdx p := by
  intro n l
  induction l generalizing n with
  | nil => cases n <;> rfl
  | cons a l ih =>
    cases n with
    | zero => simp [List.modify_zero_cons, List.findIdx_cons, h]
    | succ n => rw [List.modify_succ_cons]; simp only [List.findIdx_cons, ih]

theorem lookups_congr (cfg : CFE_SB_Config) (s t : CFE_SB_State)
    (hP : t.CFE_SB_Global.PipeTbl = s.CFE_SB_Global.PipeTbl)
    (hR : t.RoutingTbl = s.RoutingTbl) (p : CFE_SB_RouteCmd_Payload_t) :
    CFE_SB_RouteCmdParamsValid cfg t p = CFE_SB_RouteCmdParamsValid cfg s p ∧
      CFE_SB_GetDestPtr t (CFE_SBR_GetRouteId t p.MsgId) p.Pipe =
        CFE_SB_GetDestPtr s (CFE_SBR_GetRouteId s p.MsgId) p.Pipe := by
  simp only [CFE_SB_RouteCmdParamsValid, CFE_SB_PipeDescIsMatch, CFE_SB_LocatePipeDescByID,
    CFE_SB_GetDestPtr, CFE_SBR_GetRouteId, CFE_SBR_GetDestListHeadPtr, hP, hR, and_self]

theorem lookups_setDestActive (cfg : CFE_SB_Config) (s : CFE_SB_State) (DestPtr : Nat × Nat)
    (Active : CFE_SB_ActiveState) (p : CFE_SB_RouteCmd_Payload_t) :
    CFE_SB_RouteCmdParamsValid cfg (setDestActive s DestPtr Active) p =
        CFE_SB_RouteCmdParamsValid cfg s p ∧
      CFE_SB_GetDestPtr (setDestActive s DestPtr Active)
          (CFE_SBR_GetRouteId (setDestActive s DestPtr Active) p.MsgId) p.Pipe =
        CFE_SB_GetDestPtr s (CFE_SBR_GetRouteId s p.MsgId) p.Pipe := by
  refine ⟨rfl, ?_⟩
  have hroute : CFE_SBR_GetRouteId (setDestActive s DestPtr Active) p.MsgId =
      CFE_SBR_GetRouteId s p.MsgId := by
    simp only [CFE_SBR_GetRouteId, setDestActive, List.length_modify]
    rw [findIdx_modify]
    intro a
    rfl
  rw [hroute]
  cases CFE_SBR_GetRouteId s p.MsgId with
  | none => rfl
  | some i =>
    simp only [CFE_SB_GetDestPtr, CFE_SBR_GetDestListHeadPtr, setDestActive,
      List.getElem?_modify]
    cases s.RoutingTbl[i]? with
    | none => rfl
    | some r =>
      simp only [Option.map_eq_map, Option.map_some']
      by_cases h1 : DestPtr.1 = i
      · simp only [h1, if_true, List.length_modify]
        rw [findIdx_modify]
        intro a
        rfl
      · simp only [h1, if_false]

theorem routeCmd_check_eq (cfg : CFE_SB_Config) (s : CFE_SB_State)
    (p : CFE_SB_RouteCmd_Payload_t) :
    (!cfg.CFE_SB_IsValidMsgId p.MsgId ||
        !CFE_SB_PipeDescIsMatch cfg s (CFE_SB_LocatePipeDescByID cfg s p.Pipe) p.Pipe) =
      !CFE_SB_RouteCmdParamsValid cfg s p := by
  simp only [CFE_SB_RouteCmdParamsValid]
  cases cfg.CFE_SB_IsValidMsgId p.MsgId <;>
    cases CFE_SB_PipeDescIsMatch cfg s (CFE_SB_LocatePipeDescByID cfg s p.Pipe) p.Pipe <;> rfl

theorem CFE_SB_EnableRouteCmd_tables (cfg : CFE_SB_Config) (s : CFE_SB_State)
    (data : CFE_SB_Buffer_t) :
    (CFE_SB_EnableRouteCmd cfg s data).2.CFE_SB_Global.PipeTbl = s.CFE_SB_Global.PipeTbl ∧
      (CFE_SB_EnableRouteCmd cfg s data).2.RoutingTbl =
        if CFE_SB_RouteCmdParamsValid cfg s data.RouteCmd = true then
          (CFE_SB_GetDestPtr s (CFE_SBR_GetRouteId s data.RouteCmd.MsgId)
            data.RouteCmd.Pipe).elim s.RoutingTbl
            (fun DestPtr => (setDestActive s DestPtr CFE_SB_ACTIVE).RoutingTbl)
        else s.RoutingTbl := by
  obtain ⟨l1, l2, l3, l4⟩ :=
    lookups_after_lock cfg s data.RouteCmd.Pipe data.RouteCmd.MsgId
  have hc := routeCmd_check_eq cfg s data.RouteCmd
  cases hv : CFE_SB_RouteCmdParamsValid cfg s data.RouteCmd with
  | false =>
    rw [hv] at hc
    simp only [CFE_SB_EnableRouteCmd, l1, l2, hc]
    simp [CFE_EVS_SendEvent, CFE_SB_UnlockSharedData, CFE_SB_LockSharedData,
      incrCommandErrorCounter, incrCommandCounter, CFE_SB_State.emit, CFE_SB_State.setHK]
  | true =>
    rw [hv] at hc
    cases hd : CFE_SB_GetDestPtr s (CFE_SBR_GetRouteId s data.RouteCmd.MsgId)
        data.RouteCmd.Pipe with
    | none =>
      simp only [CFE_SB_EnableRouteCmd, l1, l2, l3, l4, hc, hd]
      simp [CFE_EVS_SendEvent, CFE_SB_UnlockSharedData, CFE_SB_LockSharedData,
        incrCommandErrorCounter, incrCommandCounter, CFE_SB_State.emit, CFE_SB_State.setHK]
    | some DestPtr =>
      simp only [CFE_SB_EnableRouteCmd, l1, l2, l3, l4, hc, hd]
      simp [CFE_EVS_SendEvent, CFE_SB_UnlockSharedData, CFE_SB_LockSharedData,
        incrCommandErrorCounter, incrCommandCounter, CFE_SB_State.emit, CFE_SB_State.setHK,
        setDestActive]

theorem CFE_SB_DisableRouteCmd_tables (cfg : CFE_SB_Config) (s : CFE_SB_State)
    (data : CFE_SB_Buffer_t) :
    (CFE_SB_DisableRouteCmd cfg s data).2.CFE_SB_Global.PipeTbl = s.CFE_SB_Global.PipeTbl ∧
      (CFE_SB_DisableRouteCmd cfg s data).2.RoutingTbl =
        if CFE_SB_RouteCmdParamsValid cfg s data.RouteCmd = true then
          (CFE_SB_GetDestPtr s (CFE_SBR_GetRouteId s data.RouteCmd.MsgId)
            data.RouteCmd.Pipe).elim s.RoutingTbl
            (fun DestPtr => (setDestActive s DestPtr CFE_SB_INACTIVE).RoutingTbl)
        else s.RoutingTbl := by
  obtain ⟨l1, l2, l3, l4⟩ :=
    lookups_after_lock cfg s data.RouteCmd.Pipe data.RouteCmd.MsgId
  have hc := routeCmd_check_eq cfg s data.RouteCmd
  cases hv : CFE_SB_RouteCmdParamsValid cfg s data.RouteCmd with
  | false =>
    rw [hv] at hc
    simp only [CFE_SB_DisableRouteCmd, l1, l2, hc]
    simp [CFE_EVS_SendEvent, CFE_SB_UnlockSharedData, CFE_SB_LockSharedData,
      incrCommandErrorCounter, incrCommandCounter, CFE_SB_State.emit, CFE_SB_State.setHK]
  | true =>
    rw [hv] at hc
    cases hd : CFE_SB_GetDestPtr s (CFE_SBR_GetRouteId s data.RouteCmd.MsgId)
        data.RouteCmd.Pipe with
    | none =>
      simp only [CFE_SB_DisableRouteCmd, l1, l2, l3, l4, hc, hd]
      simp [CFE_EVS_SendEvent, CFE_SB_UnlockSharedData, CFE_SB_LockSharedData,
        incrCommandErrorCounter, incrCommandCounter, CFE_SB_State.emit, CFE_SB_State.setHK]
    | some DestPtr =>
      simp only [CFE_SB_DisableRouteCmd, l1, l2, l3, l4, hc, hd]
      simp [CFE_EVS_SendEvent, CFE_SB_UnlockSharedData, CFE_SB_LockSharedData,
        incrCommandErrorCounter, incrCommandCounter, CFE_SB_State.emit, CFE_SB_State.setHK,
        setDestActive]

theorem CFE_SB_GetDestPtr_some (s : CFE_SB_State) (MsgId Pipe : Nat) (DestPtr : Nat × Nat)
    (h : CFE_SB_GetDestPtr s (CFE_SBR_GetRouteId s MsgId) Pipe = some DestPtr) :
    ∃ r d, s.RoutingTbl[DestPtr.1]? = some r ∧ r.MsgId = MsgId ∧
      r.DestList[DestPtr.2]? = some d ∧ d.PipeId = Pipe := by
  unfold CFE_SBR_GetRouteId at h
  by_cases hi : List.findIdx (fun r => r.MsgId == MsgId) s.RoutingTbl < s.RoutingTbl.length
  · simp only [hi, if_true, CFE_SB_GetDestPtr, CFE_SBR_GetDestListHeadPtr,
      List.getElem?_eq_getElem hi] at h
    by_cases hk : List.findIdx (fun d => d.PipeId == Pipe)
        (s.RoutingTbl[List.findIdx (fun r => r.MsgId == MsgId) s.RoutingTbl]).DestList <
        (s.RoutingTbl[List.findIdx (fun r => r.MsgId == MsgId) s.RoutingTbl]).DestList.length
    · simp only [hk, if_true, Option.some.injEq] at h
      subst h
      refine ⟨_, _, List.getElem?_eq_getElem hi, ?_, List.getElem?_eq_getElem hk, ?_⟩
      · have := List.findIdx_getElem (w := hi)
        simpa using this
      · have := List.findIdx_getElem (w := hk)
        simpa using this
    · simp only [hk, if_false] at h
      exact absurd h (by simp)
  · simp only [hi, if_false, CFE_SB_GetDestPtr] at h
    exact absurd h (by simp)

/-- C21: effect of the enable route and of the disable route handler on the routing table,
for every state and every payload (MsgId, Pipe).  (a) When the command fails (parameters
invalid, or no destination found) the routing table is unchanged.  (b) When the destination
is found, it is a destination of the route of MsgId whose pipe is Pipe, and the new routing
table is the old one with the `Active` field of that one destination set to ACTIVE (enable)
or INACTIVE (disable): by `CFE_SB_tableWithActive` every route keeps its MsgId and its
destinations in their order, every destination keeps `PipeId`, `DestCnt` and `Scope`, and
every other destination keeps `Active`.  (c) Each command run twice leaves the routing table
of one run, and enable after disable leaves the routing table of enable alone. -/
theorem CFE_SB_RouteCmd_routing_table (cfg : CFE_SB_Config) (s : CFE_SB_State)
    (data : CFE_SB_Buffer_t) :
    ((CFE_SB_RouteCmdParamsValid cfg s data.RouteCmd = false ∨
        CFE_SB_GetDestPtr s (CFE_SBR_GetRouteId s data.RouteCmd.MsgId) data.RouteCmd.Pipe
          = none) →
      (CFE_SB_EnableRouteCmd cfg s data).2.RoutingTbl = s.RoutingTbl ∧
        (CFE_SB_DisableRouteCmd cfg s data).2.RoutingTbl = s.RoutingTbl) ∧
    (∀ DestPtr : Nat × Nat,
      CFE_SB_RouteCmdParamsValid cfg s data.RouteCmd = true →
      CFE_SB_GetDestPtr s (CFE_SBR_GetRouteId s data.RouteCmd.MsgId) data.RouteCmd.Pipe
          = some DestPtr →
      (∃ r d, s.RoutingTbl[DestPtr.1]? = some r ∧ r.MsgId = data.RouteCmd.MsgId ∧
          r.DestList[DestPtr.2]? = some d ∧ d.PipeId = data.RouteCmd.Pipe) ∧
        (CFE_SB_EnableRouteCmd cfg s data).2.RoutingTbl =
          CFE_SB_tableWithActive s.RoutingTbl DestPtr CFE_SB_ACTIVE ∧
        (CFE_SB_DisableRouteCmd cfg s data).2.RoutingTbl =
          CFE_SB_tableWithActive s.RoutingTbl DestPtr CFE_SB_INACTIVE) ∧
    (CFE_SB_EnableRouteCmd cfg (CFE_SB_EnableRouteCmd cfg s data).2 data).2.RoutingTbl =
      (CFE_SB_EnableRouteCmd cfg s data).2.RoutingTbl ∧
    (CFE_SB_DisableRouteCmd cfg (CFE_SB_DisableRouteCmd cfg s data).2 data).2.RoutingTbl =
      (CFE_SB_DisableRouteCmd cfg s data).2.RoutingTbl ∧
    (CFE_SB_EnableRouteCmd cfg (CFE_SB_DisableRouteCmd cfg s data).2 data).2.RoutingTbl =
      (CFE_SB_EnableRouteCmd cfg s data).2.RoutingTbl := by
  obtain ⟨eP, eR⟩ := CFE_SB_EnableRouteCmd_tables cfg s data
  obtain ⟨dP, dR⟩ := CFE_SB_DisableRouteCmd_tables cfg s data
  obtain ⟨_, eeR⟩ := CFE_SB_EnableRouteCmd_tables cfg (CFE_SB_EnableRouteCmd cfg s data).2 data
  obtain ⟨_, ddR⟩ :=
    CFE_SB_DisableRouteCmd_tables cfg (CFE_SB_DisableRouteCmd cfg s data).2 data
  obtain ⟨_, edR⟩ := CFE_SB_EnableRouteCmd_tables cfg (CFE_SB_DisableRouteCmd cfg s data).2 data
  -- lookups in the state a command leaves are the lookups in `s`
  have key : ∀ (t : CFE_SB_State) (a : CFE_SB_ActiveState),
      t.CFE_SB_Global.PipeTbl = s.CFE_SB_Global.PipeTbl →
      (t.RoutingTbl =
        if CFE_SB_RouteCmdParamsValid cfg s data.RouteCmd = true then
          (CFE_SB_GetDestPtr s (CFE_SBR_GetRouteId s data.RouteCmd.MsgId)
            data.RouteCmd.Pipe).elim s.RoutingTbl
            (fun DestPtr => (setDestActive s DestPtr a).RoutingTbl)
        else s.RoutingTbl) →
      CFE_SB_RouteCmdParamsValid cfg t data.RouteCmd =
          CFE_SB_RouteCmdParamsValid cfg s data.RouteCmd ∧
        CFE_SB_GetDestPtr t (CFE_SBR_GetRouteId t data.RouteCmd.MsgId) data.RouteCmd.Pipe =
          CFE_SB_GetDestPtr s (CFE_SBR_GetRouteId s data.RouteCmd.MsgId) data.RouteCmd.Pipe := by
    intro t a hP hR
    cases hv : CFE_SB_RouteCmdParamsValid cfg s data.RouteCmd with
    | false =>
      rw [hv] at hR
      have := lookups_congr cfg s t hP (by simpa using hR) data.RouteCmd
      rw [hv] at this
      exact this
    | true =>
      rw [hv] at hR
      cases hd : CFE_SB_GetDestPtr s (CFE_SBR_GetRouteId s data.RouteCmd.MsgId)
          data.RouteCmd.Pipe with
      | none =>
        rw [hd] at hR
        have := lookups_congr cfg s t hP (by simpa using hR) data.RouteCmd
        rw [hv, hd] at this
        exact this
      | some DestPtr =>
        rw [hd] at hR
        have h1 := lookups_congr cfg (setDestActive s DestPtr a) t hP (by simpa using hR)
          data.RouteCmd
        have h2 := lookups_setDestActive cfg s DestPtr a data.RouteCmd
        rw [hv, hd] at h2
        exact ⟨h1.1.trans h2.1, h1.2.trans h2.2⟩
  obtain ⟨kev, ked⟩ := key _ CFE_SB_ACTIVE eP eR
  obtain ⟨kdv, kdd⟩ := key _ CFE_SB_INACTIVE dP dR
  rw [kev, ked] at eeR
  rw [kdv, kdd] at ddR edR
  refine ⟨?_, ?_, ?_, ?_, ?_⟩
  · rintro (hv | hd)
    · rw [hv] at eR dR
      exact ⟨by simpa using eR, by simpa using dR⟩
    · rw [hd] at eR dR
      exact ⟨by simpa using eR, by simpa using dR⟩
  · intro DestPtr hv hd
    rw [hv, hd] at eR dR
    refine ⟨CFE_SB_GetDestPtr_some s _ _ _ hd, ?_, ?_⟩
    · rw [← setDestActive_RoutingTbl]
      simpa using eR
    · rw [← setDestActive_RoutingTbl]
      simpa using dR
  · rw [eeR]
    cases hv : CFE_SB_RouteCmdParamsValid cfg s data.RouteCmd with
    | false => simp
    | true =>
      rw [hv] at eR
      cases hd : CFE_SB_GetDestPtr s (CFE_SBR_GetRouteId s data.RouteCmd.MsgId)
          data.RouteCmd.Pipe with
      | none => simp
      | some DestPtr =>
        rw [hd] at eR
        simp only [if_true, Option.elim] at eR ⊢
        rw [setDestActive_RoutingTbl, eR, setDestActive_RoutingTbl,
          CFE_SB_tableWithActive_twice]
  · rw [ddR]
    cases hv : CFE_SB_RouteCmdParamsValid cfg s data.RouteCmd with
    | false => simp
    | true =>
      rw [hv] at dR
      cases hd : CFE_SB_GetDestPtr s (CFE_SBR_GetRouteId s data.RouteCmd.MsgId)
          data.RouteCmd.Pipe with
      | none => simp
      | some DestPtr =>
        rw [hd] at dR
        simp only [if_true, Option.elim] at dR ⊢
        rw [setDestActive_RoutingTbl, dR, setDestActive_RoutingTbl,
          CFE_SB_tableWithActive_twice]
  · rw [edR, eR]
    cases hv : CFE_SB_RouteCmdParamsValid cfg s data.RouteCmd with
    | false =>
      rw [hv] at dR
      simpa using dR
    | true =>
      rw [hv] at dR
      cases hd : CFE_SB_GetDestPtr s (CFE_SBR_GetRouteId s data.RouteCmd.MsgId)
          data.RouteCmd.Pipe with
      | none =>
        rw [hd] at dR
        simpa using dR
      | some DestPtr =>
        rw [hd] at dR
        simp only [if_true, Option.elim] at dR ⊢
        rw [setDestActive_RoutingTbl, dR, setDestActive_RoutingTbl,
          CFE_SB_tableWithActive_twice, setDestActive_RoutingTbl]

/-- Instance of the routing table effect on the sample state: the destination of MsgId
0x1000 on pipe 0x101 is position 1 of route 0; enable sets its flag, disable clears it, and
nothing else in the table changes. -/
theorem CFE_SB_RouteCmd_routing_table_witness :
    (∃ r d, sampleState.RoutingTbl[(0, 1).1]? = some r ∧
        r.MsgId = (sampleBuffer 0x1803 4 16 0x1000 0x101).RouteCmd.MsgId ∧
        r.DestList[(0, 1).2]? = some d ∧
        d.PipeId = (sampleBuffer 0x1803 4 16 0x1000 0x101).RouteCmd.Pipe) ∧
      (CFE_SB_EnableRouteCmd sampleConfig sampleState
          (sampleBuffer 0x1803 4 16 0x1000 0x101)).2.RoutingTbl =
        CFE_SB_tableWithActive sampleState.RoutingTbl (0, 1) CFE_SB_ACTIVE ∧
      (CFE_SB_DisableRouteCmd sampleConfig sampleState
          (sampleBuffer 0x1803 4 16 0x1000 0x101)).2.RoutingTbl =
        CFE_SB_tableWithActive sampleState.RoutingTbl (0, 1) CFE_SB_INACTIVE :=
  (CFE_SB_RouteCmd_routing_table sampleConfig sampleState
    (sampleBuffer 0x1803 4 16 0x1000 0x101)).2.1 (0, 1) (by decide) (by decide)

/-! # Software Bus task: statistics packet -/

/-- C29: evaluation of `CFE_SB_WriteRouteToFile` on route 0 of the sample state, whose two
destinations are on pipe 0x100 (owned by application 5) and on pipe 0x101 (owned by
application 6).  The scan ends with `pipedptr` on the descriptor of pipe 0x101, and both
entries written carry the name of application 6: the entry of pipe 0x100 has `AppName`
"APP6", although the descriptor matching its own `PipeId` has `AppId` 5, whose name is
"APP5". -/
theorem CFE_SB_WriteRouteToFile_app_name_eval :
    (CFE_SB_WriteRouteToFile sampleConfig sampleEnvNames 0
        (sampleState,
          { Filename := "/ram/cfe_sb_route.dat", FileSize := 64, EntryCount := 0,
            Status := CFE_SUCCESS })).map (fun r => r.1.Trace) =
      some
        [CFE_SB_Effect.LockSharedData, CFE_SB_Effect.UnlockSharedData,
         CFE_SB_Effect.OS_write (CFE_SB_FileEntry.Routing
           { MsgId := 0x1000, PipeId := 0x100, State := CFE_SB_ACTIVE, MsgCnt := 0,
             AppName := "APP6", PipeName := "PIPE" }),
         CFE_SB_Effect.OS_write (CFE_SB_FileEntry.Routing
           { MsgId := 0x1000, PipeId := 0x101, State := CFE_SB_INACTIVE, MsgCnt := 0,
             AppName := "APP6", PipeName := "PIPE" })] ∧
      (CFE_SB_LocatePipeDescByID sampleConfig sampleState 0x100).bind
          (fun Idx => (sampleState.CFE_SB_Global.PipeTbl[Idx]?).map
            (fun PipeDsc => (PipeDsc.PipeId, PipeDsc.AppId,
              sampleEnvNames.CFE_ES_GetAppName PipeDsc.AppId))) =
        some (0x100, 5, "APP5") := by
  constructor
  · rfl
  · rfl

/-! # Software Bus task: lock discipline -/

theorem CFE_SB_lockCheck_append (a b : List CFE_SB_Effect) :
    ∀ d, CFE_SB_lockCheck d (a ++ b) =
      (CFE_SB_lockCheck d a).bind (fun k => CFE_SB_lockCheck k b) := by
  induction a with
  | nil => intro d; rfl
  | cons e a ih =>
    intro d
    by_cases hd : d = 0 <;> cases e <;> simp [CFE_SB_lockCheck, hd, ih]

theorem CFE_SB_lockDisciplined_of_append {d k : Nat} {old new t : List CFE_SB_Effect}
    (h : new = old ++ t) (hc : CFE_SB_lockCheck d t = some k) :
    CFE_SB_lockDisciplined d k old new := by
  subst h
  exact ⟨by simp, by simpa using hc⟩

theorem CFE_SB_lockDisciplined_refl (d : Nat) (a : List CFE_SB_Effect) :
    CFE_SB_lockDisciplined d d a a :=
  CFE_SB_lockDisciplined_of_append (List.append_nil a).symm rfl

theorem CFE_SB_lockDisciplined_trans {d k m : Nat} {a b c : List CFE_SB_Effect}
    (h1 : CFE_SB_lockDisciplined d k a b) (h2 : CFE_SB_lockDisciplined k m b c) :
    CFE_SB_lockDisciplined d m a c := by
  obtain ⟨p1, q1⟩ := h1
  obtain ⟨p2, q2⟩ := h2
  have hb : b = a ++ b.drop a.length := by
    conv_lhs => rw [← List.take_append_drop a.length b, p1]
  have hc : c = b ++ c.drop b.length := by
    conv_lhs => rw [← List.take_append_drop b.length c, p2]
  apply CFE_SB_lockDisciplined_of_append (t := b.drop a.length ++ c.drop b.length)
  · rw [← List.append_assoc, ← hb]
    exact hc
  · rw [CFE_SB_lockCheck_append, q1]
    exact q2

theorem CFE_SB_SendRouteSub_loop_lock (cfg : CFE_SB_Config) (env : CFE_SB_Env) (RouteId : Nat) :
    ∀ (dests : List CFE_SB_DestinationD_t) (s r : CFE_SB_State),
      CFE_SB_SendRouteSub_loop cfg env RouteId dests s = some r →
      CFE_SB_lockDisciplined 1 1 s.Trace r.Trace := by
  intro dests
  induction dests with
  | nil =>
    intro s r h
    simp only [CFE_SB_SendRouteSub_loop, Option.some.injEq] at h
    subst h
    exact CFE_SB_lockDisciplined_refl 1 _
  | cons d rest ih =>
    intro s r h
    by_cases hg : d.Scope = CFE_SB_MSG_GLOBAL
    · simp only [CFE_SB_SendRouteSub_loop, hg, if_true] at h
      cases he : s.CFE_SB_Global.PrevSubMsg.Payload.Entry[
          s.CFE_SB_Global.PrevSubMsg.Payload.Entries]? with
      | none =>
        rw [he] at h
        exact absurd h (by simp)
      | some old =>
        rw [he] at h
        simp only at h
        split_ifs at h
        · simp only [Option.some.injEq] at h
          subst h
          apply CFE_SB_lockDisciplined_of_append
            (t := [CFE_SB_Effect.UnlockSharedData,
              CFE_SB_Effect.TransmitMsg (CFE_SB_TlmMsg.PrevSubMsg
                { s.CFE_SB_Global.PrevSubMsg.Payload with
                  Entry := s.CFE_SB_Global.PrevSubMsg.Payload.Entry.set
                    s.CFE_SB_Global.PrevSubMsg.Payload.Entries
                    { old with MsgId := CFE_SBR_GetMsgId cfg s RouteId,
                               Qos := { Priority := 0, Reliability := 0 } }
                  Entries := s.CFE_SB_Global.PrevSubMsg.Payload.Entries + 1 }),
              CFE_SB_Effect.SendEvent CFE_SB_FULL_SUB_PKT_EID CFE_EVS_EventType_DEBUG
                [(s.CFE_SB_Global.PrevSubMsg.Payload.PktSegment : Int),
                  ((s.CFE_SB_Global.PrevSubMsg.Payload.Entries + 1 : Nat) : Int)],
              CFE_SB_Effect.LockSharedData])
          · simp [CFE_SB_TransmitMsg, CFE_EVS_SendEvent, CFE_SB_UnlockSharedData,
              CFE_SB_LockSharedData, CFE_SB_State.emit, CFE_SB_State.setPrevSub]
          · rfl
        · simp only [Option.some.injEq] at h
          subst h
          exact CFE_SB_lockDisciplined_refl 1 _
    · simp only [CFE_SB_SendRouteSub_loop, hg, if_false] at h
      exact ih s r h

theorem foldlM_lockDisciplined {α : Type} (tr : α → List CFE_SB_Effect)
    (f : Nat → α → Option α) (d : Nat)
    (hf : ∀ i a b, f i a = some b → CFE_SB_lockDisciplined d d (tr a) (tr b)) :
    ∀ (l : List Nat) (a b : α), l.foldlM (fun a i => f i a) a = some b →
      CFE_SB_lockDisciplined d d (tr a) (tr b) := by
  intro l
  induction l with
  | nil =>
    intro a b h
    simp only [List.foldlM_nil, pure, Option.some.injEq] at h
    subst h
    exact CFE_SB_lockDisciplined_refl d _
  | cons i l ih =>
    intro a b h
    rw [List.foldlM_cons] at h
    cases hfa : f i a with
    | none =>
      rw [hfa] at h
      exact absurd h (by simp)
    | some c =>
      rw [hfa] at h
      exact CFE_SB_lockDisciplined_trans (hf i a c hfa) (ih c b h)

theorem CFE_SB_WriteRouteToFile_write_lock (cfg : CFE_SB_Config) (env : CFE_SB_Env)
    (MsgId : Nat) (pipedptr : Option Nat) :
    ∀ (infos : List RouteInfo) (s : CFE_SB_State) (args : CFE_SB_FileWriteCallback_t)
      (r : CFE_SB_State × CFE_SB_FileWriteCallback_t),
      CFE_SB_WriteRouteToFile_write cfg env MsgId pipedptr infos (s, args) = some r →
      CFE_SB_lockDisciplined 0 0 s.Trace r.1.Trace := by
  intro infos
  induction infos with
  | nil =>
    intro s args r h
    simp only [CFE_SB_WriteRouteToFile_write, Option.some.injEq] at h
    subst h
    exact CFE_SB_lockDisciplined_refl 0 _
  | cons info rest ih =>
    intro s args r h
    simp only [CFE_SB_WriteRouteToFile_write] at h
    cases hp : pipedptr.bind (fun Idx => s.CFE_SB_Global.PipeTbl[Idx]?) with
    | none =>
      rw [hp] at h
      exact absurd h (by simp)
    | some PipeDsc =>
      rw [hp] at h
      simp only at h
      split_ifs at h
      · refine CFE_SB_lockDisciplined_trans ?_ (ih _ _ r h)
        apply CFE_SB_lockDisciplined_of_append
          (t := [CFE_SB_Effect.OS_write (CFE_SB_FileEntry.Routing
              { MsgId := MsgId, PipeId := info.PipeId, State := info.Active,
                MsgCnt := info.DestCnt, AppName := env.CFE_ES_GetAppName PipeDsc.AppId,
                PipeName := env.CFE_SB_GetPipeName info.PipeId }),
            CFE_SB_Effect.SendEvent CFE_SB_FILEWRITE_ERR_EID CFE_EVS_EventType_ERROR
              [(cfg.sizeof_CFE_SB_RoutingFileEntry_t : Int),
                env.OS_write s.Trace (CFE_SB_FileEntry.Routing
                  { MsgId := MsgId, PipeId := info.PipeId, State := info.Active,
                    MsgCnt := info.DestCnt, AppName := env.CFE_ES_GetAppName PipeDsc.AppId,
                    PipeName := env.CFE_SB_GetPipeName info.PipeId })],
            CFE_SB_Effect.OS_close])
        · simp [CFE_SB_FileWriteByteCntErr, CFE_EVS_SendEvent, CFE_SB_State.emit]
        · rfl
      · refine CFE_SB_lockDisciplined_trans ?_ (ih _ _ r h)
        apply CFE_SB_lockDisciplined_of_append
          (t := [CFE_SB_Effect.OS_write (CFE_SB_FileEntry.Routing
              { MsgId := MsgId, PipeId := info.PipeId, State := info.Active,
                MsgCnt := info.DestCnt, AppName := env.CFE_ES_GetAppName PipeDsc.AppId,
                PipeName := env.CFE_SB_GetPipeName info.PipeId })])
        · simp [CFE_SB_State.emit]
        · rfl

theorem CFE_SB_WritePipeInfo_loop_lock (cfg : CFE_SB_Config) (env : CFE_SB_Env) :
    ∀ (pipes : List CFE_SB_PipeD_t) (s : CFE_SB_State) (FileSize EntryCount : Nat),
      CFE_SB_lockDisciplined 1
        (if (CFE_SB_WritePipeInfo_loop cfg env pipes s FileSize EntryCount).1.isSome then 0
          else 1)
        s.Trace (CFE_SB_WritePipeInfo_loop cfg env pipes s FileSize EntryCount).2.1.Trace := by
  intro pipes
  induction pipes with
  | nil =>
    intro s FileSize EntryCount
    exact CFE_SB_lockDisciplined_refl 1 _
  | cons d rest ih =>
    intro s FileSize EntryCount
    by_cases hu : cfg.CFE_SB_PipeDescIsUsed d = true
    · by_cases hw : env.OS_write (CFE_SB_UnlockSharedData s).Trace
          (CFE_SB_FileEntry.PipeInfo
            { PipeId := d.PipeId, AppId := d.AppId, MaxQueueDepth := d.QueueDepth,
              CurrentQueueDepth := d.CurrentDepth, PeakQueueDepth := d.PeakDepth,
              SendErrors := d.SendErrors, Opts := d.Opts,
              AppName := env.CFE_ES_GetAppName d.AppId,
              PipeName := env.OS_GetResourceName d.SysQueueId }) ≠
          (cfg.sizeof_CFE_SB_PipeInfoEntry_t : Int)
      · simp only [CFE_SB_WritePipeInfo_loop, hu, if_true, hw, ne_eq, not_false_eq_true,
          Option.isSome_some]
        apply CFE_SB_lockDisciplined_of_append
          (t := [CFE_SB_Effect.UnlockSharedData,
            CFE_SB_Effect.OS_write (CFE_SB_FileEntry.PipeInfo
              { PipeId := d.PipeId, AppId := d.AppId, MaxQueueDepth := d.QueueDepth,
                CurrentQueueDepth := d.CurrentDepth, PeakQueueDepth := d.PeakDepth,
                SendErrors := d.SendErrors, Opts := d.Opts,
                AppName := env.CFE_ES_GetAppName d.AppId,
                PipeName := env.OS_GetResourceName d.SysQueueId }),
            CFE_SB_Effect.SendEvent CFE_SB_FILEWRITE_ERR_EID CFE_EVS_EventType_ERROR
              [(cfg.sizeof_CFE_SB_PipeInfoEntry_t : Int),
                env.OS_write (s.Trace ++ [CFE_SB_Effect.UnlockSharedData])
                  (CFE_SB_FileEntry.PipeInfo
                    { PipeId := d.PipeId, AppId := d.AppId, MaxQueueDepth := d.QueueDepth,
                      CurrentQueueDepth := d.CurrentDepth, PeakQueueDepth := d.PeakDepth,
                      SendErrors := d.SendErrors, Opts := d.Opts,
                      AppName := env.CFE_ES_GetAppName d.AppId,
                      PipeName := env.OS_GetResourceName d.SysQueueId })],
            CFE_SB_Effect.OS_close])
        · simp [CFE_SB_FileWriteByteCntErr, CFE_EVS_SendEvent, CFE_SB_UnlockSharedData,
            CFE_SB_State.emit]
        · rfl
      · simp only [CFE_SB_WritePipeInfo_loop, hu, if_true, hw, if_false]
        refine CFE_SB_lockDisciplined_trans ?_ (ih _ _ _)
        apply CFE_SB_lockDisciplined_of_append
          (t := [CFE_SB_Effect.UnlockSharedData,
            CFE_SB_Effect.OS_write (CFE_SB_FileEntry.PipeInfo
              { PipeId := d.PipeId, AppId := d.AppId, MaxQueueDepth := d.QueueDepth,
                CurrentQueueDepth := d.CurrentDepth, PeakQueueDepth := d.PeakDepth,
                SendErrors := d.SendErrors, Opts := d.Opts,
                AppName := env.CFE_ES_GetAppName d.AppId,
                PipeName := env.OS_GetResourceName d.SysQueueId }),
            CFE_SB_Effect.LockSharedData])
        · simp [CFE_SB_UnlockSharedData, CFE_SB_LockSharedData, CFE_SB_State.emit]
        · rfl
    · simp only [CFE_SB_WritePipeInfo_loop, hu, if_false, Bool.false_eq_true]
      exact ih _ _ _

theorem CFE_SB_EnableRouteCmd_trace (cfg : CFE_SB_Config) (s : CFE_SB_State)
    (data : CFE_SB_Buffer_t) :
    ∃ e t a, (CFE_SB_EnableRouteCmd cfg s data).2.Trace =
      s.Trace ++ [CFE_SB_Effect.LockSharedData, CFE_SB_Effect.UnlockSharedData,
        CFE_SB_Effect.SendEvent e t a] := by
  obtain ⟨l1, l2, l3, l4⟩ :=
    lookups_after_lock cfg s data.RouteCmd.Pipe data.RouteCmd.MsgId
  have hc := routeCmd_check_eq cfg s data.RouteCmd
  cases hv : CFE_SB_RouteCmdParamsValid cfg s data.RouteCmd with
  | false =>
    rw [hv] at hc
    refine ⟨CFE_SB_ENBL_RTE3_EID, CFE_EVS_EventType_ERROR,
      [(data.RouteCmd.MsgId : Int), (data.RouteCmd.Pipe : Int)], ?_⟩
    simp only [CFE_SB_EnableRouteCmd, l1, l2, hc]
    simp [CFE_EVS_SendEvent, CFE_SB_UnlockSharedData, CFE_SB_LockSharedData,
      incrCommandErrorCounter, incrCommandCounter, CFE_SB_State.emit, CFE_SB_State.setHK]
  | true =>
    rw [hv] at hc
    cases hd : CFE_SB_GetDestPtr s (CFE_SBR_GetRouteId s data.RouteCmd.MsgId)
        data.RouteCmd.Pipe with
    | none =>
      refine ⟨CFE_SB_ENBL_RTE1_EID, CFE_EVS_EventType_ERROR,
        [(data.RouteCmd.MsgId : Int), (data.RouteCmd.Pipe : Int)], ?_⟩
      simp only [CFE_SB_EnableRouteCmd, l1, l2, l3, l4, hc, hd]
      simp [CFE_EVS_SendEvent, CFE_SB_UnlockSharedData, CFE_SB_LockSharedData,
        incrCommandErrorCounter, incrCommandCounter, CFE_SB_State.emit, CFE_SB_State.setHK]
    | some DestPtr =>
      refine ⟨CFE_SB_ENBL_RTE2_EID, CFE_EVS_EventType_DEBUG,
        [(data.RouteCmd.MsgId : Int), (data.RouteCmd.Pipe : Int)], ?_⟩
      simp only [CFE_SB_EnableRouteCmd, l1, l2, l3, l4, hc, hd]
      simp [CFE_EVS_SendEvent, CFE_SB_UnlockSharedData, CFE_SB_LockSharedData,
        incrCommandErrorCounter, incrCommandCounter, CFE_SB_State.emit, CFE_SB_State.setHK,
        setDestActive]

theorem CFE_SB_DisableRouteCmd_trace (cfg : CFE_SB_Config) (s : CFE_SB_State)
    (data : CFE_SB_Buffer_t) :
    ∃ e t a, (CFE_SB_DisableRouteCmd cfg s data).2.Trace =
      s.Trace ++ [CFE_SB_Effect.LockSharedData, CFE_SB_Effect.UnlockSharedData,
        CFE_SB_Effect.SendEvent e t a] := by
  obtain ⟨l1, l2, l3, l4⟩ :=
    lookups_after_lock cfg s data.RouteCmd.Pipe data.RouteCmd.MsgId
  have hc := routeCmd_check_eq cfg s data.RouteCmd
  cases hv : CFE_SB_RouteCmdParamsValid cfg s data.RouteCmd with
  | false =>
    rw [hv] at hc
    refine ⟨CFE_SB_DSBL_RTE3_EID, CFE_EVS_EventType_ERROR,
      [(data.RouteCmd.MsgId : Int), (data.RouteCmd.Pipe : Int)], ?_⟩
    simp only [CFE_SB_DisableRouteCmd, l1, l2, hc]
    simp [CFE_EVS_SendEvent, CFE_SB_UnlockSharedData, CFE_SB_LockSharedData,
      incrCommandErrorCounter, incrCommandCounter, CFE_SB_State.emit, CFE_SB_State.setHK]
  | true =>
    rw [hv] at hc
    cases hd : CFE_SB_GetDestPtr s (CFE_SBR_GetRouteId s data.RouteCmd.MsgId)
        data.RouteCmd.Pipe with
    | none =>
      refine ⟨CFE_SB_DSBL_RTE1_EID, CFE_EVS_EventType_ERROR,
        [(data.RouteCmd.MsgId : Int), (data.RouteCmd.Pipe : Int)], ?_⟩
      simp only [CFE_SB_DisableRouteCmd, l1, l2, l3, l4, hc, hd]
      simp [CFE_EVS_SendEvent, CFE_SB_UnlockSharedData, CFE_SB_LockSharedData,
        incrCommandErrorCounter, incrCommandCounter, CFE_SB_State.emit, CFE_SB_State.setHK]
    | some DestPtr =>
      refine ⟨CFE_SB_DSBL_RTE2_EID, CFE_EVS_EventType_DEBUG,
        [(data.RouteCmd.MsgId : Int), (data.RouteCmd.Pipe : Int)], ?_⟩
      simp only [CFE_SB_DisableRouteCmd, l1, l2, l3, l4, hc, hd]
      simp [CFE_EVS_SendEvent, CFE_SB_UnlockSharedData, CFE_SB_LockSharedData,
        incrCommandErrorCounter, incrCommandCounter, CFE_SB_State.emit, CFE_SB_State.setHK,
        setDestActive]

theorem CFE_SB_SendRouteSub_lock (cfg : CFE_SB_Config) (env : CFE_SB_Env) (RouteId : Nat)
    (s r : CFE_SB_State) (h : CFE_SB_SendRouteSub cfg env RouteId s = some r) :
    CFE_SB_lockDisciplined 1 1 s.Trace r.Trace :=
  CFE_SB_SendRouteSub_loop_lock cfg env RouteId _ s r h

theorem CFE_SB_SendPrevSubsCmd_lock (cfg : CFE_SB_Config) (env : CFE_SB_Env)
    (s : CFE_SB_State) (r : CFE_Status × CFE_SB_State)
    (h : CFE_SB_SendPrevSubsCmd cfg env s = some r) :
    CFE_SB_lockDisciplined 0 0 s.Trace r.2.Trace := by
  simp only [CFE_SB_SendPrevSubsCmd, CFE_SBR_ForEachRouteId] at h
  cases hf : List.foldlM (fun a RouteId => CFE_SB_SendRouteSub cfg env RouteId a)
      ((CFE_SB_LockSharedData s).setPrevSub
        { (CFE_SB_LockSharedData s).CFE_SB_Global.PrevSubMsg.Payload with
          PktSegment := 1, Entries := 0 })
      (List.range ((CFE_SB_LockSharedData s).setPrevSub
        { (CFE_SB_LockSharedData s).CFE_SB_Global.PrevSubMsg.Payload with
          PktSegment := 1, Entries := 0 }).RoutingTbl.length) with
  | none =>
    rw [hf] at h
    exact absurd h (by simp)
  | some m =>
    rw [hf] at h
    have hm := foldlM_lockDisciplined (fun a : CFE_SB_State => a.Trace)
      (CFE_SB_SendRouteSub cfg env) 1 (CFE_SB_SendRouteSub_lock cfg env) _ _ _ hf
    have h0 : CFE_SB_lockDisciplined 0 1 s.Trace
        ((CFE_SB_LockSharedData s).setPrevSub
          { (CFE_SB_LockSharedData s).CFE_SB_Global.PrevSubMsg.Payload with
            PktSegment := 1, Entries := 0 }).Trace :=
      CFE_SB_lockDisciplined_of_append (t := [CFE_SB_Effect.LockSharedData]) rfl rfl
    refine CFE_SB_lockDisciplined_trans (CFE_SB_lockDisciplined_trans h0 hm) ?_
    simp only at h
    split_ifs at h
    · simp only [Option.some.injEq] at h
      subst h
      exact CFE_SB_lockDisciplined_of_append
        (t := [CFE_SB_Effect.UnlockSharedData,
          CFE_SB_Effect.TransmitMsg (CFE_SB_TlmMsg.PrevSubMsg
            m.CFE_SB_Global.PrevSubMsg.Payload),
          CFE_SB_Effect.SendEvent CFE_SB_PART_SUB_PKT_EID CFE_EVS_EventType_DEBUG
            [(m.CFE_SB_Global.PrevSubMsg.Payload.PktSegment : Int),
              (m.CFE_SB_Global.PrevSubMsg.Payload.Entries : Int)]])
        (by simp [CFE_SB_TransmitMsg, CFE_EVS_SendEvent, CFE_SB_UnlockSharedData,
              CFE_SB_State.emit])
        rfl
    · simp only [Option.some.injEq] at h
      subst h
      exact CFE_SB_lockDisciplined_of_append (t := [CFE_SB_Effect.UnlockSharedData]) rfl rfl

theorem CFE_SB_WritePipeInfo_lock (cfg : CFE_SB_Config) (env : CFE_SB_Env)
    (s : CFE_SB_State) (Filename : String) :
    CFE_SB_lockDisciplined 0 0 s.Trace (CFE_SB_WritePipeInfo cfg env s Filename).2.Trace := by
  unfold CFE_SB_WritePipeInfo
  simp only
  split_ifs with h1 h2
  · exact CFE_SB_lockDisciplined_of_append
      (t := [CFE_SB_Effect.OS_OpenCreate Filename,
        CFE_SB_Effect.SendEvent CFE_SB_SND_RTG_ERR1_EID CFE_EVS_EventType_ERROR
          [env.OS_OpenCreate s.Trace Filename]])
      (by simp [CFE_EVS_SendEvent, CFE_SB_State.emit]) rfl
  · exact CFE_SB_lockDisciplined_of_append
      (t := [CFE_SB_Effect.OS_OpenCreate Filename,
        CFE_SB_Effect.CFE_FS_WriteHeader "SB Pipe Information" CFE_FS_SubType_SB_PIPEDATA,
        CFE_SB_Effect.SendEvent CFE_SB_FILEWRITE_ERR_EID CFE_EVS_EventType_ERROR
          [(cfg.sizeof_CFE_FS_Header_t : Int),
            env.CFE_FS_WriteHeader (s.Trace ++ [CFE_SB_Effect.OS_OpenCreate Filename])],
        CFE_SB_Effect.OS_close])
      (by simp [CFE_SB_FileWriteByteCntErr, CFE_EVS_SendEvent, CFE_SB_State.emit]) rfl
  · have h0 : CFE_SB_lockDisciplined 0 1 s.Trace
        (CFE_SB_LockSharedData ((s.emit (CFE_SB_Effect.OS_OpenCreate Filename)).emit
          (CFE_SB_Effect.CFE_FS_WriteHeader "SB Pipe Information"
            CFE_FS_SubType_SB_PIPEDATA))).Trace :=
      CFE_SB_lockDisciplined_of_append
        (t := [CFE_SB_Effect.OS_OpenCreate Filename,
          CFE_SB_Effect.CFE_FS_WriteHeader "SB Pipe Information" CFE_FS_SubType_SB_PIPEDATA,
          CFE_SB_Effect.LockSharedData])
        (by simp [CFE_SB_LockSharedData, CFE_SB_State.emit]) rfl
    have hl := CFE_SB_WritePipeInfo_loop_lock cfg env
      (CFE_SB_LockSharedData ((s.emit (CFE_SB_Effect.OS_OpenCreate Filename)).emit
        (CFE_SB_Effect.CFE_FS_WriteHeader "SB Pipe Information"
          CFE_FS_SubType_SB_PIPEDATA))).CFE_SB_Global.PipeTbl
      (CFE_SB_LockSharedData ((s.emit (CFE_SB_Effect.OS_OpenCreate Filename)).emit
        (CFE_SB_Effect.CFE_FS_WriteHeader "SB Pipe Information"
          CFE_FS_SubType_SB_PIPEDATA)))
      (addUint32 0 (env.CFE_FS_WriteHeader
        (s.emit (CFE_SB_Effect.OS_OpenCreate Filename)).Trace)) 0
    revert hl
    cases hr : (CFE_SB_WritePipeInfo_loop cfg env
      (CFE_SB_LockSharedData ((s.emit (CFE_SB_Effect.OS_OpenCreate Filename)).emit
        (CFE_SB_Effect.CFE_FS_WriteHeader "SB Pipe Information"
          CFE_FS_SubType_SB_PIPEDATA))).CFE_SB_Global.PipeTbl
      (CFE_SB_LockSharedData ((s.emit (CFE_SB_Effect.OS_OpenCreate Filename)).emit
        (CFE_SB_Effect.CFE_FS_WriteHeader "SB Pipe Information"
          CFE_FS_SubType_SB_PIPEDATA)))
      (addUint32 0 (env.CFE_FS_WriteHeader
        (s.emit (CFE_SB_Effect.OS_OpenCreate Filename)).Trace)) 0).1 with
    | some st =>
      intro hl
      simp only [Option.isSome_some, if_true] at hl
      exact CFE_SB_lockDisciplined_trans h0 hl
    | none =>
      intro hl
      simp only [Option.isSome_none, Bool.false_eq_true, if_false] at hl
      refine CFE_SB_lockDisciplined_trans (CFE_SB_lockDisciplined_trans h0 hl) ?_
      exact CFE_SB_lockDisciplined_of_append
        (t := [CFE_SB_Effect.UnlockSharedData, CFE_SB_Effect.OS_close,
          CFE_SB_Effect.SendEvent CFE_SB_SND_RTG_EID CFE_EVS_EventType_DEBUG _])
        (by simp [CFE_EVS_SendEvent, CFE_SB_UnlockSharedData, CFE_SB_State.emit]; rfl) rfl

/-- C30: lock discipline of the handlers that take the shared-data lock, for every
configuration, collaborators, state and arguments.  Each handler extends the trace by
calls among which every event, time stamp, transmit and file call is made at lock depth 0,
no unlock is made at depth 0, and the depth at the end is the depth at entry: 0 for
`CFE_SB_EnableRouteCmd`, `CFE_SB_DisableRouteCmd`, `CFE_SB_SendHKTlmCmd`,
`CFE_SB_SendStatsCmd`, `CFE_SB_SendPrevSubsCmd`, `CFE_SB_WriteRouteToFile`,
`CFE_SB_WritePipeInfo` and `CFE_SB_WriteMapToFile`, and 1 for the callback
`CFE_SB_SendRouteSub`, which is entered with the lock held.  This covers the early
returns: the error paths of the route commands and the return of `CFE_SB_WritePipeInfo`
from inside its loop. -/
theorem CFE_SB_lock_discipline (cfg : CFE_SB_Config) (env : CFE_SB_Env) (s : CFE_SB_State)
    (data : CFE_SB_Buffer_t) (RouteId : Nat) (args : CFE_SB_FileWriteCallback_t)
    (Filename : String) :
    CFE_SB_lockDisciplined 0 0 s.Trace (CFE_SB_EnableRouteCmd cfg s data).2.Trace ∧
    CFE_SB_lockDisciplined 0 0 s.Trace (CFE_SB_DisableRouteCmd cfg s data).2.Trace ∧
    CFE_SB_lockDisciplined 0 0 s.Trace (CFE_SB_SendHKTlmCmd cfg env s).2.Trace ∧
    CFE_SB_lockDisciplined 0 0 s.Trace (CFE_SB_SendStatsCmd cfg env s).2.Trace ∧
    (∀ r, CFE_SB_SendPrevSubsCmd cfg env s = some r →
      CFE_SB_lockDisciplined 0 0 s.Trace r.2.Trace) ∧
    (∀ r, CFE_SB_SendRouteSub cfg env RouteId s = some r →
      CFE_SB_lockDisciplined 1 1 s.Trace r.Trace) ∧
    (∀ r, CFE_SB_WriteRouteToFile cfg env RouteId (s, args) = some r →
      CFE_SB_lockDisciplined 0 0 s.Trace r.1.Trace) ∧
    CFE_SB_lockDisciplined 0 0 s.Trace (CFE_SB_WritePipeInfo cfg env s Filename).2.Trace ∧
    (∃ r, CFE_SB_WriteMapToFile cfg env RouteId (s, args) = some r ∧
      CFE_SB_lockDisciplined 0 0 s.Trace r.1.Trace) := by
  refine ⟨?_, ?_, ?_, ?_, CFE_SB_SendPrevSubsCmd_lock cfg env s,
    CFE_SB_SendRouteSub_lock cfg env RouteId s, ?_, CFE_SB_WritePipeInfo_lock cfg env s Filename,
    ?_⟩
  · obtain ⟨e, t, a, h⟩ := CFE_SB_EnableRouteCmd_trace cfg s data
    exact CFE_SB_lockDisciplined_of_append h rfl
  · obtain ⟨e, t, a, h⟩ := CFE_SB_DisableRouteCmd_trace cfg s data
    exact CFE_SB_lockDisciplined_of_append h rfl
  · exact CFE_SB_lockDisciplined_of_append
      (t := [CFE_SB_Effect.LockSharedData, CFE_SB_Effect.UnlockSharedData,
        CFE_SB_Effect.TimeStampMsg (CFE_SB_TlmMsg.HKTlmMsg
          (CFE_SB_SendHKTlmCmd cfg env s).2.CFE_SB_Global.HKTlmMsg.Payload),
        CFE_SB_Effect.TransmitMsg (CFE_SB_TlmMsg.HKTlmMsg
          (CFE_SB_SendHKTlmCmd cfg env s).2.CFE_SB_Global.HKTlmMsg.Payload)])
      (by simp [CFE_SB_SendHKTlmCmd, CFE_SB_TransmitMsg, CFE_SB_TimeStampMsg,
            CFE_SB_UnlockSharedData, CFE_SB_LockSharedData, CFE_SB_State.emit,
            CFE_SB_State.setHK])
      rfl
  · exact CFE_SB_lockDisciplined_of_append
      (t := [CFE_SB_Effect.LockSharedData, CFE_SB_Effect.UnlockSharedData,
        CFE_SB_Effect.TimeStampMsg (CFE_SB_TlmMsg.StatTlmMsg
          (CFE_SB_SendStatsCmd cfg env s).2.CFE_SB_Global.StatTlmMsg.Payload),
        CFE_SB_Effect.TransmitMsg (CFE_SB_TlmMsg.StatTlmMsg
          (CFE_SB_SendStatsCmd cfg env s).2.CFE_SB_Global.StatTlmMsg.Payload),
        CFE_SB_Effect.SendEvent CFE_SB_SND_STATS_EID CFE_EVS_EventType_DEBUG []])
      (by simp [CFE_SB_SendStatsCmd, CFE_SB_TransmitMsg, CFE_SB_TimeStampMsg,
            CFE_EVS_SendEvent, CFE_SB_UnlockSharedData, CFE_SB_LockSharedData,
            incrCommandCounter, CFE_SB_State.emit, CFE_SB_State.setHK, CFE_SB_State.setStat])
      rfl
  · intro r h
    unfold CFE_SB_WriteRouteToFile at h
    refine CFE_SB_lockDisciplined_trans ?_
      (CFE_SB_WriteRouteToFile_write_lock cfg env _ _ _ _ _ r h)
    exact CFE_SB_lockDisciplined_of_append
      (t := [CFE_SB_Effect.LockSharedData, CFE_SB_Effect.UnlockSharedData])
      (by simp [CFE_SB_UnlockSharedData, CFE_SB_LockSharedData, CFE_SB_State.emit]) rfl
  · by_cases hs : args.Status ≠ CFE_SB_FILE_IO_ERR
    · by_cases hw : env.OS_write
          (CFE_SB_UnlockSharedData (CFE_SB_LockSharedData s)).Trace
          (CFE_SB_FileEntry.MsgMap
            { MsgId := CFE_SBR_GetMsgId cfg (CFE_SB_LockSharedData s) RouteId,
              Index := RouteId }) ≠ (cfg.sizeof_CFE_SB_MsgMapFileEntry_t : Int)
      · refine ⟨_, by simp only [CFE_SB_WriteMapToFile, hs, if_true, hw, ne_eq,
          not_false_eq_true]; rfl, ?_⟩
        exact CFE_SB_lockDisciplined_of_append
          (t := [CFE_SB_Effect.LockSharedData, CFE_SB_Effect.UnlockSharedData,
            CFE_SB_Effect.OS_write (CFE_SB_FileEntry.MsgMap
              { MsgId := CFE_SBR_GetMsgId cfg (CFE_SB_LockSharedData s) RouteId,
                Index := RouteId }),
            CFE_SB_Effect.SendEvent CFE_SB_FILEWRITE_ERR_EID CFE_EVS_EventType_ERROR
              [(cfg.sizeof_CFE_SB_MsgMapFileEntry_t : Int),
                env.OS_write (CFE_SB_UnlockSharedData (CFE_SB_LockSharedData s)).Trace
                  (CFE_SB_FileEntry.MsgMap
                    { MsgId := CFE_SBR_GetMsgId cfg (CFE_SB_LockSharedData s) RouteId,
                      Index := RouteId })],
            CFE_SB_Effect.OS_close])
          (by simp [CFE_SB_FileWriteByteCntErr, CFE_EVS_SendEvent, CFE_SB_UnlockSharedData,
                CFE_SB_LockSharedData, CFE_SB_State.emit])
          rfl
      · refine ⟨_, by simp only [CFE_SB_WriteMapToFile, hs, if_true, hw, if_false, ne_eq,
          not_false_eq_true]; rfl, ?_⟩
        exact CFE_SB_lockDisciplined_of_append
          (t := [CFE_SB_Effect.LockSharedData, CFE_SB_Effect.UnlockSharedData,
            CFE_SB_Effect.OS_write (CFE_SB_FileEntry.MsgMap
              { MsgId := CFE_SBR_GetMsgId cfg (CFE_SB_LockSharedData s) RouteId,
                Index := RouteId })])
          (by simp [CFE_SB_UnlockSharedData, CFE_SB_LockSharedData, CFE_SB_State.emit])
          rfl
    · refine ⟨(s, args), by simp only [CFE_SB_WriteMapToFile, hs, if_false], ?_⟩
      exact CFE_SB_lockDisciplined_refl 0 _

/-- Instance of the lock discipline on the sample state: the previous subscriptions
command returns, and its trace keeps every transmit and event outside the lock. -/
theorem CFE_SB_lock_discipline_witness :
    ∃ r, CFE_SB_SendPrevSubsCmd sampleConfig sampleEnv sampleState = some r ∧
      CFE_SB_lockDisciplined 0 0 sampleState.Trace r.2.Trace :=
  ⟨_, rfl,
    (CFE_SB_lock_discipline sampleConfig sampleEnv sampleState
      (sampleBuffer 0x1803 11 8 0 0) 0
      { Filename := "", FileSize := 0, EntryCount := 0, Status := CFE_SUCCESS } "").2.2.2.2.1
      _ rfl⟩

/-! # Software Bus task: previous subscriptions -/

theorem CFE_SB_prevSubPackets_append (a b : List CFE_SB_Effect) :
    CFE_SB_prevSubPackets (a ++ b) = CFE_SB_prevSubPackets a ++ CFE_SB_prevSubPackets b := by
  induction a with
  | nil => rfl
  | cons e a ih =>
    cases e with
    | TransmitMsg m =>
      cases m <;> simp [CFE_SB_prevSubPackets, ih]
    | _ => simp [CFE_SB_prevSubPackets, ih]

theorem CFE_SB_SendRouteSub_loop_of_no_global (cfg : CFE_SB_Config) (env : CFE_SB_Env)
    (RouteId : Nat) :
    ∀ (dests : List CFE_SB_DestinationD_t) (s : CFE_SB_State),
      dests.any (fun d => decide (d.Scope = CFE_SB_MSG_GLOBAL)) = false →
      CFE_SB_SendRouteSub_loop cfg env RouteId dests s = some s := by
  intro dests
  induction dests with
  | nil => intro s _; rfl
  | cons d rest ih =>
    intro s h
    simp only [List.any_cons, Bool.or_eq_false_iff, decide_eq_false_iff_not] at h
    simp only [CFE_SB_SendRouteSub_loop, h.1, if_false]
    exact ih s h.2

theorem CFE_SB_SendRouteSub_loop_of_global (cfg : CFE_SB_Config) (env : CFE_SB_Env)
    (RouteId : Nat) :
    ∀ (dests : List CFE_SB_DestinationD_t) (s : CFE_SB_State),
      dests.any (fun d => decide (d.Scope = CFE_SB_MSG_GLOBAL)) = true →
      CFE_SB_SendRouteSub_loop cfg env RouteId dests s =
        CFE_SB_SendRouteSub_loop cfg env RouteId
          [{ PipeId := 0, Active := CFE_SB_ACTIVE, DestCnt := 0, Scope := CFE_SB_MSG_GLOBAL }]
          s := by
  intro dests
  induction dests with
  | nil => intro s h; simp at h
  | cons d rest ih =>
    intro s h
    by_cases hg : d.Scope = CFE_SB_MSG_GLOBAL
    · simp only [CFE_SB_SendRouteSub_loop, hg, if_true]
    · simp only [List.any_cons, hg, decide_False, Bool.false_or] at h
      rw [← ih s h]
      simp only [CFE_SB_SendRouteSub_loop, hg, if_false]

theorem CFE_SB_packetEntries_set (p : CFE_SB_AllSubscriptionsTlm_Payload_t)
    (x : CFE_SB_SubEntries_t) (h : p.Entries < p.Entry.length) :
    CFE_SB_packetEntries
        { PktSegment := p.PktSegment, Entries := p.Entries + 1,
          Entry := p.Entry.set p.Entries x } =
      CFE_SB_packetEntries p ++ [(x.MsgId, x.Qos)] := by
  simp only [CFE_SB_packetEntries]
  rw [List.take_succ, List.getElem?_set, if_pos rfl, if_pos h]
  have ht : List.take p.Entries (p.Entry.set p.Entries x) = List.take p.Entries p.Entry := by
    apply List.ext_getElem?
    intro i
    simp only [List.getElem?_take, List.getElem?_set]
    by_cases hi : i < p.Entries
    · have hne : ¬ p.Entries = i := by omega
      simp [hi, hne]
    · simp [hi]
  rw [ht]
  simp

theorem CFE_SB_SendRouteSub_step (cfg : CFE_SB_Config) (env : CFE_SB_Env) (k : Nat)
    (a : CFE_SB_State) (route : CFE_SBR_RouteEntry_t)
    (hroute : a.RoutingTbl[k]? = some route)
    (hlt : a.CFE_SB_Global.PrevSubMsg.Payload.Entries <
      a.CFE_SB_Global.PrevSubMsg.Payload.Entry.length) :
    ∃ b, CFE_SB_SendRouteSub cfg env k a = some b ∧
      b.RoutingTbl = a.RoutingTbl ∧
      b.CFE_SB_Global.PrevSubMsg.Payload.Entry.length =
        a.CFE_SB_Global.PrevSubMsg.Payload.Entry.length ∧
      (CFE_SB_routeHasGlobal route = false → b = a) ∧
      (CFE_SB_routeHasGlobal route = true →
        a.CFE_SB_Global.PrevSubMsg.Payload.Entries + 1 < cfg.CFE_SB_SUB_ENTRIES_PER_PKT →
        b.Trace = a.Trace ∧
          b.CFE_SB_Global.PrevSubMsg.Payload.PktSegment =
            a.CFE_SB_Global.PrevSubMsg.Payload.PktSegment ∧
          b.CFE_SB_Global.PrevSubMsg.Payload.Entries =
            a.CFE_SB_Global.PrevSubMsg.Payload.Entries + 1 ∧
          CFE_SB_packetEntries b.CFE_SB_Global.PrevSubMsg.Payload =
            CFE_SB_packetEntries a.CFE_SB_Global.PrevSubMsg.Payload ++
              [(route.MsgId, { Priority := 0, Reliability := 0 })]) ∧
      (CFE_SB_routeHasGlobal route = true →
        cfg.CFE_SB_SUB_ENTRIES_PER_PKT ≤ a.CFE_SB_Global.PrevSubMsg.Payload.Entries + 1 →
        ∃ p, b.Trace = a.Trace ++
            [CFE_SB_Effect.UnlockSharedData,
             CFE_SB_Effect.TransmitMsg (CFE_SB_TlmMsg.PrevSubMsg p),
             CFE_SB_Effect.SendEvent CFE_SB_FULL_SUB_PKT_EID CFE_EVS_EventType_DEBUG
               [(p.PktSegment : Int), (p.Entries : Int)],
             CFE_SB_Effect.LockSharedData] ∧
          p.PktSegment = a.CFE_SB_Global.PrevSubMsg.Payload.PktSegment ∧
          p.Entries = a.CFE_SB_Global.PrevSubMsg.Payload.Entries + 1 ∧
          CFE_SB_packetEntries p =
            CFE_SB_packetEntries a.CFE_SB_Global.PrevSubMsg.Payload ++
              [(route.MsgId, { Priority := 0, Reliability := 0 })] ∧
          b.CFE_SB_Global.PrevSubMsg.Payload.PktSegment =
            a.CFE_SB_Global.PrevSubMsg.Payload.PktSegment + 1 ∧
          b.CFE_SB_Global.PrevSubMsg.Payload.Entries = 0) := by
  have hdl : CFE_SBR_GetDestListHeadPtr a k = route.DestList := by
    simp only [CFE_SBR_GetDestListHeadPtr, hroute]
  have hmid : CFE_SBR_GetMsgId cfg a k = route.MsgId := by
    simp only [CFE_SBR_GetMsgId, hroute]
  cases hg : CFE_SB_routeHasGlobal route with
  | false =>
    refine ⟨a, ?_, rfl, rfl, fun _ => rfl, fun h => absurd h (by simp),
      fun h => absurd h (by simp)⟩
    rw [CFE_SB_SendRouteSub, hdl]
    exact CFE_SB_SendRouteSub_loop_of_no_global cfg env k _ a hg
  | true =>
    have hloop := CFE_SB_SendRouteSub_loop_of_global cfg env k route.DestList a hg
    have hold : a.CFE_SB_Global.PrevSubMsg.Payload.Entry[
        a.CFE_SB_Global.PrevSubMsg.Payload.Entries]? =
        some (a.CFE_SB_Global.PrevSubMsg.Payload.Entry[
          a.CFE_SB_Global.PrevSubMsg.Payload.Entries]) := List.getElem?_eq_getElem hlt
    rw [CFE_SB_SendRouteSub, hdl, hloop]
    simp only [CFE_SB_SendRouteSub_loop, if_true, hold, hmid]
    by_cases hfull : cfg.CFE_SB_SUB_ENTRIES_PER_PKT ≤
        a.CFE_SB_Global.PrevSubMsg.Payload.Entries + 1
    · have hfull2 : (a.setPrevSub
          { PktSegment := a.CFE_SB_Global.PrevSubMsg.Payload.PktSegment,
            Entries := a.CFE_SB_Global.PrevSubMsg.Payload.Entries + 1,
            Entry := a.CFE_SB_Global.PrevSubMsg.Payload.Entry.set
              a.CFE_SB_Global.PrevSubMsg.Payload.Entries
              { MsgId := route.MsgId, Qos := { Priority := 0, Reliability := 0 },
                Pipe := (a.CFE_SB_Global.PrevSubMsg.Payload.Entry[
                  a.CFE_SB_Global.PrevSubMsg.Payload.Entries]).Pipe }
          }).CFE_SB_Global.PrevSubMsg.Payload.Entries ≥ cfg.CFE_SB_SUB_ENTRIES_PER_PKT :=
        hfull
      rw [if_pos hfull2]
      refine ⟨_, rfl, rfl, ?_, fun h => absurd h (by simp), fun _ h => absurd hfull (by omega),
        fun _ _ => ?_⟩
      · simp [CFE_SB_TransmitMsg, CFE_EVS_SendEvent, CFE_SB_UnlockSharedData,
          CFE_SB_LockSharedData, CFE_SB_State.emit, CFE_SB_State.setPrevSub]
      · refine ⟨
          { PktSegment := a.CFE_SB_Global.PrevSubMsg.Payload.PktSegment,
            Entries := a.CFE_SB_Global.PrevSubMsg.Payload.Entries + 1,
            Entry := a.CFE_SB_Global.PrevSubMsg.Payload.Entry.set
              a.CFE_SB_Global.PrevSubMsg.Payload.Entries
              { MsgId := route.MsgId, Qos := { Priority := 0, Reliability := 0 },
                Pipe := (a.CFE_SB_Global.PrevSubMsg.Payload.Entry[
                  a.CFE_SB_Global.PrevSubMsg.Payload.Entries]).Pipe } },
          ?_, rfl, rfl, ?_, rfl, rfl⟩
        · simp [CFE_SB_TransmitMsg, CFE_EVS_SendEvent, CFE_SB_UnlockSharedData,
            CFE_SB_LockSharedData, CFE_SB_State.emit, CFE_SB_State.setPrevSub]
        · exact CFE_SB_packetEntries_set _ _ hlt
    · have hfull2 : ¬ (a.setPrevSub
          { PktSegment := a.CFE_SB_Global.PrevSubMsg.Payload.PktSegment,
            Entries := a.CFE_SB_Global.PrevSubMsg.Payload.Entries + 1,
            Entry := a.CFE_SB_Global.PrevSubMsg.Payload.Entry.set
              a.CFE_SB_Global.PrevSubMsg.Payload.Entries
              { MsgId := route.MsgId, Qos := { Priority := 0, Reliability := 0 },
                Pipe := (a.CFE_SB_Global.PrevSubMsg.Payload.Entry[
                  a.CFE_SB_Global.PrevSubMsg.Payload.Entries]).Pipe }
          }).CFE_SB_Global.PrevSubMsg.Payload.Entries ≥ cfg.CFE_SB_SUB_ENTRIES_PER_PKT :=
        hfull
      rw [if_neg hfull2]
      refine ⟨_, rfl, rfl, ?_, fun h => absurd h (by simp),
        fun _ _ => ⟨rfl, rfl, rfl, ?_⟩, fun _ h => absurd h hfull⟩
      · simp [CFE_SB_State.setPrevSub]
      · exact CFE_SB_packetEntries_set _ _ hlt

theorem CFE_SB_globalMsgIds_take_succ (T : List CFE_SBR_RouteEntry_t) (k : Nat)
    (route : CFE_SBR_RouteEntry_t) (h : T[k]? = some route) :
    CFE_SB_globalMsgIds (T.take (k + 1)) =
      CFE_SB_globalMsgIds (T.take k) ++
        (if CFE_SB_routeHasGlobal route = true then [route.MsgId] else []) := by
  rw [List.take_succ, h]
  cases hg : CFE_SB_routeHasGlobal route <;>
    simp [CFE_SB_globalMsgIds, List.filter_append, hg]

theorem CFE_SB_SendPrevSubs_fold (cfg : CFE_SB_Config) (env : CFE_SB_Env) (s0 : CFE_SB_State)
    (hlen : s0.CFE_SB_Global.PrevSubMsg.Payload.Entry.length = cfg.CFE_SB_SUB_ENTRIES_PER_PKT)
    (hE : 0 < cfg.CFE_SB_SUB_ENTRIES_PER_PKT)
    (h0 : s0.CFE_SB_Global.PrevSubMsg.Payload.Entries = 0) :
    ∀ k, k ≤ s0.RoutingTbl.length → ∃ (a : CFE_SB_State) (new : List CFE_SB_Effect) (q : Nat),
      (List.range k).foldlM (fun a i => CFE_SB_SendRouteSub cfg env i a) s0 = some a ∧
      a.RoutingTbl = s0.RoutingTbl ∧
      a.Trace = s0.Trace ++ new ∧
      a.CFE_SB_Global.PrevSubMsg.Payload.Entry.length = cfg.CFE_SB_SUB_ENTRIES_PER_PKT ∧
      a.CFE_SB_Global.PrevSubMsg.Payload.Entries < cfg.CFE_SB_SUB_ENTRIES_PER_PKT ∧
      a.CFE_SB_Global.PrevSubMsg.Payload.PktSegment =
        s0.CFE_SB_Global.PrevSubMsg.Payload.PktSegment + q ∧
      (CFE_SB_globalMsgIds (s0.RoutingTbl.take k)).length =
        q * cfg.CFE_SB_SUB_ENTRIES_PER_PKT + a.CFE_SB_Global.PrevSubMsg.Payload.Entries ∧
      (CFE_SB_prevSubPackets new).map (fun p => (p.PktSegment, p.Entries)) =
        (List.range q).map (fun j =>
          (s0.CFE_SB_Global.PrevSubMsg.Payload.PktSegment + j,
            cfg.CFE_SB_SUB_ENTRIES_PER_PKT)) ∧
      ((CFE_SB_prevSubPackets new).map CFE_SB_packetEntries).flatten ++
          CFE_SB_packetEntries a.CFE_SB_Global.PrevSubMsg.Payload =
        (CFE_SB_globalMsgIds (s0.RoutingTbl.take k)).map
          (fun m => (m, ({ Priority := 0, Reliability := 0 } : CFE_SB_Qos_t))) := by
  intro k
  induction k with
  | zero =>
    intro _
    refine ⟨s0, [], 0, rfl, rfl, (List.append_nil _).symm, hlen, by omega, rfl, ?_, rfl, ?_⟩
    · simp [CFE_SB_globalMsgIds, h0]
    · simp [CFE_SB_globalMsgIds, CFE_SB_prevSubPackets, CFE_SB_packetEntries, h0]
  | succ k ih =>
    intro hk
    obtain ⟨a, new, q, hfold, hT, htr, hl, hlt, hseg, hcount, hpk, hent⟩ := ih (by omega)
    obtain ⟨route, hroute0⟩ : ∃ route, s0.RoutingTbl[k]? = some route :=
      ⟨_, List.getElem?_eq_getElem (by omega)⟩
    have hroute : a.RoutingTbl[k]? = some route := by rw [hT]; exact hroute0
    obtain ⟨b, hb, bT, bl, bno, bpart, bfull⟩ :=
      CFE_SB_SendRouteSub_step cfg env k a route hroute (by rw [hl]; exact hlt)
    have hfold2 : (List.range (k + 1)).foldlM (fun a i => CFE_SB_SendRouteSub cfg env i a) s0
        = some b := by
      rw [List.range_succ, List.foldlM_append, hfold]
      simp only [Option.bind_eq_bind, Option.some_bind, List.foldlM_cons, List.foldlM_nil, hb]
      rfl
    have hG := CFE_SB_globalMsgIds_take_succ s0.RoutingTbl k route hroute0
    cases hg : CFE_SB_routeHasGlobal route with
    | false =>
      have hba := bno hg
      subst hba
      rw [hg] at hG
      simp only [Bool.false_eq_true, if_false, List.append_nil] at hG
      exact ⟨b, new, q, hfold2, hT, htr, hl, hlt, hseg, by rw [hG]; exact hcount, hpk,
        by rw [hG]; exact hent⟩
    | true =>
      rw [hg] at hG
      simp only [if_true] at hG
      by_cases hfull : cfg.CFE_SB_SUB_ENTRIES_PER_PKT ≤
          a.CFE_SB_Global.PrevSubMsg.Payload.Entries + 1
      · obtain ⟨p, ptr, pseg, pn, pent, bseg, bn⟩ := bfull hg hfull
        refine ⟨b, new ++ [CFE_SB_Effect.UnlockSharedData,
            CFE_SB_Effect.TransmitMsg (CFE_SB_TlmMsg.PrevSubMsg p),
            CFE_SB_Effect.SendEvent CFE_SB_FULL_SUB_PKT_EID CFE_EVS_EventType_DEBUG
              [(p.PktSegment : Int), (p.Entries : Int)],
            CFE_SB_Effect.LockSharedData], q + 1, hfold2, bT.trans hT, ?_, bl.trans hl,
          by omega, by omega, ?_, ?_, ?_⟩
        · rw [ptr, htr, List.append_assoc]
        · rw [hG, List.length_append, hcount, bn, Nat.succ_mul]
          simp only [List.length_singleton]
          omega
        · rw [CFE_SB_prevSubPackets_append, List.map_append, hpk, List.range_succ,
            List.map_append]
          have hpe : p.Entries = cfg.CFE_SB_SUB_ENTRIES_PER_PKT := by omega
          simp [CFE_SB_prevSubPackets, pseg, hseg, hpe]
        · rw [CFE_SB_prevSubPackets_append, List.map_append, List.flatten_append, hG,
            List.map_append, ← hent]
          have hb0 : CFE_SB_packetEntries b.CFE_SB_Global.PrevSubMsg.Payload = [] := by
            simp [CFE_SB_packetEntries, bn]
          simp [CFE_SB_prevSubPackets, pent, hb0]
      · obtain ⟨btr, bseg, bn, bent⟩ := bpart hg (by omega)
        refine ⟨b, new, q, hfold2, bT.trans hT, btr.trans htr, bl.trans hl, by omega,
          bseg.trans hseg, ?_, hpk, ?_⟩
        · rw [hG, List.length_append, hcount, bn]
          simp only [List.length_singleton]
          omega
        · rw [hG, List.map_append, ← hent, bent]
          simp

theorem CFE_SB_SendPrevSubsCmd_packets (cfg : CFE_SB_Config) (env : CFE_SB_Env)
    (s : CFE_SB_State)
    (hlen : s.CFE_SB_Global.PrevSubMsg.Payload.Entry.length = cfg.CFE_SB_SUB_ENTRIES_PER_PKT)
    (hE : 0 < cfg.CFE_SB_SUB_ENTRIES_PER_PKT) :
    ∃ (r : CFE_Status × CFE_SB_State) (new : List CFE_SB_Effect),
      CFE_SB_SendPrevSubsCmd cfg env s = some r ∧ r.1 = CFE_SUCCESS ∧
      r.2.Trace = s.Trace ++ new ∧
      ((CFE_SB_prevSubPackets new).map CFE_SB_packetEntries).flatten =
        (CFE_SB_globalMsgIds s.RoutingTbl).map
          (fun m => (m, ({ Priority := 0, Reliability := 0 } : CFE_SB_Qos_t))) ∧
      (CFE_SB_prevSubPackets new).map (fun p => (p.PktSegment, p.Entries)) =
        (List.range ((CFE_SB_globalMsgIds s.RoutingTbl).length /
            cfg.CFE_SB_SUB_ENTRIES_PER_PKT)).map
          (fun j => (j + 1, cfg.CFE_SB_SUB_ENTRIES_PER_PKT)) ++
        (if (CFE_SB_globalMsgIds s.RoutingTbl).length % cfg.CFE_SB_SUB_ENTRIES_PER_PKT = 0
          then []
          else [((CFE_SB_globalMsgIds s.RoutingTbl).length / cfg.CFE_SB_SUB_ENTRIES_PER_PKT + 1,
            (CFE_SB_globalMsgIds s.RoutingTbl).length % cfg.CFE_SB_SUB_ENTRIES_PER_PKT)]) := by
  obtain ⟨a, new, q, hfold, hT, htr, hl, hlt, hseg, hcount, hpk, hent⟩ :=
    CFE_SB_SendPrevSubs_fold cfg env
      ((CFE_SB_LockSharedData s).setPrevSub
        { (CFE_SB_LockSharedData s).CFE_SB_Global.PrevSubMsg.Payload with
          PktSegment := 1, Entries := 0 })
      hlen hE rfl s.RoutingTbl.length (Nat.le_refl _)
  have hTs : ((CFE_SB_LockSharedData s).setPrevSub
      { (CFE_SB_LockSharedData s).CFE_SB_Global.PrevSubMsg.Payload with
        PktSegment := 1, Entries := 0 }).RoutingTbl = s.RoutingTbl := rfl
  have hsegs : ((CFE_SB_LockSharedData s).setPrevSub
      { (CFE_SB_LockSharedData s).CFE_SB_Global.PrevSubMsg.Payload with
        PktSegment := 1, Entries := 0 }).CFE_SB_Global.PrevSubMsg.Payload.PktSegment = 1 := rfl
  have htrs : ((CFE_SB_LockSharedData s).setPrevSub
      { (CFE_SB_LockSharedData s).CFE_SB_Global.PrevSubMsg.Payload with
        PktSegment := 1, Entries := 0 }).Trace = s.Trace ++ [CFE_SB_Effect.LockSharedData] := rfl
  rw [hTs] at hcount hent hT
  rw [hsegs] at hseg hpk
  rw [htrs] at htr
  rw [List.take_length] at hcount hent
  have hq : (CFE_SB_globalMsgIds s.RoutingTbl).length / cfg.CFE_SB_SUB_ENTRIES_PER_PKT = q := by
    rw [hcount, Nat.add_comm, Nat.add_mul_div_right _ _ hE, Nat.div_eq_of_lt hlt, Nat.zero_add]
  have hr : (CFE_SB_globalMsgIds s.RoutingTbl).length % cfg.CFE_SB_SUB_ENTRIES_PER_PKT =
      a.CFE_SB_Global.PrevSubMsg.Payload.Entries := by
    rw [hcount, Nat.add_comm, Nat.add_mul_mod_self_right, Nat.mod_eq_of_lt hlt]
  have hpk2 : (CFE_SB_prevSubPackets new).map (fun p => (p.PktSegment, p.Entries)) =
      (List.range q).map (fun j => (j + 1, cfg.CFE_SB_SUB_ENTRIES_PER_PKT)) := by
    rw [hpk]
    apply List.map_congr_left
    intro j _
    rw [Nat.add_comm]
  have hcmd : CFE_SB_SendPrevSubsCmd cfg env s =
      (if (CFE_SB_UnlockSharedData a).CFE_SB_Global.PrevSubMsg.Payload.Entries > 0 then
        some (CFE_SUCCESS,
          CFE_EVS_SendEvent
            (CFE_SB_TransmitMsg env (CFE_SB_UnlockSharedData a)
              (CFE_SB_TlmMsg.PrevSubMsg
                (CFE_SB_UnlockSharedData a).CFE_SB_Global.PrevSubMsg.Payload)).2
            CFE_SB_PART_SUB_PKT_EID CFE_EVS_EventType_DEBUG
            [((CFE_SB_TransmitMsg env (CFE_SB_UnlockSharedData a)
                (CFE_SB_TlmMsg.PrevSubMsg
                  (CFE_SB_UnlockSharedData a).CFE_SB_Global.PrevSubMsg.Payload)
                ).2.CFE_SB_Global.PrevSubMsg.Payload.PktSegment : Int),
              ((CFE_SB_TransmitMsg env (CFE_SB_UnlockSharedData a)
                (CFE_SB_TlmMsg.PrevSubMsg
                  (CFE_SB_UnlockSharedData a).CFE_SB_Global.PrevSubMsg.Payload)
                ).2.CFE_SB_Global.PrevSubMsg.Payload.Entries : Int)])
      else some (CFE_SUCCESS, CFE_SB_UnlockSharedData a)) := by
    simp only [CFE_SB_SendPrevSubsCmd, CFE_SBR_ForEachRouteId]
    rw [hTs, hfold]
  rw [hcmd]
  by_cases hpos : (CFE_SB_UnlockSharedData a).CFE_SB_Global.PrevSubMsg.Payload.Entries > 0
  · rw [if_pos hpos]
    have hpos2 : a.CFE_SB_Global.PrevSubMsg.Payload.Entries ≠ 0 := by
      have : (CFE_SB_UnlockSharedData a).CFE_SB_Global.PrevSubMsg.Payload.Entries =
        a.CFE_SB_Global.PrevSubMsg.Payload.Entries := rfl
      omega
    refine ⟨_, [CFE_SB_Effect.LockSharedData] ++ new ++
        [CFE_SB_Effect.UnlockSharedData,
         CFE_SB_Effect.TransmitMsg (CFE_SB_TlmMsg.PrevSubMsg
           a.CFE_SB_Global.PrevSubMsg.Payload),
         CFE_SB_Effect.SendEvent CFE_SB_PART_SUB_PKT_EID CFE_EVS_EventType_DEBUG
           [(a.CFE_SB_Global.PrevSubMsg.Payload.PktSegment : Int),
             (a.CFE_SB_Global.PrevSubMsg.Payload.Entries : Int)]], rfl, rfl, ?_, ?_, ?_⟩
    · simp [CFE_SB_TransmitMsg, CFE_EVS_SendEvent, CFE_SB_UnlockSharedData, CFE_SB_State.emit,
        htr]
    · rw [← hent]
      simp [CFE_SB_prevSubPackets_append, CFE_SB_prevSubPackets]
    · rw [hq, hr, if_neg hpos2, ← hpk2]
      simp [CFE_SB_prevSubPackets_append, CFE_SB_prevSubPackets]
      omega
  · rw [if_neg hpos]
    have hzero : a.CFE_SB_Global.PrevSubMsg.Payload.Entries = 0 := by
      have : (CFE_SB_UnlockSharedData a).CFE_SB_Global.PrevSubMsg.Payload.Entries =
        a.CFE_SB_Global.PrevSubMsg.Payload.Entries := rfl
      omega
    have ha0 : CFE_SB_packetEntries a.CFE_SB_Global.PrevSubMsg.Payload = [] := by
      simp [CFE_SB_packetEntries, hzero]
    refine ⟨_, [CFE_SB_Effect.LockSharedData] ++ new ++ [CFE_SB_Effect.UnlockSharedData],
      rfl, rfl, ?_, ?_, ?_⟩
    · simp [CFE_SB_UnlockSharedData, CFE_SB_State.emit, htr]
    · rw [← hent, ha0]
      simp [CFE_SB_prevSubPackets_append, CFE_SB_prevSubPackets]
    · rw [hq, hr, if_pos hzero, ← hpk2]
      simp [CFE_SB_prevSubPackets_append, CFE_SB_prevSubPackets]

/-- C25: entries sent by the previous subscriptions command, for every state whose `Entry`
array has `CFE_SB_SUB_ENTRIES_PER_PKT` elements, that number being positive, and every
routing table.  The command returns, and the entries carried by the packets it transmits
(the first `Entries` elements of each packet), concatenated in transmit order, are the
MsgIds of the routes that have at least one destination of global scope, in route id order,
one entry per such route, each with Qos priority 0 and reliability 0.  Routes without a
destination of global scope contribute nothing. -/
theorem CFE_SB_SendPrevSubsCmd_entries (cfg : CFE_SB_Config) (env : CFE_SB_Env)
    (s : CFE_SB_State)
    (hlen : s.CFE_SB_Global.PrevSubMsg.Payload.Entry.length = cfg.CFE_SB_SUB_ENTRIES_PER_PKT)
    (hE : 0 < cfg.CFE_SB_SUB_ENTRIES_PER_PKT) :
    ∃ (r : CFE_Status × CFE_SB_State) (new : List CFE_SB_Effect),
      CFE_SB_SendPrevSubsCmd cfg env s = some r ∧ r.1 = CFE_SUCCESS ∧
      r.2.Trace = s.Trace ++ new ∧
      ((CFE_SB_prevSubPackets new).map CFE_SB_packetEntries).flatten =
        ((s.RoutingTbl.filter
            (fun route => route.DestList.any
              (fun d => decide (d.Scope = CFE_SB_MSG_GLOBAL)))).map
          (fun route => route.MsgId)).map
          (fun m => (m, ({ Priority := 0, Reliability := 0 } : CFE_SB_Qos_t))) ∧
      CFE_SB_globalMsgIds s.RoutingTbl =
        (s.RoutingTbl.filter
            (fun route => route.DestList.any
              (fun d => decide (d.Scope = CFE_SB_MSG_GLOBAL)))).map
          (fun route => route.MsgId) := by
  obtain ⟨r, new, h1, h2, h3, h4, _⟩ := CFE_SB_SendPrevSubsCmd_packets cfg env s hlen hE
  exact ⟨r, new, h1, h2, h3, h4, rfl⟩

/-- Instance of the previous subscriptions entries: with two entries per packet and three
routes with a global destination the command returns, and the packets carry the three
MsgIds in route order. -/
theorem CFE_SB_SendPrevSubsCmd_entries_witness :
    ∃ (r : CFE_Status × CFE_SB_State) (new : List CFE_SB_Effect),
      CFE_SB_SendPrevSubsCmd (sampleConfigEntries 2) sampleEnv (sampleStateRoutes 2 3) =
        some r ∧ r.1 = CFE_SUCCESS ∧
      r.2.Trace = (sampleStateRoutes 2 3).Trace ++ new ∧
      ((CFE_SB_prevSubPackets new).map CFE_SB_packetEntries).flatten =
        (((sampleStateRoutes 2 3).RoutingTbl.filter
            (fun route => route.DestList.any
              (fun d => decide (d.Scope = CFE_SB_MSG_GLOBAL)))).map
          (fun route => route.MsgId)).map
          (fun m => (m, ({ Priority := 0, Reliability := 0 } : CFE_SB_Qos_t))) ∧
      CFE_SB_globalMsgIds (sampleStateRoutes 2 3).RoutingTbl =
        ((sampleStateRoutes 2 3).RoutingTbl.filter
            (fun route => route.DestList.any
              (fun d => decide (d.Scope = CFE_SB_MSG_GLOBAL)))).map
          (fun route => route.MsgId) :=
  CFE_SB_SendPrevSubsCmd_entries (sampleConfigEntries 2) sampleEnv (sampleStateRoutes 2 3)
    (by decide) (by decide)

theorem CFE_SB_eventCount_append (EventID : CFE_SB_EventID) (a b : List CFE_SB_Effect) :
    CFE_SB_eventCount EventID (a ++ b) =
      CFE_SB_eventCount EventID a + CFE_SB_eventCount EventID b := by
  induction a with
  | nil => simp [CFE_SB_eventCount]
  | cons e a ih =>
    cases e <;> simp [CFE_SB_eventCount, ih, Nat.add_assoc]

theorem CFE_SB_writeCount_append (a b : List CFE_SB_Effect) :
    CFE_SB_writeCount (a ++ b) = CFE_SB_writeCount a + CFE_SB_writeCount b := by
  induction a with
  | nil => simp [CFE_SB_writeCount]
  | cons e a ih =>
    cases e <;> simp [CFE_SB_writeCount, ih, Nat.add_assoc]

theorem CFE_SB_shortWriteCount_append (env : CFE_SB_Env) (size : Nat)
    (a b : List CFE_SB_Effect) :
    ∀ pre, CFE_SB_shortWriteCount env size pre (a ++ b) =
      CFE_SB_shortWriteCount env size pre a +
        CFE_SB_shortWriteCount env size (pre ++ a) b := by
  induction a with
  | nil => intro pre; simp [CFE_SB_shortWriteCount]
  | cons e a ih =>
    intro pre
    cases e <;> simp [CFE_SB_shortWriteCount, ih, Nat.add_assoc]

theorem addUint32_natCast (x size : Nat) :
    addUint32 x (size : Int) = (x + size) % 4294967296 := by
  unfold addUint32
  omega

theorem addUint32_lt (x : Nat) (status : Int) : addUint32 x status < 4294967296 := by
  unfold addUint32
  omega

theorem CFE_SB_fileStep_refl (env : CFE_SB_Env) (size : Nat)
    (sa : CFE_SB_State × CFE_SB_FileWriteCallback_t) : CFE_SB_fileStep env size sa sa := by
  refine ⟨[], (List.append_nil _).symm, rfl, rfl, rfl, rfl, ?_, ?_⟩
  · simp [CFE_SB_shortWriteCount]
  · intro h1 h2
    refine ⟨h1, h2, fun _ => ?_⟩
    simp only [CFE_SB_writeCount, Nat.zero_mul, Nat.add_zero]
    exact ⟨(Nat.mod_eq_of_lt h1).symm, (Nat.mod_eq_of_lt h2).symm⟩

theorem CFE_SB_fileStep_trans (env : CFE_SB_Env) (size : Nat)
    {sa sb sc : CFE_SB_State × CFE_SB_FileWriteCallback_t}
    (h1 : CFE_SB_fileStep env size sa sb) (h2 : CFE_SB_fileStep env size sb sc) :
    CFE_SB_fileStep env size sa sc := by
  obtain ⟨n1, t1, g1, r1, e1, d1, s1, f1⟩ := h1
  obtain ⟨n2, t2, g2, r2, e2, d2, s2, f2⟩ := h2
  rw [t1] at e2 s2 f2
  refine ⟨n1 ++ n2, by rw [t2, t1, List.append_assoc], g2.trans g1, r2.trans r1, ?_, ?_, ?_, ?_⟩
  · rw [CFE_SB_eventCount_append, CFE_SB_shortWriteCount_append, e1, e2]
  · rw [CFE_SB_eventCount_append, d1, d2]
  · rw [CFE_SB_shortWriteCount_append, s2, s1]
    by_cases c1 : 0 < CFE_SB_shortWriteCount env size sa.1.Trace n1 <;>
      by_cases c2 : 0 < CFE_SB_shortWriteCount env size (sa.1.Trace ++ n1) n2
    · rw [if_pos c2, if_pos (by omega)]
    · rw [if_neg c2, if_pos c1, if_pos (by omega)]
    · rw [if_pos c2, if_pos (by omega)]
    · rw [if_neg c2, if_neg c1, if_neg (by omega)]
  · intro ha hb
    obtain ⟨b1, b2, b3⟩ := f1 ha hb
    obtain ⟨c1, c2, c3⟩ := f2 b1 b2
    refine ⟨c1, c2, fun h0 => ?_⟩
    rw [CFE_SB_shortWriteCount_append] at h0
    obtain ⟨x1, x2⟩ := b3 (by omega)
    obtain ⟨y1, y2⟩ := c3 (by omega)
    rw [y1, y2, x1, x2, CFE_SB_writeCount_append, Nat.add_mul]
    constructor
    · omega
    · omega

theorem foldlM_fileStep (env : CFE_SB_Env) (size : Nat)
    (f : Nat → CFE_SB_State × CFE_SB_FileWriteCallback_t →
      Option (CFE_SB_State × CFE_SB_FileWriteCallback_t))
    (sa : CFE_SB_State × CFE_SB_FileWriteCallback_t)
    (hf : ∀ i a, CFE_SB_fileStep env size sa a →
      ∃ b, f i a = some b ∧ CFE_SB_fileStep env size a b) :
    ∀ (l : List Nat) (a : CFE_SB_State × CFE_SB_FileWriteCallback_t),
      CFE_SB_fileStep env size sa a →
      ∃ b, l.foldlM (fun a i => f i a) a = some b ∧ CFE_SB_fileStep env size a b := by
  intro l
  induction l with
  | nil =>
    intro a _
    exact ⟨a, rfl, CFE_SB_fileStep_refl env size a⟩
  | cons i l ih =>
    intro a ha
    obtain ⟨b, hb, hab⟩ := hf i a ha
    obtain ⟨c, hc, hbc⟩ := ih b (CFE_SB_fileStep_trans env size ha hab)
    refine ⟨c, ?_, CFE_SB_fileStep_trans env size hab hbc⟩
    rw [List.foldlM_cons, hb]
    exact hc

theorem CFE_SB_fileStep_write (env : CFE_SB_Env) (size : Nat) (s : CFE_SB_State)
    (args : CFE_SB_FileWriteCallback_t) (e : CFE_SB_FileEntry) :
    CFE_SB_fileStep env size (s, args)
      ((if env.OS_write s.Trace e ≠ (size : Int) then
          ((CFE_SB_FileWriteByteCntErr (s.emit (CFE_SB_Effect.OS_write e)) size
              (env.OS_write s.Trace e)).emit CFE_SB_Effect.OS_close,
            ({ args with Status := CFE_SB_FILE_IO_ERR } : CFE_SB_FileWriteCallback_t))
        else (s.emit (CFE_SB_Effect.OS_write e), args)).1,
       { Filename := (if env.OS_write s.Trace e ≠ (size : Int) then
            ((CFE_SB_FileWriteByteCntErr (s.emit (CFE_SB_Effect.OS_write e)) size
                (env.OS_write s.Trace e)).emit CFE_SB_Effect.OS_close,
              ({ args with Status := CFE_SB_FILE_IO_ERR } : CFE_SB_FileWriteCallback_t))
          else (s.emit (CFE_SB_Effect.OS_write e), args)).2.Filename,
         FileSize := addUint32 (if env.OS_write s.Trace e ≠ (size : Int) then
            ((CFE_SB_FileWriteByteCntErr (s.emit (CFE_SB_Effect.OS_write e)) size
                (env.OS_write s.Trace e)).emit CFE_SB_Effect.OS_close,
              ({ args with Status := CFE_SB_FILE_IO_ERR } : CFE_SB_FileWriteCallback_t))
          else (s.emit (CFE_SB_Effect.OS_write e), args)).2.FileSize (env.OS_write s.Trace e),
         EntryCount := ((if env.OS_write s.Trace e ≠ (size : Int) then
            ((CFE_SB_FileWriteByteCntErr (s.emit (CFE_SB_Effect.OS_write e)) size
                (env.OS_write s.Trace e)).emit CFE_SB_Effect.OS_close,
              ({ args with Status := CFE_SB_FILE_IO_ERR } : CFE_SB_FileWriteCallback_t))
          else (s.emit (CFE_SB_Effect.OS_write e), args)).2.EntryCount + 1) % 4294967296,
         Status := (if env.OS_write s.Trace e ≠ (size : Int) then
            ((CFE_SB_FileWriteByteCntErr (s.emit (CFE_SB_Effect.OS_write e)) size
                (env.OS_write s.Trace e)).emit CFE_SB_Effect.OS_close,
              ({ args with Status := CFE_SB_FILE_IO_ERR } : CFE_SB_FileWriteCallback_t))
          else (s.emit (CFE_SB_Effect.OS_write e), args)).2.Status }) := by
  by_cases hw : env.OS_write s.Trace e ≠ (size : Int)
  · simp only [if_pos hw]
    refine ⟨[CFE_SB_Effect.OS_write e,
      CFE_SB_Effect.SendEvent CFE_SB_FILEWRITE_ERR_EID CFE_EVS_EventType_ERROR
        [(size : Int), env.OS_write s.Trace e],
      CFE_SB_Effect.OS_close], ?_, rfl, rfl, ?_, ?_, ?_, ?_⟩
    · simp [CFE_SB_FileWriteByteCntErr, CFE_EVS_SendEvent, CFE_SB_State.emit]
    · simp [CFE_SB_eventCount, CFE_SB_shortWriteCount, hw]
    · simp [CFE_SB_eventCount]
    · simp [CFE_SB_shortWriteCount, hw]
    · intro h1 h2
      refine ⟨addUint32_lt _ _, Nat.mod_lt _ (by decide), fun h0 => ?_⟩
      simp [CFE_SB_shortWriteCount, hw] at h0
  · have hw2 : env.OS_write s.Trace e = (size : Int) := by
      by_contra h
      exact hw h
    simp only [if_neg hw]
    refine ⟨[CFE_SB_Effect.OS_write e], ?_, rfl, rfl, ?_, ?_, ?_, ?_⟩
    · simp [CFE_SB_State.emit]
    · simp [CFE_SB_eventCount, CFE_SB_shortWriteCount, hw2]
    · simp [CFE_SB_eventCount]
    · simp [CFE_SB_shortWriteCount, hw2]
    · intro h1 h2
      refine ⟨addUint32_lt _ _, Nat.mod_lt _ (by decide), fun _ => ?_⟩
      simp only [CFE_SB_writeCount, Nat.add_zero, Nat.one_mul, hw2, addUint32_natCast]
      exact ⟨trivial, trivial⟩

theorem CFE_SB_fileStep_lock_unlock (env : CFE_SB_Env) (size : Nat) (s : CFE_SB_State)
    (args : CFE_SB_FileWriteCallback_t) :
    CFE_SB_fileStep env size (s, args)
      (CFE_SB_UnlockSharedData (CFE_SB_LockSharedData s), args) := by
  refine ⟨[CFE_SB_Effect.LockSharedData, CFE_SB_Effect.UnlockSharedData], ?_, rfl, rfl, ?_, ?_,
    ?_, ?_⟩
  · simp [CFE_SB_UnlockSharedData, CFE_SB_LockSharedData, CFE_SB_State.emit]
  · simp [CFE_SB_eventCount, CFE_SB_shortWriteCount]
  · simp [CFE_SB_eventCount]
  · simp [CFE_SB_shortWriteCount]
  · intro h1 h2
    refine ⟨h1, h2, fun _ => ?_⟩
    simp only [CFE_SB_writeCount, Nat.zero_mul, Nat.add_zero]
    exact ⟨(Nat.mod_eq_of_lt h1).symm, (Nat.mod_eq_of_lt h2).symm⟩

theorem CFE_SB_WriteRouteToFile_write_step (cfg : CFE_SB_Config) (env : CFE_SB_Env)
    (MsgId : Nat) (pipedptr : Option Nat) :
    ∀ (infos : List RouteInfo) (s : CFE_SB_State) (args : CFE_SB_FileWriteCallback_t),
      (infos = [] ∨
        ∃ PipeDsc, pipedptr.bind (fun Idx => s.CFE_SB_Global.PipeTbl[Idx]?) = some PipeDsc) →
      ∃ b, CFE_SB_WriteRouteToFile_write cfg env MsgId pipedptr infos (s, args) = some b ∧
        CFE_SB_fileStep env cfg.sizeof_CFE_SB_RoutingFileEntry_t (s, args) b := by
  intro infos
  induction infos with
  | nil =>
    intro s args _
    exact ⟨(s, args), rfl, CFE_SB_fileStep_refl env _ _⟩
  | cons info rest ih =>
    intro s args h
    rcases h with h | ⟨PipeDsc, hp⟩
    · exact absurd h (by simp)
    · have hstep := CFE_SB_fileStep_write env cfg.sizeof_CFE_SB_RoutingFileEntry_t s args
        (CFE_SB_FileEntry.Routing
          { MsgId := MsgId, PipeId := info.PipeId, State := info.Active,
            MsgCnt := info.DestCnt, AppName := env.CFE_ES_GetAppName PipeDsc.AppId,
            PipeName := env.CFE_SB_GetPipeName info.PipeId })
      obtain ⟨b, hb, hsb⟩ := ih _ _ (Or.inr ⟨PipeDsc, by
        obtain ⟨_, _, g, _⟩ := hstep
        rw [g]
        exact hp⟩)
      refine ⟨b, ?_, CFE_SB_fileStep_trans env _ hstep hsb⟩
      simp only [CFE_SB_WriteRouteToFile_write, hp]
      exact hb

theorem CFE_SB_WriteRouteToFile_scan_pipedptr (cfg : CFE_SB_Config) (s : CFE_SB_State) :
    ∀ (dests : List CFE_SB_DestinationD_t) (acc : List RouteInfo) (pipedptr : Option Nat),
      (∀ d ∈ dests, ∃ PipeDsc, (CFE_SB_LocatePipeDescByID cfg s d.PipeId).bind
        (fun Idx => s.CFE_SB_Global.PipeTbl[Idx]?) = some PipeDsc) →
      (∃ PipeDsc, (CFE_SB_WriteRouteToFile_scan cfg s dests acc pipedptr).2.bind
          (fun Idx => s.CFE_SB_Global.PipeTbl[Idx]?) = some PipeDsc) ∨
        CFE_SB_WriteRouteToFile_scan cfg s dests acc pipedptr = (acc, pipedptr) := by
  intro dests
  induction dests with
  | nil =>
    intro acc pipedptr _
    exact Or.inr rfl
  | cons d rest ih =>
    intro acc pipedptr h
    have hd := h d (List.mem_cons_self _ _)
    have hrest : ∀ x ∈ rest, ∃ PipeDsc, (CFE_SB_LocatePipeDescByID cfg s x.PipeId).bind
        (fun Idx => s.CFE_SB_Global.PipeTbl[Idx]?) = some PipeDsc :=
      fun x hx => h x (List.mem_cons_of_mem _ hx)
    by_cases hlim : acc.length < cfg.CFE_PLATFORM_SB_MAX_DEST_PER_PKT
    · by_cases hm : CFE_SB_PipeDescIsMatch cfg s (CFE_SB_LocatePipeDescByID cfg s d.PipeId)
          d.PipeId = true
      · simp only [CFE_SB_WriteRouteToFile_scan, hlim, if_true, hm]
        rcases ih _ _ hrest with h1 | h1
        · exact Or.inl h1
        · rw [h1]
          exact Or.inl hd
      · simp only [CFE_SB_WriteRouteToFile_scan, hlim, if_true, hm, if_false,
          Bool.false_eq_true]
        rcases ih _ _ hrest with h1 | h1
        · exact Or.inl h1
        · rw [h1]
          exact Or.inl hd
    · simp only [CFE_SB_WriteRouteToFile_scan, hlim, if_false]
      exact Or.inr trivial

theorem CFE_SB_WriteRouteToFile_step (cfg : CFE_SB_Config) (env : CFE_SB_Env) (RouteId : Nat)
    (sa : CFE_SB_State × CFE_SB_FileWriteCallback_t)
    (h : ∀ d ∈ CFE_SBR_GetDestListHeadPtr sa.1 RouteId,
      ∃ PipeDsc, (CFE_SB_LocatePipeDescByID cfg sa.1 d.PipeId).bind
        (fun Idx => sa.1.CFE_SB_Global.PipeTbl[Idx]?) = some PipeDsc) :
    ∃ b, CFE_SB_WriteRouteToFile cfg env RouteId sa = some b ∧
      CFE_SB_fileStep env cfg.sizeof_CFE_SB_RoutingFileEntry_t sa b := by
  have hscan := CFE_SB_WriteRouteToFile_scan_pipedptr cfg (CFE_SB_LockSharedData sa.1)
    (CFE_SBR_GetDestListHeadPtr (CFE_SB_LockSharedData sa.1) RouteId) [] none h
  have hw := CFE_SB_WriteRouteToFile_write_step cfg env
    (CFE_SBR_GetMsgId cfg (CFE_SB_LockSharedData sa.1) RouteId)
    (CFE_SB_WriteRouteToFile_scan cfg (CFE_SB_LockSharedData sa.1)
      (CFE_SBR_GetDestListHeadPtr (CFE_SB_LockSharedData sa.1) RouteId) [] none).2
    (CFE_SB_WriteRouteToFile_scan cfg (CFE_SB_LockSharedData sa.1)
      (CFE_SBR_GetDestListHeadPtr (CFE_SB_LockSharedData sa.1) RouteId) [] none).1
    (CFE_SB_UnlockSharedData (CFE_SB_LockSharedData sa.1)) sa.2
    (by
      rcases hscan with h1 | h1
      · exact Or.inr h1
      · rw [h1]
        exact Or.inl rfl)
  obtain ⟨b, hb, hsb⟩ := hw
  exact ⟨b, hb, CFE_SB_fileStep_trans env _ (CFE_SB_fileStep_lock_unlock env _ sa.1 sa.2) hsb⟩

theorem CFE_SB_WriteMapToFile_step (cfg : CFE_SB_Config) (env : CFE_SB_Env) (RouteId : Nat)
    (sa : CFE_SB_State × CFE_SB_FileWriteCallback_t) :
    ∃ b, CFE_SB_WriteMapToFile cfg env RouteId sa = some b ∧
      CFE_SB_fileStep env cfg.sizeof_CFE_SB_MsgMapFileEntry_t sa b := by
  by_cases hs : sa.2.Status ≠ CFE_SB_FILE_IO_ERR
  · refine ⟨_, by simp only [CFE_SB_WriteMapToFile, hs, if_true, ne_eq, not_false_eq_true]; rfl,
      ?_⟩
    exact CFE_SB_fileStep_trans env _ (CFE_SB_fileStep_lock_unlock env _ sa.1 sa.2)
      (CFE_SB_fileStep_write env cfg.sizeof_CFE_SB_MsgMapFileEntry_t
        (CFE_SB_UnlockSharedData (CFE_SB_LockSharedData sa.1)) sa.2
        (CFE_SB_FileEntry.MsgMap
          { MsgId := CFE_SBR_GetMsgId cfg (CFE_SB_LockSharedData sa.1) RouteId,
            Index := RouteId }))
  · refine ⟨sa, by simp only [CFE_SB_WriteMapToFile, hs, if_false], ?_⟩
    exact CFE_SB_fileStep_refl env _ sa

theorem CFE_SB_fileDumpOutcome_open_error (cfg : CFE_SB_Config) (env : CFE_SB_Env)
    (size : Nat) (s : CFE_SB_State) (Filename : String)
    (h1 : env.OS_OpenCreate s.Trace Filename < OS_SUCCESS) :
    CFE_SB_fileDumpOutcome cfg env size s Filename
      (CFE_SB_FILE_IO_ERR,
        CFE_EVS_SendEvent (s.emit (CFE_SB_Effect.OS_OpenCreate Filename))
          CFE_SB_SND_RTG_ERR1_EID CFE_EVS_EventType_ERROR
          [env.OS_OpenCreate s.Trace Filename]) := by
  refine ⟨[CFE_SB_Effect.OS_OpenCreate Filename,
    CFE_SB_Effect.SendEvent CFE_SB_SND_RTG_ERR1_EID CFE_EVS_EventType_ERROR
      [env.OS_OpenCreate s.Trace Filename]], ?_, Or.inl rfl, ?_, ?_, ?_, ?_⟩
  · simp [CFE_EVS_SendEvent, CFE_SB_State.emit]
  · exact ⟨fun _ => Or.inl h1, fun _ => rfl⟩
  · simp [CFE_SB_eventCount, CFE_SB_shortWriteCount, h1]
  · simp [CFE_SB_eventCount]
  · intro h
    exact absurd h (by simp)

theorem CFE_SB_fileDumpOutcome_header_error (cfg : CFE_SB_Config) (env : CFE_SB_Env)
    (size : Nat) (s : CFE_SB_State) (Filename Description : String)
    (SubType : CFE_FS_SubType)
    (h1 : ¬ env.OS_OpenCreate s.Trace Filename < OS_SUCCESS)
    (h2 : env.CFE_FS_WriteHeader (s.emit (CFE_SB_Effect.OS_OpenCreate Filename)).Trace ≠
      (cfg.sizeof_CFE_FS_Header_t : Int)) :
    CFE_SB_fileDumpOutcome cfg env size s Filename
      (CFE_SB_FILE_IO_ERR,
        (CFE_SB_FileWriteByteCntErr
          ((s.emit (CFE_SB_Effect.OS_OpenCreate Filename)).emit
            (CFE_SB_Effect.CFE_FS_WriteHeader Description SubType))
          cfg.sizeof_CFE_FS_Header_t
          (env.CFE_FS_WriteHeader (s.emit (CFE_SB_Effect.OS_OpenCreate Filename)).Trace)).emit
          CFE_SB_Effect.OS_close) := by
  have h2b : env.CFE_FS_WriteHeader (s.Trace ++ [CFE_SB_Effect.OS_OpenCreate Filename]) ≠
      (cfg.sizeof_CFE_FS_Header_t : Int) := h2
  refine ⟨[CFE_SB_Effect.OS_OpenCreate Filename,
    CFE_SB_Effect.CFE_FS_WriteHeader Description SubType,
    CFE_SB_Effect.SendEvent CFE_SB_FILEWRITE_ERR_EID CFE_EVS_EventType_ERROR
      [(cfg.sizeof_CFE_FS_Header_t : Int),
        env.CFE_FS_WriteHeader (s.Trace ++ [CFE_SB_Effect.OS_OpenCreate Filename])],
    CFE_SB_Effect.OS_close], ?_, Or.inl rfl, ?_, ?_, ?_, ?_⟩
  · simp [CFE_SB_FileWriteByteCntErr, CFE_EVS_SendEvent, CFE_SB_State.emit]
  · exact ⟨fun _ => Or.inr (Or.inl h2b), fun _ => rfl⟩
  · simp [CFE_SB_eventCount, CFE_SB_shortWriteCount, h1, h2b]
  · simp [CFE_SB_eventCount]
  · intro h
    exact absurd h (by simp)

theorem CFE_SB_fileDumpOutcome_of_fileStep (cfg : CFE_SB_Config) (env : CFE_SB_Env)
    (size : Nat) (s : CFE_SB_State) (Filename Description : String)
    (SubType : CFE_FS_SubType)
    (b : CFE_SB_State × CFE_SB_FileWriteCallback_t)
    (h1 : ¬ env.OS_OpenCreate s.Trace Filename < OS_SUCCESS)
    (h2 : ¬ env.CFE_FS_WriteHeader (s.emit (CFE_SB_Effect.OS_OpenCreate Filename)).Trace ≠
      (cfg.sizeof_CFE_FS_Header_t : Int))
    (hstep : CFE_SB_fileStep env size
      ((s.emit (CFE_SB_Effect.OS_OpenCreate Filename)).emit
          (CFE_SB_Effect.CFE_FS_WriteHeader Description SubType),
        { Filename := Filename,
          FileSize := addUint32 0
            (env.CFE_FS_WriteHeader (s.emit (CFE_SB_Effect.OS_OpenCreate Filename)).Trace),
          EntryCount := 0, Status := CFE_SUCCESS }) b) :
    CFE_SB_fileDumpOutcome cfg env size s Filename
      (if b.2.Status ≠ CFE_SUCCESS then (b.2.Status, b.1)
        else (CFE_SUCCESS,
          CFE_EVS_SendEvent (b.1.emit CFE_SB_Effect.OS_close) CFE_SB_SND_RTG_EID
            CFE_EVS_EventType_DEBUG [(b.2.FileSize : Int), (b.2.EntryCount : Int)])) := by
  have h2a : env.CFE_FS_WriteHeader (s.Trace ++ [CFE_SB_Effect.OS_OpenCreate Filename]) =
      (cfg.sizeof_CFE_FS_Header_t : Int) := by
    by_contra h
    exact h2 h
  obtain ⟨new, t, _, _, e, d, st, f⟩ := hstep
  have hpre : CFE_SB_shortWriteCount env size s.Trace
      ([CFE_SB_Effect.OS_OpenCreate Filename,
        CFE_SB_Effect.CFE_FS_WriteHeader Description SubType] ++ new) =
      CFE_SB_shortWriteCount env size
        (s.Trace ++ [CFE_SB_Effect.OS_OpenCreate Filename,
          CFE_SB_Effect.CFE_FS_WriteHeader Description SubType]) new := by
    rw [CFE_SB_shortWriteCount_append]
    simp [CFE_SB_shortWriteCount]
  have htr : ((s.emit (CFE_SB_Effect.OS_OpenCreate Filename)).emit
      (CFE_SB_Effect.CFE_FS_WriteHeader Description SubType)).Trace =
      s.Trace ++ [CFE_SB_Effect.OS_OpenCreate Filename,
        CFE_SB_Effect.CFE_FS_WriteHeader Description SubType] := by
    simp [CFE_SB_State.emit]
  simp only [htr] at t e st f
  by_cases hs : 0 < CFE_SB_shortWriteCount env size
      (s.Trace ++ [CFE_SB_Effect.OS_OpenCreate Filename,
        CFE_SB_Effect.CFE_FS_WriteHeader Description SubType]) new
  · rw [if_pos hs] at st
    have hne : b.2.Status ≠ CFE_SUCCESS := by rw [st]; simp
    rw [if_pos hne, st]
    refine ⟨[CFE_SB_Effect.OS_OpenCreate Filename,
      CFE_SB_Effect.CFE_FS_WriteHeader Description SubType] ++ new, ?_, Or.inl rfl, ?_, ?_, ?_,
      ?_⟩
    · rw [t, List.append_assoc]
    · exact ⟨fun _ => Or.inr (Or.inr (by rw [hpre]; exact hs)), fun _ => rfl⟩
    · rw [hpre, CFE_SB_eventCount_append, e]
      simp [CFE_SB_eventCount, h2a]
    · rw [CFE_SB_eventCount_append, d]
      simp [CFE_SB_eventCount]
    · intro h
      exact absurd h (by simp)
  · rw [if_neg hs] at st
    have hs0 : CFE_SB_shortWriteCount env size
        (s.Trace ++ [CFE_SB_Effect.OS_OpenCreate Filename,
          CFE_SB_Effect.CFE_FS_WriteHeader Description SubType]) new = 0 := by omega
    have hne : ¬ b.2.Status ≠ CFE_SUCCESS := by rw [st]; simp
    rw [if_neg hne]
    obtain ⟨_, _, f3⟩ := f (addUint32_lt _ _) (by decide)
    obtain ⟨fs, ec⟩ := f3 hs0
    have hwc : CFE_SB_writeCount
        ([CFE_SB_Effect.OS_OpenCreate Filename,
          CFE_SB_Effect.CFE_FS_WriteHeader Description SubType] ++ new ++
          [CFE_SB_Effect.OS_close,
            CFE_SB_Effect.SendEvent CFE_SB_SND_RTG_EID CFE_EVS_EventType_DEBUG
              [(b.2.FileSize : Int), (b.2.EntryCount : Int)]]) = CFE_SB_writeCount new := by
      simp [CFE_SB_writeCount_append, CFE_SB_writeCount]
    have hfs : b.2.FileSize =
        (cfg.sizeof_CFE_FS_Header_t + CFE_SB_writeCount new * size) % 4294967296 := by
      rw [fs]
      have : env.CFE_FS_WriteHeader (s.emit (CFE_SB_Effect.OS_OpenCreate Filename)).Trace =
          (cfg.sizeof_CFE_FS_Header_t : Int) := h2a
      rw [this, addUint32_natCast]
      omega
    have hec : b.2.EntryCount = CFE_SB_writeCount new % 4294967296 := by
      rw [ec, Nat.zero_add]
    refine ⟨[CFE_SB_Effect.OS_OpenCreate Filename,
      CFE_SB_Effect.CFE_FS_WriteHeader Description SubType] ++ new ++
        [CFE_SB_Effect.OS_close,
          CFE_SB_Effect.SendEvent CFE_SB_SND_RTG_EID CFE_EVS_EventType_DEBUG
            [(b.2.FileSize : Int), (b.2.EntryCount : Int)]], ?_, Or.inr rfl, ?_, ?_, ?_, ?_⟩
    · simp [CFE_EVS_SendEvent, CFE_SB_State.emit, t]
    · constructor
      · intro h
        exact absurd h (by simp)
      · rintro (h | h | h)
        · exact absurd h h1
        · exact absurd h2a h
        · rw [CFE_SB_shortWriteCount_append, hpre, hs0] at h
          simp [CFE_SB_shortWriteCount] at h
    · rw [CFE_SB_shortWriteCount_append, hpre, hs0, CFE_SB_eventCount_append,
        CFE_SB_eventCount_append, e, hs0]
      simp [CFE_SB_eventCount, CFE_SB_shortWriteCount, h2a]
    · rw [CFE_SB_eventCount_append, CFE_SB_eventCount_append, d]
      simp [CFE_SB_eventCount]
    · intro _
      rw [hwc, ← hfs, ← hec]
      simp

theorem CFE_SB_WriteMapInfo_outcome (cfg : CFE_SB_Config) (env : CFE_SB_Env)
    (s : CFE_SB_State) (Filename : String) :
    ∃ r, CFE_SB_WriteMapInfo cfg env s Filename = some r ∧
      CFE_SB_fileDumpOutcome cfg env cfg.sizeof_CFE_SB_MsgMapFileEntry_t s Filename r := by
  by_cases h1 : env.OS_OpenCreate s.Trace Filename < OS_SUCCESS
  · exact ⟨_, by simp only [CFE_SB_WriteMapInfo, h1, if_true],
      CFE_SB_fileDumpOutcome_open_error cfg env _ s Filename h1⟩
  · by_cases h2 : env.CFE_FS_WriteHeader (s.emit (CFE_SB_Effect.OS_OpenCreate Filename)).Trace ≠
        (cfg.sizeof_CFE_FS_Header_t : Int)
    · exact ⟨_, by simp only [CFE_SB_WriteMapInfo, h1, if_false, h2, if_true, ne_eq,
          not_false_eq_true],
        CFE_SB_fileDumpOutcome_header_error cfg env _ s Filename
          "SB Message Map Information" CFE_FS_SubType_SB_MAPDATA h1 h2⟩
    · obtain ⟨b, hb, hstep⟩ := foldlM_fileStep env cfg.sizeof_CFE_SB_MsgMapFileEntry_t
        (CFE_SB_WriteMapToFile cfg env)
        ((s.emit (CFE_SB_Effect.OS_OpenCreate Filename)).emit
            (CFE_SB_Effect.CFE_FS_WriteHeader "SB Message Map Information"
              CFE_FS_SubType_SB_MAPDATA),
          { Filename := Filename,
            FileSize := addUint32 0
              (env.CFE_FS_WriteHeader (s.emit (CFE_SB_Effect.OS_OpenCreate Filename)).Trace),
            EntryCount := 0, Status := CFE_SUCCESS })
        (fun i a _ => CFE_SB_WriteMapToFile_step cfg env i a)
        (List.range s.RoutingTbl.length) _ (CFE_SB_fileStep_refl env _ _)
      refine ⟨_, ?_, CFE_SB_fileDumpOutcome_of_fileStep cfg env _ s Filename
        "SB Message Map Information" CFE_FS_SubType_SB_MAPDATA b h1 h2 hstep⟩
      simp only [CFE_SB_WriteMapInfo, h1, if_false, h2, CFE_SBR_ForEachRouteId]
      have hlen : ((s.emit (CFE_SB_Effect.OS_OpenCreate Filename)).emit
          (CFE_SB_Effect.CFE_FS_WriteHeader "SB Message Map Information"
            CFE_FS_SubType_SB_MAPDATA)).RoutingTbl.length = s.RoutingTbl.length := rfl
      rw [hlen, hb]
      by_cases hs : b.2.Status ≠ CFE_SUCCESS
      · simp only [hs, if_true, ne_eq, not_false_eq_true]
      · simp only [hs, if_false]

theorem CFE_SB_WriteRtgInfo_outcome (cfg : CFE_SB_Config) (env : CFE_SB_Env)
    (s : CFE_SB_State) (Filename : String)
    (hlocated : ∀ route ∈ s.RoutingTbl, ∀ d ∈ route.DestList,
      ((CFE_SB_LocatePipeDescByID cfg s d.PipeId).bind
        (fun Idx => s.CFE_SB_Global.PipeTbl[Idx]?)).isSome = true) :
    ∃ r, CFE_SB_WriteRtgInfo cfg env s Filename = some r ∧
      CFE_SB_fileDumpOutcome cfg env cfg.sizeof_CFE_SB_RoutingFileEntry_t s Filename r := by
  have hpipes : ∀ route ∈ s.RoutingTbl, ∀ d ∈ route.DestList,
      ∃ PipeDsc, (CFE_SB_LocatePipeDescByID cfg s d.PipeId).bind
        (fun Idx => s.CFE_SB_Global.PipeTbl[Idx]?) = some PipeDsc :=
    fun route hr d hd => Option.isSome_iff_exists.1 (hlocated route hr d hd)
  by_cases h1 : env.OS_OpenCreate s.Trace Filename < OS_SUCCESS
  · exact ⟨_, by simp only [CFE_SB_WriteRtgInfo, h1, if_true],
      CFE_SB_fileDumpOutcome_open_error cfg env _ s Filename h1⟩
  · by_cases h2 : env.CFE_FS_WriteHeader (s.emit (CFE_SB_Effect.OS_OpenCreate Filename)).Trace ≠
        (cfg.sizeof_CFE_FS_Header_t : Int)
    · exact ⟨_, by simp only [CFE_SB_WriteRtgInfo, h1, if_false, h2, if_true, ne_eq,
          not_false_eq_true],
        CFE_SB_fileDumpOutcome_header_error cfg env _ s Filename
          "SB Routing Information" CFE_FS_SubType_SB_ROUTEDATA h1 h2⟩
    · obtain ⟨b, hb, hstep⟩ := foldlM_fileStep env cfg.sizeof_CFE_SB_RoutingFileEntry_t
        (CFE_SB_WriteRouteToFile cfg env)
        ((s.emit (CFE_SB_Effect.OS_OpenCreate Filename)).emit
            (CFE_SB_Effect.CFE_FS_WriteHeader "SB Routing Information"
              CFE_FS_SubType_SB_ROUTEDATA),
          { Filename := Filename,
            FileSize := addUint32 0
              (env.CFE_FS_WriteHeader (s.emit (CFE_SB_Effect.OS_OpenCreate Filename)).Trace),
            EntryCount := 0, Status := CFE_SUCCESS })
        (fun i a ha => CFE_SB_WriteRouteToFile_step cfg env i a (by
          obtain ⟨_, _, g, rt, _⟩ := ha
          intro d hd
          have hg : a.1.CFE_SB_Global = s.CFE_SB_Global := g
          have hrt : a.1.RoutingTbl = s.RoutingTbl := rt
          simp only [CFE_SBR_GetDestListHeadPtr, hrt] at hd
          cases hroute : s.RoutingTbl[i]? with
          | none =>
            rw [hroute] at hd
            exact absurd hd (by simp)
          | some route =>
            rw [hroute] at hd
            obtain ⟨PipeDsc, hP⟩ := hpipes route (List.mem_iff_getElem?.2 ⟨i, hroute⟩) d hd
            refine ⟨PipeDsc, ?_⟩
            simp only [CFE_SB_LocatePipeDescByID, hg] at hP ⊢
            exact hP))
        (List.range s.RoutingTbl.length) _ (CFE_SB_fileStep_refl env _ _)
      refine ⟨_, ?_, CFE_SB_fileDumpOutcome_of_fileStep cfg env _ s Filename
        "SB Routing Information" CFE_FS_SubType_SB_ROUTEDATA b h1 h2 hstep⟩
      simp only [CFE_SB_WriteRtgInfo, h1, if_false, h2, CFE_SBR_ForEachRouteId]
      have hlen : ((s.emit (CFE_SB_Effect.OS_OpenCreate Filename)).emit
          (CFE_SB_Effect.CFE_FS_WriteHeader "SB Routing Information"
            CFE_FS_SubType_SB_ROUTEDATA)).RoutingTbl.length = s.RoutingTbl.length := rfl
      rw [hlen, hb]
      by_cases hs : b.2.Status ≠ CFE_SUCCESS
      · simp only [hs, if_true, ne_eq, not_false_eq_true]
      · simp only [hs, if_false]

theorem CFE_SB_fileStep_lock (env : CFE_SB_Env) (size : Nat) (s : CFE_SB_State)
    (args : CFE_SB_FileWriteCallback_t) :
    CFE_SB_fileStep env size (s, args) (CFE_SB_LockSharedData s, args) := by
  refine ⟨[CFE_SB_Effect.LockSharedData], rfl, rfl, rfl, ?_, ?_, ?_, ?_⟩
  · simp [CFE_SB_eventCount, CFE_SB_shortWriteCount]
  · simp [CFE_SB_eventCount]
  · simp [CFE_SB_shortWriteCount]
  · intro h1 h2
    refine ⟨h1, h2, fun _ => ?_⟩
    simp only [CFE_SB_writeCount, Nat.zero_mul, Nat.add_zero]
    exact ⟨(Nat.mod_eq_of_lt h1).symm, (Nat.mod_eq_of_lt h2).symm⟩

theorem CFE_SB_fileStep_unlock (env : CFE_SB_Env) (size : Nat) (s : CFE_SB_State)
    (args : CFE_SB_FileWriteCallback_t) :
    CFE_SB_fileStep env size (s, args) (CFE_SB_UnlockSharedData s, args) := by
  refine ⟨[CFE_SB_Effect.UnlockSharedData], rfl, rfl, rfl, ?_, ?_, ?_, ?_⟩
  · simp [CFE_SB_eventCount, CFE_SB_shortWriteCount]
  · simp [CFE_SB_eventCount]
  · simp [CFE_SB_shortWriteCount]
  · intro h1 h2
    refine ⟨h1, h2, fun _ => ?_⟩
    simp only [CFE_SB_writeCount, Nat.zero_mul, Nat.add_zero]
    exact ⟨(Nat.mod_eq_of_lt h1).symm, (Nat.mod_eq_of_lt h2).symm⟩

theorem CFE_SB_WritePipeInfo_loop_step (cfg : CFE_SB_Config) (env : CFE_SB_Env)
    (Filename : String) :
    ∀ (pipes : List CFE_SB_PipeD_t) (s : CFE_SB_State) (FileSize EntryCount : Nat),
      ((CFE_SB_WritePipeInfo_loop cfg env pipes s FileSize EntryCount).1 = none ∨
        (CFE_SB_WritePipeInfo_loop cfg env pipes s FileSize EntryCount).1 =
          some CFE_SB_FILE_IO_ERR) ∧
      CFE_SB_fileStep env cfg.sizeof_CFE_SB_PipeInfoEntry_t
        (s, { Filename := Filename, FileSize := FileSize, EntryCount := EntryCount,
              Status := CFE_SUCCESS })
        ((CFE_SB_WritePipeInfo_loop cfg env pipes s FileSize EntryCount).2.1,
          { Filename := Filename,
            FileSize := (CFE_SB_WritePipeInfo_loop cfg env pipes s FileSize EntryCount).2.2.1,
            EntryCount := (CFE_SB_WritePipeInfo_loop cfg env pipes s FileSize EntryCount).2.2.2,
            Status :=
              if (CFE_SB_WritePipeInfo_loop cfg env pipes s FileSize EntryCount).1.isSome
              then CFE_SB_FILE_IO_ERR else CFE_SUCCESS }) := by
  intro pipes
  induction pipes with
  | nil =>
    intro s FileSize EntryCount
    exact ⟨Or.inl rfl, CFE_SB_fileStep_refl env _ _⟩
  | cons d rest ih =>
    intro s FileSize EntryCount
    by_cases hu : cfg.CFE_SB_PipeDescIsUsed d = true
    · by_cases hw : env.OS_write (CFE_SB_UnlockSharedData s).Trace
          (CFE_SB_FileEntry.PipeInfo
            { PipeId := d.PipeId, AppId := d.AppId, MaxQueueDepth := d.QueueDepth,
              CurrentQueueDepth := d.CurrentDepth, PeakQueueDepth := d.PeakDepth,
              SendErrors := d.SendErrors, Opts := d.Opts,
              AppName := env.CFE_ES_GetAppName d.AppId,
              PipeName := env.OS_GetResourceName d.SysQueueId }) ≠
          (cfg.sizeof_CFE_SB_PipeInfoEntry_t : Int)
      · have hw2 : env.OS_write (s.Trace ++ [CFE_SB_Effect.UnlockSharedData])
            (CFE_SB_FileEntry.PipeInfo
              { PipeId := d.PipeId, AppId := d.AppId, MaxQueueDepth := d.QueueDepth,
                CurrentQueueDepth := d.CurrentDepth, PeakQueueDepth := d.PeakDepth,
                SendErrors := d.SendErrors, Opts := d.Opts,
                AppName := env.CFE_ES_GetAppName d.AppId,
                PipeName := env.OS_GetResourceName d.SysQueueId }) ≠
            (cfg.sizeof_CFE_SB_PipeInfoEntry_t : Int) := hw
        simp only [CFE_SB_WritePipeInfo_loop, hu, if_true, hw, ne_eq, not_false_eq_true,
          Option.isSome_some]
        refine ⟨Or.inr trivial, ?_⟩
        refine ⟨[CFE_SB_Effect.UnlockSharedData,
          CFE_SB_Effect.OS_write (CFE_SB_FileEntry.PipeInfo
            { PipeId := d.PipeId, AppId := d.AppId, MaxQueueDepth := d.QueueDepth,
              CurrentQueueDepth := d.CurrentDepth, PeakQueueDepth := d.PeakDepth,
              SendErrors := d.SendErrors, Opts := d.Opts,
              AppName := env.CFE_ES_GetAppName d.AppId,
              PipeName := env.OS_GetResourceName d.SysQueueId }),
          CFE_SB_Effect.SendEvent CFE_SB_FILEWRITE_ERR_EID CFE_EVS_EventType_ERROR
            [(cfg.sizeof_CFE_SB_PipeInfoEntry_t : Int),
              env.OS_write (s.Trace ++ [CFE_SB_Effect.UnlockSharedData])
                (CFE_SB_FileEntry.PipeInfo
                  { PipeId := d.PipeId, AppId := d.AppId, MaxQueueDepth := d.QueueDepth,
                    CurrentQueueDepth := d.CurrentDepth, PeakQueueDepth := d.PeakDepth,
                    SendErrors := d.SendErrors, Opts := d.Opts,
                    AppName := env.CFE_ES_GetAppName d.AppId,
                    PipeName := env.OS_GetResourceName d.SysQueueId })],
          CFE_SB_Effect.OS_close], ?_, rfl, rfl, ?_, ?_, ?_, ?_⟩
        · simp [CFE_SB_FileWriteByteCntErr, CFE_EVS_SendEvent, CFE_SB_UnlockSharedData,
            CFE_SB_State.emit]
        · simp [CFE_SB_eventCount, CFE_SB_shortWriteCount, hw2]
        · simp [CFE_SB_eventCount]
        · simp [CFE_SB_shortWriteCount, hw2]
        · intro h1 h2
          refine ⟨h1, h2, fun h0 => ?_⟩
          simp [CFE_SB_shortWriteCount, hw2] at h0
      · have hw2 : env.OS_write (s.Trace ++ [CFE_SB_Effect.UnlockSharedData])
            (CFE_SB_FileEntry.PipeInfo
              { PipeId := d.PipeId, AppId := d.AppId, MaxQueueDepth := d.QueueDepth,
                CurrentQueueDepth := d.CurrentDepth, PeakQueueDepth := d.PeakDepth,
                SendErrors := d.SendErrors, Opts := d.Opts,
                AppName := env.CFE_ES_GetAppName d.AppId,
                PipeName := env.OS_GetResourceName d.SysQueueId }) =
            (cfg.sizeof_CFE_SB_PipeInfoEntry_t : Int) := by
          by_contra h
          exact hw h
        simp only [CFE_SB_WritePipeInfo_loop, hu, if_true, hw, if_false]
        obtain ⟨i1, i2⟩ := ih
          (CFE_SB_LockSharedData ((CFE_SB_UnlockSharedData s).emit
            (CFE_SB_Effect.OS_write (CFE_SB_FileEntry.PipeInfo
              { PipeId := d.PipeId, AppId := d.AppId, MaxQueueDepth := d.QueueDepth,
                CurrentQueueDepth := d.CurrentDepth, PeakQueueDepth := d.PeakDepth,
                SendErrors := d.SendErrors, Opts := d.Opts,
                AppName := env.CFE_ES_GetAppName d.AppId,
                PipeName := env.OS_GetResourceName d.SysQueueId }))))
          (addUint32 FileSize (env.OS_write (CFE_SB_UnlockSharedData s).Trace
            (CFE_SB_FileEntry.PipeInfo
              { PipeId := d.PipeId, AppId := d.AppId, MaxQueueDepth := d.QueueDepth,
                CurrentQueueDepth := d.CurrentDepth, PeakQueueDepth := d.PeakDepth,
                SendErrors := d.SendErrors, Opts := d.Opts,
                AppName := env.CFE_ES_GetAppName d.AppId,
                PipeName := env.OS_GetResourceName d.SysQueueId })))
          ((EntryCount + 1) % 4294967296)
        refine ⟨i1, CFE_SB_fileStep_trans env _ ?_ i2⟩
        refine ⟨[CFE_SB_Effect.UnlockSharedData,
          CFE_SB_Effect.OS_write (CFE_SB_FileEntry.PipeInfo
            { PipeId := d.PipeId, AppId := d.AppId, MaxQueueDepth := d.QueueDepth,
              CurrentQueueDepth := d.CurrentDepth, PeakQueueDepth := d.PeakDepth,
              SendErrors := d.SendErrors, Opts := d.Opts,
              AppName := env.CFE_ES_GetAppName d.AppId,
              PipeName := env.OS_GetResourceName d.SysQueueId }),
          CFE_SB_Effect.LockSharedData], ?_, rfl, rfl, ?_, ?_, ?_, ?_⟩
        · simp [CFE_SB_UnlockSharedData, CFE_SB_LockSharedData, CFE_SB_State.emit]
        · simp [CFE_SB_eventCount, CFE_SB_shortWriteCount, hw2]
        · simp [CFE_SB_eventCount]
        · simp [CFE_SB_shortWriteCount, hw2]
        · intro h1 h2
          refine ⟨addUint32_lt _ _, Nat.mod_lt _ (by decide), fun _ => ?_⟩
          have hw3 : env.OS_write (CFE_SB_UnlockSharedData s).Trace
              (CFE_SB_FileEntry.PipeInfo
                { PipeId := d.PipeId, AppId := d.AppId, MaxQueueDepth := d.QueueDepth,
                  CurrentQueueDepth := d.CurrentDepth, PeakQueueDepth := d.PeakDepth,
                  SendErrors := d.SendErrors, Opts := d.Opts,
                  AppName := env.CFE_ES_GetAppName d.AppId,
                  PipeName := env.OS_GetResourceName d.SysQueueId }) =
              (cfg.sizeof_CFE_SB_PipeInfoEntry_t : Int) := hw2
          simp only [CFE_SB_writeCount, Nat.add_zero, Nat.one_mul, hw3, addUint32_natCast]
          exact ⟨trivial, trivial⟩
    · simp only [CFE_SB_WritePipeInfo_loop, hu, if_false, Bool.false_eq_true]
      exact ih s FileSize EntryCount

theorem CFE_SB_WritePipeInfo_outcome (cfg : CFE_SB_Config) (env : CFE_SB_Env)
    (s : CFE_SB_State) (Filename : String) :
    CFE_SB_fileDumpOutcome cfg env cfg.sizeof_CFE_SB_PipeInfoEntry_t s Filename
      (CFE_SB_WritePipeInfo cfg env s Filename) := by
  by_cases h1 : env.OS_OpenCreate s.Trace Filename < OS_SUCCESS
  · have h := CFE_SB_fileDumpOutcome_open_error cfg env cfg.sizeof_CFE_SB_PipeInfoEntry_t s
      Filename h1
    simp only [CFE_SB_WritePipeInfo, h1, if_true]
    exact h
  · by_cases h2 : env.CFE_FS_WriteHeader (s.emit (CFE_SB_Effect.OS_OpenCreate Filename)).Trace ≠
        (cfg.sizeof_CFE_FS_Header_t : Int)
    · have h := CFE_SB_fileDumpOutcome_header_error cfg env cfg.sizeof_CFE_SB_PipeInfoEntry_t s
        Filename "SB Pipe Information" CFE_FS_SubType_SB_PIPEDATA h1 h2
      simp only [CFE_SB_WritePipeInfo, h1, if_false, h2, if_true, ne_eq, not_false_eq_true]
      exact h
    · obtain ⟨l1, l2⟩ := CFE_SB_WritePipeInfo_loop_step cfg env Filename
        (CFE_SB_LockSharedData ((s.emit (CFE_SB_Effect.OS_OpenCreate Filename)).emit
          (CFE_SB_Effect.CFE_FS_WriteHeader "SB Pipe Information"
            CFE_FS_SubType_SB_PIPEDATA))).CFE_SB_Global.PipeTbl
        (CFE_SB_LockSharedData ((s.emit (CFE_SB_Effect.OS_OpenCreate Filename)).emit
          (CFE_SB_Effect.CFE_FS_WriteHeader "SB Pipe Information"
            CFE_FS_SubType_SB_PIPEDATA)))
        (addUint32 0 (env.CFE_FS_WriteHeader
          (s.emit (CFE_SB_Effect.OS_OpenCreate Filename)).Trace)) 0
      have l0 := CFE_SB_fileStep_lock env cfg.sizeof_CFE_SB_PipeInfoEntry_t
        ((s.emit (CFE_SB_Effect.OS_OpenCreate Filename)).emit
          (CFE_SB_Effect.CFE_FS_WriteHeader "SB Pipe Information" CFE_FS_SubType_SB_PIPEDATA))
        { Filename := Filename,
          FileSize := addUint32 0
            (env.CFE_FS_WriteHeader (s.emit (CFE_SB_Effect.OS_OpenCreate Filename)).Trace),
          EntryCount := 0, Status := CFE_SUCCESS }
      have l02 := CFE_SB_fileStep_trans env _ l0 l2
      simp only [CFE_SB_WritePipeInfo, h1, if_false, h2]
      rcases l1 with l1 | l1
      · rw [l1] at l02
        simp only [Option.isSome_none, Bool.false_eq_true, if_false] at l02
        have l3 := CFE_SB_fileStep_trans env _ l02 (CFE_SB_fileStep_unlock env _ _ _)
        have h := CFE_SB_fileDumpOutcome_of_fileStep cfg env _ s Filename
          "SB Pipe Information" CFE_FS_SubType_SB_PIPEDATA _ h1 h2 l3
        simp only [ne_eq, not_true_eq_false, if_false] at h
        rw [l1]
        exact h
      · rw [l1] at l02
        simp only [Option.isSome_some, if_true] at l02
        have h := CFE_SB_fileDumpOutcome_of_fileStep cfg env _ s Filename
          "SB Pipe Information" CFE_FS_SubType_SB_PIPEDATA _ h1 h2 l02
        have hne : CFE_SB_FILE_IO_ERR ≠ CFE_SUCCESS := by simp
        simp only [hne, ne_eq, not_false_eq_true, if_true] at h
        rw [l1]
        exact h

/-- C28: status and events of the three file dumps, for every configuration,
collaborators, state and file name; for the routing dump the state is taken to have, for
every destination of every route, a pipe descriptor located by the destination's pipe id
(otherwise the function reads the application id through a null pointer).  Each function
returns, with `CFE_SB_FILE_IO_ERR` or `CFE_SUCCESS`; the status is `CFE_SB_FILE_IO_ERR`
exactly when the file is not created, or the header write answers a byte count other than
the header size, or an entry write answers a byte count other than the entry size.  One
`CFE_SB_FILEWRITE_ERR_EID` event is sent per short write, and the `CFE_SB_SND_RTG_EID`
event is sent once on success and never on failure, with, in `uint32`, Size = header size
+ entries written times entry size and Entries = entries written. -/
theorem CFE_SB_file_dumps_status (cfg : CFE_SB_Config) (env : CFE_SB_Env) (s : CFE_SB_State)
    (Filename : String) :
    ((∀ route ∈ s.RoutingTbl, ∀ d ∈ route.DestList,
        ((CFE_SB_LocatePipeDescByID cfg s d.PipeId).bind
          (fun Idx => s.CFE_SB_Global.PipeTbl[Idx]?)).isSome = true) →
      ∃ r, CFE_SB_WriteRtgInfo cfg env s Filename = some r ∧
        CFE_SB_fileDumpOutcome cfg env cfg.sizeof_CFE_SB_RoutingFileEntry_t s Filename r) ∧
    CFE_SB_fileDumpOutcome cfg env cfg.sizeof_CFE_SB_PipeInfoEntry_t s Filename
      (CFE_SB_WritePipeInfo cfg env s Filename) ∧
    (∃ r, CFE_SB_WriteMapInfo cfg env s Filename = some r ∧
      CFE_SB_fileDumpOutcome cfg env cfg.sizeof_CFE_SB_MsgMapFileEntry_t s Filename r) :=
  ⟨CFE_SB_WriteRtgInfo_outcome cfg env s Filename,
    CFE_SB_WritePipeInfo_outcome cfg env s Filename,
    CFE_SB_WriteMapInfo_outcome cfg env s Filename⟩

/-- Instance of the file dump status on the sample state, where both destinations of the
route have a pipe descriptor: the routing dump returns. -/
theorem CFE_SB_file_dumps_status_witness :
    ∃ r, CFE_SB_WriteRtgInfo sampleConfig sampleEnv sampleState "/ram/route.dat" = some r ∧
      CFE_SB_fileDumpOutcome sampleConfig sampleEnv
        sampleConfig.sizeof_CFE_SB_RoutingFileEntry_t sampleState "/ram/route.dat" r :=
  (CFE_SB_file_dumps_status sampleConfig sampleEnv sampleState "/ram/route.dat").1
    (by decide)

/-! # Message header: failing setters and the type setter -/

/-- C35: for every message pointer (null included) and every argument value, when
`CFE_MSG_SetHeaderVersion`, `CFE_MSG_SetApId`, `CFE_MSG_SetSequenceCount` or
`CFE_MSG_SetSize` returns `CFE_MSG_BAD_ARGUMENT`, the message is the one it was called
with: no octet of the header is written. -/
theorem CFE_MSG_setters_bad_argument_unchanged (MsgPtr : Option CFE_MSG_Message_t) (x : Nat) :
    ((CFE_MSG_SetHeaderVersion MsgPtr x).1 = CFE_MSG_BAD_ARGUMENT →
      (CFE_MSG_SetHeaderVersion MsgPtr x).2 = MsgPtr) ∧
    ((CFE_MSG_SetApId MsgPtr x).1 = CFE_MSG_BAD_ARGUMENT →
      (CFE_MSG_SetApId MsgPtr x).2 = MsgPtr) ∧
    ((CFE_MSG_SetSequenceCount MsgPtr x).1 = CFE_MSG_BAD_ARGUMENT →
      (CFE_MSG_SetSequenceCount MsgPtr x).2 = MsgPtr) ∧
    ((CFE_MSG_SetSize MsgPtr x).1 = CFE_MSG_BAD_ARGUMENT →
      (CFE_MSG_SetSize MsgPtr x).2 = MsgPtr) := by
  cases MsgPtr with
  | none => exact ⟨fun _ => rfl, fun _ => rfl, fun _ => rfl, fun _ => rfl⟩
  | some m =>
    refine ⟨?_, ?_, ?_, ?_⟩
    · simp only [CFE_MSG_SetHeaderVersion]
      split_ifs
      · exact fun _ => rfl
      · intro h
        exact absurd h (by simp)
    · simp only [CFE_MSG_SetApId]
      split_ifs
      · exact fun _ => rfl
      · intro h
        exact absurd h (by simp)
    · simp only [CFE_MSG_SetSequenceCount]
      split_ifs
      · exact fun _ => rfl
      · intro h
        exact absurd h (by simp)
    · simp only [CFE_MSG_SetSize]
      split_ifs
      · exact fun _ => rfl
      · intro h
        exact absurd h (by simp)

/-- Instance of the failing setters: APID 1 is rejected and the header FF FF C0 05 00 01 is
kept. -/
theorem CFE_MSG_setters_bad_argument_unchanged_witness :
    (CFE_MSG_SetApId (some (mkMsg 0xFF 0xFF 0xC0 0x05 0 1)) 1).1 = CFE_MSG_BAD_ARGUMENT ∧
      (CFE_MSG_SetApId (some (mkMsg 0xFF 0xFF 0xC0 0x05 0 1)) 1).2 =
        some (mkMsg 0xFF 0xFF 0xC0 0x05 0 1) :=
  ⟨by decide,
    (CFE_MSG_setters_bad_argument_unchanged (some (mkMsg 0xFF 0xFF 0xC0 0x05 0 1)) 1).2.1
      (by decide)⟩

/-- C36: `CFE_MSG_SetType` rejects no type value.  For every message and every value of
the type argument, `CFE_MSG_Type_Invalid` included, it returns `CFE_SUCCESS`; for every
value other than Cmd the type bit (0x10 of octet 0) is cleared and a following
`CFE_MSG_GetType` returns Tlm; for Cmd the bit is set and `CFE_MSG_GetType` returns Cmd.
Only a null message pointer is rejected. -/
theorem CFE_MSG_SetType_never_rejects (m : CFE_MSG_Message_t) (t old : CFE_MSG_Type_t) :
    (CFE_MSG_SetType (some m) t).1 = CFE_SUCCESS ∧
      CFE_MSG_GetType (CFE_MSG_SetType (some m) t).2 (some old) =
        (CFE_SUCCESS, some (if t = CFE_MSG_Type_Cmd then CFE_MSG_Type_Cmd
          else CFE_MSG_Type_Tlm)) ∧
      (CFE_MSG_SetType (some m) CFE_MSG_Type_Invalid).1 = CFE_SUCCESS ∧
      CFE_MSG_GetType (CFE_MSG_SetType (some m) CFE_MSG_Type_Invalid).2 (some old) =
        (CFE_SUCCESS, some CFE_MSG_Type_Tlm) ∧
      (CFE_MSG_SetType none t).1 = CFE_MSG_BAD_ARGUMENT := by
  have hmask : CFE_MSG_TYPE_MASK >>> 8 = 16 := rfl
  have hgen : ∀ u : CFE_MSG_Type_t,
      (CFE_MSG_SetType (some m) u).1 = CFE_SUCCESS ∧
      CFE_MSG_GetType (CFE_MSG_SetType (some m) u).2 (some old) =
        (CFE_SUCCESS, some (if u = CFE_MSG_Type_Cmd then CFE_MSG_Type_Cmd
          else CFE_MSG_Type_Tlm)) := by
    intro u
    by_cases hu : u = CFE_MSG_Type_Cmd
    · subst hu
      refine ⟨rfl, ?_⟩
      simp only [CFE_MSG_SetType, CFE_MSG_GetType, setStreamId, hmask, if_true,
        if_pos (type_bit_after_or m.CCSDS.Pri.StreamId.1)]
    · refine ⟨by simp only [CFE_MSG_SetType, if_neg hu], ?_⟩
      simp only [CFE_MSG_SetType, CFE_MSG_GetType, setStreamId, hmask, if_neg hu,
        type_bit_after_clear m.CCSDS.Pri.StreamId.1, ne_eq, not_true_eq_false, if_false]
  refine ⟨(hgen t).1, (hgen t).2, (hgen CFE_MSG_Type_Invalid).1, ?_, rfl⟩
  have h := (hgen CFE_MSG_Type_Invalid).2
  have hne : ¬ (CFE_MSG_Type_Invalid = CFE_MSG_Type_Cmd) := by decide
  rw [if_neg hne] at h
  exact h

/-! # Message header: a setter changes only its own field -/

theorem CFE_MSG_sameHeaderVersion_of (a b : CFE_MSG_Message_t)
    (h : a.CCSDS.Pri.StreamId.1.val / 32 = b.CCSDS.Pri.StreamId.1.val / 32) :
    CFE_MSG_sameHeaderVersion a b := by
  intro o
  cases o with
  | none => rfl
  | some v => simp only [CFE_MSG_GetHeaderVersion, CFE_MSG_GetHeaderField_CCSDSVER, h]

theorem CFE_MSG_sameType_of (a b : CFE_MSG_Message_t)
    (h : a.CCSDS.Pri.StreamId.1.val &&& 16 = b.CCSDS.Pri.StreamId.1.val &&& 16) :
    CFE_MSG_sameType a b := by
  intro o
  cases o with
  | none => rfl
  | some v =>
    simp only [CFE_MSG_GetType, show CFE_MSG_TYPE_MASK >>> 8 = 16 from rfl, h]

theorem CFE_MSG_sameHasSecondaryHeader_of (a b : CFE_MSG_Message_t)
    (h : a.CCSDS.Pri.StreamId.1.val &&& 8 = b.CCSDS.Pri.StreamId.1.val &&& 8) :
    CFE_MSG_sameHasSecondaryHeader a b := by
  intro o
  cases o with
  | none => rfl
  | some v =>
    simp only [CFE_MSG_GetHasSecondaryHeader, show CFE_MSG_SHDR_MASK >>> 8 = 8 from rfl, h]

theorem CFE_MSG_sameApId_of (a b : CFE_MSG_Message_t)
    (h1 : a.CCSDS.Pri.StreamId.1.val % 8 = b.CCSDS.Pri.StreamId.1.val % 8)
    (h2 : a.CCSDS.Pri.StreamId.2 = b.CCSDS.Pri.StreamId.2) :
    CFE_MSG_sameApId a b := by
  intro o
  cases o with
  | none => rfl
  | some v => simp only [CFE_MSG_GetApId, CFE_MSG_GetHeaderField_APID, h1, h2]

theorem CFE_MSG_sameSegmentationFlag_of (a b : CFE_MSG_Message_t)
    (h : a.CCSDS.Pri.Sequence.1.val / 64 = b.CCSDS.Pri.Sequence.1.val / 64) :
    CFE_MSG_sameSegmentationFlag a b := by
  intro o
  cases o with
  | none => rfl
  | some v => simp only [CFE_MSG_GetSegmentationFlag, CFE_MSG_GetHeaderField_SEGFLG, h]

theorem CFE_MSG_sameSequenceCount_of (a b : CFE_MSG_Message_t)
    (h1 : a.CCSDS.Pri.Sequence.1.val % 64 = b.CCSDS.Pri.Sequence.1.val % 64)
    (h2 : a.CCSDS.Pri.Sequence.2 = b.CCSDS.Pri.Sequence.2) :
    CFE_MSG_sameSequenceCount a b := by
  intro o
  cases o with
  | none => rfl
  | some v => simp only [CFE_MSG_GetSequenceCount, CFE_MSG_GetHeaderField_SEQCNT, h1, h2]

theorem CFE_MSG_sameSize_of (a b : CFE_MSG_Message_t)
    (h : a.CCSDS.Pri.Length = b.CCSDS.Pri.Length) : CFE_MSG_sameSize a b := by
  intro o
  cases o with
  | none => rfl
  | some v => simp only [CFE_MSG_GetSize, h]

/-! ## Octet facts -/

set_option maxRecDepth 20000 in
theorem octet_or_16 (w : uint8) :
    (toUint8 (w.val ||| 16)).val / 32 = w.val / 32 ∧
      (toUint8 (w.val ||| 16)).val &&& 8 = w.val &&& 8 ∧
      (toUint8 (w.val ||| 16)).val % 8 = w.val % 8 := by
  revert w; decide

set_option maxRecDepth 20000 in
theorem octet_clear_16 (w : uint8) :
    (toUint8 (w.val &&& bitNot32 16)).val / 32 = w.val / 32 ∧
      (toUint8 (w.val &&& bitNot32 16)).val &&& 8 = w.val &&& 8 ∧
      (toUint8 (w.val &&& bitNot32 16)).val % 8 = w.val % 8 := by
  revert w; decide

set_option maxRecDepth 20000 in
theorem octet_or_8 (w : uint8) :
    (toUint8 (w.val ||| 8)).val / 32 = w.val / 32 ∧
      (toUint8 (w.val ||| 8)).val &&& 16 = w.val &&& 16 ∧
      (toUint8 (w.val ||| 8)).val % 8 = w.val % 8 := by
  revert w; decide

set_option maxRecDepth 20000 in
theorem octet_clear_8 (w : uint8) :
    (toUint8 (w.val &&& bitNot32 8)).val / 32 = w.val / 32 ∧
      (toUint8 (w.val &&& bitNot32 8)).val &&& 16 = w.val &&& 16 ∧
      (toUint8 (w.val &&& bitNot32 8)).val % 8 = w.val % 8 := by
  revert w; decide

set_option maxRecDepth 20000 in
theorem octet_clear_version (w : uint8) :
    (toUint8 ((w.val &&& bitNot32 (0xE000 >>> 8)) ||| (0 >>> 8))).val &&& 16 = w.val &&& 16 ∧
      (toUint8 ((w.val &&& bitNot32 (0xE000 >>> 8)) ||| (0 >>> 8))).val &&& 8 = w.val &&& 8 ∧
      (toUint8 ((w.val &&& bitNot32 (0xE000 >>> 8)) ||| (0 >>> 8))).val % 8 = w.val % 8 ∧
      toUint8 (((w.val &&& bitNot32 0xE000) ||| 0) &&& 0xFF) = w := by
  revert w; decide

set_option maxRecDepth 20000 in
theorem octet_clear_apid (w : uint8) :
    (toUint8 ((w.val &&& bitNot32 (0x07FF >>> 8)) ||| (0 >>> 8))).val / 32 = w.val / 32 ∧
      (toUint8 ((w.val &&& bitNot32 (0x07FF >>> 8)) ||| (0 >>> 8))).val &&& 16 = w.val &&& 16 ∧
      (toUint8 ((w.val &&& bitNot32 (0x07FF >>> 8)) ||| (0 >>> 8))).val &&& 8 = w.val &&& 8 := by
  revert w; decide

set_option maxRecDepth 20000 in
theorem octet_clear_seqcnt (w : uint8) :
    (toUint8 ((w.val &&& bitNot32 (0x3FFF >>> 8)) ||| (0 >>> 8))).val / 64 = w.val / 64 := by
  revert w; decide

set_option maxRecDepth 20000 in
theorem octet_set_segflg (w : uint8) :
    ∀ v ∈ [0x0000, 0x4000, 0x8000, 0xC000],
      (toUint8 ((w.val &&& bitNot32 (0xC000 >>> 8)) ||| ((v &&& 0xC000) >>> 8))).val % 64 =
          w.val % 64 ∧
        toUint8 (((w.val &&& bitNot32 0xC000) ||| (v &&& 0xC000)) &&& 0xFF) = w := by
  revert w; decide

/-! ## Frames of the single setters -/

theorem CFE_MSG_SetHeaderVersion_frame (m r : CFE_MSG_Message_t) (x : Nat)
    (h : CFE_MSG_SetHeaderVersion (some m) x = (CFE_SUCCESS, some r)) :
    CFE_MSG_sameType r m ∧ CFE_MSG_sameHasSecondaryHeader r m ∧ CFE_MSG_sameApId r m ∧
      CFE_MSG_sameSegmentationFlag r m ∧ CFE_MSG_sameSequenceCount r m ∧
      CFE_MSG_sameSize r m := by
  simp only [CFE_MSG_SetHeaderVersion] at h
  split_ifs at h with hc
  · simp at h
  · have hz : ((x <<< CFE_MSG_CCSDSVER_SHIFT) % 65536) &&& CFE_MSG_CCSDSVER_MASK = 0 := by
      by_contra hne
      exact hc hne
    simp only [Prod.mk.injEq, true_and, Option.some.injEq] at h
    subst h
    obtain ⟨o1, o2, o3, o4⟩ := octet_clear_version m.CCSDS.Pri.StreamId.1
    obtain ⟨_, _, _, p4⟩ := octet_clear_version m.CCSDS.Pri.StreamId.2
    have e1 : (setStreamId m (CFE_MSG_SetHeaderField m.CCSDS.Pri.StreamId
        ((x <<< CFE_MSG_CCSDSVER_SHIFT) % 65536) CFE_MSG_CCSDSVER_MASK)).CCSDS.Pri.StreamId =
        (toUint8 ((m.CCSDS.Pri.StreamId.1.val &&& bitNot32 (0xE000 >>> 8)) ||| (0 >>> 8)),
          m.CCSDS.Pri.StreamId.2) := by
      simp only [setStreamId, CFE_MSG_SetHeaderField, hz]
      simp only [CFE_MSG_CCSDSVER_MASK, p4]
    refine ⟨CFE_MSG_sameType_of _ _ ?_, CFE_MSG_sameHasSecondaryHeader_of _ _ ?_,
      CFE_MSG_sameApId_of _ _ ?_ ?_, CFE_MSG_sameSegmentationFlag_of _ _ rfl,
      CFE_MSG_sameSequenceCount_of _ _ rfl rfl, CFE_MSG_sameSize_of _ _ rfl⟩
    · rw [e1]; exact o1
    · rw [e1]; exact o2
    · rw [e1]; exact o3
    · rw [e1]

theorem CFE_MSG_SetApId_frame (m r : CFE_MSG_Message_t) (x : Nat)
    (h : CFE_MSG_SetApId (some m) x = (CFE_SUCCESS, some r)) :
    CFE_MSG_sameHeaderVersion r m ∧ CFE_MSG_sameType r m ∧
      CFE_MSG_sameHasSecondaryHeader r m ∧
      CFE_MSG_sameSegmentationFlag r m ∧ CFE_MSG_sameSequenceCount r m ∧
      CFE_MSG_sameSize r m := by
  simp only [CFE_MSG_SetApId] at h
  split_ifs at h with hc
  · simp at h
  · have hz : x &&& CFE_MSG_APID_MASK = 0 := by
      by_contra hne
      exact hc hne
    simp only [Prod.mk.injEq, true_and, Option.some.injEq] at h
    subst h
    obtain ⟨o1, o2, o3⟩ := octet_clear_apid m.CCSDS.Pri.StreamId.1
    have e1 : (setStreamId m (CFE_MSG_SetHeaderField m.CCSDS.Pri.StreamId x
        CFE_MSG_APID_MASK)).CCSDS.Pri.StreamId.1 =
        toUint8 ((m.CCSDS.Pri.StreamId.1.val &&& bitNot32 (0x07FF >>> 8)) ||| (0 >>> 8)) := by
      simp only [setStreamId, CFE_MSG_SetHeaderField, hz]
      simp only [CFE_MSG_APID_MASK]
    refine ⟨CFE_MSG_sameHeaderVersion_of _ _ ?_, CFE_MSG_sameType_of _ _ ?_,
      CFE_MSG_sameHasSecondaryHeader_of _ _ ?_, CFE_MSG_sameSegmentationFlag_of _ _ rfl,
      CFE_MSG_sameSequenceCount_of _ _ rfl rfl, CFE_MSG_sameSize_of _ _ rfl⟩
    · rw [e1]; exact o1
    · rw [e1]; exact o2
    · rw [e1]; exact o3

theorem CFE_MSG_SetType_frame (m r : CFE_MSG_Message_t) (t : CFE_MSG_Type_t)
    (h : CFE_MSG_SetType (some m) t = (CFE_SUCCESS, some r)) :
    CFE_MSG_sameHeaderVersion r m ∧ CFE_MSG_sameHasSecondaryHeader r m ∧
      CFE_MSG_sameApId r m ∧
      CFE_MSG_sameSegmentationFlag r m ∧ CFE_MSG_sameSequenceCount r m ∧
      CFE_MSG_sameSize r m := by
  simp only [CFE_MSG_SetType, show CFE_MSG_TYPE_MASK >>> 8 = 16 from rfl] at h
  split_ifs at h with hc
  · simp only [Prod.mk.injEq, true_and, Option.some.injEq] at h
    subst h
    obtain ⟨o1, o2, o3⟩ := octet_or_16 m.CCSDS.Pri.StreamId.1
    exact ⟨CFE_MSG_sameHeaderVersion_of _ _ o1, CFE_MSG_sameHasSecondaryHeader_of _ _ o2,
      CFE_MSG_sameApId_of _ _ o3 rfl, CFE_MSG_sameSegmentationFlag_of _ _ rfl,
      CFE_MSG_sameSequenceCount_of _ _ rfl rfl, CFE_MSG_sameSize_of _ _ rfl⟩
  · simp only [Prod.mk.injEq, true_and, Option.some.injEq] at h
    subst h
    obtain ⟨o1, o2, o3⟩ := octet_clear_16 m.CCSDS.Pri.StreamId.1
    exact ⟨CFE_MSG_sameHeaderVersion_of _ _ o1, CFE_MSG_sameHasSecondaryHeader_of _ _ o2,
      CFE_MSG_sameApId_of _ _ o3 rfl, CFE_MSG_sameSegmentationFlag_of _ _ rfl,
      CFE_MSG_sameSequenceCount_of _ _ rfl rfl, CFE_MSG_sameSize_of _ _ rfl⟩

theorem CFE_MSG_SetHasSecondaryHeader_frame (m r : CFE_MSG_Message_t) (b : Bool)
    (h : CFE_MSG_SetHasSecondaryHeader (some m) b = (CFE_SUCCESS, some r)) :
    CFE_MSG_sameHeaderVersion r m ∧ CFE_MSG_sameType r m ∧ CFE_MSG_sameApId r m ∧
      CFE_MSG_sameSegmentationFlag r m ∧ CFE_MSG_sameSequenceCount r m ∧
      CFE_MSG_sameSize r m := by
  simp only [CFE_MSG_SetHasSecondaryHeader, show CFE_MSG_SHDR_MASK >>> 8 = 8 from rfl] at h
  split_ifs at h with hc
  · simp only [Prod.mk.injEq, true_and, Option.some.injEq] at h
    subst h
    obtain ⟨o1, o2, o3⟩ := octet_or_8 m.CCSDS.Pri.StreamId.1
    exact ⟨CFE_MSG_sameHeaderVersion_of _ _ o1, CFE_MSG_sameType_of _ _ o2,
      CFE_MSG_sameApId_of _ _ o3 rfl, CFE_MSG_sameSegmentationFlag_of _ _ rfl,
      CFE_MSG_sameSequenceCount_of _ _ rfl rfl, CFE_MSG_sameSize_of _ _ rfl⟩
  · simp only [Prod.mk.injEq, true_and, Option.some.injEq] at h
    subst h
    obtain ⟨o1, o2, o3⟩ := octet_clear_8 m.CCSDS.Pri.StreamId.1
    exact ⟨CFE_MSG_sameHeaderVersion_of _ _ o1, CFE_MSG_sameType_of _ _ o2,
      CFE_MSG_sameApId_of _ _ o3 rfl, CFE_MSG_sameSegmentationFlag_of _ _ rfl,
      CFE_MSG_sameSequenceCount_of _ _ rfl rfl, CFE_MSG_sameSize_of _ _ rfl⟩

theorem CFE_MSG_SetSequenceCount_frame (m r : CFE_MSG_Message_t) (x : Nat)
    (h : CFE_MSG_SetSequenceCount (some m) x = (CFE_SUCCESS, some r)) :
    CFE_MSG_sameHeaderVersion r m ∧ CFE_MSG_sameType r m ∧
      CFE_MSG_sameHasSecondaryHeader r m ∧ CFE_MSG_sameApId r m ∧
      CFE_MSG_sameSegmentationFlag r m ∧ CFE_MSG_sameSize r m := by
  simp only [CFE_MSG_SetSequenceCount] at h
  split_ifs at h with hc
  · simp at h
  · have hz : x &&& CFE_MSG_SEQCNT_MASK = 0 := by
      by_contra hne
      exact hc hne
    simp only [Prod.mk.injEq, true_and, Option.some.injEq] at h
    subst h
    have o1 := octet_clear_seqcnt m.CCSDS.Pri.Sequence.1
    have e1 : (setSequence m (CFE_MSG_SetHeaderField m.CCSDS.Pri.Sequence x
        CFE_MSG_SEQCNT_MASK)).CCSDS.Pri.Sequence.1 =
        toUint8 ((m.CCSDS.Pri.Sequence.1.val &&& bitNot32 (0x3FFF >>> 8)) ||| (0 >>> 8)) := by
      simp only [setSequence, CFE_MSG_SetHeaderField, hz]
      simp only [CFE_MSG_SEQCNT_MASK]
    refine ⟨CFE_MSG_sameHeaderVersion_of _ _ rfl, CFE_MSG_sameType_of _ _ rfl,
      CFE_MSG_sameHasSecondaryHeader_of _ _ rfl, CFE_MSG_sameApId_of _ _ rfl rfl,
      CFE_MSG_sameSegmentationFlag_of _ _ ?_, CFE_MSG_sameSize_of _ _ rfl⟩
    rw [e1]; exact o1

theorem CFE_MSG_SetSegmentationFlag_frame (m r : CFE_MSG_Message_t)
    (f : CFE_MSG_SegmentationFlag_t)
    (h : CFE_MSG_SetSegmentationFlag (some m) f = (CFE_SUCCESS, some r)) :
    CFE_MSG_sameHeaderVersion r m ∧ CFE_MSG_sameType r m ∧
      CFE_MSG_sameHasSecondaryHeader r m ∧ CFE_MSG_sameApId r m ∧
      CFE_MSG_sameSequenceCount r m ∧ CFE_MSG_sameSize r m := by
  have key : ∀ v ∈ [0x0000, 0x4000, 0x8000, 0xC000],
      r = setSequence m (CFE_MSG_SetHeaderField m.CCSDS.Pri.Sequence v CFE_MSG_SEGFLG_MASK) →
      CFE_MSG_sameHeaderVersion r m ∧ CFE_MSG_sameType r m ∧
        CFE_MSG_sameHasSecondaryHeader r m ∧ CFE_MSG_sameApId r m ∧
        CFE_MSG_sameSequenceCount r m ∧ CFE_MSG_sameSize r m := by
    intro v hv hr
    subst hr
    obtain ⟨o1, _⟩ := octet_set_segflg m.CCSDS.Pri.Sequence.1 v hv
    obtain ⟨_, o2⟩ := octet_set_segflg m.CCSDS.Pri.Sequence.2 v hv
    have e1 : (setSequence m (CFE_MSG_SetHeaderField m.CCSDS.Pri.Sequence v
        CFE_MSG_SEGFLG_MASK)).CCSDS.Pri.Sequence =
        (toUint8 ((m.CCSDS.Pri.Sequence.1.val &&& bitNot32 (0xC000 >>> 8)) |||
            ((v &&& 0xC000) >>> 8)), m.CCSDS.Pri.Sequence.2) := by
      simp only [setSequence, CFE_MSG_SetHeaderField, CFE_MSG_SEGFLG_MASK, o2]
    refine ⟨CFE_MSG_sameHeaderVersion_of _ _ rfl, CFE_MSG_sameType_of _ _ rfl,
      CFE_MSG_sameHasSecondaryHeader_of _ _ rfl, CFE_MSG_sameApId_of _ _ rfl rfl,
      CFE_MSG_sameSequenceCount_of _ _ ?_ ?_, CFE_MSG_sameSize_of _ _ rfl⟩
    · rw [e1]; exact o1
    · rw [e1]
  cases f with
  | CFE_MSG_SegFlag_Invalid =>
    simp [CFE_MSG_SetSegmentationFlag] at h
  | CFE_MSG_SegFlag_Continue =>
    simp only [CFE_MSG_SetSegmentationFlag, Prod.mk.injEq, true_and, Option.some.injEq] at h
    exact key 0x0000 (by decide) h.symm
  | CFE_MSG_SegFlag_First =>
    simp only [CFE_MSG_SetSegmentationFlag, Prod.mk.injEq, true_and, Option.some.injEq] at h
    exact key 0x4000 (by decide) h.symm
  | CFE_MSG_SegFlag_Last =>
    simp only [CFE_MSG_SetSegmentationFlag, Prod.mk.injEq, true_and, Option.some.injEq] at h
    exact key 0x8000 (by decide) h.symm
  | CFE_MSG_SegFlag_Unsegmented =>
    simp only [CFE_MSG_SetSegmentationFlag, Prod.mk.injEq, true_and, Option.some.injEq] at h
    exact key 0xC000 (by decide) h.symm

theorem CFE_MSG_SetSize_frame (m r : CFE_MSG_Message_t) (x : Nat)
    (h : CFE_MSG_SetSize (some m) x = (CFE_SUCCESS, some r)) :
    CFE_MSG_sameHeaderVersion r m ∧ CFE_MSG_sameType r m ∧
      CFE_MSG_sameHasSecondaryHeader r m ∧ CFE_MSG_sameApId r m ∧
      CFE_MSG_sameSegmentationFlag r m ∧ CFE_MSG_sameSequenceCount r m := by
  simp only [CFE_MSG_SetSize] at h
  split_ifs at h with hc
  · simp at h
  · simp only [Prod.mk.injEq, true_and, Option.some.injEq] at h
    subst h
    exact ⟨CFE_MSG_sameHeaderVersion_of _ _ rfl, CFE_MSG_sameType_of _ _ rfl,
      CFE_MSG_sameHasSecondaryHeader_of _ _ rfl, CFE_MSG_sameApId_of _ _ rfl rfl,
      CFE_MSG_sameSegmentationFlag_of _ _ rfl, CFE_MSG_sameSequenceCount_of _ _ rfl rfl⟩

/-- C34: a primary header setter that returns `CFE_SUCCESS` changes only its own field.
For every message `m` and every argument, when the setter returns `CFE_SUCCESS` with the
message `r`, each of the six other getters gives on `r` the result it gives on `m`
(whatever its output argument).  Moreover, on every call, successful or not, the setters
of the StreamId fields (version, type, secondary header flag, APID) leave octets 2..5 as
they were, the setters of the Sequence fields (segmentation flag, sequence count) leave
octets 0..1 and 4..5, and `CFE_MSG_SetSize` leaves octets 0..3. -/
theorem CFE_MSG_setters_change_own_field_only (m : CFE_MSG_Message_t) (x : Nat)
    (t : CFE_MSG_Type_t) (b : Bool) (f : CFE_MSG_SegmentationFlag_t) :
    (∀ r, CFE_MSG_SetHeaderVersion (some m) x = (CFE_SUCCESS, some r) →
      CFE_MSG_sameType r m ∧ CFE_MSG_sameHasSecondaryHeader r m ∧ CFE_MSG_sameApId r m ∧
        CFE_MSG_sameSegmentationFlag r m ∧ CFE_MSG_sameSequenceCount r m ∧
        CFE_MSG_sameSize r m) ∧
    (∀ r, CFE_MSG_SetType (some m) t = (CFE_SUCCESS, some r) →
      CFE_MSG_sameHeaderVersion r m ∧ CFE_MSG_sameHasSecondaryHeader r m ∧
        CFE_MSG_sameApId r m ∧ CFE_MSG_sameSegmentationFlag r m ∧
        CFE_MSG_sameSequenceCount r m ∧ CFE_MSG_sameSize r m) ∧
    (∀ r, CFE_MSG_SetHasSecondaryHeader (some m) b = (CFE_SUCCESS, some r) →
      CFE_MSG_sameHeaderVersion r m ∧ CFE_MSG_sameType r m ∧ CFE_MSG_sameApId r m ∧
        CFE_MSG_sameSegmentationFlag r m ∧ CFE_MSG_sameSequenceCount r m ∧
        CFE_MSG_sameSize r m) ∧
    (∀ r, CFE_MSG_SetApId (some m) x = (CFE_SUCCESS, some r) →
      CFE_MSG_sameHeaderVersion r m ∧ CFE_MSG_sameType r m ∧
        CFE_MSG_sameHasSecondaryHeader r m ∧ CFE_MSG_sameSegmentationFlag r m ∧
        CFE_MSG_sameSequenceCount r m ∧ CFE_MSG_sameSize r m) ∧
    (∀ r, CFE_MSG_SetSegmentationFlag (some m) f = (CFE_SUCCESS, some r) →
      CFE_MSG_sameHeaderVersion r m ∧ CFE_MSG_sameType r m ∧
        CFE_MSG_sameHasSecondaryHeader r m ∧ CFE_MSG_sameApId r m ∧
        CFE_MSG_sameSequenceCount r m ∧ CFE_MSG_sameSize r m) ∧
    (∀ r, CFE_MSG_SetSequenceCount (some m) x = (CFE_SUCCESS, some r) →
      CFE_MSG_sameHeaderVersion r m ∧ CFE_MSG_sameType r m ∧
        CFE_MSG_sameHasSecondaryHeader r m ∧ CFE_MSG_sameApId r m ∧
        CFE_MSG_sameSegmentationFlag r m ∧ CFE_MSG_sameSize r m) ∧
    (∀ r, CFE_MSG_SetSize (some m) x = (CFE_SUCCESS, some r) →
      CFE_MSG_sameHeaderVersion r m ∧ CFE_MSG_sameType r m ∧
        CFE_MSG_sameHasSecondaryHeader r m ∧ CFE_MSG_sameApId r m ∧
        CFE_MSG_sameSegmentationFlag r m ∧ CFE_MSG_sameSequenceCount r m) ∧
    (∀ r, ((CFE_MSG_SetHeaderVersion (some m) x).2 = some r ∨
          (CFE_MSG_SetType (some m) t).2 = some r ∨
          (CFE_MSG_SetHasSecondaryHeader (some m) b).2 = some r ∨
          (CFE_MSG_SetApId (some m) x).2 = some r) →
      r.CCSDS.Pri.Sequence = m.CCSDS.Pri.Sequence ∧ r.CCSDS.Pri.Length = m.CCSDS.Pri.Length) ∧
    (∀ r, ((CFE_MSG_SetSegmentationFlag (some m) f).2 = some r ∨
          (CFE_MSG_SetSequenceCount (some m) x).2 = some r) →
      r.CCSDS.Pri.StreamId = m.CCSDS.Pri.StreamId ∧ r.CCSDS.Pri.Length = m.CCSDS.Pri.Length) ∧
    (∀ r, (CFE_MSG_SetSize (some m) x).2 = some r →
      r.CCSDS.Pri.StreamId = m.CCSDS.Pri.StreamId ∧
        r.CCSDS.Pri.Sequence = m.CCSDS.Pri.Sequence) := by
  refine ⟨fun r h => CFE_MSG_SetHeaderVersion_frame m r x h,
    fun r h => CFE_MSG_SetType_frame m r t h,
    fun r h => CFE_MSG_SetHasSecondaryHeader_frame m r b h,
    fun r h => CFE_MSG_SetApId_frame m r x h,
    fun r h => CFE_MSG_SetSegmentationFlag_frame m r f h,
    fun r h => CFE_MSG_SetSequenceCount_frame m r x h,
    fun r h => CFE_MSG_SetSize_frame m r x h, ?_, ?_, ?_⟩
  · rintro r (h | h | h | h)
    · simp only [CFE_MSG_SetHeaderVersion] at h
      split_ifs at h <;> simp only [Option.some.injEq] at h <;> subst h <;> exact ⟨rfl, rfl⟩
    · simp only [CFE_MSG_SetType] at h
      split_ifs at h <;> simp only [Option.some.injEq] at h <;> subst h <;> exact ⟨rfl, rfl⟩
    · simp only [CFE_MSG_SetHasSecondaryHeader] at h
      split_ifs at h <;> simp only [Option.some.injEq] at h <;> subst h <;> exact ⟨rfl, rfl⟩
    · simp only [CFE_MSG_SetApId] at h
      split_ifs at h <;> simp only [Option.some.injEq] at h <;> subst h <;> exact ⟨rfl, rfl⟩
  · rintro r (h | h)
    · simp only [CFE_MSG_SetSegmentationFlag, Option.some.injEq] at h
      subst h
      exact ⟨rfl, rfl⟩
    · simp only [CFE_MSG_SetSequenceCount] at h
      split_ifs at h <;> simp only [Option.some.injEq] at h <;> subst h <;> exact ⟨rfl, rfl⟩
  · intro r h
    simp only [CFE_MSG_SetSize] at h
    split_ifs at h <;> simp only [Option.some.injEq] at h <;> subst h <;> exact ⟨rfl, rfl⟩

/-- Instance of the setter frame: the sequence count 0 written over the header
18 03 FF FF 00 01 succeeds, clears the fourteen count bits and keeps the segmentation flag
and everything else. -/
theorem CFE_MSG_setters_change_own_field_only_witness :
    CFE_MSG_SetSequenceCount (some (mkMsg 0x18 0x03 0xFF 0xFF 0 1)) 0 =
        (CFE_SUCCESS, some (mkMsg 0x18 0x03 0xC0 0x00 0 1)) ∧
      (CFE_MSG_sameHeaderVersion (mkMsg 0x18 0x03 0xC0 0x00 0 1)
          (mkMsg 0x18 0x03 0xFF 0xFF 0 1) ∧
        CFE_MSG_sameType (mkMsg 0x18 0x03 0xC0 0x00 0 1) (mkMsg 0x18 0x03 0xFF 0xFF 0 1) ∧
        CFE_MSG_sameHasSecondaryHeader (mkMsg 0x18 0x03 0xC0 0x00 0 1)
          (mkMsg 0x18 0x03 0xFF 0xFF 0 1) ∧
        CFE_MSG_sameApId (mkMsg 0x18 0x03 0xC0 0x00 0 1) (mkMsg 0x18 0x03 0xFF 0xFF 0 1) ∧
        CFE_MSG_sameSegmentationFlag (mkMsg 0x18 0x03 0xC0 0x00 0 1)
          (mkMsg 0x18 0x03 0xFF 0xFF 0 1) ∧
        CFE_MSG_sameSize (mkMsg 0x18 0x03 0xC0 0x00 0 1) (mkMsg 0x18 0x03 0xFF 0xFF 0 1)) :=
  ⟨by decide,
    (CFE_MSG_setters_change_own_field_only (mkMsg 0x18 0x03 0xFF 0xFF 0 1) 0
      CFE_MSG_Type_Cmd true CFE_MSG_SegFlag_First).2.2.2.2.2.1
      (mkMsg 0x18 0x03 0xC0 0x00 0 1) (by decide)⟩

/-! # Software Bus task: the task globals across the file dumps -/

theorem foldlM_preserves {α β : Type} (g : α → β) (f : Nat → α → Option α)
    (hf : ∀ i a b, f i a = some b → g b = g a) :
    ∀ (l : List Nat) (a b : α), l.foldlM (fun a i => f i a) a = some b → g b = g a := by
  intro l
  induction l with
  | nil =>
    intro a b h
    simp only [List.foldlM_nil, pure, Option.some.injEq] at h
    rw [h]
  | cons i l ih =>
    intro a b h
    rw [List.foldlM_cons] at h
    cases hfa : f i a with
    | none =>
      rw [hfa] at h
      exact absurd h (by simp)
    | some c =>
      rw [hfa] at h
      exact (ih c b h).trans (hf i a c hfa)

theorem CFE_SB_WriteRouteToFile_write_Global (cfg : CFE_SB_Config) (env : CFE_SB_Env)
    (MsgId : Nat) (pipedptr : Option Nat) :
    ∀ (infos : List RouteInfo) (s : CFE_SB_State) (args : CFE_SB_FileWriteCallback_t)
      (r : CFE_SB_State × CFE_SB_FileWriteCallback_t),
      CFE_SB_WriteRouteToFile_write cfg env MsgId pipedptr infos (s, args) = some r →
      r.1.CFE_SB_Global = s.CFE_SB_Global ∧ r.1.RoutingTbl = s.RoutingTbl := by
  intro infos
  induction infos with
  | nil =>
    intro s args r h
    simp only [CFE_SB_WriteRouteToFile_write, Option.some.injEq] at h
    subst h
    exact ⟨rfl, rfl⟩
  | cons info rest ih =>
    intro s args r h
    simp only [CFE_SB_WriteRouteToFile_write] at h
    cases hp : pipedptr.bind (fun Idx => s.CFE_SB_Global.PipeTbl[Idx]?) with
    | none =>
      rw [hp] at h
      exact absurd h (by simp)
    | some PipeDsc =>
      rw [hp] at h
      simp only at h
      split_ifs at h
      · have h2 := ih _ _ r h
        exact h2
      · have h2 := ih _ _ r h
        exact h2

theorem CFE_SB_WriteRouteToFile_Global (cfg : CFE_SB_Config) (env : CFE_SB_Env) (RouteId : Nat)
    (sa r : CFE_SB_State × CFE_SB_FileWriteCallback_t)
    (h : CFE_SB_WriteRouteToFile cfg env RouteId sa = some r) :
    r.1.CFE_SB_Global = sa.1.CFE_SB_Global :=
  (CFE_SB_WriteRouteToFile_write_Global cfg env _ _ _ _ _ r h).1

theorem CFE_SB_WriteMapToFile_Global (cfg : CFE_SB_Config) (env : CFE_SB_Env) (RouteId : Nat)
    (sa r : CFE_SB_State × CFE_SB_FileWriteCallback_t)
    (h : CFE_SB_WriteMapToFile cfg env RouteId sa = some r) :
    r.1.CFE_SB_Global = sa.1.CFE_SB_Global := by
  obtain ⟨b, hb, _, _, g, _⟩ := CFE_SB_WriteMapToFile_step cfg env RouteId sa
  rw [hb, Option.some.injEq] at h
  subst h
  exact g

theorem CFE_SB_WriteRtgInfo_Global (cfg : CFE_SB_Config) (env : CFE_SB_Env) (s : CFE_SB_State)
    (Filename : String) (r : CFE_Status × CFE_SB_State)
    (h : CFE_SB_WriteRtgInfo cfg env s Filename = some r) :
    r.2.CFE_SB_Global = s.CFE_SB_Global := by
  simp only [CFE_SB_WriteRtgInfo, CFE_SBR_ForEachRouteId] at h
  split_ifs at h with h1 h2
  · simp only [Option.some.injEq] at h
    subst h
    rfl
  · simp only [Option.some.injEq] at h
    subst h
    rfl
  · cases hf : List.foldlM (fun a RouteId => CFE_SB_WriteRouteToFile cfg env RouteId a)
        ((s.emit (CFE_SB_Effect.OS_OpenCreate Filename)).emit
            (CFE_SB_Effect.CFE_FS_WriteHeader "SB Routing Information"
              CFE_FS_SubType_SB_ROUTEDATA),
          ({ Filename := Filename,
             FileSize := addUint32 0
               (env.CFE_FS_WriteHeader (s.emit (CFE_SB_Effect.OS_OpenCreate Filename)).Trace),
             EntryCount := 0, Status := CFE_SUCCESS } : CFE_SB_FileWriteCallback_t))
        (List.range ((s.emit (CFE_SB_Effect.OS_OpenCreate Filename)).emit
            (CFE_SB_Effect.CFE_FS_WriteHeader "SB Routing Information"
              CFE_FS_SubType_SB_ROUTEDATA)).RoutingTbl.length) with
    | none =>
      rw [hf] at h
      exact absurd h (by simp)
    | some b =>
      rw [hf] at h
      have hg := foldlM_preserves (fun a : CFE_SB_State × CFE_SB_FileWriteCallback_t =>
        a.1.CFE_SB_Global) (CFE_SB_WriteRouteToFile cfg env)
        (CFE_SB_WriteRouteToFile_Global cfg env) _ _ _ hf
      simp only at h
      split_ifs at h
      · simp only [Option.some.injEq] at h
        subst h
        exact hg
      · simp only [Option.some.injEq] at h
        subst h
        exact hg

theorem CFE_SB_WriteMapInfo_Global (cfg : CFE_SB_Config) (env : CFE_SB_Env) (s : CFE_SB_State)
    (Filename : String) (r : CFE_Status × CFE_SB_State)
    (h : CFE_SB_WriteMapInfo cfg env s Filename = some r) :
    r.2.CFE_SB_Global = s.CFE_SB_Global := by
  simp only [CFE_SB_WriteMapInfo, CFE_SBR_ForEachRouteId] at h
  split_ifs at h with h1 h2
  · simp only [Option.some.injEq] at h
    subst h
    rfl
  · simp only [Option.some.injEq] at h
    subst h
    rfl
  · cases hf : List.foldlM (fun a RouteId => CFE_SB_WriteMapToFile cfg env RouteId a)
        ((s.emit (CFE_SB_Effect.OS_OpenCreate Filename)).emit
            (CFE_SB_Effect.CFE_FS_WriteHeader "SB Message Map Information"
              CFE_FS_SubType_SB_MAPDATA),
          ({ Filename := Filename,
             FileSize := addUint32 0
               (env.CFE_FS_WriteHeader (s.emit (CFE_SB_Effect.OS_OpenCreate Filename)).Trace),
             EntryCount := 0, Status := CFE_SUCCESS } : CFE_SB_FileWriteCallback_t))
        (List.range ((s.emit (CFE_SB_Effect.OS_OpenCreate Filename)).emit
            (CFE_SB_Effect.CFE_FS_WriteHeader "SB Message Map Information"
              CFE_FS_SubType_SB_MAPDATA)).RoutingTbl.length) with
    | none =>
      rw [hf] at h
      exact absurd h (by simp)
    | some b =>
      rw [hf] at h
      have hg := foldlM_preserves (fun a : CFE_SB_State × CFE_SB_FileWriteCallback_t =>
        a.1.CFE_SB_Global) (CFE_SB_WriteMapToFile cfg env)
        (CFE_SB_WriteMapToFile_Global cfg env) _ _ _ hf
      simp only at h
      split_ifs at h
      · simp only [Option.some.injEq] at h
        subst h
        exact hg
      · simp only [Option.some.injEq] at h
        subst h
        exact hg

theorem CFE_SB_WritePipeInfo_Global (cfg : CFE_SB_Config) (env : CFE_SB_Env)
    (s : CFE_SB_State) (Filename : String) :
    (CFE_SB_WritePipeInfo cfg env s Filename).2.CFE_SB_Global = s.CFE_SB_Global := by
  simp only [CFE_SB_WritePipeInfo]
  split_ifs with h1 h2
  · rfl
  · rfl
  · obtain ⟨_, _, _, g, _⟩ := CFE_SB_WritePipeInfo_loop_step cfg env Filename
      (CFE_SB_LockSharedData ((s.emit (CFE_SB_Effect.OS_OpenCreate Filename)).emit
        (CFE_SB_Effect.CFE_FS_WriteHeader "SB Pipe Information"
          CFE_FS_SubType_SB_PIPEDATA))).CFE_SB_Global.PipeTbl
      (CFE_SB_LockSharedData ((s.emit (CFE_SB_Effect.OS_OpenCreate Filename)).emit
        (CFE_SB_Effect.CFE_FS_WriteHeader "SB Pipe Information"
          CFE_FS_SubType_SB_PIPEDATA)))
      (addUint32 0 (env.CFE_FS_WriteHeader
        (s.emit (CFE_SB_Effect.OS_OpenCreate Filename)).Trace)) 0
    have g2 : (CFE_SB_WritePipeInfo_loop cfg env
      (CFE_SB_LockSharedData ((s.emit (CFE_SB_Effect.OS_OpenCreate Filename)).emit
        (CFE_SB_Effect.CFE_FS_WriteHeader "SB Pipe Information"
          CFE_FS_SubType_SB_PIPEDATA))).CFE_SB_Global.PipeTbl
      (CFE_SB_LockSharedData ((s.emit (CFE_SB_Effect.OS_OpenCreate Filename)).emit
        (CFE_SB_Effect.CFE_FS_WriteHeader "SB Pipe Information"
          CFE_FS_SubType_SB_PIPEDATA)))
      (addUint32 0 (env.CFE_FS_WriteHeader
        (s.emit (CFE_SB_Effect.OS_OpenCreate Filename)).Trace)) 0).2.1.CFE_SB_Global =
        s.CFE_SB_Global := g
    revert g2
    cases (CFE_SB_WritePipeInfo_loop cfg env
      (CFE_SB_LockSharedData ((s.emit (CFE_SB_Effect.OS_OpenCreate Filename)).emit
        (CFE_SB_Effect.CFE_FS_WriteHeader "SB Pipe Information"
          CFE_FS_SubType_SB_PIPEDATA))).CFE_SB_Global.PipeTbl
      (CFE_SB_LockSharedData ((s.emit (CFE_SB_Effect.OS_OpenCreate Filename)).emit
        (CFE_SB_Effect.CFE_FS_WriteHeader "SB Pipe Information"
          CFE_FS_SubType_SB_PIPEDATA)))
      (addUint32 0 (env.CFE_FS_WriteHeader
        (s.emit (CFE_SB_Effect.OS_OpenCreate Filename)).Trace)) 0).1 with
    | none => exact fun g2 => g2
    | some st => exact fun g2 => g2

/-! # Software Bus task: counters of the write-info commands -/

theorem CFE_SB_IncrCmdCtr_payload (cfg : CFE_SB_Config) (s : CFE_SB_State)
    (status : CFE_Status) :
    (CFE_SB_IncrCmdCtr cfg s status).CFE_SB_Global.HKTlmMsg.Payload =
      (if status = CFE_SUCCESS then
        { s.CFE_SB_Global.HKTlmMsg.Payload with
          CommandCounter :=
            (s.CFE_SB_Global.HKTlmMsg.Payload.CommandCounter + 1) % cfg.CommandCounterModulus }
      else
        { s.CFE_SB_Global.HKTlmMsg.Payload with
          CommandErrorCounter :=
            (s.CFE_SB_Global.HKTlmMsg.Payload.CommandErrorCounter + 1)
              % cfg.CommandCounterModulus }) := by
  by_cases h : status = CFE_SUCCESS
  · simp only [CFE_SB_IncrCmdCtr, h, if_true, incrCommandCounter, CFE_SB_State.setHK]
  · simp only [CFE_SB_IncrCmdCtr, h, if_false, incrCommandErrorCounter, CFE_SB_State.setHK]

/-- C33: the three write-info commands and `CFE_SB_IncrCmdCtr`, for every configuration,
collaborators, state and command.  `CFE_SB_IncrCmdCtr` increments `CommandCounter` (modulo
the counter type) when the status is `CFE_SUCCESS` and `CommandErrorCounter` otherwise, and
leaves the other fields of the housekeeping payload.  Each write-info command returns
`CFE_SUCCESS` whatever its dump function returned, and its housekeeping payload is the
initial one with `CommandCounter` incremented once when the dump returned `CFE_SUCCESS`,
and with `CommandErrorCounter` incremented once otherwise.  The pipe dump and the map dump
always return; for the routing dump the statement is made for every result it returns. -/
theorem CFE_SB_WriteInfoCmd_counters (cfg : CFE_SB_Config) (env : CFE_SB_Env)
    (s : CFE_SB_State) (data : CFE_SB_Buffer_t) :
    (∀ status : CFE_Status,
      (CFE_SB_IncrCmdCtr cfg s status).CFE_SB_Global.HKTlmMsg.Payload =
        (if status = CFE_SUCCESS then
          { s.CFE_SB_Global.HKTlmMsg.Payload with
            CommandCounter :=
              (s.CFE_SB_Global.HKTlmMsg.Payload.CommandCounter + 1)
                % cfg.CommandCounterModulus }
        else
          { s.CFE_SB_Global.HKTlmMsg.Payload with
            CommandErrorCounter :=
              (s.CFE_SB_Global.HKTlmMsg.Payload.CommandErrorCounter + 1)
                % cfg.CommandCounterModulus })) ∧
    ((CFE_SB_WritePipeInfoCmd cfg env s data).1 = CFE_SUCCESS ∧
      (CFE_SB_WritePipeInfoCmd cfg env s data).2.CFE_SB_Global.HKTlmMsg.Payload =
        (if (CFE_SB_WritePipeInfo cfg env s
              (cfg.CFE_SB_MessageStringGet data.Filename
                cfg.CFE_PLATFORM_SB_DEFAULT_PIPE_FILENAME)).1 = CFE_SUCCESS then
          { s.CFE_SB_Global.HKTlmMsg.Payload with
            CommandCounter :=
              (s.CFE_SB_Global.HKTlmMsg.Payload.CommandCounter + 1)
                % cfg.CommandCounterModulus }
        else
          { s.CFE_SB_Global.HKTlmMsg.Payload with
            CommandErrorCounter :=
              (s.CFE_SB_Global.HKTlmMsg.Payload.CommandErrorCounter + 1)
                % cfg.CommandCounterModulus })) ∧
    (∀ d, CFE_SB_WriteRtgInfo cfg env s
          (cfg.CFE_SB_MessageStringGet data.Filename
            cfg.CFE_PLATFORM_SB_DEFAULT_ROUTING_FILENAME) = some d →
      ∃ r, CFE_SB_WriteRoutingInfoCmd cfg env s data = some r ∧ r.1 = CFE_SUCCESS ∧
        r.2.CFE_SB_Global.HKTlmMsg.Payload =
          (if d.1 = CFE_SUCCESS then
            { s.CFE_SB_Global.HKTlmMsg.Payload with
              CommandCounter :=
                (s.CFE_SB_Global.HKTlmMsg.Payload.CommandCounter + 1)
                  % cfg.CommandCounterModulus }
          else
            { s.CFE_SB_Global.HKTlmMsg.Payload with
              CommandErrorCounter :=
                (s.CFE_SB_Global.HKTlmMsg.Payload.CommandErrorCounter + 1)
                  % cfg.CommandCounterModulus })) ∧
    (∃ d r, CFE_SB_WriteMapInfo cfg env s
          (cfg.CFE_SB_MessageStringGet data.Filename
            cfg.CFE_PLATFORM_SB_DEFAULT_MAP_FILENAME) = some d ∧
      CFE_SB_WriteMapInfoCmd cfg env s data = some r ∧ r.1 = CFE_SUCCESS ∧
        r.2.CFE_SB_Global.HKTlmMsg.Payload =
          (if d.1 = CFE_SUCCESS then
            { s.CFE_SB_Global.HKTlmMsg.Payload with
              CommandCounter :=
                (s.CFE_SB_Global.HKTlmMsg.Payload.CommandCounter + 1)
                  % cfg.CommandCounterModulus }
          else
            { s.CFE_SB_Global.HKTlmMsg.Payload with
              CommandErrorCounter :=
                (s.CFE_SB_Global.HKTlmMsg.Payload.CommandErrorCounter + 1)
                  % cfg.CommandCounterModulus })) := by
  refine ⟨CFE_SB_IncrCmdCtr_payload cfg s, ⟨rfl, ?_⟩, ?_, ?_⟩
  · simp only [CFE_SB_WritePipeInfoCmd]
    rw [CFE_SB_IncrCmdCtr_payload, CFE_SB_WritePipeInfo_Global]
  · intro d hd
    refine ⟨(CFE_SUCCESS, CFE_SB_IncrCmdCtr cfg d.2 d.1), ?_, rfl, ?_⟩
    · simp only [CFE_SB_WriteRoutingInfoCmd, hd]
    · simp only
      rw [CFE_SB_IncrCmdCtr_payload, CFE_SB_WriteRtgInfo_Global cfg env s _ d hd]
  · obtain ⟨d, hd, _⟩ := CFE_SB_WriteMapInfo_outcome cfg env s
      (cfg.CFE_SB_MessageStringGet data.Filename cfg.CFE_PLATFORM_SB_DEFAULT_MAP_FILENAME)
    refine ⟨d, (CFE_SUCCESS, CFE_SB_IncrCmdCtr cfg d.2 d.1), hd, ?_, rfl, ?_⟩
    · simp only [CFE_SB_WriteMapInfoCmd, hd]
    · simp only
      rw [CFE_SB_IncrCmdCtr_payload, CFE_SB_WriteMapInfo_Global cfg env s _ d hd]

/-- Instance of the write-info counters on the sample state: the routing dump succeeds, so
the routing command increments `CommandCounter` from 3 to 4 and leaves
`CommandErrorCounter` at 255. -/
theorem CFE_SB_WriteInfoCmd_counters_witness :
    ∃ r, CFE_SB_WriteRoutingInfoCmd sampleConfig sampleEnv sampleState
          (sampleBuffer 0x1803 3 72 0 0) = some r ∧ r.1 = CFE_SUCCESS ∧
      r.2.CFE_SB_Global.HKTlmMsg.Payload.CommandCounter = 4 ∧
      r.2.CFE_SB_Global.HKTlmMsg.Payload.CommandErrorCounter = 255 :=
  ((CFE_SB_WriteInfoCmd_counters sampleConfig sampleEnv sampleState
    (sampleBuffer 0x1803 3 72 0 0)).2.2.1
    ((CFE_SB_WriteRtgInfo sampleConfig sampleEnv sampleState
      (sampleConfig.CFE_SB_MessageStringGet (sampleBuffer 0x1803 3 72 0 0).Filename
        sampleConfig.CFE_PLATFORM_SB_DEFAULT_ROUTING_FILENAME)).getD (CFE_SUCCESS, sampleState))
    (by rfl)).elim
    (fun r h => ⟨r, h.1, h.2.1, by rw [h.2.2]; rfl, by rw [h.2.2]; rfl⟩)

/-! # Software Bus task: the two command counters per packet -/

theorem CFE_SB_counterStep_afterCommandError (cfg : CFE_SB_Config) (s : CFE_SB_State)
    (EventID : CFE_SB_EventID) (Args : List Int) :
    CFE_SB_counterStep cfg s (s.afterCommandError cfg EventID Args) :=
  Or.inr (Or.inr ⟨rfl, rfl⟩)

theorem CFE_SB_counterStep_of_payload_eq (cfg : CFE_SB_Config) (s r : CFE_SB_State)
    (h : r.CFE_SB_Global.HKTlmMsg = s.CFE_SB_Global.HKTlmMsg) : CFE_SB_counterStep cfg s r :=
  Or.inl ⟨by rw [h], by rw [h]⟩

theorem CFE_SB_counterStep_IncrCmdCtr (cfg : CFE_SB_Config) (s d : CFE_SB_State)
    (status : CFE_Status) (h : d.CFE_SB_Global = s.CFE_SB_Global) :
    CFE_SB_counterStep cfg s (CFE_SB_IncrCmdCtr cfg d status) := by
  unfold CFE_SB_counterStep
  rw [CFE_SB_IncrCmdCtr_payload, h]
  by_cases hs : status = CFE_SUCCESS
  · rw [if_pos hs]
    exact Or.inr (Or.inl ⟨rfl, rfl⟩)
  · rw [if_neg hs]
    exact Or.inr (Or.inr ⟨rfl, rfl⟩)

theorem CFE_SB_SendRouteSub_loop_HK (cfg : CFE_SB_Config) (env : CFE_SB_Env) (RouteId : Nat) :
    ∀ (dests : List CFE_SB_DestinationD_t) (s r : CFE_SB_State),
      CFE_SB_SendRouteSub_loop cfg env RouteId dests s = some r →
      r.CFE_SB_Global.HKTlmMsg = s.CFE_SB_Global.HKTlmMsg := by
  intro dests
  induction dests with
  | nil =>
    intro s r h
    simp only [CFE_SB_SendRouteSub_loop, Option.some.injEq] at h
    subst h
    rfl
  | cons d rest ih =>
    intro s r h
    by_cases hg : d.Scope = CFE_SB_MSG_GLOBAL
    · simp only [CFE_SB_SendRouteSub_loop, hg, if_true] at h
      cases he : s.CFE_SB_Global.PrevSubMsg.Payload.Entry[
          s.CFE_SB_Global.PrevSubMsg.Payload.Entries]? with
      | none =>
        rw [he] at h
        exact absurd h (by simp)
      | some old =>
        rw [he] at h
        simp only at h
        split_ifs at h
        · simp only [Option.some.injEq] at h
          subst h
          rfl
        · simp only [Option.some.injEq] at h
          subst h
          rfl
    · simp only [CFE_SB_SendRouteSub_loop, hg, if_false] at h
      exact ih s r h

theorem CFE_SB_SendPrevSubsCmd_HK (cfg : CFE_SB_Config) (env : CFE_SB_Env) (s : CFE_SB_State)
    (r : CFE_Status × CFE_SB_State) (h : CFE_SB_SendPrevSubsCmd cfg env s = some r) :
    r.2.CFE_SB_Global.HKTlmMsg = s.CFE_SB_Global.HKTlmMsg := by
  simp only [CFE_SB_SendPrevSubsCmd, CFE_SBR_ForEachRouteId] at h
  cases hf : List.foldlM (fun a RouteId => CFE_SB_SendRouteSub cfg env RouteId a)
      ((CFE_SB_LockSharedData s).setPrevSub
        { (CFE_SB_LockSharedData s).CFE_SB_Global.PrevSubMsg.Payload with
          PktSegment := 1, Entries := 0 })
      (List.range ((CFE_SB_LockSharedData s).setPrevSub
        { (CFE_SB_LockSharedData s).CFE_SB_Global.PrevSubMsg.Payload with
          PktSegment := 1, Entries := 0 }).RoutingTbl.length) with
  | none =>
    rw [hf] at h
    exact absurd h (by simp)
  | some m =>
    rw [hf] at h
    have hm := foldlM_preserves (fun a : CFE_SB_State => a.CFE_SB_Global.HKTlmMsg)
      (CFE_SB_SendRouteSub cfg env)
      (fun i a b hab => CFE_SB_SendRouteSub_loop_HK cfg env i _ a b hab) _ _ _ hf
    simp only at h
    split_ifs at h
    · simp only [Option.some.injEq] at h
      subst h
      exact hm
    · simp only [Option.some.injEq] at h
      subst h
      exact hm

theorem CFE_SB_EnableRouteCmd_counterStep (cfg : CFE_SB_Config) (s : CFE_SB_State)
    (data : CFE_SB_Buffer_t) :
    CFE_SB_counterStep cfg s (CFE_SB_EnableRouteCmd cfg s data).2 := by
  obtain ⟨l1, l2, l3, l4⟩ :=
    lookups_after_lock cfg s data.RouteCmd.Pipe data.RouteCmd.MsgId
  have hc := routeCmd_check_eq cfg s data.RouteCmd
  cases hv : CFE_SB_RouteCmdParamsValid cfg s data.RouteCmd with
  | false =>
    rw [hv] at hc
    refine Or.inr (Or.inr ?_)
    simp only [CFE_SB_EnableRouteCmd, l1, l2, hc]
    simp [CFE_EVS_SendEvent, CFE_SB_UnlockSharedData, CFE_SB_LockSharedData,
      incrCommandErrorCounter, incrCommandCounter, CFE_SB_State.emit, CFE_SB_State.setHK]
  | true =>
    rw [hv] at hc
    cases hd : CFE_SB_GetDestPtr s (CFE_SBR_GetRouteId s data.RouteCmd.MsgId)
        data.RouteCmd.Pipe with
    | none =>
      refine Or.inr (Or.inr ?_)
      simp only [CFE_SB_EnableRouteCmd, l1, l2, l3, l4, hc, hd]
      simp [CFE_EVS_SendEvent, CFE_SB_UnlockSharedData, CFE_SB_LockSharedData,
        incrCommandErrorCounter, incrCommandCounter, CFE_SB_State.emit, CFE_SB_State.setHK]
    | some DestPtr =>
      refine Or.inr (Or.inl ?_)
      simp only [CFE_SB_EnableRouteCmd, l1, l2, l3, l4, hc, hd]
      simp [CFE_EVS_SendEvent, CFE_SB_UnlockSharedData, CFE_SB_LockSharedData,
        incrCommandErrorCounter, incrCommandCounter, CFE_SB_State.emit, CFE_SB_State.setHK,
        setDestActive]

theorem CFE_SB_DisableRouteCmd_counterStep (cfg : CFE_SB_Config) (s : CFE_SB_State)
    (data : CFE_SB_Buffer_t) :
    CFE_SB_counterStep cfg s (CFE_SB_DisableRouteCmd cfg s data).2 := by
  obtain ⟨l1, l2, l3, l4⟩ :=
    lookups_after_lock cfg s data.RouteCmd.Pipe data.RouteCmd.MsgId
  have hc := routeCmd_check_eq cfg s data.RouteCmd
  cases hv : CFE_SB_RouteCmdParamsValid cfg s data.RouteCmd with
  | false =>
    rw [hv] at hc
    refine Or.inr (Or.inr ?_)
    simp only [CFE_SB_DisableRouteCmd, l1, l2, hc]
    simp [CFE_EVS_SendEvent, CFE_SB_UnlockSharedData, CFE_SB_LockSharedData,
      incrCommandErrorCounter, incrCommandCounter, CFE_SB_State.emit, CFE_SB_State.setHK]
  | true =>
    rw [hv] at hc
    cases hd : CFE_SB_GetDestPtr s (CFE_SBR_GetRouteId s data.RouteCmd.MsgId)
        data.RouteCmd.Pipe with
    | none =>
      refine Or.inr (Or.inr ?_)
      simp only [CFE_SB_DisableRouteCmd, l1, l2, l3, l4, hc, hd]
      simp [CFE_EVS_SendEvent, CFE_SB_UnlockSharedData, CFE_SB_LockSharedData,
        incrCommandErrorCounter, incrCommandCounter, CFE_SB_State.emit, CFE_SB_State.setHK]
    | some DestPtr =>
      refine Or.inr (Or.inl ?_)
      simp only [CFE_SB_DisableRouteCmd, l1, l2, l3, l4, hc, hd]
      simp [CFE_EVS_SendEvent, CFE_SB_UnlockSharedData, CFE_SB_LockSharedData,
        incrCommandErrorCounter, incrCommandCounter, CFE_SB_State.emit, CFE_SB_State.setHK,
        setDestActive]

theorem CFE_SB_counterStep_verify (cfg : CFE_SB_Config) (s : CFE_SB_State)
    (buf : CFE_SB_Buffer_t) (ExpectedLength : Nat) (H : CFE_SB_State → Option CFE_SB_State)
    (hH : ∀ r, H s = some r → CFE_SB_counterStep cfg s r) (r : CFE_SB_State)
    (h : (if (CFE_SB_VerifyCmdLength cfg s buf ExpectedLength).1 = true then
        H (CFE_SB_VerifyCmdLength cfg s buf ExpectedLength).2
      else some (CFE_SB_VerifyCmdLength cfg s buf ExpectedLength).2) = some r) :
    CFE_SB_counterStep cfg s r := by
  rw [CFE_SB_VerifyCmdLength_eq] at h
  by_cases hl : ExpectedLength ≠
      256 * buf.Msg.CCSDS.Pri.Length.1.val + buf.Msg.CCSDS.Pri.Length.2.val + 7
  · simp only [if_pos hl, Bool.false_eq_true, if_false, Option.some.injEq] at h
    subst h
    exact CFE_SB_counterStep_afterCommandError cfg s _ _
  · simp only [if_neg hl, if_true] at h
    exact hH r h

/-- C37: for every packet other than a reset counters command of the correct length, the
state returned by `CFE_SB_ProcessCmdPipePkt` has the pair (`CommandCounter`,
`CommandErrorCounter`) either unchanged, or `CommandCounter` incremented once (modulo the
counter width) with `CommandErrorCounter` unchanged, or `CommandErrorCounter` incremented
once with `CommandCounter` unchanged.  The collaborators are calls recorded in the trace and
write no counter. -/
theorem CFE_SB_ProcessCmdPipePkt_counters_step_once (cfg : CFE_SB_Config) (env : CFE_SB_Env)
    (s : CFE_SB_State) (buf : CFE_SB_Buffer_t) (r : CFE_SB_State)
    (hreset : ¬ (buf.MsgId = cfg.CFE_SB_CMD_MID ∧ buf.FcnCode = cfg.CFE_SB_RESET_COUNTERS_CC ∧
      cfg.sizeof_CFE_SB_ResetCountersCmd_t =
        256 * buf.Msg.CCSDS.Pri.Length.1.val + buf.Msg.CCSDS.Pri.Length.2.val + 7))
    (h : CFE_SB_ProcessCmdPipePkt cfg env s buf = some r) :
    (r.CFE_SB_Global.HKTlmMsg.Payload.CommandCounter =
        s.CFE_SB_Global.HKTlmMsg.Payload.CommandCounter ∧
      r.CFE_SB_Global.HKTlmMsg.Payload.CommandErrorCounter =
        s.CFE_SB_Global.HKTlmMsg.Payload.CommandErrorCounter) ∨
    (r.CFE_SB_Global.HKTlmMsg.Payload.CommandCounter =
        (s.CFE_SB_Global.HKTlmMsg.Payload.CommandCounter + 1) % cfg.CommandCounterModulus ∧
      r.CFE_SB_Global.HKTlmMsg.Payload.CommandErrorCounter =
        s.CFE_SB_Global.HKTlmMsg.Payload.CommandErrorCounter) ∨
    (r.CFE_SB_Global.HKTlmMsg.Payload.CommandCounter =
        s.CFE_SB_Global.HKTlmMsg.Payload.CommandCounter ∧
      r.CFE_SB_Global.HKTlmMsg.Payload.CommandErrorCounter =
        (s.CFE_SB_Global.HKTlmMsg.Payload.CommandErrorCounter + 1) %
          cfg.CommandCounterModulus) := by
  show CFE_SB_counterStep cfg s r
  unfold CFE_SB_ProcessCmdPipePkt at h
  simp only at h
  by_cases m1 : buf.MsgId = cfg.CFE_SB_SEND_HK_MID
  · rw [if_pos m1] at h
    simp only [Option.some.injEq] at h
    subst h
    exact Or.inl ⟨rfl, rfl⟩
  rw [if_neg m1] at h
  by_cases m2 : buf.MsgId = cfg.CFE_SB_SUB_RPT_CTRL_MID
  · rw [if_pos m2] at h
    by_cases c1 : buf.FcnCode = cfg.CFE_SB_SEND_PREV_SUBS_CC
    · rw [if_pos c1] at h
      refine CFE_SB_counterStep_verify cfg s buf _
        (fun a => (CFE_SB_SendPrevSubsCmd cfg env a).map Prod.snd) ?_ r h
      intro q hq
      simp only [Option.map_eq_some'] at hq
      obtain ⟨p, hp, rfl⟩ := hq
      exact CFE_SB_counterStep_of_payload_eq cfg s _ (CFE_SB_SendPrevSubsCmd_HK cfg env s p hp)
    rw [if_neg c1] at h
    by_cases c2 : buf.FcnCode = cfg.CFE_SB_ENABLE_SUB_REPORTING_CC
    · rw [if_pos c2] at h
      refine CFE_SB_counterStep_verify cfg s buf _
        (fun a => some (CFE_SB_EnableSubReportingCmd a).2) ?_ r h
      intro q hq
      simp only [Option.some.injEq] at hq
      subst hq
      exact Or.inl ⟨rfl, rfl⟩
    rw [if_neg c2] at h
    by_cases c3 : buf.FcnCode = cfg.CFE_SB_DISABLE_SUB_REPORTING_CC
    · rw [if_pos c3] at h
      refine CFE_SB_counterStep_verify cfg s buf _
        (fun a => some (CFE_SB_DisableSubReportingCmd a).2) ?_ r h
      intro q hq
      simp only [Option.some.injEq] at hq
      subst hq
      exact Or.inl ⟨rfl, rfl⟩
    rw [if_neg c3] at h
    simp only [Option.some.injEq] at h
    subst h
    exact Or.inr (Or.inr ⟨rfl, rfl⟩)
  rw [if_neg m2] at h
  by_cases m3 : buf.MsgId = cfg.CFE_SB_CMD_MID
  · rw [if_pos m3] at h
    by_cases c1 : buf.FcnCode = cfg.CFE_SB_NOOP_CC
    · rw [if_pos c1] at h
      refine CFE_SB_counterStep_verify cfg s buf _
        (fun a => some (CFE_SB_NoopCmd cfg a).2) ?_ r h
      intro q hq
      simp only [Option.some.injEq] at hq
      subst hq
      exact Or.inr (Or.inl ⟨rfl, rfl⟩)
    rw [if_neg c1] at h
    by_cases c2 : buf.FcnCode = cfg.CFE_SB_RESET_COUNTERS_CC
    · rw [if_pos c2, CFE_SB_VerifyCmdLength_eq] at h
      by_cases hl : cfg.sizeof_CFE_SB_ResetCountersCmd_t ≠
          256 * buf.Msg.CCSDS.Pri.Length.1.val + buf.Msg.CCSDS.Pri.Length.2.val + 7
      · simp only [if_pos hl, Bool.false_eq_true, if_false, Option.some.injEq] at h
        subst h
        exact CFE_SB_counterStep_afterCommandError cfg s _ _
      · exact absurd ⟨m3, c2, not_not.1 hl⟩ hreset
    rw [if_neg c2] at h
    by_cases c3 : buf.FcnCode = cfg.CFE_SB_SEND_SB_STATS_CC
    · rw [if_pos c3] at h
      refine CFE_SB_counterStep_verify cfg s buf _
        (fun a => some (CFE_SB_SendStatsCmd cfg env a).2) ?_ r h
      intro q hq
      simp only [Option.some.injEq] at hq
      subst hq
      exact Or.inr (Or.inl ⟨rfl, rfl⟩)
    rw [if_neg c3] at h
    by_cases c4 : buf.FcnCode = cfg.CFE_SB_WRITE_ROUTING_INFO_CC
    · rw [if_pos c4] at h
      refine CFE_SB_counterStep_verify cfg s buf _
        (fun a => (CFE_SB_WriteRoutingInfoCmd cfg env a buf).map Prod.snd) ?_ r h
      intro q hq
      simp only [Option.map_eq_some'] at hq
      obtain ⟨p, hp, rfl⟩ := hq
      simp only [CFE_SB_WriteRoutingInfoCmd] at hp
      cases hw : CFE_SB_WriteRtgInfo cfg env s
          (cfg.CFE_SB_MessageStringGet buf.Filename
            cfg.CFE_PLATFORM_SB_DEFAULT_ROUTING_FILENAME) with
      | none =>
        rw [hw] at hp
        exact absurd hp (by simp)
      | some d =>
        rw [hw] at hp
        simp only [Option.some.injEq] at hp
        subst hp
        exact CFE_SB_counterStep_IncrCmdCtr cfg s d.2 d.1
          (CFE_SB_WriteRtgInfo_Global cfg env s _ d hw)
    rw [if_neg c4] at h
    by_cases c5 : buf.FcnCode = cfg.CFE_SB_ENABLE_ROUTE_CC
    · rw [if_pos c5] at h
      refine CFE_SB_counterStep_verify cfg s buf _
        (fun a => some (CFE_SB_EnableRouteCmd cfg a buf).2) ?_ r h
      intro q hq
      simp only [Option.some.injEq] at hq
      subst hq
      exact CFE_SB_EnableRouteCmd_counterStep cfg s buf
    rw [if_neg c5] at h
    by_cases c6 : buf.FcnCode = cfg.CFE_SB_DISABLE_ROUTE_CC
    · rw [if_pos c6] at h
      refine CFE_SB_counterStep_verify cfg s buf _
        (fun a => some (CFE_SB_DisableRouteCmd cfg a buf).2) ?_ r h
      intro q hq
      simp only [Option.some.injEq] at hq
      subst hq
      exact CFE_SB_DisableRouteCmd_counterStep cfg s buf
    rw [if_neg c6] at h
    by_cases c7 : buf.FcnCode = cfg.CFE_SB_WRITE_PIPE_INFO_CC
    · rw [if_pos c7] at h
      refine CFE_SB_counterStep_verify cfg s buf _
        (fun a => some (CFE_SB_WritePipeInfoCmd cfg env a buf).2) ?_ r h
      intro q hq
      simp only [Option.some.injEq] at hq
      subst hq
      exact CFE_SB_counterStep_IncrCmdCtr cfg s _ _ (CFE_SB_WritePipeInfo_Global cfg env s _)
    rw [if_neg c7] at h
    by_cases c8 : buf.FcnCode = cfg.CFE_SB_WRITE_MAP_INFO_CC
    · rw [if_pos c8] at h
      refine CFE_SB_counterStep_verify cfg s buf _
        (fun a => (CFE_SB_WriteMapInfoCmd cfg env a buf).map Prod.snd) ?_ r h
      intro q hq
      simp only [Option.map_eq_some'] at hq
      obtain ⟨p, hp, rfl⟩ := hq
      simp only [CFE_SB_WriteMapInfoCmd] at hp
      cases hw : CFE_SB_WriteMapInfo cfg env s
          (cfg.CFE_SB_MessageStringGet buf.Filename
            cfg.CFE_PLATFORM_SB_DEFAULT_MAP_FILENAME) with
      | none =>
        rw [hw] at hp
        exact absurd hp (by simp)
      | some d =>
        rw [hw] at hp
        simp only [Option.some.injEq] at hp
        subst hp
        exact CFE_SB_counterStep_IncrCmdCtr cfg s d.2 d.1
          (CFE_SB_WriteMapInfo_Global cfg env s _ d hw)
    rw [if_neg c8] at h
    simp only [Option.some.injEq] at h
    subst h
    exact Or.inr (Or.inr ⟨rfl, rfl⟩)
  rw [if_neg m3] at h
  simp only [Option.some.injEq] at h
  subst h
  exact Or.inr (Or.inr ⟨rfl, rfl⟩)

/-- Instance of the counter step: a no-op command of the correct length on the sample state
(counters 3 and 255) is processed, and the returned state has counters 4 and 255. -/
theorem CFE_SB_ProcessCmdPipePkt_counters_step_once_witness :
    CFE_SB_ProcessCmdPipePkt sampleConfig sampleEnv sampleState
        (sampleBuffer 0x1803 0 8 0 0) = some (CFE_SB_NoopCmd sampleConfig sampleState).2 ∧
    ((CFE_SB_NoopCmd sampleConfig sampleState).2.CFE_SB_Global.HKTlmMsg.Payload.CommandCounter,
      (CFE_SB_NoopCmd sampleConfig
        sampleState).2.CFE_SB_Global.HKTlmMsg.Payload.CommandErrorCounter) = (4, 255) ∧
    ((CFE_SB_NoopCmd sampleConfig sampleState).2.CFE_SB_Global.HKTlmMsg.Payload.CommandCounter =
        sampleState.CFE_SB_Global.HKTlmMsg.Payload.CommandCounter ∧
      (CFE_SB_NoopCmd sampleConfig
          sampleState).2.CFE_SB_Global.HKTlmMsg.Payload.CommandErrorCounter =
        sampleState.CFE_SB_Global.HKTlmMsg.Payload.CommandErrorCounter ∨
    (CFE_SB_NoopCmd sampleConfig sampleState).2.CFE_SB_Global.HKTlmMsg.Payload.CommandCounter =
        (sampleState.CFE_SB_Global.HKTlmMsg.Payload.CommandCounter + 1) %
          sampleConfig.CommandCounterModulus ∧
      (CFE_SB_NoopCmd sampleConfig
          sampleState).2.CFE_SB_Global.HKTlmMsg.Payload.CommandErrorCounter =
        sampleState.CFE_SB_Global.HKTlmMsg.Payload.CommandErrorCounter ∨
    (CFE_SB_NoopCmd sampleConfig sampleState).2.CFE_SB_Global.HKTlmMsg.Payload.CommandCounter =
        sampleState.CFE_SB_Global.HKTlmMsg.Payload.CommandCounter ∧
      (CFE_SB_NoopCmd sampleConfig
          sampleState).2.CFE_SB_Global.HKTlmMsg.Payload.CommandErrorCounter =
        (sampleState.CFE_SB_Global.HKTlmMsg.Payload.CommandErrorCounter + 1) %
          sampleConfig.CommandCounterModulus) :=
  ⟨rfl, rfl,
    CFE_SB_ProcessCmdPipePkt_counters_step_once sampleConfig sampleEnv sampleState
      (sampleBuffer 0x1803 0 8 0 0) (CFE_SB_NoopCmd sampleConfig sampleState).2 (by decide) rfl⟩

/-! # Software Bus task: bounds of the previous subscriptions buffer -/

theorem CFE_SB_SendRouteSub_loop_bounds (cfg : CFE_SB_Config) (env : CFE_SB_Env)
    (RouteId : Nat) (dests : List CFE_SB_DestinationD_t) (s : CFE_SB_State)
    (hlen : s.CFE_SB_Global.PrevSubMsg.Payload.Entry.length = cfg.CFE_SB_SUB_ENTRIES_PER_PKT)
    (hlt : s.CFE_SB_Global.PrevSubMsg.Payload.Entries < cfg.CFE_SB_SUB_ENTRIES_PER_PKT) :
    ∃ r, CFE_SB_SendRouteSub_loop cfg env RouteId dests s = some r ∧
      r.CFE_SB_Global.PrevSubMsg.Payload.Entry.length = cfg.CFE_SB_SUB_ENTRIES_PER_PKT ∧
      r.CFE_SB_Global.PrevSubMsg.Payload.Entries < cfg.CFE_SB_SUB_ENTRIES_PER_PKT ∧
      r.CFE_SB_Global.PrevSubMsg.Payload.Entries ≤
        s.CFE_SB_Global.PrevSubMsg.Payload.Entries + 1 ∧
      (r.CFE_SB_Global.PrevSubMsg.Payload.Entry = s.CFE_SB_Global.PrevSubMsg.Payload.Entry ∨
        ∃ x, r.CFE_SB_Global.PrevSubMsg.Payload.Entry =
          s.CFE_SB_Global.PrevSubMsg.Payload.Entry.set
            s.CFE_SB_Global.PrevSubMsg.Payload.Entries x) := by
  cases hg : dests.any (fun d => decide (d.Scope = CFE_SB_MSG_GLOBAL)) with
  | false =>
    exact ⟨s, CFE_SB_SendRouteSub_loop_of_no_global cfg env RouteId dests s hg, hlen, hlt,
      by omega, Or.inl rfl⟩
  | true =>
    have hlt2 : s.CFE_SB_Global.PrevSubMsg.Payload.Entries <
        s.CFE_SB_Global.PrevSubMsg.Payload.Entry.length := by omega
    have hold : s.CFE_SB_Global.PrevSubMsg.Payload.Entry[
        s.CFE_SB_Global.PrevSubMsg.Payload.Entries]? =
        some (s.CFE_SB_Global.PrevSubMsg.Payload.Entry[
          s.CFE_SB_Global.PrevSubMsg.Payload.Entries]) := List.getElem?_eq_getElem hlt2
    rw [CFE_SB_SendRouteSub_loop_of_global cfg env RouteId dests s hg]
    simp only [CFE_SB_SendRouteSub_loop, if_true, hold]
    by_cases hfull : cfg.CFE_SB_SUB_ENTRIES_PER_PKT ≤
        s.CFE_SB_Global.PrevSubMsg.Payload.Entries + 1
    · have hfull2 : (s.setPrevSub
          { PktSegment := s.CFE_SB_Global.PrevSubMsg.Payload.PktSegment,
            Entries := s.CFE_SB_Global.PrevSubMsg.Payload.Entries + 1,
            Entry := s.CFE_SB_Global.PrevSubMsg.Payload.Entry.set
              s.CFE_SB_Global.PrevSubMsg.Payload.Entries
              { MsgId := CFE_SBR_GetMsgId cfg s RouteId,
                Qos := { Priority := 0, Reliability := 0 },
                Pipe := (s.CFE_SB_Global.PrevSubMsg.Payload.Entry[
                  s.CFE_SB_Global.PrevSubMsg.Payload.Entries]).Pipe }
          }).CFE_SB_Global.PrevSubMsg.Payload.Entries ≥ cfg.CFE_SB_SUB_ENTRIES_PER_PKT :=
        hfull
      rw [if_pos hfull2]
      refine ⟨_, rfl, ?_, ?_, ?_, Or.inr ⟨_, rfl⟩⟩
      · simp [CFE_SB_TransmitMsg, CFE_EVS_SendEvent, CFE_SB_UnlockSharedData,
          CFE_SB_LockSharedData, CFE_SB_State.emit, CFE_SB_State.setPrevSub, hlen]
      · simp only [CFE_SB_State.setPrevSub]
        omega
      · simp only [CFE_SB_State.setPrevSub]
        omega
    · have hfull2 : ¬ (s.setPrevSub
          { PktSegment := s.CFE_SB_Global.PrevSubMsg.Payload.PktSegment,
            Entries := s.CFE_SB_Global.PrevSubMsg.Payload.Entries + 1,
            Entry := s.CFE_SB_Global.PrevSubMsg.Payload.Entry.set
              s.CFE_SB_Global.PrevSubMsg.Payload.Entries
              { MsgId := CFE_SBR_GetMsgId cfg s RouteId,
                Qos := { Priority := 0, Reliability := 0 },
                Pipe := (s.CFE_SB_Global.PrevSubMsg.Payload.Entry[
                  s.CFE_SB_Global.PrevSubMsg.Payload.Entries]).Pipe }
          }).CFE_SB_Global.PrevSubMsg.Payload.Entries ≥ cfg.CFE_SB_SUB_ENTRIES_PER_PKT :=
        hfull
      rw [if_neg hfull2]
      refine ⟨_, rfl, ?_, ?_, ?_, Or.inr ⟨_, rfl⟩⟩
      · simp [CFE_SB_State.setPrevSub, hlen]
      · simp only [CFE_SB_State.setPrevSub]
        omega
      · simp only [CFE_SB_State.setPrevSub]
        omega

/-- C38: entered with `Entries` below `CFE_SB_SUB_ENTRIES_PER_PKT` (and an `Entry` array of
that many elements), `CFE_SB_SendRouteSub` returns for every route id and destination list,
having written the `Entry` array at most once, at index `Entries` (which is in bounds); it
raises `Entries` by at most one and leaves it below `CFE_SB_SUB_ENTRIES_PER_PKT`.  And
`CFE_SB_SendPrevSubsCmd`, which resets `Entries` before the walk, returns from every state
`s0` with such an array, whatever its routing table and its value of `Entries`: no write of
the walk is past the array. -/
theorem CFE_SB_SendRouteSub_entries_in_bounds (cfg : CFE_SB_Config) (env : CFE_SB_Env)
    (RouteId : Nat) (s : CFE_SB_State)
    (hlen : s.CFE_SB_Global.PrevSubMsg.Payload.Entry.length = cfg.CFE_SB_SUB_ENTRIES_PER_PKT)
    (hlt : s.CFE_SB_Global.PrevSubMsg.Payload.Entries < cfg.CFE_SB_SUB_ENTRIES_PER_PKT) :
    (∃ r, CFE_SB_SendRouteSub cfg env RouteId s = some r ∧
      r.CFE_SB_Global.PrevSubMsg.Payload.Entry.length = cfg.CFE_SB_SUB_ENTRIES_PER_PKT ∧
      r.CFE_SB_Global.PrevSubMsg.Payload.Entries < cfg.CFE_SB_SUB_ENTRIES_PER_PKT ∧
      r.CFE_SB_Global.PrevSubMsg.Payload.Entries ≤
        s.CFE_SB_Global.PrevSubMsg.Payload.Entries + 1 ∧
      (r.CFE_SB_Global.PrevSubMsg.Payload.Entry = s.CFE_SB_Global.PrevSubMsg.Payload.Entry ∨
        ∃ x, r.CFE_SB_Global.PrevSubMsg.Payload.Entry =
          s.CFE_SB_Global.PrevSubMsg.Payload.Entry.set
            s.CFE_SB_Global.PrevSubMsg.Payload.Entries x)) ∧
    (∀ s0 : CFE_SB_State,
      s0.CFE_SB_Global.PrevSubMsg.Payload.Entry.length = cfg.CFE_SB_SUB_ENTRIES_PER_PKT →
      ∃ r, CFE_SB_SendPrevSubsCmd cfg env s0 = some r ∧ r.1 = CFE_SUCCESS) := by
  refine ⟨CFE_SB_SendRouteSub_loop_bounds cfg env RouteId _ s hlen hlt, ?_⟩
  intro s0 hlen0
  obtain ⟨r, _, hr, hs, _⟩ := CFE_SB_SendPrevSubsCmd_packets cfg env s0 hlen0 (by omega)
  exact ⟨r, hr, hs⟩

/-- Instance of the bounds of the previous subscriptions buffer: with two entries per
packet and three routes with a global destination, `CFE_SB_SendRouteSub` on route 0 from
`Entries` = 0 returns with `Entries` below 2, and the whole command returns. -/
theorem CFE_SB_SendRouteSub_entries_in_bounds_witness :
    (∃ r, CFE_SB_SendRouteSub (sampleConfigEntries 2) sampleEnv 0 (sampleStateRoutes 2 3) =
        some r ∧
      r.CFE_SB_Global.PrevSubMsg.Payload.Entries < 2 ∧
      r.CFE_SB_Global.PrevSubMsg.Payload.Entries ≤ 1) ∧
    (∃ r, CFE_SB_SendPrevSubsCmd (sampleConfigEntries 2) sampleEnv (sampleStateRoutes 2 3) =
        some r ∧ r.1 = CFE_SUCCESS) :=
  ⟨(CFE_SB_SendRouteSub_entries_in_bounds (sampleConfigEntries 2) sampleEnv 0
      (sampleStateRoutes 2 3) (by decide) (by decide)).1.elim
      (fun r h => ⟨r, h.1, h.2.2.1, h.2.2.2.1⟩),
    (CFE_SB_SendRouteSub_entries_in_bounds (sampleConfigEntries 2) sampleEnv 0
      (sampleStateRoutes 2 3) (by decide) (by decide)).2 (sampleStateRoutes 2 3) (by decide)⟩

/-! # Software Bus task: counter writes and the shared data lock -/

/-- C31: the command task writes its housekeeping counters without the shared data lock.
From any state, `CFE_SB_NoopCmd` increments `CommandCounter` and adds one event to the trace
and no lock call; `CFE_SB_IncrCmdCtr` and `CFE_SB_ResetCounters` write counters and add no
call at all; `CFE_SB_VerifyCmdLength` on a wrong length increments `CommandErrorCounter`
and adds one event and no lock call; `CFE_SB_SendStatsCmd` takes and releases the lock
once, before the time stamp, the transmit and the event, and ends with `CommandCounter`
incremented; and for a packet with an unknown MsgId or an unknown function code
`CFE_SB_ProcessCmdPipePkt` returns with `CommandErrorCounter` incremented and one error
event and no lock call added to the trace. -/
theorem CFE_SB_counter_writes_without_lock :
    (∀ (cfg : CFE_SB_Config) (s : CFE_SB_State),
      (CFE_SB_NoopCmd cfg s).2.Trace =
          s.Trace ++ [CFE_SB_Effect.SendEvent CFE_SB_CMD0_RCVD_EID
            CFE_EVS_EventType_INFORMATION []] ∧
        (CFE_SB_NoopCmd cfg s).2.CFE_SB_Global.HKTlmMsg.Payload.CommandCounter =
          (s.CFE_SB_Global.HKTlmMsg.Payload.CommandCounter + 1) % cfg.CommandCounterModulus) ∧
    (∀ (cfg : CFE_SB_Config) (s : CFE_SB_State) (status : CFE_Status),
      (CFE_SB_IncrCmdCtr cfg s status).Trace = s.Trace ∧
        (CFE_SB_IncrCmdCtr cfg s status).CFE_SB_Global.HKTlmMsg.Payload =
          (if status = CFE_SUCCESS then
            { s.CFE_SB_Global.HKTlmMsg.Payload with
              CommandCounter :=
                (s.CFE_SB_Global.HKTlmMsg.Payload.CommandCounter + 1) %
                  cfg.CommandCounterModulus }
          else
            { s.CFE_SB_Global.HKTlmMsg.Payload with
              CommandErrorCounter :=
                (s.CFE_SB_Global.HKTlmMsg.Payload.CommandErrorCounter + 1) %
                  cfg.CommandCounterModulus })) ∧
    (∀ s : CFE_SB_State,
      (CFE_SB_ResetCounters s).Trace = s.Trace ∧
        (CFE_SB_ResetCounters s).CFE_SB_Global.HKTlmMsg.Payload.CommandCounter = 0 ∧
        (CFE_SB_ResetCounters s).CFE_SB_Global.HKTlmMsg.Payload.CommandErrorCounter = 0) ∧
    (∀ (cfg : CFE_SB_Config) (s : CFE_SB_State) (buf : CFE_SB_Buffer_t) (ExpectedLength : Nat),
      (CFE_SB_VerifyCmdLength cfg s buf ExpectedLength).2.Trace =
          (if ExpectedLength ≠
              256 * buf.Msg.CCSDS.Pri.Length.1.val + buf.Msg.CCSDS.Pri.Length.2.val + 7 then
            s.Trace ++ [CFE_SB_Effect.SendEvent CFE_SB_LEN_ERR_EID CFE_EVS_EventType_ERROR
              [(buf.MsgId : Int), (buf.FcnCode : Int),
                ((256 * buf.Msg.CCSDS.Pri.Length.1.val + buf.Msg.CCSDS.Pri.Length.2.val + 7
                  : Nat) : Int),
                (ExpectedLength : Int)]]
          else s.Trace) ∧
        (CFE_SB_VerifyCmdLength cfg s buf
            ExpectedLength).2.CFE_SB_Global.HKTlmMsg.Payload.CommandErrorCounter =
          (if ExpectedLength ≠
              256 * buf.Msg.CCSDS.Pri.Length.1.val + buf.Msg.CCSDS.Pri.Length.2.val + 7 then
            (s.CFE_SB_Global.HKTlmMsg.Payload.CommandErrorCounter + 1) %
              cfg.CommandCounterModulus
          else s.CFE_SB_Global.HKTlmMsg.Payload.CommandErrorCounter)) ∧
    (∀ (cfg : CFE_SB_Config) (env : CFE_SB_Env) (s : CFE_SB_State),
      (CFE_SB_SendStatsCmd cfg env s).2.Trace =
          s.Trace ++
            [CFE_SB_Effect.LockSharedData, CFE_SB_Effect.UnlockSharedData,
             CFE_SB_Effect.TimeStampMsg (CFE_SB_TlmMsg.StatTlmMsg
               (CFE_SB_SendStatsCmd cfg env s).2.CFE_SB_Global.StatTlmMsg.Payload),
             CFE_SB_Effect.TransmitMsg (CFE_SB_TlmMsg.StatTlmMsg
               (CFE_SB_SendStatsCmd cfg env s).2.CFE_SB_Global.StatTlmMsg.Payload),
             CFE_SB_Effect.SendEvent CFE_SB_SND_STATS_EID CFE_EVS_EventType_DEBUG []] ∧
        (CFE_SB_SendStatsCmd cfg env s).2.CFE_SB_Global.HKTlmMsg.Payload.CommandCounter =
          (s.CFE_SB_Global.HKTlmMsg.Payload.CommandCounter + 1) % cfg.CommandCounterModulus) ∧
    (∀ (cfg : CFE_SB_Config) (env : CFE_SB_Env) (s : CFE_SB_State) (buf : CFE_SB_Buffer_t),
      buf.MsgId ≠ cfg.CFE_SB_SEND_HK_MID → buf.MsgId ≠ cfg.CFE_SB_SUB_RPT_CTRL_MID →
      buf.MsgId ≠ cfg.CFE_SB_CMD_MID →
      (CFE_SB_ProcessCmdPipePkt cfg env s buf).map
          (fun r => (r.Trace, r.CFE_SB_Global.HKTlmMsg.Payload.CommandErrorCounter)) =
        some (s.Trace ++ [CFE_SB_Effect.SendEvent CFE_SB_BAD_MSGID_EID CFE_EVS_EventType_ERROR
            [(buf.MsgId : Int)]],
          (s.CFE_SB_Global.HKTlmMsg.Payload.CommandErrorCounter + 1) %
            cfg.CommandCounterModulus)) ∧
    (∀ (cfg : CFE_SB_Config) (env : CFE_SB_Env) (s : CFE_SB_State) (buf : CFE_SB_Buffer_t),
      buf.MsgId ≠ cfg.CFE_SB_SEND_HK_MID →
      (buf.MsgId = cfg.CFE_SB_SUB_RPT_CTRL_MID ∧
          buf.FcnCode ∉ [cfg.CFE_SB_SEND_PREV_SUBS_CC, cfg.CFE_SB_ENABLE_SUB_REPORTING_CC,
            cfg.CFE_SB_DISABLE_SUB_REPORTING_CC]) ∨
        (buf.MsgId ≠ cfg.CFE_SB_SUB_RPT_CTRL_MID ∧ buf.MsgId = cfg.CFE_SB_CMD_MID ∧
          buf.FcnCode ∉ [cfg.CFE_SB_NOOP_CC, cfg.CFE_SB_RESET_COUNTERS_CC,
            cfg.CFE_SB_SEND_SB_STATS_CC, cfg.CFE_SB_WRITE_ROUTING_INFO_CC,
            cfg.CFE_SB_ENABLE_ROUTE_CC, cfg.CFE_SB_DISABLE_ROUTE_CC,
            cfg.CFE_SB_WRITE_PIPE_INFO_CC, cfg.CFE_SB_WRITE_MAP_INFO_CC]) →
      (CFE_SB_ProcessCmdPipePkt cfg env s buf).map
          (fun r => (r.Trace, r.CFE_SB_Global.HKTlmMsg.Payload.CommandErrorCounter)) =
        some (s.Trace ++ [CFE_SB_Effect.SendEvent CFE_SB_BAD_CMD_CODE_EID
            CFE_EVS_EventType_ERROR [(buf.FcnCode : Int)]],
          (s.CFE_SB_Global.HKTlmMsg.Payload.CommandErrorCounter + 1) %
            cfg.CommandCounterModulus)) := by
  refine ⟨fun cfg s => ⟨rfl, rfl⟩,
    fun cfg s status => ⟨?_, CFE_SB_IncrCmdCtr_payload cfg s status⟩,
    fun s => ⟨rfl, rfl, rfl⟩, ?_, ?_, ?_, ?_⟩
  · unfold CFE_SB_IncrCmdCtr
    split_ifs <;> rfl
  · intro cfg s buf ExpectedLength
    rw [CFE_SB_VerifyCmdLength_eq]
    split_ifs
    · exact ⟨rfl, rfl⟩
    · exact ⟨rfl, rfl⟩
  · intro cfg env s
    refine ⟨?_, rfl⟩
    simp [CFE_SB_SendStatsCmd, CFE_SB_TransmitMsg, CFE_SB_TimeStampMsg, CFE_EVS_SendEvent,
      CFE_SB_UnlockSharedData, CFE_SB_LockSharedData, incrCommandCounter, CFE_SB_State.emit,
      CFE_SB_State.setHK, CFE_SB_State.setStat]
  · intro cfg env s buf h1 h2 h3
    simp only [CFE_SB_ProcessCmdPipePkt, if_neg h1, if_neg h2, if_neg h3,
      incrCommandErrorCounter_SendEvent]
    rfl
  · intro cfg env s buf h1 h
    rcases h with ⟨h2, hc⟩ | ⟨h2, h3, hc⟩
    · simp only [List.mem_cons, List.mem_singleton, not_or, List.not_mem_nil, or_false] at hc
      obtain ⟨c1, c2, c3⟩ := hc
      simp only [CFE_SB_ProcessCmdPipePkt, if_neg h1, if_pos h2, if_neg c1, if_neg c2,
        if_neg c3, incrCommandErrorCounter_SendEvent]
      rfl
    · simp only [List.mem_cons, List.mem_singleton, not_or, List.not_mem_nil, or_false] at hc
      obtain ⟨c1, c2, c3, c4, c5, c6, c7, c8⟩ := hc
      simp only [CFE_SB_ProcessCmdPipePkt, if_neg h1, if_neg h2, if_pos h3, if_neg c1,
        if_neg c2, if_neg c3, if_neg c4, if_neg c5, if_neg c6, if_neg c7, if_neg c8,
        incrCommandErrorCounter_SendEvent]
      rfl

/-- Instance of the counter writes on the sample state (empty trace, `CommandErrorCounter`
255): a packet with the unknown MsgId 0x1999 and a packet for the command MsgId with the
unknown function code 99 are processed; each leaves one error event and no lock call in
the trace, and `CommandErrorCounter` wraps from 255 to 0. -/
theorem CFE_SB_counter_writes_without_lock_witness :
    (CFE_SB_ProcessCmdPipePkt sampleConfig sampleEnv sampleState
        (sampleBuffer 0x1999 0 8 0 0)).map
        (fun r => (r.Trace, r.CFE_SB_Global.HKTlmMsg.Payload.CommandErrorCounter)) =
      some ([CFE_SB_Effect.SendEvent CFE_SB_BAD_MSGID_EID CFE_EVS_EventType_ERROR [0x1999]],
        0) ∧
    (CFE_SB_ProcessCmdPipePkt sampleConfig sampleEnv sampleState
        (sampleBuffer 0x1803 99 8 0 0)).map
        (fun r => (r.Trace, r.CFE_SB_Global.HKTlmMsg.Payload.CommandErrorCounter)) =
      some ([CFE_SB_Effect.SendEvent CFE_SB_BAD_CMD_CODE_EID CFE_EVS_EventType_ERROR [99]],
        0) :=
  ⟨CFE_SB_counter_writes_without_lock.2.2.2.2.2.1 sampleConfig sampleEnv sampleState
      (sampleBuffer 0x1999 0 8 0 0) (by decide) (by decide) (by decide),
    CFE_SB_counter_writes_without_lock.2.2.2.2.2.2 sampleConfig sampleEnv sampleState
      (sampleBuffer 0x1803 99 8 0 0) (by decide) (Or.inr ⟨by decide, by decide, by decide⟩)⟩

/-- Evaluation of `CFE_SB_ProcessCmdPipePkt` on the sample state (empty trace, counters 3
and 255) with a no-op command packet of the correct length: the call returns with
`CommandCounter` = 4, and the whole trace of the call is the one information event.  The
counter was written although `CFE_SB_LockSharedData` was never called, so not every counter
write of the command task is made with the lock held. -/
theorem CFE_SB_ProcessCmdPipePkt_noop_without_lock_eval :
    (sampleState.Trace, sampleState.CFE_SB_Global.HKTlmMsg.Payload.CommandCounter) = ([], 3) ∧
    (CFE_SB_ProcessCmdPipePkt sampleConfig sampleEnv sampleState
        (sampleBuffer 0x1803 0 8 0 0)).map
        (fun r => (r.Trace, r.CFE_SB_Global.HKTlmMsg.Payload.CommandCounter)) =
      some ([CFE_SB_Effect.SendEvent CFE_SB_CMD0_RCVD_EID CFE_EVS_EventType_INFORMATION []], 4) ∧
    (CFE_SB_ProcessCmdPipePkt sampleConfig sampleEnv sampleState
        (sampleBuffer 0x1803 0 8 0 0)).map
        (fun r => decide (CFE_SB_Effect.LockSharedData ∈ r.Trace)) = some false := by
  refine ⟨rfl, rfl, ?_⟩
  decide

/-! # Software Bus task: routing dump after a short write -/

/-- C39: evaluation of the routing dump `CFE_SB_WriteRtgInfo` on the sample state (one route
with two matching destinations) when the first entry write answers 10 bytes of 52 and later
writes answer -1.  After the short first write the error event is sent and the file is
closed, and then the second entry is written to the closed file, the error event is sent
again and the file is closed a second time: the trace holds two `OS_write` calls and two
`OS_close` calls, and the dump returns `CFE_SB_FILE_IO_ERR`.  In the callback arguments
`EntryCount` ends at 2 and `FileSize` at 64 + 10 - 1 = 73, although no entry was written
completely.  `CFE_SB_WriteMapToFile` with the same collaborators and a status argument that
already holds an error writes nothing. -/
theorem CFE_SB_WriteRtgInfo_writes_after_short_write_eval :
    (CFE_SB_WriteRtgInfo sampleConfig sampleEnvShortWrite sampleState
        "/ram/cfe_sb_route.dat").map (fun r => (r.1, r.2.Trace)) =
      some (CFE_SB_FILE_IO_ERR,
        [CFE_SB_Effect.OS_OpenCreate "/ram/cfe_sb_route.dat",
         CFE_SB_Effect.CFE_FS_WriteHeader "SB Routing Information" CFE_FS_SubType_SB_ROUTEDATA,
         CFE_SB_Effect.LockSharedData, CFE_SB_Effect.UnlockSharedData,
         CFE_SB_Effect.OS_write (CFE_SB_FileEntry.Routing
           { MsgId := 0x1000, PipeId := 0x100, State := CFE_SB_ACTIVE, MsgCnt := 0,
             AppName := "APP", PipeName := "PIPE" }),
         CFE_SB_Effect.SendEvent CFE_SB_FILEWRITE_ERR_EID CFE_EVS_EventType_ERROR [52, 10],
         CFE_SB_Effect.OS_close,
         CFE_SB_Effect.OS_write (CFE_SB_FileEntry.Routing
           { MsgId := 0x1000, PipeId := 0x101, State := CFE_SB_INACTIVE, MsgCnt := 0,
             AppName := "APP", PipeName := "PIPE" }),
         CFE_SB_Effect.SendEvent CFE_SB_FILEWRITE_ERR_EID CFE_EVS_EventType_ERROR [52, -1],
         CFE_SB_Effect.OS_close]) ∧
    (CFE_SB_WriteRtgInfo sampleConfig sampleEnvShortWrite sampleState
        "/ram/cfe_sb_route.dat").map
        (fun r => (CFE_SB_writeCount r.2.Trace, CFE_SB_closeCount r.2.Trace)) = some (2, 2) ∧
    (CFE_SB_WriteRouteToFile sampleConfig sampleEnvShortWrite 0
        (sampleState,
          { Filename := "/ram/cfe_sb_route.dat", FileSize := 64, EntryCount := 0,
            Status := CFE_SUCCESS })).map
        (fun r => (r.2.EntryCount, r.2.FileSize, r.2.Status)) =
      some (2, 73, CFE_SB_FILE_IO_ERR) ∧
    (CFE_SB_WriteMapToFile sampleConfig sampleEnvShortWrite 0
        (sampleState,
          { Filename := "/ram/cfe_sb_msgmap.dat", FileSize := 64, EntryCount := 0,
            Status := CFE_SB_FILE_IO_ERR })).map
        (fun r => (r.1.Trace, r.2.EntryCount, r.2.FileSize)) =
      some ([], 0, 64) := by
  refine ⟨?_, ?_, ?_, ?_⟩
  · rfl
  · rfl
  · rfl
  · rfl

/-! # Software Bus task: entries of the routing dump -/

theorem CFE_SB_routingEntriesWritten_append (a b : List CFE_SB_Effect) :
    CFE_SB_routingEntriesWritten (a ++ b) =
      CFE_SB_routingEntriesWritten a ++ CFE_SB_routingEntriesWritten b := by
  induction a with
  | nil => rfl
  | cons e a ih =>
    cases e with
    | OS_write x =>
      cases x <;> simp [CFE_SB_routingEntriesWritten, ih]
    | _ => simp [CFE_SB_routingEntriesWritten, ih]

